import Mathlib

/-!
M-LOAM estimator core: pose algebra and sliding-window driver

A shallow embedding of `estimator/src/estimator/pose.cpp` and
`estimator/src/estimator/estimator.cpp`.

Scalars (`double` in the source) are elements of a linearly ordered field `K`
with exact arithmetic; the square root is passed explicitly so that every
definition stays executable (over `ℚ` with `Rat.sqrt`, for instance).
`int` values are `Int`, container sizes and sensor indices are `Nat`.
-/

namespace MLOAM

/-! ## Eigen value types used by `pose.cpp` -/

/-- Eigen::Vector3d. -/
structure Vector3d (K : Type) where
  x : K
  y : K
  z : K
deriving DecidableEq, Repr

/-- Eigen::Quaterniond, with the coefficient names of the source (`w()`, `x()`, `y()`, `z()`). -/
structure Quaterniond (K : Type) where
  w : K
  x : K
  y : K
  z : K
deriving DecidableEq, Repr

/-- Eigen::Matrix3d. -/
abbrev Matrix3d (K : Type) := Matrix (Fin 3) (Fin 3) K

/-- Eigen::Matrix4d. -/
abbrev Matrix4d (K : Type) := Matrix (Fin 4) (Fin 4) K

namespace Vector3d

variable {K : Type}

/-- Vector sum. -/
def add [Add K] (a b : Vector3d K) : Vector3d K := ⟨a.x + b.x, a.y + b.y, a.z + b.z⟩

/-- Unary minus. -/
def neg [Neg K] (a : Vector3d K) : Vector3d K := ⟨-a.x, -a.y, -a.z⟩

/-- Scalar multiple `s * a`. -/
def smul [Mul K] (s : K) (a : Vector3d K) : Vector3d K := ⟨s * a.x, s * a.y, s * a.z⟩

/-- Cross product `a.cross(b)`. -/
def cross [Mul K] [Sub K] (a b : Vector3d K) : Vector3d K :=
  ⟨a.y * b.z - a.z * b.y, a.z * b.x - a.x * b.z, a.x * b.y - a.y * b.x⟩

/-- Eigen::Vector3d::Zero(). -/
def Zero [Zero K] : Vector3d K := ⟨0, 0, 0⟩

end Vector3d

namespace Quaterniond

variable {K : Type}

/-- Eigen::Quaterniond::Identity(). -/
def Identity [Zero K] [One K] : Quaterniond K := ⟨1, 0, 0, 0⟩

/-- The vector part `vec()`. -/
def vec (q : Quaterniond K) : Vector3d K := ⟨q.x, q.y, q.z⟩

/-- The `squaredNorm()` of the coefficient vector `(x, y, z, w)`. -/
def squaredNorm [Add K] [Mul K] (q : Quaterniond K) : K :=
  q.x * q.x + q.y * q.y + q.z * q.z + q.w * q.w

/-- In-place `normalize()` of Eigen 3.3: the coefficients are divided by the
norm when the squared norm is positive, and left alone otherwise. -/
def normalize [LinearOrderedField K] (sqrt : K → K) (q : Quaterniond K) : Quaterniond K :=
  let z := q.squaredNorm
  if 0 < z then ⟨q.w / sqrt z, q.x / sqrt z, q.y / sqrt z, q.z / sqrt z⟩ else q

/-- Quaternion product `a * b` (Hamilton product, as Eigen computes it). -/
def mul [Add K] [Sub K] [Mul K] (a b : Quaterniond K) : Quaterniond K :=
  ⟨a.w * b.w - a.x * b.x - a.y * b.y - a.z * b.z,
   a.w * b.x + a.x * b.w + a.y * b.z - a.z * b.y,
   a.w * b.y + a.y * b.w + a.z * b.x - a.x * b.z,
   a.w * b.z + a.z * b.w + a.x * b.y - a.y * b.x⟩

/-- The `conjugate()`. -/
def conjugate [Neg K] (q : Quaterniond K) : Quaterniond K := ⟨q.w, -q.x, -q.y, -q.z⟩

/-- The `inverse()`: the conjugate divided by the squared norm, and the zero
quaternion (Eigen's error value) when the squared norm is not positive. -/
def inverse [LinearOrderedField K] (q : Quaterniond K) : Quaterniond K :=
  let n2 := q.squaredNorm
  if 0 < n2 then ⟨q.w / n2, -q.x / n2, -q.y / n2, -q.z / n2⟩ else ⟨0, 0, 0, 0⟩

/-- Quaternion times vector, `q * v` (Eigen's `_transformVector`):
`uv = vec × v; uv += uv; v + w * uv + vec × uv`. -/
def transformVector [Add K] [Sub K] [Mul K] (q : Quaterniond K) (v : Vector3d K) : Vector3d K :=
  let uv := q.vec.cross v
  let uv2 := uv.add uv
  (v.add (Vector3d.smul q.w uv2)).add (q.vec.cross uv2)

/-- The `toRotationMatrix()` of Eigen. -/
def toRotationMatrix [Field K] (q : Quaterniond K) : Matrix3d K :=
  let tx := 2 * q.x
  let ty := 2 * q.y
  let tz := 2 * q.z
  let twx := tx * q.w
  let twy := ty * q.w
  let twz := tz * q.w
  let txx := tx * q.x
  let txy := ty * q.x
  let txz := tz * q.x
  let tyy := ty * q.y
  let tyz := tz * q.y
  let tzz := tz * q.z
  Matrix.of ![![1 - (tyy + tzz), txy - twz, txz + twy],
              ![txy + twz, 1 - (txx + tzz), tyz - twx],
              ![txz - twy, tyz + twx, 1 - (txx + tyy)]]

/-- A pure quaternion `(0, v)`. -/
def ofVector [Zero K] (v : Vector3d K) : Quaterniond K := ⟨0, v.x, v.y, v.z⟩

/-- The vector part of `q v q*` in the quaternion algebra (`q*` the conjugate). -/
def sandwich [Zero K] [Add K] [Sub K] [Mul K] [Neg K] (q : Quaterniond K) (v : Vector3d K) :
    Vector3d K :=
  ((q.mul (ofVector v)).mul q.conjugate).vec

end Quaterniond

/-! ## `Pose` (pose.cpp) -/

/-- The members of class `Pose`: rotation `q_`, translation `t_`, cached
homogeneous matrix `T_` and time offset `td_`. -/
structure Pose (K : Type) where
  q_ : Quaterniond K
  t_ : Vector3d K
  T_ : Matrix4d K
  td_ : K

/-- The homogeneous matrix written by the constructors: identity, then the
top-left 3x3 corner set to `R` and the top-right 3x1 corner set to `t`. -/
def homogeneous {K : Type} [Zero K] [One K] (R : Matrix3d K) (t : Vector3d K) : Matrix4d K :=
  Matrix.of ![![R 0 0, R 0 1, R 0 2, t.x],
              ![R 1 0, R 1 1, R 1 2, t.y],
              ![R 2 0, R 2 1, R 2 2, t.z],
              ![0, 0, 0, 1]]

namespace Pose

variable {K : Type} [LinearOrderedField K]

/-- The default constructor `Pose::Pose()` (pose.cpp 12-18). -/
def defaultPose : Pose K :=
  { q_ := Quaterniond.Identity, t_ := Vector3d.Zero, T_ := 1, td_ := 0 }

/-- The constructor `Pose::Pose(q, t, td)` (pose.cpp 28-34): the quaternion is
normalised, the matrix is rebuilt from the normalised quaternion and `t`. -/
def ofQuaternion (sqrt : K → K) (q : Quaterniond K) (t : Vector3d K) (td : K) : Pose K :=
  let qn := q.normalize sqrt
  { q_ := qn, t_ := t, T_ := homogeneous qn.toRotationMatrix t, td_ := td }

/-- The member `Pose::inverse()` (pose.cpp 87-90). -/
def inverse (sqrt : K → K) (a : Pose K) : Pose K :=
  ofQuaternion sqrt a.q_.inverse (a.q_.inverse.transformVector a.t_).neg 0

/-- The member `Pose::operator*` (pose.cpp 92-95): `a * b`. -/
def mul (sqrt : K → K) (a b : Pose K) : Pose K :=
  ofQuaternion sqrt (a.q_.mul b.q_) ((a.q_.transformVector b.t_).add a.t_) 0

/-- The action of a pose on a point as the specification words it:
`p ↦ q p q⁻¹ + t`, with `q p q⁻¹` computed in the quaternion algebra
(the point embedded as a pure quaternion). -/
def act (a : Pose K) (p : Vector3d K) : Vector3d K :=
  (((a.q_.mul (Quaterniond.ofVector p)).mul a.q_.inverse).vec).add a.t_

end Pose

/-- Eigen's `Quaterniond(const Matrix3d &)` conversion from a rotation matrix
(the branch on the trace, then on the largest diagonal entry). -/
def Quaterniond.ofRotationMatrix {K : Type} [LinearOrderedField K] (sqrt : K → K)
    (m : Matrix3d K) : Quaterniond K :=
  let t := m 0 0 + m 1 1 + m 2 2
  if 0 < t then
    let t1 := sqrt (t + 1)
    let w := (1 / 2) * t1
    let t2 := (1 / 2) / t1
    ⟨w, (m 2 1 - m 1 2) * t2, (m 0 2 - m 2 0) * t2, (m 1 0 - m 0 1) * t2⟩
  else
    let i0 : Fin 3 := if m 0 0 < m 1 1 then 1 else 0
    let i : Fin 3 := if m i0 i0 < m 2 2 then 2 else i0
    let j : Fin 3 := i + 1
    let k : Fin 3 := j + 1
    let t1 := sqrt (m i i - m j j - m k k + 1)
    let qi := (1 / 2) * t1
    let t2 := (1 / 2) / t1
    let w := (m k j - m j k) * t2
    let qj := (m j i + m i j) * t2
    let qk := (m k i + m i k) * t2
    let c : Fin 3 → K := fun a => if a = i then qi else if a = j then qj else qk
    ⟨w, c 0, c 1, c 2⟩

/-- The top-left 3x3 corner of a 4x4 matrix. -/
def topLeftCorner3 {K : Type} (T : Matrix4d K) : Matrix3d K :=
  Matrix.of fun i j => T (Fin.castLE (by decide) i) (Fin.castLE (by decide) j)

/-- The constructor `Pose::Pose(T, td)` (pose.cpp 44-50): the matrix is stored as given. -/
def Pose.ofMatrix {K : Type} [LinearOrderedField K] (sqrt : K → K) (T : Matrix4d K)
    (td : K) : Pose K :=
  { q_ := (Quaterniond.ofRotationMatrix sqrt (topLeftCorner3 T)).normalize sqrt,
    t_ := ⟨T 0 3, T 1 3, T 2 3⟩, T_ := T, td_ := td }

/-- Eigen's `inverse()` of a 4x4 matrix in exact arithmetic: adjugate over determinant. -/
def Matrix4d.inverse {K : Type} [Field K] (M : Matrix4d K) : Matrix4d K :=
  (M.det)⁻¹ • M.adjugate

/-! ## Containers and plain data of `estimator.cpp` -/

instance {K : Type} [Zero K] : Inhabited (Vector3d K) := ⟨⟨0, 0, 0⟩⟩

instance {K : Type} [Zero K] : Inhabited (Quaterniond K) := ⟨⟨0, 0, 0, 0⟩⟩

instance {K : Type} [LinearOrderedField K] : Inhabited (Pose K) := ⟨Pose.defaultPose⟩

/-- Indexing `v[i]` in a `std::vector`; an index past the end (undefined in
C++) reads a default-constructed value. Writing `v[i] = x` is `List.set`,
which leaves the vector alone when `i` is past the end. -/
def vget {α : Type} [Inhabited α] (v : List α) (i : Nat) : α := v.getD i default

/-- The `resize(n)` of `std::vector`: keep the first `n` elements and pad
with default-constructed values. -/
def vresize {α : Type} [Inhabited α] (v : List α) (n : Nat) : List α :=
  v.take n ++ List.replicate (n - v.length) default

/-- Modelled from the spec: the window sequence type `CircularBuffer`, whose
header is not part of the sources at hand. It is a sequence with one logical
index space `0..W` (`0` oldest), `at(i)` is the value at logical index `i`,
and `push(value)` appends at the newest position, dropping index 0. -/
structure CircularBuffer (α : Type) where
  data : List α
deriving DecidableEq, Repr

namespace CircularBuffer

variable {α : Type}

instance : Inhabited (CircularBuffer α) := ⟨⟨[]⟩⟩

/-- Modelled from the spec: `clear()` empties the sequence. -/
def clear (_b : CircularBuffer α) : CircularBuffer α := ⟨[]⟩

/-- Modelled from the spec: `resize(n)` gives the sequence `n` logical slots
(sequence lengths are `W + 1` after `setParameter`). -/
def resize [Inhabited α] (b : CircularBuffer α) (n : Nat) : CircularBuffer α :=
  ⟨vresize b.data n⟩

/-- The number of logical slots. -/
def size (b : CircularBuffer α) : Nat := b.data.length

/-- Modelled from the spec: `at(i)`, written `buf[i]` in the source: the value
at logical index `i`. An index outside the sequence reads a default value. -/
def idx [Inhabited α] (b : CircularBuffer α) (i : Int) : α :=
  if 0 ≤ i then b.data.getD i.toNat default else default

/-- Modelled from the spec: the assignment `buf[i] = v` to logical slot `i`
(no effect outside the sequence). -/
def set (b : CircularBuffer α) (i : Int) (v : α) : CircularBuffer α :=
  if 0 ≤ i then ⟨b.data.set i.toNat v⟩ else b

/-- Modelled from the spec: `push(value)` appends at the newest position
(`W`), dropping index 0. -/
def push (b : CircularBuffer α) (v : α) : CircularBuffer α :=
  ⟨b.data.drop 1 ++ [v]⟩

end CircularBuffer

/-- The integers `lo, lo + 1, ..., hi - 1` of `for (int i = lo; i < hi; i++)`. -/
def intRange (lo hi : Int) : List Int :=
  (List.range (hi - lo).toNat).map fun (k : Nat) => lo + (k : Int)

/-- The solver flag of the driver. -/
inductive SolverFlag where
  | INITIAL
  | NON_LINEAR
deriving DecidableEq, Repr

/-- A point of `pcl::PointCloud<pcl::PointXYZ>`. -/
structure Point (K : Type) where
  x : K
  y : K
  z : K
deriving DecidableEq, Repr

/-- A point of `pcl::PointCloud<pcl::PointXYZI>`. -/
structure PointI (K : Type) where
  x : K
  y : K
  z : K
  intensity : K
deriving DecidableEq, Repr

/-- The input cloud type `PointCloud`. -/
abbrev PointCloud (K : Type) := List (Point K)

/-- The feature cloud type `PointICloud`; `+=` is list append. -/
abbrev PointICloud (K : Type) := List (PointI K)

/-- The `cloudFeature` map `std::map<std::string, PointICloud>`, kept as an
association list in key order. -/
abbrev cloudFeature (K : Type) := List (String × PointICloud K)

/-- Insertion of a new key in key order. -/
def cloudFeature.insert {K : Type} (m : cloudFeature K) (key : String) (c : PointICloud K) :
    cloudFeature K :=
  match m with
  | [] => [(key, c)]
  | (k, v) :: rest =>
    if key < k then (key, c) :: (k, v) :: rest
    else (k, v) :: cloudFeature.insert rest key c

/-- The `operator[]` of `std::map`: the cloud stored under `key`, an empty
cloud being inserted under `key` first when the key is absent. -/
def cloudFeature.index {K : Type} (m : cloudFeature K) (key : String) :
    PointICloud K × cloudFeature K :=
  match m.lookup key with
  | some c => (c, m)
  | none => ([], cloudFeature.insert m key [])

/-- The test `key.find(pat) != std::string::npos`. -/
def containsSubstring (key pat : String) : Bool :=
  key.toList.tails.any fun t => pat.toList.isPrefixOf t

/-- One queued measurement `std::pair<double, std::vector<cloudFeature>>`. -/
abbrev Frame (K : Type) := K × List (cloudFeature K)

/-- The part of `std_msgs::Header` the estimator writes. -/
structure Header (K : Type) where
  stamp : K
deriving DecidableEq, Repr

instance {K : Type} [Zero K] : Inhabited (Header K) := ⟨⟨0⟩⟩

/-- Eigen::Vector4d. -/
structure Vector4d (K : Type) where
  x : K
  y : K
  z : K
  w : K
deriving DecidableEq, Repr

/-- A map correspondence `PointPlaneFeature`. -/
structure PointPlaneFeature (K : Type) where
  point_ : Vector3d K
  coeffs_ : Vector4d K
  score_ : K
deriving DecidableEq, Repr

/-- Eigen::Matrix<double, 6, 6>. -/
abbrev Matrix6d (K : Type) := Matrix (Fin 6) (Fin 6) K

/-- The members of `PoseLocalParameterization` the estimator writes. -/
structure PoseLocalParameterization (K : Type) where
  is_degenerate_ : Bool
  V_update_ : Matrix6d K

/-- The address of a solver parameter block: `para_pose_[i]` or `para_ex_pose_[n]`
(distinct heap arrays allocated in `setParameter`). -/
inductive ParamBlock where
  | para_pose (i : Int)
  | para_ex_pose (n : Nat)
deriving DecidableEq, Repr

/-- The cost functions the estimator creates; a marginalization factor holds
the marginalization state it was built from. -/
inductive CostFunction (K MI : Type) where
  | MarginalizationFactor (info : MI)
  | PriorFactor (t : Vector3d K) (q : Quaterniond K) (pos rot : K)
  | LidarPivotPlaneNormFactor (p : Vector3d K) (coeff : Vector4d K) (s : K)
  | LidarPivotTargetPlaneNormFactor (p : Vector3d K) (coeff : Vector4d K) (s w : K)

/-- The loss functions the estimator creates. -/
inductive LossFunction (K : Type) where
  | HuberLoss (a : K)

/-- A residual block of the solver problem. -/
structure ResidualBlock (K MI : Type) where
  cost_function : CostFunction K MI
  loss_function : Option (LossFunction K)
  parameter_blocks : List ParamBlock

/-- A `ResidualBlockInfo` handed to the marginalizer. -/
structure ResidualBlockInfo (K MI : Type) where
  cost_function : CostFunction K MI
  loss_function : Option (LossFunction K)
  parameter_blocks : List ParamBlock
  drop_set : List Int

/-- The state of a `ceres::Problem` the estimator builds: the parameter blocks
added (with their sizes), the blocks set constant and the residual blocks. -/
structure Problem (K MI : Type) where
  parameter_blocks : List (ParamBlock × Nat)
  constant_blocks : List ParamBlock
  residual_blocks : List (ResidualBlock K MI)

namespace Problem

variable {K MI : Type}

/-- A fresh `ceres::Problem`. -/
def empty : Problem K MI := ⟨[], [], []⟩

/-- The call `problem.AddParameterBlock(block, size, local_parameterization)`. -/
def AddParameterBlock (p : Problem K MI) (b : ParamBlock) (size : Nat) : Problem K MI :=
  { p with parameter_blocks := p.parameter_blocks ++ [(b, size)] }

/-- The call `problem.SetParameterBlockConstant(block)`. -/
def SetParameterBlockConstant (p : Problem K MI) (b : ParamBlock) : Problem K MI :=
  { p with constant_blocks := p.constant_blocks ++ [b] }

/-- The call `problem.AddResidualBlock(cost, loss, blocks...)`. -/
def AddResidualBlock (p : Problem K MI) (r : ResidualBlock K MI) : Problem K MI :=
  { p with residual_blocks := p.residual_blocks ++ [r] }

/-- A block is held constant by the solver when it has been set constant. -/
def IsConstant (p : Problem K MI) (b : ParamBlock) : Prop := b ∈ p.constant_blocks

instance (p : Problem K MI) (b : ParamBlock) : Decidable (p.IsConstant b) :=
  inferInstanceAs (Decidable (b ∈ p.constant_blocks))

end Problem

/-- The compressed-row-storage matrix `ceres::CRSMatrix`. -/
structure CRSMatrix (K : Type) where
  num_rows : Int
  num_cols : Int
  rows : List Int
  cols : List Int
  values : List K

/-- A dense `Eigen::MatrixXd`, row by row. -/
structure MatrixXd (K : Type) where
  data : List (List K)
deriving DecidableEq, Repr

namespace MatrixXd

variable {K : Type}

/-- The number of rows. -/
def rows (m : MatrixXd K) : Nat := m.data.length

/-- The number of columns. -/
def cols (m : MatrixXd K) : Nat := (m.data.getD 0 []).length

/-- The coefficient `m(r, c)`. -/
def coeff [Zero K] (m : MatrixXd K) (r c : Int) : K :=
  if 0 ≤ r ∧ 0 ≤ c then (m.data.getD r.toNat []).getD c.toNat 0 else 0

/-- The assignment `m(r, c) = v`. -/
def setCoeff (m : MatrixXd K) (r c : Int) (v : K) : MatrixXd K :=
  if 0 ≤ r ∧ 0 ≤ c then ⟨m.data.set r.toNat ((m.data.getD r.toNat []).set c.toNat v)⟩ else m

/-- The call `Eigen::MatrixXd::Zero(rows, cols)`. -/
def Zero [Zero K] (rows cols : Int) : MatrixXd K :=
  ⟨List.replicate rows.toNat (List.replicate cols.toNat 0)⟩

end MatrixXd

/-- Indexing a `std::vector` or raw array with an `int`. -/
def iget {α : Type} [Inhabited α] (v : List α) (i : Int) : α :=
  if 0 ≤ i then v.getD i.toNat default else default

/-- Indexing a `std::vector<double>` or raw `double` array with an `int`. -/
def igetK {K : Type} [Zero K] (v : List K) (i : Int) : K :=
  if 0 ≤ i then v.getD i.toNat 0 else 0

/-- Assignment `v[i] = x` with an `int` index. -/
def iset {α : Type} (v : List α) (i : Int) (x : α) : List α :=
  if 0 ≤ i then v.set i.toNat x else v

/-- The process-wide configuration constants (declared outside the sources at
hand); `ESTIMATE_EXTRINSIC`, `QBL`, `TBL`, `TDBL` and `CHECK_JACOBIAN` are
written by the estimator and live in its state instead. -/
structure Config (K : Type) where
  NUM_OF_LASER : Nat
  WINDOW_SIZE : Nat
  OPT_WINDOW_SIZE : Nat
  IDX_REF : Nat
  MULTIPLE_THREAD : Bool
  N_CUMU_FEATURE : Nat
  EIG_INITIAL : K
  EIG_THRE_CALIB : K
  PRIOR_FACTOR : Bool
  POINT_PLANE_FACTOR : Bool
  POINT_EDGE_FACTOR : Bool
  MARGINALIZATION_FACTOR : Bool
  PRIOR_FACTOR_POS : K
  PRIOR_FACTOR_ROT : K
  EVALUATE_RESIDUAL : Bool
  OPTIMAL_ODOMETRY : Bool
  PCL_VIEWER : Bool

/-- Modelled from the spec: the constant `SIZE_POSE` (declared outside the
sources at hand); a pose block is 7 numbers, xyz and a quaternion. -/
def SIZE_POSE : Nat := 7

/-- The values of the solver parameter arrays `para_pose_` and `para_ex_pose_`. -/
abbrev ParamArrays (K : Type) := List (List K) × List (List K)

/-- The external collaborators of the estimator core: the square root, the
feature extractor, the scan-to-scan tracker, the extrinsic initializer (with
state type `IE`), the point-cloud library, the non-linear solver, the dense
eigen-solver and the marginalizer (with state type `MI`). -/
structure Collaborators (K IE MI : Type) where
  sqrt : K → K
  extractCloud : K → PointCloud K → cloudFeature K
  down_size_filter_corner : PointICloud K → PointICloud K
  down_size_filter_surf : PointICloud K → PointICloud K
  extractSurfFromMap : PointICloud K → PointICloud K → Pose K → Nat → List (PointPlaneFeature K)
  extractCornerFromMap : PointICloud K → PointICloud K → Pose K → Nat → List (PointPlaneFeature K)
  trackCloud : cloudFeature K → cloudFeature K → Pose K → Pose K
  ie_clearState : IE → IE
  ie_setParameter : IE → IE
  ie_addPose : IE → Pose K → Nat → IE
  ie_cov_rot_state : IE → Nat → Bool
  ie_cov_pos_state : IE → Nat → Bool
  ie_calibExRotation : IE → Nat → Nat → Pose K → Bool × Pose K × IE
  ie_calibExTranslation : IE → Nat → Nat → Pose K → Bool × Pose K × IE
  ie_setCovRotation : IE → Nat → IE
  ie_setCovTranslation : IE → Nat → IE
  ie_full_cov_rot_state : IE → Bool
  ie_full_cov_pos_state : IE → Bool
  ie_saveStatistics : IE → IE
  transformPointCloud : PointICloud K → Matrix4d K → PointICloud K
  voxelGrid : K → PointICloud K → PointICloud K
  Solve : Problem K MI → List (PoseLocalParameterization K) → ParamArrays K → ParamArrays K
  Evaluate : Problem K MI → ParamArrays K → List ParamBlock → List (ResidualBlock K MI) →
    CRSMatrix K
  newPoseLocalParameterization : PoseLocalParameterization K
  lp_setParameter : PoseLocalParameterization K → PoseLocalParameterization K
  eigensolver : Matrix6d K → (Fin 6 → K) × Matrix6d K
  inverse6 : Matrix6d K → Matrix6d K
  mi_new : MI
  mi_addResidualBlockInfo : MI → ResidualBlockInfo K MI → MI
  mi_preMarginalize : MI → ParamArrays K → MI
  mi_marginalize : MI → MI
  mi_getParameterBlocks : MI → List (ParamBlock × ParamBlock) → List ParamBlock

/-- The three-level feature tables `surf_map_features_[n][i]` and the like. -/
abbrev FeatureTable (K : Type) := List (List (List (PointPlaneFeature K)))

/-- The members of class `Estimator` together with the global variables the
estimator writes (`ESTIMATE_EXTRINSIC`, `QBL`, `TBL`, `TDBL`, `CHECK_JACOBIAN`). -/
structure Estimator (K IE MI : Type) where
  ESTIMATE_EXTRINSIC : Int
  CHECK_JACOBIAN : Int
  QBL : List (Quaterniond K)
  TBL : List (Vector3d K)
  TDBL : List K
  init_thread_flag_ : Bool
  b_system_inited_ : Bool
  prev_time_ : K
  cur_time_ : K
  input_cloud_cnt_ : Int
  td_ : K
  solver_flag_ : SolverFlag
  pose_laser_cur_ : List (Pose K)
  pose_rlt_ : List (Pose K)
  qbl_ : List (Quaterniond K)
  tbl_ : List (Vector3d K)
  tdbl_ : List K
  initial_extrinsics_ : IE
  ini_fixed_local_map_ : Bool
  cir_buf_cnt_ : Int
  Qs_ : CircularBuffer (Quaterniond K)
  Ts_ : CircularBuffer (Vector3d K)
  Header_ : CircularBuffer (Header K)
  surf_points_stack_ : List (CircularBuffer (PointICloud K))
  surf_points_stack_size_ : List (CircularBuffer Nat)
  corner_points_stack_ : List (CircularBuffer (PointICloud K))
  corner_points_stack_size_ : List (CircularBuffer Nat)
  surf_points_local_map_ : List (PointICloud K)
  surf_points_local_map_filtered_ : List (PointICloud K)
  surf_points_pivot_map_ : List (PointICloud K)
  corner_points_local_map_ : List (PointICloud K)
  corner_points_local_map_filtered_ : List (PointICloud K)
  corner_points_pivot_map_ : List (PointICloud K)
  surf_map_features_ : FeatureTable K
  corner_map_features_ : FeatureTable K
  cumu_surf_map_features_ : FeatureTable K
  cumu_corner_map_features_ : FeatureTable K
  pose_local_ : List (List (Pose K))
  last_marginalization_info_ : Option MI
  last_marginalization_parameter_blocks_ : List ParamBlock
  para_pose_ : List (List K)
  para_ex_pose_ : List (List K)
  para_td_ : List K
  eig_thre_calib_ : List K
  feature_buf_ : List (Frame K)
  cur_feature_ : Frame K
  prev_feature_ : Frame K

/-- The result of running driver code that contains an `assert`: either the
code ran to completion, or the assertion failed (the program aborts; the state
at the abort is kept for inspection), or the worker loop was still running
when the iteration budget ran out. -/
inductive Outcome (σ : Type) where
  | done (s : σ)
  | assertion_failed (s : σ)
  | still_running (s : σ)

section EstimatorCode

variable {K IE MI : Type} [LinearOrderedField K]

/-- The function `CRSMatrix2EigenMatrix` (estimator.cpp 15-29). -/
def CRSMatrix2EigenMatrix (crs_matrix : CRSMatrix K) : MatrixXd K :=
  (intRange 0 crs_matrix.num_rows).foldl
    (fun eigen_matrix row =>
      let start := iget crs_matrix.rows row
      let end_ := iget crs_matrix.rows (row + 1) - 1
      (intRange start (end_ + 1)).foldl
        (fun eigen_matrix i =>
          let col := iget crs_matrix.cols i
          let value := igetK crs_matrix.values i
          eigen_matrix.setCoeff row col value)
        eigen_matrix)
    (MatrixXd.Zero crs_matrix.num_rows crs_matrix.num_cols)

/-- The method `Estimator::clearState` (estimator.cpp 48-103); the edge
stacks are not cleared there (those lines are commented out). -/
def clearState (ext : Collaborators K IE MI) (s : Estimator K IE MI) : Estimator K IE MI :=
  { s with
    b_system_inited_ := false
    prev_time_ := -1
    cur_time_ := 0
    input_cloud_cnt_ := 0
    td_ := 0
    solver_flag_ := SolverFlag.INITIAL
    pose_laser_cur_ := []
    pose_rlt_ := []
    qbl_ := []
    tbl_ := []
    tdbl_ := []
    initial_extrinsics_ := ext.ie_clearState s.initial_extrinsics_
    ini_fixed_local_map_ := false
    cir_buf_cnt_ := 0
    Qs_ := s.Qs_.clear
    Ts_ := s.Ts_.clear
    Header_ := s.Header_.clear
    surf_points_stack_ := []
    surf_points_stack_size_ := []
    surf_points_local_map_ := []
    surf_points_local_map_filtered_ := []
    surf_points_pivot_map_ := []
    corner_points_local_map_ := []
    corner_points_local_map_filtered_ := []
    corner_points_pivot_map_ := []
    surf_map_features_ := []
    corner_map_features_ := []
    cumu_surf_map_features_ := []
    cumu_corner_map_features_ := []
    pose_local_ := []
    last_marginalization_info_ := none }

/-- The method `Estimator::setParameter` (estimator.cpp 105-176). The worker
thread it may start is not part of the state; freshly allocated parameter
arrays hold zeros. -/
def setParameter (cfg : Config K) (ext : Collaborators K IE MI) (s : Estimator K IE MI) :
    Estimator K IE MI :=
  let N := cfg.NUM_OF_LASER
  let W1 := cfg.WINDOW_SIZE + 1
  { s with
    pose_laser_cur_ := vresize s.pose_laser_cur_ N
    pose_rlt_ := vresize s.pose_rlt_ N
    qbl_ := (List.range N).foldl (fun v i => v.set i (vget s.QBL i)) (vresize s.qbl_ N)
    tbl_ := (List.range N).foldl (fun v i => v.set i (vget s.TBL i)) (vresize s.tbl_ N)
    tdbl_ := (List.range N).foldl (fun v i => v.set i (s.TDBL.getD i 0))
      (s.tdbl_.take N ++ List.replicate (N - s.tdbl_.length) 0)
    initial_extrinsics_ := ext.ie_setParameter s.initial_extrinsics_
    Qs_ := s.Qs_.resize W1
    Ts_ := s.Ts_.resize W1
    Header_ := s.Header_.resize W1
    surf_points_stack_ := (vresize s.surf_points_stack_ N).map fun b => b.resize W1
    surf_points_stack_size_ := (vresize s.surf_points_stack_size_ N).map fun b => b.resize W1
    corner_points_stack_ := (vresize s.corner_points_stack_ N).map fun b => b.resize W1
    corner_points_stack_size_ :=
      (vresize s.corner_points_stack_size_ N).map fun b => b.resize W1
    pose_local_ := (vresize s.pose_local_ N).map fun v => vresize v W1
    surf_points_local_map_ := vresize s.surf_points_local_map_ N
    surf_points_local_map_filtered_ := vresize s.surf_points_local_map_filtered_ N
    surf_points_pivot_map_ := vresize s.surf_points_pivot_map_ N
    corner_points_local_map_ := vresize s.corner_points_local_map_ N
    corner_points_local_map_filtered_ := vresize s.corner_points_local_map_filtered_ N
    corner_points_pivot_map_ := vresize s.corner_points_pivot_map_ N
    cumu_surf_map_features_ := vresize s.cumu_surf_map_features_ N
    cumu_corner_map_features_ := vresize s.cumu_corner_map_features_ N
    init_thread_flag_ := s.init_thread_flag_ || cfg.MULTIPLE_THREAD
    para_pose_ := List.replicate (cfg.OPT_WINDOW_SIZE + 1) (List.replicate SIZE_POSE 0)
    para_ex_pose_ := List.replicate N (List.replicate SIZE_POSE 0)
    para_td_ := List.replicate N 0
    eig_thre_calib_ := List.replicate (cfg.OPT_WINDOW_SIZE + N + 1) cfg.EIG_INITIAL }

/-- The surface part of one sensor's turn in the fixed-local-map branch of
`slideWindow` (estimator.cpp 1031-1039): the pivot cloud, moved to frame `i`
and stripped of its first `surf_points_stack_size_[n][0]` points, is put in
front of the cloud of slot `i`. -/
def slideWindow_surf (ext : Collaborators K IE MI) (pivot_idx i : Int) (pose_i_pivot : Pose K)
    (s : Estimator K IE MI) (n : Nat) : Estimator K IE MI :=
  let surf_points_trans :=
    ext.transformPointCloud ((vget s.surf_points_stack_ n).idx pivot_idx) pose_i_pivot.T_
  let surf_points_filtered :=
    surf_points_trans.drop ((vget s.surf_points_stack_size_ n).idx 0) ++
      (vget s.surf_points_stack_ n).idx i
  { s with surf_points_stack_ :=
      s.surf_points_stack_.set n ((vget s.surf_points_stack_ n).set i surf_points_filtered) }

/-- The edge part of one sensor's turn (estimator.cpp 1042-1050). -/
def slideWindow_corner (ext : Collaborators K IE MI) (pivot_idx i : Int) (pose_i_pivot : Pose K)
    (s : Estimator K IE MI) (n : Nat) : Estimator K IE MI :=
  let corner_points_trans :=
    ext.transformPointCloud ((vget s.corner_points_stack_ n).idx pivot_idx) pose_i_pivot.T_
  let corner_points_filtered :=
    corner_points_trans.drop ((vget s.corner_points_stack_size_ n).idx 0) ++
      (vget s.corner_points_stack_ n).idx i
  { s with corner_points_stack_ :=
      s.corner_points_stack_.set n ((vget s.corner_points_stack_ n).set i corner_points_filtered) }

/-- The loop body of the fixed-local-map branch of `slideWindow`
(estimator.cpp 1022-1051) for sensor `n`. -/
def slideWindow_sensor (cfg : Config K) (ext : Collaborators K IE MI) (pivot_idx i : Int)
    (pose_pivot pose_i : Pose K) (s : Estimator K IE MI) (n : Nat) : Estimator K IE MI :=
  if s.ESTIMATE_EXTRINSIC = 1 ∧ n ≠ cfg.IDX_REF then s
  else
    let pose_ext := Pose.ofQuaternion ext.sqrt (vget s.qbl_ n) (vget s.tbl_ n) 0
    let pose_i_pivot := Pose.ofMatrix ext.sqrt
      (Matrix4d.inverse (pose_i.T_ * pose_ext.T_) * pose_pivot.T_ * pose_ext.T_) 0
    let s1 := slideWindow_surf ext pivot_idx i pose_i_pivot s n
    if s1.ESTIMATE_EXTRINSIC = 0 then s1
    else slideWindow_corner ext pivot_idx i pose_i_pivot s1 n

/-- The first half of `slideWindow` (estimator.cpp 1015-1052): when the fixed
local map is initialised, the pivot map is moved into slot `pivot_idx + 1`. -/
def slideWindow_fixedMap (cfg : Config K) (ext : Collaborators K IE MI)
    (s : Estimator K IE MI) : Estimator K IE MI :=
  if s.ini_fixed_local_map_ then
    let pivot_idx : Int := (cfg.WINDOW_SIZE : Int) - (cfg.OPT_WINDOW_SIZE : Int)
    let pose_pivot := Pose.ofQuaternion ext.sqrt (s.Qs_.idx pivot_idx) (s.Ts_.idx pivot_idx) 0
    let i := pivot_idx + 1
    let pose_i := Pose.ofQuaternion ext.sqrt (s.Qs_.idx i) (s.Ts_.idx i) 0
    (List.range cfg.NUM_OF_LASER).foldl (slideWindow_sensor cfg ext pivot_idx i pose_pivot pose_i) s
  else s

/-- The statement `stack[n].push(stack[n][c])` on a per-sensor bank of
window sequences. -/
def pushSlot {α : Type} [Inhabited α] (c : Int) (v : List (CircularBuffer α)) (n : Nat) :
    List (CircularBuffer α) :=
  v.set n ((vget v n).push ((vget v n).idx c))

/-- The second half of `slideWindow` (estimator.cpp 1054-1063): every window
sequence pushes the value of its slot `cir_buf_cnt_`. -/
def slideWindow_push (cfg : Config K) (s : Estimator K IE MI) : Estimator K IE MI :=
  let c := s.cir_buf_cnt_
  { s with
    Qs_ := s.Qs_.push (s.Qs_.idx c)
    Ts_ := s.Ts_.push (s.Ts_.idx c)
    Header_ := s.Header_.push (s.Header_.idx c)
    surf_points_stack_ := (List.range cfg.NUM_OF_LASER).foldl (pushSlot c) s.surf_points_stack_
    surf_points_stack_size_ :=
      (List.range cfg.NUM_OF_LASER).foldl (pushSlot c) s.surf_points_stack_size_
    corner_points_stack_ := (List.range cfg.NUM_OF_LASER).foldl (pushSlot c) s.corner_points_stack_
    corner_points_stack_size_ :=
      (List.range cfg.NUM_OF_LASER).foldl (pushSlot c) s.corner_points_stack_size_ }

/-- The method `Estimator::slideWindow` (estimator.cpp 1011-1065). -/
def slideWindow (cfg : Config K) (ext : Collaborators K IE MI) (s : Estimator K IE MI) :
    Estimator K IE MI :=
  slideWindow_push cfg (slideWindow_fixedMap cfg ext s)

/-- The seven assignments `para[0..6] = (t(0), t(1), t(2), q.x(), q.y(), q.z(), q.w())`. -/
def writePoseBlock (para : List K) (t : Vector3d K) (q : Quaterniond K) : List K :=
  ((((((para.set 0 t.x).set 1 t.y).set 2 t.z).set 3 q.x).set 4 q.y).set 5 q.z).set 6 q.w

/-- The loop body of the first loop of `vector2Double` (estimator.cpp
1072-1078): window slot `i` is written to block `i - pivot_idx`. -/
def vector2Double_pose (pivot_idx : Int) (s : Estimator K IE MI) (para : List (List K))
    (i : Int) : List (List K) :=
  iset para (i - pivot_idx) (writePoseBlock (iget para (i - pivot_idx)) (s.Ts_.idx i) (s.Qs_.idx i))

/-- The loop body of the second loop of `vector2Double` (estimator.cpp
1082-1088) for sensor `i`. -/
def vector2Double_ex (s : Estimator K IE MI) (para : List (List K)) (i : Nat) : List (List K) :=
  para.set i (writePoseBlock (vget para i) (vget s.tbl_ i) (vget s.qbl_ i))

/-- The method `Estimator::vector2Double` (estimator.cpp 1067-1094). -/
def vector2Double (cfg : Config K) (s : Estimator K IE MI) : Estimator K IE MI :=
  let pivot_idx : Int := (cfg.WINDOW_SIZE : Int) - (cfg.OPT_WINDOW_SIZE : Int)
  { s with
    para_pose_ := (intRange pivot_idx ((cfg.WINDOW_SIZE : Int) + 1)).foldl
      (vector2Double_pose pivot_idx s) s.para_pose_
    para_ex_pose_ := (List.range cfg.NUM_OF_LASER).foldl (vector2Double_ex s) s.para_ex_pose_ }

/-- The translation `Vector3d(para[0], para[1], para[2])` of a pose block. -/
def blockTranslation (para : List K) : Vector3d K :=
  ⟨para.getD 0 0, para.getD 1 0, para.getD 2 0⟩

/-- The rotation `Quaterniond(para[6], para[3], para[4], para[5])` of a pose block. -/
def blockRotation (para : List K) : Quaterniond K :=
  ⟨para.getD 6 0, para.getD 3 0, para.getD 4 0, para.getD 5 0⟩

/-- The assignment `Ts_[i + pivot_idx] = Vector3d(para_pose_[i][0..2])` of
`double2Vector` (estimator.cpp 1101). -/
def double2Vector_T (pivot_idx : Int) (para_pose : List (List K))
    (b : CircularBuffer (Vector3d K)) (i : Nat) : CircularBuffer (Vector3d K) :=
  b.set ((i : Int) + pivot_idx) (blockTranslation (vget para_pose i))

/-- The assignment `Qs_[i + pivot_idx] = Quaterniond(para_pose_[i][6], [3], [4], [5])`
of `double2Vector` (estimator.cpp 1102). -/
def double2Vector_Q (pivot_idx : Int) (para_pose : List (List K))
    (b : CircularBuffer (Quaterniond K)) (i : Nat) : CircularBuffer (Quaterniond K) :=
  b.set ((i : Int) + pivot_idx) (blockRotation (vget para_pose i))

/-- The assignment `tbl_[i] = Vector3d(para_ex_pose_[i][0..2])` (estimator.cpp 1106). -/
def double2Vector_tbl (para_ex_pose : List (List K)) (v : List (Vector3d K)) (i : Nat) :
    List (Vector3d K) :=
  v.set i (blockTranslation (vget para_ex_pose i))

/-- The assignment `qbl_[i] = Quaterniond(para_ex_pose_[i][6], [3], [4], [5])`
(estimator.cpp 1107). -/
def double2Vector_qbl (para_ex_pose : List (List K)) (v : List (Quaterniond K)) (i : Nat) :
    List (Quaterniond K) :=
  v.set i (blockRotation (vget para_ex_pose i))

/-- The method `Estimator::double2Vector` (estimator.cpp 1096-1113). -/
def double2Vector (cfg : Config K) (s : Estimator K IE MI) : Estimator K IE MI :=
  let pivot_idx : Int := (cfg.WINDOW_SIZE : Int) - (cfg.OPT_WINDOW_SIZE : Int)
  { s with
    Ts_ := (List.range (cfg.OPT_WINDOW_SIZE + 1)).foldl (double2Vector_T pivot_idx s.para_pose_) s.Ts_
    Qs_ := (List.range (cfg.OPT_WINDOW_SIZE + 1)).foldl (double2Vector_Q pivot_idx s.para_pose_) s.Qs_
    tbl_ := (List.range cfg.NUM_OF_LASER).foldl (double2Vector_tbl s.para_ex_pose_) s.tbl_
    qbl_ := (List.range cfg.NUM_OF_LASER).foldl (double2Vector_qbl s.para_ex_pose_) s.qbl_ }

/-- The dense product `mat_Jt * mat_J` of `evalDegenracy` (estimator.cpp 1155-1156). -/
def gramian (mat_J : MatrixXd K) : MatrixXd K :=
  ⟨(List.range mat_J.cols).map fun a =>
    (List.range mat_J.cols).map fun b =>
      (mat_J.data.map fun row => row.getD a 0 * row.getD b 0).sum⟩

/-- The inner loop of `evalDegenracy` (estimator.cpp 1184-1194) over the
columns `js`: a column whose eigenvalue is below the threshold is zeroed in
`mat_V_p` and the block is flagged; the loop stops at the first column whose
eigenvalue is not below the threshold. -/
def zeroDegenerateColumns (mat_E : Fin 6 → K) (eig_thre : K) :
    List (Fin 6) → Matrix6d K × Bool → Matrix6d K × Bool
  | [], acc => acc
  | j :: js, (mat_V_p, is_degenerate) =>
    if mat_E j < eig_thre then
      zeroDegenerateColumns mat_E eig_thre js
        (Matrix.of (fun a b => if b = j then 0 else mat_V_p a b), true)
    else (mat_V_p, is_degenerate)

/-- The block `mat_JtJ.block(6*i, 6*i, 6, 6)` (estimator.cpp 1175). -/
def hessianBlock (mat_JtJ : MatrixXd K) (i : Nat) : Matrix6d K :=
  Matrix.of fun a b => mat_JtJ.coeff (6 * (i : Int) + (a.val : Int)) (6 * (i : Int) + (b.val : Int))

/-- The loop body of `evalDegenracy` (estimator.cpp 1175-1211) for block
`i`, on the pair (local parameterizations, `eig_thre_calib_`). -/
def evalDegenracy_block (cfg : Config K) (ext : Collaborators K IE MI) (mat_JtJ : MatrixXd K)
    (st : List (PoseLocalParameterization K) × List K) (i : Nat) :
    List (PoseLocalParameterization K) × List K :=
  let mat_H : Matrix6d K := hessianBlock mat_JtJ i
  let lp := ext.lp_setParameter (st.1.getD i ext.newPoseLocalParameterization)
  let mat_E := (ext.eigensolver mat_H).1
  let mat_V_f := (ext.eigensolver mat_H).2
  let eig_thre := st.2.getD i 0
  let zeroed := zeroDegenerateColumns mat_E eig_thre (List.finRange 6) (mat_V_f, false)
  let mat_V_p := zeroed.1
  let is_degenerate := zeroed.2
  let mat_P : Matrix6d K := ext.inverse6 mat_V_f.transpose * mat_V_p.transpose
  let eig_thre_calib :=
    if cfg.OPT_WINDOW_SIZE < i ∧ eig_thre < mat_E 0 then st.2.set i (mat_E 0) else st.2
  let mat_P : Matrix6d K :=
    if cfg.OPT_WINDOW_SIZE < i ∧ ¬ eig_thre < mat_E 0 then 0 else mat_P
  let lp := { lp with is_degenerate_ := is_degenerate }
  let lp := if is_degenerate then { lp with V_update_ := mat_P } else lp
  (st.1.set i lp, eig_thre_calib)

/-- The method `Estimator::evalDegenracy` (estimator.cpp 1147-1218), on the
pair (local parameterizations, `eig_thre_calib_`). -/
def evalDegenracy (cfg : Config K) (ext : Collaborators K IE MI)
    (local_param_ids : List (PoseLocalParameterization K)) (jaco : CRSMatrix K)
    (eig_thre_calib : List K) : List (PoseLocalParameterization K) × List K :=
  let mat_JtJ := gramian (CRSMatrix2EigenMatrix jaco)
  (List.range local_param_ids.length).foldl (evalDegenracy_block cfg ext mat_JtJ)
    (local_param_ids, eig_thre_calib)

/-- The method `Estimator::evalResidual` (estimator.cpp 1115-1144); the
second evaluation (of the marginalization residuals) only prints a cost. -/
def evalResidual (cfg : Config K) (ext : Collaborators K IE MI) (problem : Problem K MI)
    (local_param_ids : List (PoseLocalParameterization K)) (para_ids : List ParamBlock)
    (res_ids_proj : List (ResidualBlock K MI)) (b_eval_degenracy : Bool)
    (s : Estimator K IE MI) : Estimator K IE MI × List (PoseLocalParameterization K) :=
  if cfg.PRIOR_FACTOR || cfg.POINT_PLANE_FACTOR || cfg.POINT_EDGE_FACTOR then
    let jaco := ext.Evaluate problem (s.para_pose_, s.para_ex_pose_) para_ids res_ids_proj
    if b_eval_degenracy then
      let r := evalDegenracy cfg ext local_param_ids jaco s.eig_thre_calib_
      ({ s with eig_thre_calib_ := r.2 }, r.1)
    else (s, local_param_ids)
  else (s, local_param_ids)

/-- The method `Estimator::evalCalib` (estimator.cpp 1220-1242). -/
def evalCalib (cfg : Config K) (s : Estimator K IE MI) : Estimator K IE MI :=
  if s.solver_flag_ = SolverFlag.NON_LINEAR then
    let is_converage := !(List.range cfg.NUM_OF_LASER).any fun i =>
      decide (i ≠ cfg.IDX_REF ∧
        s.eig_thre_calib_.getD (i + cfg.OPT_WINDOW_SIZE + 1) 0 < cfg.EIG_THRE_CALIB)
    if is_converage then
      { s with
        ESTIMATE_EXTRINSIC := 0
        ini_fixed_local_map_ := false
        last_marginalization_info_ := none
        last_marginalization_parameter_blocks_ := [] }
    else s
  else s

/-- The calls `pcl::transformPointCloud(cloud, out, T.cast<float>())` followed
by `for (auto &p: out.points) p.intensity = i`. -/
def transformWithIntensity (ext : Collaborators K IE MI) (cloud : PointICloud K)
    (T : Matrix4d K) (i : Int) : PointICloud K :=
  (ext.transformPointCloud cloud T).map fun p => { p with intensity := (i : K) }

/-- The pose `Pose(pose_pivot.T_.inverse() * pose_i.T_ * pose_ext.T_)`. -/
def relativePose (ext : Collaborators K IE MI) (pose_pivot pose_i pose_ext : Pose K) : Pose K :=
  Pose.ofMatrix ext.sqrt (Matrix4d.inverse pose_pivot.T_ * pose_i.T_ * pose_ext.T_) 0

/-- The pose `Pose(Qs_[i], Ts_[i])` of window slot `i`. -/
def windowPose (ext : Collaborators K IE MI) (s : Estimator K IE MI) (i : Int) : Pose K :=
  Pose.ofQuaternion ext.sqrt (s.Qs_.idx i) (s.Ts_.idx i) 0

/-- The pose `Pose(qbl_[n], tbl_[n])` of the extrinsic of sensor `n`. -/
def extrinsicPose (ext : Collaborators K IE MI) (s : Estimator K IE MI) (n : Nat) : Pose K :=
  Pose.ofQuaternion ext.sqrt (vget s.qbl_ n) (vget s.tbl_ n) 0

/-- The loop body of the fixed-map block of `buildCalibMap` (estimator.cpp
820-832): the clouds of slot `i` of the reference sensor, moved to the pivot
frame, are appended to the two temporary clouds. -/
def buildCalibMap_fixedSlot (cfg : Config K) (ext : Collaborators K IE MI)
    (pose_pivot pose_ext : Pose K) (s : Estimator K IE MI)
    (tmp : PointICloud K × PointICloud K) (i : Int) : PointICloud K × PointICloud K :=
  let pose_pi := relativePose ext pose_pivot (windowPose ext s i) pose_ext
  (tmp.1 ++ transformWithIntensity ext
      ((vget s.surf_points_stack_ cfg.IDX_REF).idx i) pose_pi.T_ i,
   tmp.2 ++ transformWithIntensity ext
      ((vget s.corner_points_stack_ cfg.IDX_REF).idx i) pose_pi.T_ i)

/-- The block `if (!ini_fixed_local_map_)` of `buildCalibMap` (estimator.cpp 816-836). -/
def buildCalibMap_fixed (cfg : Config K) (ext : Collaborators K IE MI) (pivot_idx : Int)
    (pose_pivot : Pose K) (s : Estimator K IE MI) : Estimator K IE MI :=
  if s.ini_fixed_local_map_ then s
  else
    let pose_ext := extrinsicPose ext s cfg.IDX_REF
    let tmp := (intRange 0 (pivot_idx + 1)).foldl
      (buildCalibMap_fixedSlot cfg ext pose_pivot pose_ext s) ([], [])
    { s with
      surf_points_stack_ := s.surf_points_stack_.set cfg.IDX_REF
        ((vget s.surf_points_stack_ cfg.IDX_REF).set pivot_idx tmp.1)
      corner_points_stack_ := s.corner_points_stack_.set cfg.IDX_REF
        ((vget s.corner_points_stack_ cfg.IDX_REF).set pivot_idx tmp.2)
      ini_fixed_local_map_ := true }

/-- The loop over the window slots for sensor `n` in `buildCalibMap`
(estimator.cpp 851-866). -/
def buildCalibMap_slot (cfg : Config K) (ext : Collaborators K IE MI) (pivot_idx : Int)
    (pose_pivot pose_ext : Pose K) (n : Nat) (s : Estimator K IE MI) (i : Int) :
    Estimator K IE MI :=
  let pose_local := relativePose ext pose_pivot (windowPose ext s i) pose_ext
  let s1 := { s with pose_local_ := s.pose_local_.set n (iset (vget s.pose_local_ n) i pose_local) }
  if i < pivot_idx ∨ i = (cfg.WINDOW_SIZE : Int) then s1
  else if n = cfg.IDX_REF then
    { s1 with
      surf_points_local_map_ := s1.surf_points_local_map_.set n
        (vget s1.surf_points_local_map_ n ++
          transformWithIntensity ext ((vget s1.surf_points_stack_ n).idx i) pose_local.T_ i)
      corner_points_local_map_ := s1.corner_points_local_map_.set n
        (vget s1.corner_points_local_map_ n ++
          transformWithIntensity ext ((vget s1.corner_points_stack_ n).idx i) pose_local.T_ i) }
  else s1

/-- The loop body over the sensors that builds and filters the local maps in
`buildCalibMap` (estimator.cpp 848-884). -/
def buildCalibMap_sensor (cfg : Config K) (ext : Collaborators K IE MI) (pivot_idx : Int)
    (pose_pivot : Pose K) (s : Estimator K IE MI) (n : Nat) : Estimator K IE MI :=
  let pose_ext := extrinsicPose ext s n
  let s1 := (intRange 0 ((cfg.WINDOW_SIZE : Int) + 1)).foldl
    (buildCalibMap_slot cfg ext pivot_idx pose_pivot pose_ext n) s
  if n = cfg.IDX_REF then
    { s1 with
      surf_points_local_map_filtered_ := s1.surf_points_local_map_filtered_.set n
        (ext.voxelGrid (2 / 5) (vget s1.surf_points_local_map_ n))
      corner_points_local_map_filtered_ := s1.corner_points_local_map_filtered_.set n
        (ext.voxelGrid (2 / 5) (vget s1.corner_points_local_map_ n)) }
  else
    { s1 with
      surf_points_local_map_filtered_ := s1.surf_points_local_map_filtered_.set n
        (ext.voxelGrid (3 / 10) (vget s1.surf_points_local_map_ cfg.IDX_REF))
      corner_points_local_map_filtered_ := s1.corner_points_local_map_filtered_.set n
        (ext.voxelGrid (3 / 10) (vget s1.corner_points_local_map_ cfg.IDX_REF)) }

/-- The feature extraction of `buildCalibMap` for sensor `n` and slot `i`
(estimator.cpp 905-912). -/
def buildCalibMap_extract (cfg : Config K) (ext : Collaborators K IE MI) (pivot_idx : Int)
    (n : Nat) (s : Estimator K IE MI) (i : Int) : Estimator K IE MI :=
  if (n = cfg.IDX_REF ∧ i = pivot_idx) ∨ (n ≠ cfg.IDX_REF ∧ i ≠ pivot_idx) then s
  else
    let n_neigh : Nat := if n = cfg.IDX_REF then 5 else 10
    { s with
      surf_map_features_ := s.surf_map_features_.set n (iset (vget s.surf_map_features_ n) i
        (ext.extractSurfFromMap (vget s.surf_points_local_map_filtered_ n)
          ((vget s.surf_points_stack_ n).idx i) (iget (vget s.pose_local_ n) i) n_neigh))
      corner_map_features_ := s.corner_map_features_.set n (iset (vget s.corner_map_features_ n) i
        (ext.extractCornerFromMap (vget s.corner_points_local_map_filtered_ n)
          ((vget s.corner_points_stack_ n).idx i) (iget (vget s.pose_local_ n) i) n_neigh)) }

/-- The feature extraction of `buildCalibMap` for sensor `n` (estimator.cpp 893-913). -/
def buildCalibMap_extractSensor (cfg : Config K) (ext : Collaborators K IE MI) (pivot_idx : Int)
    (s : Estimator K IE MI) (n : Nat) : Estimator K IE MI :=
  (intRange pivot_idx ((cfg.WINDOW_SIZE : Int) + 1)).foldl
    (buildCalibMap_extract cfg ext pivot_idx n) s

/-- The clearing of the local maps of sensor `n` in `buildCalibMap`
(estimator.cpp 840-846). -/
def buildCalibMap_clear (s : Estimator K IE MI) (n : Nat) : Estimator K IE MI :=
  { s with
    surf_points_local_map_ := s.surf_points_local_map_.set n []
    surf_points_local_map_filtered_ := s.surf_points_local_map_filtered_.set n []
    corner_points_local_map_ := s.corner_points_local_map_.set n []
    corner_points_local_map_filtered_ := s.corner_points_local_map_filtered_.set n [] }

/-- The method `Estimator::buildCalibMap` (estimator.cpp 807-916); the
optional viewer call only draws. -/
def buildCalibMap (cfg : Config K) (ext : Collaborators K IE MI) (s : Estimator K IE MI) :
    Estimator K IE MI :=
  let pivot_idx : Int := (cfg.WINDOW_SIZE : Int) - (cfg.OPT_WINDOW_SIZE : Int)
  let pose_pivot := windowPose ext s pivot_idx
  let s1 := buildCalibMap_fixed cfg ext pivot_idx pose_pivot s
  let s2 := (List.range cfg.NUM_OF_LASER).foldl buildCalibMap_clear s1
  let s3 := (List.range cfg.NUM_OF_LASER).foldl
    (buildCalibMap_sensor cfg ext pivot_idx pose_pivot) s2
  let s4 := { s3 with
    surf_map_features_ :=
      List.replicate cfg.NUM_OF_LASER (List.replicate (cfg.WINDOW_SIZE + 1) [])
    corner_map_features_ :=
      List.replicate cfg.NUM_OF_LASER (List.replicate (cfg.WINDOW_SIZE + 1) []) }
  (List.range cfg.NUM_OF_LASER).foldl (buildCalibMap_extractSensor cfg ext pivot_idx) s4

/-- The inner loop body of the fixed-map block of `buildLocalMap`
(estimator.cpp 933-943): the surface cloud of slot `i` of sensor `n`, moved to
the pivot frame, is appended to the temporary cloud. -/
def buildLocalMap_fixedSlot (ext : Collaborators K IE MI) (pose_pivot pose_ext : Pose K)
    (s : Estimator K IE MI) (n : Nat) (tmp : PointICloud K) (i : Int) : PointICloud K :=
  let pose_ext_pi := relativePose ext pose_pivot (windowPose ext s i) pose_ext
  tmp ++ transformWithIntensity ext ((vget s.surf_points_stack_ n).idx i) pose_ext_pi.T_ i

/-- The outer loop body of the fixed-map block of `buildLocalMap`
(estimator.cpp 930-946) for sensor `n`, on the pair (state, temporary cloud). -/
def buildLocalMap_fixedSensor (ext : Collaborators K IE MI) (pivot_idx : Int)
    (pose_pivot : Pose K) (st : Estimator K IE MI × PointICloud K) (n : Nat) :
    Estimator K IE MI × PointICloud K :=
  let pose_ext := extrinsicPose ext st.1 n
  let tmp := (intRange 0 (pivot_idx + 1)).foldl
    (buildLocalMap_fixedSlot ext pose_pivot pose_ext st.1 n) st.2
  ({ st.1 with
      surf_points_stack_ := st.1.surf_points_stack_.set n
        ((vget st.1.surf_points_stack_ n).set pivot_idx tmp) }, tmp)

/-- The block `if (!ini_fixed_local_map_)` of `buildLocalMap` (estimator.cpp
927-948); the temporary cloud is declared outside the loop over the sensors
and keeps growing from one sensor to the next. -/
def buildLocalMap_fixed (cfg : Config K) (ext : Collaborators K IE MI) (pivot_idx : Int)
    (pose_pivot : Pose K) (s : Estimator K IE MI) : Estimator K IE MI :=
  if s.ini_fixed_local_map_ then s
  else
    let r := (List.range cfg.NUM_OF_LASER).foldl
      (buildLocalMap_fixedSensor ext pivot_idx pose_pivot) (s, [])
    { r.1 with ini_fixed_local_map_ := true }

/-- The loop over the window slots for sensor `n` in `buildLocalMap`
(estimator.cpp 963-974). -/
def buildLocalMap_slot (cfg : Config K) (ext : Collaborators K IE MI) (pivot_idx : Int)
    (pose_pivot pose_ext : Pose K) (n : Nat) (s : Estimator K IE MI) (i : Int) :
    Estimator K IE MI :=
  let pose_local := relativePose ext pose_pivot (windowPose ext s i) pose_ext
  let s1 := { s with pose_local_ := s.pose_local_.set n (iset (vget s.pose_local_ n) i pose_local) }
  if i < pivot_idx ∨ i = (cfg.WINDOW_SIZE : Int) then s1
  else
    { s1 with
      surf_points_local_map_ := s1.surf_points_local_map_.set n
        (vget s1.surf_points_local_map_ n ++
          transformWithIntensity ext ((vget s1.surf_points_stack_ n).idx i) pose_local.T_ i) }

/-- The loop body over the sensors that builds and filters the local maps in
`buildLocalMap` (estimator.cpp 960-981). -/
def buildLocalMap_sensor (cfg : Config K) (ext : Collaborators K IE MI) (pivot_idx : Int)
    (pose_pivot : Pose K) (s : Estimator K IE MI) (n : Nat) : Estimator K IE MI :=
  let pose_ext := extrinsicPose ext s n
  let s1 := (intRange 0 ((cfg.WINDOW_SIZE : Int) + 1)).foldl
    (buildLocalMap_slot cfg ext pivot_idx pose_pivot pose_ext n) s
  { s1 with
    surf_points_local_map_filtered_ := s1.surf_points_local_map_filtered_.set n
      (ext.voxelGrid (2 / 5) (vget s1.surf_points_local_map_ n)) }

/-- The clearing of the local maps of sensor `n` in `buildLocalMap`
(estimator.cpp 952-958). -/
def buildLocalMap_clear (s : Estimator K IE MI) (n : Nat) : Estimator K IE MI :=
  { s with
    surf_points_local_map_ := s.surf_points_local_map_.set n []
    surf_points_local_map_filtered_ := s.surf_points_local_map_filtered_.set n [] }

/-- The feature extraction of `buildLocalMap` for sensor `n` and slot `i`
(estimator.cpp 998-999). -/
def buildLocalMap_extract (ext : Collaborators K IE MI) (n : Nat) (s : Estimator K IE MI)
    (i : Int) : Estimator K IE MI :=
  { s with
    surf_map_features_ := s.surf_map_features_.set n (iset (vget s.surf_map_features_ n) i
      (ext.extractSurfFromMap (vget s.surf_points_local_map_filtered_ n)
        ((vget s.surf_points_stack_ n).idx i) (iget (vget s.pose_local_ n) i) 5)) }

/-- The feature extraction of `buildLocalMap` for sensor `n` (estimator.cpp 987-1003). -/
def buildLocalMap_extractSensor (cfg : Config K) (ext : Collaborators K IE MI) (pivot_idx : Int)
    (s : Estimator K IE MI) (n : Nat) : Estimator K IE MI :=
  (intRange (pivot_idx + 1) ((cfg.WINDOW_SIZE : Int) + 1)).foldl (buildLocalMap_extract ext n) s

/-- The method `Estimator::buildLocalMap` (estimator.cpp 918-1007); the
optional viewer call only draws. -/
def buildLocalMap (cfg : Config K) (ext : Collaborators K IE MI) (s : Estimator K IE MI) :
    Estimator K IE MI :=
  let pivot_idx : Int := (cfg.WINDOW_SIZE : Int) - (cfg.OPT_WINDOW_SIZE : Int)
  let pose_pivot := windowPose ext s pivot_idx
  let s1 := buildLocalMap_fixed cfg ext pivot_idx pose_pivot s
  let s2 := (List.range cfg.NUM_OF_LASER).foldl buildLocalMap_clear s1
  let s3 := (List.range cfg.NUM_OF_LASER).foldl
    (buildLocalMap_sensor cfg ext pivot_idx pose_pivot) s2
  let s4 := { s3 with
    surf_map_features_ :=
      List.replicate cfg.NUM_OF_LASER (List.replicate (cfg.WINDOW_SIZE + 1) []) }
  (List.range cfg.NUM_OF_LASER).foldl (buildLocalMap_extractSensor cfg ext pivot_idx) s4

/-- What `optimizeMap` has built when it reaches the solver: the estimator
state, the `ceres::Problem`, and the local lists `local_param_ids`, `para_ids`,
`res_ids_marg` and `res_ids_proj`. -/
structure Assembly (K IE MI : Type) where
  s : Estimator K IE MI
  problem : Problem K MI
  local_param_ids : List (PoseLocalParameterization K)
  para_ids : List ParamBlock
  res_ids_marg : List (ResidualBlock K MI)
  res_ids_proj : List (ResidualBlock K MI)

/-- The statement pair `res_id = problem.AddResidualBlock(...);
res_ids_proj.push_back(res_id)`. -/
def Assembly.addProj (a : Assembly K IE MI) (r : ResidualBlock K MI) : Assembly K IE MI :=
  { a with problem := a.problem.AddResidualBlock r, res_ids_proj := a.res_ids_proj ++ [r] }

/-- The loss function `new ceres::HuberLoss(0.5)` of `optimizeMap`. -/
def loss_function : Option (LossFunction K) := some (LossFunction.HuberLoss (1 / 2))

/-- The residual block of a `LidarPivotPlaneNormFactor` for a feature of
sensor `n` in slot `i`, on `para_pose_[0]`, `para_pose_[i - pivot_idx]` and
`para_ex_pose_[n]`. -/
def planeNormBlock (pivot_idx : Int) (n : Nat) (i : Int) (feature : PointPlaneFeature K) :
    ResidualBlock K MI :=
  { cost_function :=
      CostFunction.LidarPivotPlaneNormFactor feature.point_ feature.coeffs_ feature.score_
    loss_function := loss_function
    parameter_blocks :=
      [ParamBlock.para_pose 0, ParamBlock.para_pose (i - pivot_idx), ParamBlock.para_ex_pose n] }

/-- The residual block of a `LidarPivotTargetPlaneNormFactor` for an
accumulated feature of sensor `n`, on `para_ex_pose_[n]` alone. -/
def targetPlaneBlock (n : Nat) (feature : PointPlaneFeature K) : ResidualBlock K MI :=
  { cost_function :=
      CostFunction.LidarPivotTargetPlaneNormFactor feature.point_ feature.coeffs_ feature.score_ 1
    loss_function := loss_function
    parameter_blocks := [ParamBlock.para_ex_pose n] }

/-- The residual block of the `PriorFactor` of sensor `n`. -/
def priorBlock (cfg : Config K) (s : Estimator K IE MI) (n : Nat) : ResidualBlock K MI :=
  { cost_function := CostFunction.PriorFactor (vget s.tbl_ n) (vget s.qbl_ n)
      cfg.PRIOR_FACTOR_POS cfg.PRIOR_FACTOR_ROT
    loss_function := none
    parameter_blocks := [ParamBlock.para_ex_pose n] }

/-- The loop body that adds pose block `i` (estimator.cpp 446-449). -/
def optimizeMap_addPoseBlock (ext : Collaborators K IE MI) (a : Assembly K IE MI) (i : Nat) :
    Assembly K IE MI :=
  { a with
    problem := a.problem.AddParameterBlock (ParamBlock.para_pose (i : Int)) SIZE_POSE
    local_param_ids := a.local_param_ids ++ [ext.newPoseLocalParameterization]
    para_ids := a.para_ids ++ [ParamBlock.para_pose (i : Int)] }

/-- The loop body that adds extrinsic block `i` (estimator.cpp 455-462); the
block is set constant when `!ESTIMATE_EXTRINSIC`. -/
def optimizeMap_addExBlock (ext : Collaborators K IE MI) (a : Assembly K IE MI) (i : Nat) :
    Assembly K IE MI :=
  let p := a.problem.AddParameterBlock (ParamBlock.para_ex_pose i) SIZE_POSE
  { a with
    problem :=
      if a.s.ESTIMATE_EXTRINSIC = 0 then p.SetParameterBlockConstant (ParamBlock.para_ex_pose i)
      else p
    local_param_ids := a.local_param_ids ++ [ext.newPoseLocalParameterization]
    para_ids := a.para_ids ++ [ParamBlock.para_ex_pose i] }

/-- The parameter-block part of `optimizeMap` (estimator.cpp 438-464). -/
def optimizeMap_blocks (cfg : Config K) (ext : Collaborators K IE MI) (s : Estimator K IE MI) :
    Assembly K IE MI :=
  let s1 := vector2Double cfg s
  let a0 : Assembly K IE MI :=
    { s := s1, problem := Problem.empty, local_param_ids := [], para_ids := [],
      res_ids_marg := [], res_ids_proj := [] }
  let a1 := (List.range (cfg.OPT_WINDOW_SIZE + 1)).foldl (optimizeMap_addPoseBlock ext) a0
  let a2 := { a1 with problem := a1.problem.SetParameterBlockConstant (ParamBlock.para_pose 0) }
  let a3 := (List.range cfg.NUM_OF_LASER).foldl (optimizeMap_addExBlock ext) a2
  { a3 with
    problem := a3.problem.SetParameterBlockConstant (ParamBlock.para_ex_pose cfg.IDX_REF) }

/-- The loop body that adds the prior factor of sensor `n` (estimator.cpp 494-496). -/
def optimizeMap_addPrior (cfg : Config K) (a : Assembly K IE MI) (n : Nat) : Assembly K IE MI :=
  a.addProj (priorBlock cfg a.s n)

/-- The marginalization prior of `optimizeMap` (estimator.cpp 479-485): added
when `MARGINALIZATION_FACTOR` is set and a prior exists. -/
def optimizeMap_addMarginalization (cfg : Config K) (a : Assembly K IE MI) : Assembly K IE MI :=
  match a.s.last_marginalization_info_ with
  | some info =>
    if cfg.MARGINALIZATION_FACTOR then
      let r : ResidualBlock K MI :=
        { cost_function := CostFunction.MarginalizationFactor info
          loss_function := none
          parameter_blocks := a.s.last_marginalization_parameter_blocks_ }
      { a with problem := a.problem.AddResidualBlock r, res_ids_marg := a.res_ids_marg ++ [r] }
    else a
  | none => a

/-- The marginalization-prior and extrinsic-prior part of `optimizeMap`
(estimator.cpp 479-498). -/
def optimizeMap_priors (cfg : Config K) (a : Assembly K IE MI) : Assembly K IE MI :=
  let a1 := optimizeMap_addMarginalization cfg a
  if cfg.PRIOR_FACTOR then (List.range cfg.NUM_OF_LASER).foldl (optimizeMap_addPrior cfg) a1
  else a1

/-- The factor of one accumulated feature of sensor `n` (estimator.cpp 544-549). -/
def addTargetPlaneFeature (n : Nat) (a : Assembly K IE MI) (feature : PointPlaneFeature K) :
    Assembly K IE MI :=
  a.addProj (targetPlaneBlock n feature)

/-- The factors of one accumulated frame of sensor `n` (estimator.cpp 542-550). -/
def addTargetPlaneFrame (n : Nat) (a : Assembly K IE MI)
    (features_frame : List (PointPlaneFeature K)) : Assembly K IE MI :=
  features_frame.foldl (addTargetPlaneFeature n) a

/-- The factors of the accumulated frames of sensor `n`, none for the
reference sensor (estimator.cpp 539-551). -/
def addTargetPlaneSensor (cfg : Config K) (cumu : FeatureTable K) (a : Assembly K IE MI)
    (n : Nat) : Assembly K IE MI :=
  if n = cfg.IDX_REF then a else (vget cumu n).foldl (addTargetPlaneFrame n) a

/-- The factors of the accumulated features of the non-reference sensors
(estimator.cpp 537-552 and 566-581), for the accumulation table `cumu`. -/
def addTargetPlaneFactors (cfg : Config K) (cumu : FeatureTable K) (a : Assembly K IE MI) :
    Assembly K IE MI :=
  (List.range cfg.NUM_OF_LASER).foldl (addTargetPlaneSensor cfg cumu) a

/-- The factor of one feature of the reference sensor in slot `i`, with the
Jacobian self-check hook (estimator.cpp 515-530). -/
def calibPlaneFeature (cfg : Config K) (pivot_idx i : Int) (a : Assembly K IE MI)
    (feature : PointPlaneFeature K) : Assembly K IE MI :=
  let a1 := a.addProj (planeNormBlock pivot_idx cfg.IDX_REF i feature)
  if a1.s.CHECK_JACOBIAN ≠ 0 then { a1 with s := { a1.s with CHECK_JACOBIAN := 0 } }
  else a1

/-- The factors of the features of the reference sensor in slot `i`
(estimator.cpp 508-532). -/
def calibPlaneSlot (cfg : Config K) (pivot_idx : Int) (a : Assembly K IE MI) (i : Int) :
    Assembly K IE MI :=
  (iget (vget a.s.surf_map_features_ cfg.IDX_REF) i).foldl (calibPlaneFeature cfg pivot_idx i) a

/-- The statement `cumu[n].push_back(table[n][pivot_idx])` (estimator.cpp 533, 563). -/
def accumulateFeatures (table : FeatureTable K) (pivot_idx : Int) (cumu : FeatureTable K)
    (n : Nat) : FeatureTable K :=
  cumu.set n (vget cumu n ++ [iget (vget table n) pivot_idx])

/-- The plane-factor part of the calibration branch of `optimizeMap`
(estimator.cpp 505-559). -/
def optimizeMap_calibPlane (cfg : Config K) (pivot_idx : Int) (a : Assembly K IE MI) :
    Assembly K IE MI :=
  let a1 := (intRange (pivot_idx + 1) ((cfg.WINDOW_SIZE : Int) + 1)).foldl
    (calibPlaneSlot cfg pivot_idx) a
  let a2 := { a1 with s := { a1.s with
    cumu_surf_map_features_ := (List.range cfg.NUM_OF_LASER).foldl
      (accumulateFeatures a1.s.surf_map_features_ pivot_idx) a1.s.cumu_surf_map_features_ } }
  if (vget a2.s.cumu_surf_map_features_ cfg.IDX_REF).length = cfg.N_CUMU_FEATURE then
    let a3 := addTargetPlaneFactors cfg a2.s.cumu_surf_map_features_ a2
    if cfg.MARGINALIZATION_FACTOR then a3
    else { a3 with s := { a3.s with
      cumu_surf_map_features_ := List.replicate cfg.NUM_OF_LASER [] } }
  else a2

/-- The edge-factor part of the calibration branch of `optimizeMap`
(estimator.cpp 561-588). -/
def optimizeMap_calibEdge (cfg : Config K) (pivot_idx : Int) (a : Assembly K IE MI) :
    Assembly K IE MI :=
  let a2 := { a with s := { a.s with
    cumu_corner_map_features_ := (List.range cfg.NUM_OF_LASER).foldl
      (accumulateFeatures a.s.corner_map_features_ pivot_idx) a.s.cumu_corner_map_features_ } }
  if (vget a2.s.cumu_corner_map_features_ cfg.IDX_REF).length = cfg.N_CUMU_FEATURE then
    let a3 := addTargetPlaneFactors cfg a2.s.cumu_corner_map_features_ a2
    if cfg.MARGINALIZATION_FACTOR then a3
    else { a3 with s := { a3.s with
      cumu_corner_map_features_ := List.replicate cfg.NUM_OF_LASER [] } }
  else a2

/-- The factor of one feature of sensor `n` in slot `i` (estimator.cpp 610-616). -/
def odomPlaneFeature (pivot_idx : Int) (n : Nat) (i : Int) (a : Assembly K IE MI)
    (feature : PointPlaneFeature K) : Assembly K IE MI :=
  a.addProj (planeNormBlock pivot_idx n i feature)

/-- The factors of the features of sensor `n` in slot `i` (estimator.cpp 604-618). -/
def odomPlaneSlot (pivot_idx : Int) (n : Nat) (a : Assembly K IE MI) (i : Int) :
    Assembly K IE MI :=
  (iget (vget a.s.surf_map_features_ n) i).foldl (odomPlaneFeature pivot_idx n i) a

/-- The factors of the features of sensor `n` (estimator.cpp 602-619). -/
def odomPlaneSensor (cfg : Config K) (pivot_idx : Int) (a : Assembly K IE MI) (n : Nat) :
    Assembly K IE MI :=
  (intRange (pivot_idx + 1) ((cfg.WINDOW_SIZE : Int) + 1)).foldl (odomPlaneSlot pivot_idx n) a

/-- The plane factors of the odometry branch of `optimizeMap`
(estimator.cpp 600-620). -/
def optimizeMap_odomPlane (cfg : Config K) (pivot_idx : Int) (a : Assembly K IE MI) :
    Assembly K IE MI :=
  (List.range cfg.NUM_OF_LASER).foldl (odomPlaneSensor cfg pivot_idx) a

/-- The loop body `problem.SetParameterBlockConstant(para_ex_pose_[n])` of the
odometry branch (estimator.cpp 594-598). -/
def setExtrinsicConstant (p : Problem K MI) (n : Nat) : Problem K MI :=
  p.SetParameterBlockConstant (ParamBlock.para_ex_pose n)

/-- The calibration branch of `optimizeMap`, `ESTIMATE_EXTRINSIC == 1`
(estimator.cpp 501-589). -/
def optimizeMap_calibration (cfg : Config K) (ext : Collaborators K IE MI)
    (a : Assembly K IE MI) : Assembly K IE MI :=
  let pivot_idx : Int := (cfg.WINDOW_SIZE : Int) - (cfg.OPT_WINDOW_SIZE : Int)
  let a1 := { a with s := buildCalibMap cfg ext a.s }
  let a2 := if cfg.POINT_PLANE_FACTOR then optimizeMap_calibPlane cfg pivot_idx a1 else a1
  if cfg.POINT_EDGE_FACTOR then optimizeMap_calibEdge cfg pivot_idx a2 else a2

/-- The odometry branch of `optimizeMap`, `ESTIMATE_EXTRINSIC == 0`
(estimator.cpp 591-621). -/
def optimizeMap_odometry (cfg : Config K) (ext : Collaborators K IE MI)
    (a : Assembly K IE MI) : Assembly K IE MI :=
  let pivot_idx : Int := (cfg.WINDOW_SIZE : Int) - (cfg.OPT_WINDOW_SIZE : Int)
  let a1 := { a with
    problem := (List.range cfg.NUM_OF_LASER).foldl setExtrinsicConstant a.problem }
  let a2 := { a1 with s := buildLocalMap cfg ext a1.s }
  if cfg.POINT_PLANE_FACTOR then optimizeMap_odomPlane cfg pivot_idx a2 else a2

/-- The part of `optimizeMap` up to the solver call (estimator.cpp 413-621):
the problem as assembled. -/
def optimizeMap_assemble (cfg : Config K) (ext : Collaborators K IE MI)
    (s : Estimator K IE MI) : Assembly K IE MI :=
  let a := optimizeMap_priors cfg (optimizeMap_blocks cfg ext s)
  if a.s.ESTIMATE_EXTRINSIC = 1 then optimizeMap_calibration cfg ext a
  else if a.s.ESTIMATE_EXTRINSIC = 0 then optimizeMap_odometry cfg ext a
  else a

/-- The `ResidualBlockInfo` of a plane-norm factor, dropping its first block. -/
def planeNormInfo (pivot_idx : Int) (n : Nat) (i : Int) (feature : PointPlaneFeature K) :
    ResidualBlockInfo K MI :=
  { cost_function :=
      CostFunction.LidarPivotPlaneNormFactor feature.point_ feature.coeffs_ feature.score_
    loss_function := loss_function
    parameter_blocks :=
      [ParamBlock.para_pose 0, ParamBlock.para_pose (i - pivot_idx), ParamBlock.para_ex_pose n]
    drop_set := [0] }

/-- The `ResidualBlockInfo` of a target-plane factor, dropping nothing. -/
def targetPlaneInfo (n : Nat) (feature : PointPlaneFeature K) : ResidualBlockInfo K MI :=
  { cost_function :=
      CostFunction.LidarPivotTargetPlaneNormFactor feature.point_ feature.coeffs_ feature.score_ 1
    loss_function := loss_function
    parameter_blocks := [ParamBlock.para_ex_pose n]
    drop_set := [] }

/-- The accumulated features of the non-reference sensors handed to the
marginalizer (estimator.cpp 698-714 and 724-740). -/
def addTargetPlaneInfos (cfg : Config K) (ext : Collaborators K IE MI) (cumu : FeatureTable K)
    (mi : MI) : MI :=
  (List.range cfg.NUM_OF_LASER).foldl
    (fun mi n =>
      if n = cfg.IDX_REF then mi
      else (vget cumu n).foldl
        (fun mi features_frame =>
          features_frame.foldl
            (fun mi feature => ext.mi_addResidualBlockInfo mi (targetPlaneInfo n feature)) mi)
        mi)
    mi

/-- The assignment `addr_shift[key] = value` of a `std::unordered_map`. -/
def mapAssign (m : List (ParamBlock × ParamBlock)) (key value : ParamBlock) :
    List (ParamBlock × ParamBlock) :=
  if m.any (fun e => e.1 = key) then m.map (fun e => if e.1 = key then (key, value) else e)
  else m ++ [(key, value)]

/-- The address map built after marginalization (estimator.cpp 782-790). -/
def addr_shift (cfg : Config K) : List (ParamBlock × ParamBlock) :=
  let pivot_idx : Int := (cfg.WINDOW_SIZE : Int) - (cfg.OPT_WINDOW_SIZE : Int)
  let m1 := (intRange (pivot_idx + 1) ((cfg.WINDOW_SIZE : Int) + 1)).foldl
    (fun m i =>
      mapAssign m (ParamBlock.para_pose (i - pivot_idx)) (ParamBlock.para_pose (i - pivot_idx - 1)))
    []
  (List.range cfg.NUM_OF_LASER).foldl
    (fun m n => mapAssign m (ParamBlock.para_ex_pose n) (ParamBlock.para_ex_pose n)) m1

/-- The previous prior handed to the new marginalization, with the positions
of `para_pose_[0]` in its block list as drop set (estimator.cpp 650-662). -/
def marginalize_lastPrior (ext : Collaborators K IE MI) (s : Estimator K IE MI) : MI :=
  match s.last_marginalization_info_ with
  | some info =>
    let blocks := s.last_marginalization_parameter_blocks_
    let drop_set := (List.range blocks.length).filterMap fun i =>
      if blocks.getD i (ParamBlock.para_pose 0) = ParamBlock.para_pose 0 then some (i : Int)
      else none
    ext.mi_addResidualBlockInfo ext.mi_new
      { cost_function := CostFunction.MarginalizationFactor info
        loss_function := none
        parameter_blocks := blocks
        drop_set := drop_set }
  | none => ext.mi_new

/-- The extrinsic prior of sensor `n` handed to the marginalizer
(estimator.cpp 668-671). -/
def marginalize_addPrior (cfg : Config K) (ext : Collaborators K IE MI) (s : Estimator K IE MI)
    (mi : MI) (n : Nat) : MI :=
  ext.mi_addResidualBlockInfo mi
    { cost_function := (priorBlock cfg s n).cost_function
      loss_function := none
      parameter_blocks := [ParamBlock.para_ex_pose n]
      drop_set := [] }

/-- The plane-norm factors of sensor `n` in slot `i` handed to the marginalizer
(estimator.cpp 683-693 and 754-764). -/
def marginalize_planeSlot (ext : Collaborators K IE MI) (pivot_idx : Int) (s : Estimator K IE MI)
    (n : Nat) (mi : MI) (i : Int) : MI :=
  (iget (vget s.surf_map_features_ n) i).foldl
    (fun mi feature => ext.mi_addResidualBlockInfo mi (planeNormInfo pivot_idx n i feature)) mi

/-- The plane-norm factors of sensor `n` over the slots `pivot_idx + 1 .. W`. -/
def marginalize_planeSensor (cfg : Config K) (ext : Collaborators K IE MI) (pivot_idx : Int)
    (s : Estimator K IE MI) (mi : MI) (n : Nat) : MI :=
  (intRange (pivot_idx + 1) ((cfg.WINDOW_SIZE : Int) + 1)).foldl
    (marginalize_planeSlot ext pivot_idx s n) mi

/-- The surface part of the calibration branch of the marginalization
(estimator.cpp 678-718): the accumulation table is cleared once it has fired. -/
def marginalize_calibPlane (cfg : Config K) (ext : Collaborators K IE MI) (pivot_idx : Int)
    (s : Estimator K IE MI) (mi : MI) : Estimator K IE MI × MI :=
  let mi2 := marginalize_planeSensor cfg ext pivot_idx s mi cfg.IDX_REF
  if (vget s.cumu_surf_map_features_ cfg.IDX_REF).length = cfg.N_CUMU_FEATURE then
    ({ s with cumu_surf_map_features_ := List.replicate cfg.NUM_OF_LASER [] },
      addTargetPlaneInfos cfg ext s.cumu_surf_map_features_ mi2)
  else (s, mi2)

/-- The edge part of the calibration branch of the marginalization
(estimator.cpp 720-744). -/
def marginalize_calibEdge (cfg : Config K) (ext : Collaborators K IE MI)
    (r : Estimator K IE MI × MI) : Estimator K IE MI × MI :=
  if (vget r.1.cumu_corner_map_features_ cfg.IDX_REF).length = cfg.N_CUMU_FEATURE then
    ({ r.1 with cumu_corner_map_features_ := List.replicate cfg.NUM_OF_LASER [] },
      addTargetPlaneInfos cfg ext r.1.cumu_corner_map_features_ r.2)
  else r

/-- The residual blocks of the window handed to the marginalizer
(estimator.cpp 676-768). -/
def marginalize_window (cfg : Config K) (ext : Collaborators K IE MI) (s : Estimator K IE MI)
    (mi : MI) : Estimator K IE MI × MI :=
  let pivot_idx : Int := (cfg.WINDOW_SIZE : Int) - (cfg.OPT_WINDOW_SIZE : Int)
  if s.ESTIMATE_EXTRINSIC = 1 then
    let r1 := if cfg.POINT_PLANE_FACTOR then marginalize_calibPlane cfg ext pivot_idx s mi
      else (s, mi)
    if cfg.POINT_EDGE_FACTOR then marginalize_calibEdge cfg ext r1 else r1
  else if s.ESTIMATE_EXTRINSIC = 0 then
    if cfg.POINT_PLANE_FACTOR then
      (s, (List.range cfg.NUM_OF_LASER).foldl (marginalize_planeSensor cfg ext pivot_idx s) mi)
    else (s, mi)
  else (s, mi)

/-- The marginalization part of `optimizeMap` (estimator.cpp 644-803). -/
def optimizeMap_marginalize (cfg : Config K) (ext : Collaborators K IE MI)
    (s0 : Estimator K IE MI) : Estimator K IE MI :=
  let s := vector2Double cfg s0
  let mi0 := marginalize_lastPrior ext s
  let mi1 :=
    if cfg.PRIOR_FACTOR then
      (List.range cfg.NUM_OF_LASER).foldl (marginalize_addPrior cfg ext s) mi0
    else mi0
  let r := marginalize_window cfg ext s mi1
  let mi3 := ext.mi_marginalize (ext.mi_preMarginalize r.2 (r.1.para_pose_, r.1.para_ex_pose_))
  { r.1 with
    last_marginalization_info_ := some mi3
    last_marginalization_parameter_blocks_ := ext.mi_getParameterBlocks mi3 (addr_shift cfg) }

/-- The call `evalResidual(...)` guarded by `EVALUATE_RESIDUAL` (estimator.cpp
625, 637). -/
def optimizeMap_evaluate (cfg : Config K) (ext : Collaborators K IE MI) (a : Assembly K IE MI)
    (local_param_ids : List (PoseLocalParameterization K)) (b_eval_degenracy : Bool)
    (s : Estimator K IE MI) : Estimator K IE MI × List (PoseLocalParameterization K) :=
  if cfg.EVALUATE_RESIDUAL then
    evalResidual cfg ext a.problem local_param_ids a.para_ids a.res_ids_proj b_eval_degenracy s
  else (s, local_param_ids)

/-- The part of `optimizeMap` from the solver call on (estimator.cpp 630-803).
The second call of `evalResidual` leaves the degeneracy flag at its declared
default, taken to be `false`. -/
def optimizeMap_solve (cfg : Config K) (ext : Collaborators K IE MI) (a : Assembly K IE MI)
    (r1 : Estimator K IE MI × List (PoseLocalParameterization K)) : Estimator K IE MI :=
  let solved := ext.Solve a.problem r1.2 (r1.1.para_pose_, r1.1.para_ex_pose_)
  let s2 := { r1.1 with para_pose_ := solved.1, para_ex_pose_ := solved.2 }
  let r3 := optimizeMap_evaluate cfg ext a r1.2 false s2
  let s4 := double2Vector cfg r3.1
  if cfg.MARGINALIZATION_FACTOR then optimizeMap_marginalize cfg ext s4 else s4

/-- The method `Estimator::optimizeMap` (estimator.cpp 413-804). -/
def optimizeMap (cfg : Config K) (ext : Collaborators K IE MI) (s : Estimator K IE MI) :
    Estimator K IE MI :=
  let a := optimizeMap_assemble cfg ext s
  let r1 := optimizeMap_evaluate cfg ext a a.local_param_ids true a.s
  if !cfg.OPTIMAL_ODOMETRY then r1.1 else optimizeMap_solve cfg ext a r1

/-- The loop body of the first-frame branch of `process` (estimator.cpp 261-262). -/
def process_initSensor (s : Estimator K IE MI) (i : Nat) : Estimator K IE MI :=
  { s with
    pose_rlt_ := s.pose_rlt_.set i Pose.defaultPose
    pose_laser_cur_ := s.pose_laser_cur_.set i Pose.defaultPose }

/-- The first-frame branch of `process` (estimator.cpp 255-263). -/
def process_init (cfg : Config K) (s : Estimator K IE MI) : Estimator K IE MI :=
  (List.range cfg.NUM_OF_LASER).foldl process_initSensor { s with b_system_inited_ := true }

/-- The calibration attempt for sensor `i` in the bootstrap branch of
`process` (estimator.cpp 293-311); in `a || b` the call `b` is made only when
`a` is false. -/
def process_calibSensor (cfg : Config K) (ext : Collaborators K IE MI)
    (s : Estimator K IE MI) (i : Nat) : Estimator K IE MI :=
  let calib_result : Pose K := Pose.defaultPose
  let rot : Bool × Pose K × IE :=
    if ext.ie_cov_rot_state s.initial_extrinsics_ i then (true, calib_result, s.initial_extrinsics_)
    else ext.ie_calibExRotation s.initial_extrinsics_ cfg.IDX_REF i calib_result
  if rot.1 then
    let ie1 := ext.ie_setCovRotation rot.2.2 i
    let pos : Bool × Pose K × IE :=
      if ext.ie_cov_pos_state ie1 i then (true, rot.2.1, ie1)
      else ext.ie_calibExTranslation ie1 cfg.IDX_REF i rot.2.1
    if pos.1 then
      { s with
        initial_extrinsics_ := ext.ie_setCovTranslation pos.2.2 i
        qbl_ := s.qbl_.set i pos.2.1.q_
        tbl_ := s.tbl_.set i pos.2.1.t_
        QBL := s.QBL.set i pos.2.1.q_
        TBL := s.TBL.set i pos.2.1.t_ }
    else { s with initial_extrinsics_ := pos.2.2 }
  else { s with initial_extrinsics_ := rot.2.2 }

/-- The tracker call for sensor `i` in the bootstrap branch of `process`
(estimator.cpp 275-278). -/
def process_trackSensor (ext : Collaborators K IE MI) (s : Estimator K IE MI) (i : Nat) :
    Estimator K IE MI :=
  let rlt := ext.trackCloud (vget s.prev_feature_.2 i) (vget s.cur_feature_.2 i)
    (vget s.pose_rlt_ i)
  { s with
    pose_rlt_ := s.pose_rlt_.set i rlt
    pose_laser_cur_ := s.pose_laser_cur_.set i (Pose.mul ext.sqrt (vget s.pose_laser_cur_ i) rlt) }

/-- The call `initial_extrinsics_.addPose(pose_rlt_[i], i)` (estimator.cpp 285). -/
def process_addPose (ext : Collaborators K IE MI) (s : Estimator K IE MI) (i : Nat) :
    Estimator K IE MI :=
  { s with initial_extrinsics_ := ext.ie_addPose s.initial_extrinsics_ (vget s.pose_rlt_ i) i }

/-- The bootstrap branch of `process`, `ESTIMATE_EXTRINSIC == 2`
(estimator.cpp 269-321). -/
def process_bootstrap (cfg : Config K) (ext : Collaborators K IE MI)
    (s : Estimator K IE MI) : Estimator K IE MI :=
  let s1 := (List.range cfg.NUM_OF_LASER).foldl (process_trackSensor ext) s
  let s2 := (List.range cfg.NUM_OF_LASER).foldl (process_addPose ext) s1
  if s2.cir_buf_cnt_ = (cfg.WINDOW_SIZE : Int) then
    let s3 := (List.range cfg.NUM_OF_LASER).foldl (process_calibSensor cfg ext) s2
    if ext.ie_full_cov_rot_state s3.initial_extrinsics_ ∧
        ext.ie_full_cov_pos_state s3.initial_extrinsics_ then
      { s3 with
        ESTIMATE_EXTRINSIC := 1
        initial_extrinsics_ := ext.ie_saveStatistics s3.initial_extrinsics_ }
    else s3
  else s2

/-- The reference-tracker branch of `process`, `ESTIMATE_EXTRINSIC != 2`
(estimator.cpp 323-334). -/
def process_track (cfg : Config K) (ext : Collaborators K IE MI)
    (s : Estimator K IE MI) : Estimator K IE MI :=
  let rlt := ext.trackCloud (vget s.prev_feature_.2 cfg.IDX_REF) (vget s.cur_feature_.2 cfg.IDX_REF)
    (vget s.pose_rlt_ cfg.IDX_REF)
  { s with
    pose_rlt_ := s.pose_rlt_.set cfg.IDX_REF rlt
    pose_laser_cur_ := s.pose_laser_cur_.set cfg.IDX_REF
      (Pose.mul ext.sqrt (windowPose ext s (s.cir_buf_cnt_ - 1)) rlt) }

/-- The tracker part of `process` (estimator.cpp 255-335). -/
def process_tracker (cfg : Config K) (ext : Collaborators K IE MI)
    (s : Estimator K IE MI) : Estimator K IE MI :=
  if !s.b_system_inited_ then process_init cfg s
  else if s.ESTIMATE_EXTRINSIC = 2 then process_bootstrap cfg ext s
  else process_track cfg ext s

/-- The storing of the newest clouds of sensor `n` in `process`
(estimator.cpp 346-356). -/
def process_storeSensor (ext : Collaborators K IE MI) (s : Estimator K IE MI) (n : Nat) :
    Estimator K IE MI :=
  let c := s.cir_buf_cnt_
  let corner := cloudFeature.index (vget s.cur_feature_.2 n) "corner_points_less_sharp"
  let corner_downsampled := ext.down_size_filter_corner corner.1
  let surf := cloudFeature.index corner.2 "surf_points_less_flat"
  let surf_downsampled := ext.down_size_filter_surf surf.1
  { s with
    cur_feature_ := (s.cur_feature_.1, s.cur_feature_.2.set n surf.2)
    corner_points_stack_ :=
      s.corner_points_stack_.set n ((vget s.corner_points_stack_ n).set c corner_downsampled)
    corner_points_stack_size_ :=
      s.corner_points_stack_size_.set n
        ((vget s.corner_points_stack_size_ n).set c corner_downsampled.length)
    surf_points_stack_ :=
      s.surf_points_stack_.set n ((vget s.surf_points_stack_ n).set c surf_downsampled)
    surf_points_stack_size_ :=
      s.surf_points_stack_size_.set n
        ((vget s.surf_points_stack_size_ n).set c surf_downsampled.length) }

/-- The storing of the newest pose, header and clouds in slot `cir_buf_cnt_`
(estimator.cpp 337-357). -/
def process_store (cfg : Config K) (ext : Collaborators K IE MI) (s : Estimator K IE MI) :
    Estimator K IE MI :=
  let c := s.cir_buf_cnt_
  let s1 := { s with
    Qs_ := s.Qs_.set c (vget s.pose_laser_cur_ cfg.IDX_REF).q_
    Ts_ := s.Ts_.set c (vget s.pose_laser_cur_ cfg.IDX_REF).t_
    Header_ := s.Header_.set c { s.Header_.idx c with stamp := s.cur_feature_.1 } }
  (List.range cfg.NUM_OF_LASER).foldl (process_storeSensor ext) s1

/-- The `switch (solver_flag_)` of `process` (estimator.cpp 361-392). -/
def process_solver (cfg : Config K) (ext : Collaborators K IE MI) (s : Estimator K IE MI) :
    Estimator K IE MI :=
  match s.solver_flag_ with
  | SolverFlag.INITIAL =>
    let s1 := slideWindow cfg ext s
    let s2 :=
      if s1.cir_buf_cnt_ < (cfg.WINDOW_SIZE : Int) then
        let s1a := { s1 with cir_buf_cnt_ := s1.cir_buf_cnt_ + 1 }
        if s1a.cir_buf_cnt_ = (cfg.WINDOW_SIZE : Int) then slideWindow cfg ext s1a else s1a
      else s1
    if s2.cir_buf_cnt_ = (cfg.WINDOW_SIZE : Int) ∧ s2.ESTIMATE_EXTRINSIC ≠ 2 then
      { s2 with solver_flag_ := SolverFlag.NON_LINEAR }
    else s2
  | SolverFlag.NON_LINEAR =>
    let s1 := slideWindow cfg ext (optimizeMap cfg ext s)
    if s1.ESTIMATE_EXTRINSIC ≠ 0 then evalCalib cfg s1 else s1

/-- The feature swap that ends `process` (estimator.cpp 394-407): only the
maps' entries whose key contains "less" are kept. -/
def process_swap (s : Estimator K IE MI) : Estimator K IE MI :=
  { s with
    prev_time_ := s.cur_time_
    prev_feature_ := (s.cur_time_, s.cur_feature_.2.map fun m =>
      m.filter fun e => containsSubstring e.1 "less") }

/-- The method `Estimator::process` (estimator.cpp 253-410). -/
def process (cfg : Config K) (ext : Collaborators K IE MI) (s : Estimator K IE MI) :
    Estimator K IE MI :=
  process_swap (process_solver cfg ext (process_store cfg ext (process_tracker cfg ext s)))

/-- One turn of the `while (1)` loop of `processMeasurements` up to the
`break` test (estimator.cpp 227-247); publishing only reads the state. -/
def processMeasurements_turn (cfg : Config K) (ext : Collaborators K IE MI)
    (s : Estimator K IE MI) : Outcome (Estimator K IE MI) :=
  match s.feature_buf_ with
  | [] => Outcome.done s
  | front :: rest =>
    let s1 := { s with cur_feature_ := front, cur_time_ := front.1 + s.td_ }
    if s1.cur_feature_.2.length = cfg.NUM_OF_LASER then
      Outcome.done (process cfg ext { s1 with feature_buf_ := rest })
    else Outcome.assertion_failed s1

/-- The method `Estimator::processMeasurements` (estimator.cpp 223-251), run
for at most `fuel` turns of its loop; without `MULTIPLE_THREAD` the loop is
left after the first turn. -/
def processMeasurements (cfg : Config K) (ext : Collaborators K IE MI) :
    Nat → Estimator K IE MI → Outcome (Estimator K IE MI)
  | 0, s => Outcome.still_running s
  | fuel + 1, s =>
    match processMeasurements_turn cfg ext s with
    | Outcome.done s1 =>
      if !cfg.MULTIPLE_THREAD then Outcome.done s1 else processMeasurements cfg ext fuel s1
    | Outcome.assertion_failed s1 => Outcome.assertion_failed s1
    | Outcome.still_running s1 => Outcome.still_running s1

/-- The frame a call of `inputCloud` puts on the queue: the time stamp and
the features extracted from every input cloud. -/
def inputFrame (ext : Collaborators K IE MI) (t : K) (v_laser_cloud_in : List (PointCloud K)) :
    Frame K :=
  (t, v_laser_cloud_in.map fun cloud => ext.extractCloud t cloud)

/-- The method `Estimator::inputCloud(t, v_laser_cloud_in)` (estimator.cpp
190-206); `fuel` bounds the turns of the loop of `processMeasurements`. -/
def inputCloud (cfg : Config K) (ext : Collaborators K IE MI) (fuel : Nat) (t : K)
    (v_laser_cloud_in : List (PointCloud K)) (s : Estimator K IE MI) :
    Outcome (Estimator K IE MI) :=
  let s1 := { s with
    input_cloud_cnt_ := s.input_cloud_cnt_ + 1
    feature_buf_ := s.feature_buf_ ++ [inputFrame ext t v_laser_cloud_in] }
  if !cfg.MULTIPLE_THREAD then processMeasurements cfg ext fuel s1 else Outcome.done s1

/-- The method `Estimator::inputCloud(t, laser_cloud_in)` for a single cloud
(estimator.cpp 208-221). -/
def inputCloud_single (cfg : Config K) (ext : Collaborators K IE MI) (fuel : Nat) (t : K)
    (laser_cloud_in : PointCloud K) (s : Estimator K IE MI) : Outcome (Estimator K IE MI) :=
  inputCloud cfg ext fuel t [laser_cloud_in] s

/-- The members that `optimizeMap` does not write: the
calibration mode, the driver flags and counters, the queue and the frames, the
tracker poses, the initializer, the headers and the size stacks. -/
structure DriverView (K IE MI : Type) where
  ESTIMATE_EXTRINSIC : Int
  solver_flag_ : SolverFlag
  cir_buf_cnt_ : Int
  b_system_inited_ : Bool
  feature_buf_ : List (Frame K)
  cur_feature_ : Frame K
  prev_feature_ : Frame K
  cur_time_ : K
  prev_time_ : K
  td_ : K
  input_cloud_cnt_ : Int
  pose_laser_cur_ : List (Pose K)
  pose_rlt_ : List (Pose K)
  initial_extrinsics_ : IE
  Header_ : CircularBuffer (Header K)
  surf_points_stack_size_ : List (CircularBuffer Nat)
  corner_points_stack_size_ : List (CircularBuffer Nat)
  QBL : List (Quaterniond K)
  TBL : List (Vector3d K)

/-- The driver view of an estimator state. -/
def Estimator.driverView (s : Estimator K IE MI) : DriverView K IE MI :=
  { ESTIMATE_EXTRINSIC := s.ESTIMATE_EXTRINSIC
    solver_flag_ := s.solver_flag_
    cir_buf_cnt_ := s.cir_buf_cnt_
    b_system_inited_ := s.b_system_inited_
    feature_buf_ := s.feature_buf_
    cur_feature_ := s.cur_feature_
    prev_feature_ := s.prev_feature_
    cur_time_ := s.cur_time_
    prev_time_ := s.prev_time_
    td_ := s.td_
    input_cloud_cnt_ := s.input_cloud_cnt_
    pose_laser_cur_ := s.pose_laser_cur_
    pose_rlt_ := s.pose_rlt_
    initial_extrinsics_ := s.initial_extrinsics_
    Header_ := s.Header_
    surf_points_stack_size_ := s.surf_points_stack_size_
    corner_points_stack_size_ := s.corner_points_stack_size_
    QBL := s.QBL
    TBL := s.TBL }

/-- What adding residual blocks and building maps leave alone in an
assembly: the blocks set constant, the parameter blocks and the driver view. -/
def Assembly.blocksAndDriver (a : Assembly K IE MI) :
    List ParamBlock × List (ParamBlock × Nat) × DriverView K IE MI :=
  (a.problem.constant_blocks, a.problem.parameter_blocks, a.s.driverView)

/-- The window, the extrinsics, the driver flags and the queue are the same
in `s` and `s1`. -/
def SameWindowAndMode (s s1 : Estimator K IE MI) : Prop :=
  s1.Qs_ = s.Qs_ ∧ s1.Ts_ = s.Ts_ ∧ s1.Header_ = s.Header_ ∧
  s1.surf_points_stack_ = s.surf_points_stack_ ∧
  s1.surf_points_stack_size_ = s.surf_points_stack_size_ ∧
  s1.corner_points_stack_ = s.corner_points_stack_ ∧
  s1.corner_points_stack_size_ = s.corner_points_stack_size_ ∧
  s1.qbl_ = s.qbl_ ∧ s1.tbl_ = s.tbl_ ∧ s1.tdbl_ = s.tdbl_ ∧
  s1.solver_flag_ = s.solver_flag_ ∧ s1.cir_buf_cnt_ = s.cir_buf_cnt_ ∧
  s1.ESTIMATE_EXTRINSIC = s.ESTIMATE_EXTRINSIC ∧
  s1.b_system_inited_ = s.b_system_inited_ ∧ s1.feature_buf_ = s.feature_buf_

/-- The state in which `process` is entered for `frame` when the queue held
that frame alone: the frame is loaded as `cur_feature_`, the current time is
its stamp plus `td_`, and the queue is empty again. -/
def frameLoaded (s : Estimator K IE MI) (frame : Frame K) : Estimator K IE MI :=
  { s with cur_feature_ := frame, cur_time_ := frame.1 + s.td_, feature_buf_ := [] }

/-- A run of `inputCloud` calls, one after the other, stopping at the first
call that does not return normally. -/
def inputClouds (cfg : Config K) (ext : Collaborators K IE MI) (fuel : Nat) :
    List (K × List (PointCloud K)) → Estimator K IE MI → Outcome (Estimator K IE MI)
  | [], s => Outcome.done s
  | call :: rest, s =>
    match inputCloud cfg ext fuel call.1 call.2 s with
    | Outcome.done s1 => inputClouds cfg ext fuel rest s1
    | other => other

/-- The effect of one accepted call `inputCloud(t, clouds)` in single-thread
mode: the call is counted, its frame is loaded and `process` runs on it. -/
def acceptCall (cfg : Config K) (ext : Collaborators K IE MI) (s : Estimator K IE MI)
    (call : K × List (PointCloud K)) : Estimator K IE MI :=
  process cfg ext
    (frameLoaded { s with input_cloud_cnt_ := s.input_cloud_cnt_ + 1 }
      (inputFrame ext call.1 call.2))

/-- A run of degeneracy-analyzer passes, each with its own local
parameterizations and Jacobian, on the threshold table. -/
def analyzerPasses (cfg : Config K) (ext : Collaborators K IE MI)
    (passes : List (List (PoseLocalParameterization K) × CRSMatrix K)) (eig_thre_calib : List K) :
    List K :=
  passes.foldl (fun thr pass => (evalDegenracy cfg ext pass.1 pass.2 thr).2) eig_thre_calib

/-- Every window sequence has `WINDOW_SIZE + 1` slots and every per-sensor
bank holds `NUM_OF_LASER` sequences (the shape `setParameter` establishes). -/
def WindowShaped (cfg : Config K) (s : Estimator K IE MI) : Prop :=
  s.Qs_.size = cfg.WINDOW_SIZE + 1 ∧
  s.Ts_.size = cfg.WINDOW_SIZE + 1 ∧
  s.Header_.size = cfg.WINDOW_SIZE + 1 ∧
  (s.surf_points_stack_.length = cfg.NUM_OF_LASER ∧
    ∀ b ∈ s.surf_points_stack_, b.size = cfg.WINDOW_SIZE + 1) ∧
  (s.surf_points_stack_size_.length = cfg.NUM_OF_LASER ∧
    ∀ b ∈ s.surf_points_stack_size_, b.size = cfg.WINDOW_SIZE + 1) ∧
  (s.corner_points_stack_.length = cfg.NUM_OF_LASER ∧
    ∀ b ∈ s.corner_points_stack_, b.size = cfg.WINDOW_SIZE + 1) ∧
  (s.corner_points_stack_size_.length = cfg.NUM_OF_LASER ∧
    ∀ b ∈ s.corner_points_stack_size_, b.size = cfg.WINDOW_SIZE + 1)

instance (cfg : Config K) (s : Estimator K IE MI) : Decidable (WindowShaped cfg s) := by
  unfold WindowShaped
  infer_instance

/-- Slide consistency of the pose, header and size channels between a state
`s` and the state `s1` after a slide: slot `W - 1` of `s1` holds what slot `W`
of `s` held. -/
def SlideKeepsNewest (cfg : Config K) (s s1 : Estimator K IE MI) : Prop :=
  s1.Qs_.idx ((cfg.WINDOW_SIZE : Int) - 1) = s.Qs_.idx (cfg.WINDOW_SIZE : Int) ∧
  s1.Ts_.idx ((cfg.WINDOW_SIZE : Int) - 1) = s.Ts_.idx (cfg.WINDOW_SIZE : Int) ∧
  s1.Header_.idx ((cfg.WINDOW_SIZE : Int) - 1) = s.Header_.idx (cfg.WINDOW_SIZE : Int) ∧
  ∀ n, n < cfg.NUM_OF_LASER →
    (vget s1.surf_points_stack_size_ n).idx ((cfg.WINDOW_SIZE : Int) - 1) =
      (vget s.surf_points_stack_size_ n).idx (cfg.WINDOW_SIZE : Int) ∧
    (vget s1.corner_points_stack_size_ n).idx ((cfg.WINDOW_SIZE : Int) - 1) =
      (vget s.corner_points_stack_size_ n).idx (cfg.WINDOW_SIZE : Int)

/-- Slide consistency of the surface and edge cloud channels. -/
def SlideKeepsNewestClouds (cfg : Config K) (s s1 : Estimator K IE MI) : Prop :=
  ∀ n, n < cfg.NUM_OF_LASER →
    (vget s1.surf_points_stack_ n).idx ((cfg.WINDOW_SIZE : Int) - 1) =
      (vget s.surf_points_stack_ n).idx (cfg.WINDOW_SIZE : Int) ∧
    (vget s1.corner_points_stack_ n).idx ((cfg.WINDOW_SIZE : Int) - 1) =
      (vget s.corner_points_stack_ n).idx (cfg.WINDOW_SIZE : Int)

/-- Two per-sensor banks of window sequences have the same shape and agree in
every slot other than `i`. -/
def AgreeOffSlot {α : Type} [Inhabited α] (i : Int) (v v1 : List (CircularBuffer α)) : Prop :=
  v1.length = v.length ∧
  ∀ n, (vget v1 n).size = (vget v n).size ∧ ∀ j, j ≠ i → (vget v1 n).idx j = (vget v n).idx j

/-- The convergence test of `evalCalib` as the specification words it: the
recorded threshold of every non-reference sensor exceeds `EIG_THRE_CALIB`. -/
def thresholdsExceed (cfg : Config K) (s : Estimator K IE MI) : Prop :=
  ∀ n, n < cfg.NUM_OF_LASER → n ≠ cfg.IDX_REF →
    cfg.EIG_THRE_CALIB < s.eig_thre_calib_.getD (cfg.OPT_WINDOW_SIZE + 1 + n) 0

/-- The convergence test of `evalCalib` as the code makes it: no recorded
threshold of a non-reference sensor is below `EIG_THRE_CALIB`. -/
def thresholdsReached (cfg : Config K) (s : Estimator K IE MI) : Prop :=
  ∀ n, n < cfg.NUM_OF_LASER → n ≠ cfg.IDX_REF →
    cfg.EIG_THRE_CALIB ≤ s.eig_thre_calib_.getD (cfg.OPT_WINDOW_SIZE + 1 + n) 0

/-- The state `evalCalib` leaves on convergence: calibration mode 0, the
fixed-local-map flag cleared, no marginalization prior, no prior blocks. -/
def CalibFinished (s1 : Estimator K IE MI) : Prop :=
  s1.ESTIMATE_EXTRINSIC = 0 ∧ s1.ini_fixed_local_map_ = false ∧
  s1.last_marginalization_info_.isNone = true ∧ s1.last_marginalization_parameter_blocks_ = []

/-- The four members `evalCalib` may write are the same in `s` and `s1`. -/
def CalibUntouched (s s1 : Estimator K IE MI) : Prop :=
  s1.ESTIMATE_EXTRINSIC = s.ESTIMATE_EXTRINSIC ∧
  s1.ini_fixed_local_map_ = s.ini_fixed_local_map_ ∧
  s1.last_marginalization_info_.isNone = s.last_marginalization_info_.isNone ∧
  s1.last_marginalization_parameter_blocks_ = s.last_marginalization_parameter_blocks_

end EstimatorCode

/-! ## A concrete instance over the rationals -/

/-- The exact affine map of `pcl::transformPointCloud`: every point is sent
to `R p + t`, the intensity is kept. -/
def transformPointCloud_exact {K : Type} [Add K] [Mul K] (cloud : PointICloud K)
    (T : Matrix4d K) : PointICloud K :=
  cloud.map fun p =>
    { x := T 0 0 * p.x + T 0 1 * p.y + T 0 2 * p.z + T 0 3
      y := T 1 0 * p.x + T 1 1 * p.y + T 1 2 * p.z + T 1 3
      z := T 2 0 * p.x + T 2 1 * p.y + T 2 2 * p.z + T 2 3
      intensity := p.intensity }

/-- Collaborators over `ℚ` with trivial behaviour: no downsampling, a tracker
that repeats the last relative pose, an initializer that reports convergence
at once, a solver that leaves the parameters alone, an eigen-solver that
reads the diagonal (exact for diagonal matrices) and a 6x6 inverse that
transposes (exact for orthonormal matrices). -/
def exampleCollaborators : Collaborators ℚ Unit Unit where
  sqrt := Rat.sqrt
  extractCloud := fun _ cloud =>
    [("corner_points_less_sharp", []),
     ("surf_points_less_flat", cloud.map fun p => ⟨p.x, p.y, p.z, 0⟩)]
  down_size_filter_corner := fun c => c
  down_size_filter_surf := fun c => c
  extractSurfFromMap := fun _ _ _ _ => []
  extractCornerFromMap := fun _ _ _ _ => []
  trackCloud := fun _ _ pose => pose
  ie_clearState := fun ie => ie
  ie_setParameter := fun ie => ie
  ie_addPose := fun ie _ _ => ie
  ie_cov_rot_state := fun _ _ => true
  ie_cov_pos_state := fun _ _ => true
  ie_calibExRotation := fun ie _ _ pose => (true, pose, ie)
  ie_calibExTranslation := fun ie _ _ pose => (true, pose, ie)
  ie_setCovRotation := fun ie _ => ie
  ie_setCovTranslation := fun ie _ => ie
  ie_full_cov_rot_state := fun _ => true
  ie_full_cov_pos_state := fun _ => true
  ie_saveStatistics := fun ie => ie
  transformPointCloud := transformPointCloud_exact
  voxelGrid := fun _ c => c
  Solve := fun _ _ params => params
  Evaluate := fun _ _ _ _ => ⟨0, 0, [0], [], []⟩
  newPoseLocalParameterization := ⟨false, 1⟩
  lp_setParameter := fun _ => ⟨false, 1⟩
  eigensolver := fun H => (fun j => H j j, 1)
  inverse6 := fun M => M.transpose
  mi_new := ()
  mi_addResidualBlockInfo := fun _ _ => ()
  mi_preMarginalize := fun _ _ => ()
  mi_marginalize := fun _ => ()
  mi_getParameterBlocks := fun _ shift => shift.map fun e => e.2

/-- A configuration with two sensors, a window of `W = 2` and an optimization
window of `O = 1`. -/
def exampleConfig : Config ℚ where
  NUM_OF_LASER := 2
  WINDOW_SIZE := 2
  OPT_WINDOW_SIZE := 1
  IDX_REF := 0
  MULTIPLE_THREAD := false
  N_CUMU_FEATURE := 10
  EIG_INITIAL := 10
  EIG_THRE_CALIB := 70
  PRIOR_FACTOR := false
  POINT_PLANE_FACTOR := true
  POINT_EDGE_FACTOR := false
  MARGINALIZATION_FACTOR := true
  PRIOR_FACTOR_POS := 1
  PRIOR_FACTOR_ROT := 1
  EVALUATE_RESIDUAL := true
  OPTIMAL_ODOMETRY := true
  PCL_VIEWER := false

/-- An estimator object with empty containers, in calibration mode
`ESTIMATE_EXTRINSIC = 1` and identity extrinsic guesses for two sensors. -/
def blankEstimator : Estimator ℚ Unit Unit where
  ESTIMATE_EXTRINSIC := 1
  CHECK_JACOBIAN := 0
  QBL := [Quaterniond.Identity, Quaterniond.Identity]
  TBL := [Vector3d.Zero, Vector3d.Zero]
  TDBL := [0, 0]
  init_thread_flag_ := false
  b_system_inited_ := false
  prev_time_ := 0
  cur_time_ := 0
  input_cloud_cnt_ := 0
  td_ := 0
  solver_flag_ := SolverFlag.INITIAL
  pose_laser_cur_ := []
  pose_rlt_ := []
  qbl_ := []
  tbl_ := []
  tdbl_ := []
  initial_extrinsics_ := ()
  ini_fixed_local_map_ := false
  cir_buf_cnt_ := 0
  Qs_ := ⟨[]⟩
  Ts_ := ⟨[]⟩
  Header_ := ⟨[]⟩
  surf_points_stack_ := []
  surf_points_stack_size_ := []
  corner_points_stack_ := []
  corner_points_stack_size_ := []
  surf_points_local_map_ := []
  surf_points_local_map_filtered_ := []
  surf_points_pivot_map_ := []
  corner_points_local_map_ := []
  corner_points_local_map_filtered_ := []
  corner_points_pivot_map_ := []
  surf_map_features_ := []
  corner_map_features_ := []
  cumu_surf_map_features_ := []
  cumu_corner_map_features_ := []
  pose_local_ := []
  last_marginalization_info_ := none
  last_marginalization_parameter_blocks_ := []
  para_pose_ := []
  para_ex_pose_ := []
  para_td_ := []
  eig_thre_calib_ := []
  feature_buf_ := []
  cur_feature_ := (0, [])
  prev_feature_ := (0, [])

/-- The estimator after construction and `setParameter`, ready for its first frame. -/
def readyEstimator : Estimator ℚ Unit Unit :=
  setParameter exampleConfig exampleCollaborators (clearState exampleCollaborators blankEstimator)

/-- A full window in which the fixed local map is initialised: the pivot slot
(slot 1) of the reference sensor holds two surface points, the newest slot
(slot 2) holds one, and the oldest slot is recorded with size 0. -/
def mergedPivotEstimator : Estimator ℚ Unit Unit :=
  { readyEstimator with
    ini_fixed_local_map_ := true
    solver_flag_ := SolverFlag.NON_LINEAR
    cir_buf_cnt_ := 2
    surf_points_stack_ := [⟨[[], [⟨1, 0, 0, 1⟩, ⟨0, 1, 0, 1⟩], [⟨0, 0, 1, 2⟩]]⟩, ⟨[[], [], []]⟩]
    surf_points_stack_size_ := [⟨[0, 2, 1]⟩, ⟨[0, 0, 0]⟩] }

/-- The same full window before the fixed local map is built. -/
def unmergedEstimator : Estimator ℚ Unit Unit :=
  { mergedPivotEstimator with ini_fixed_local_map_ := false }

/-- A calibrating estimator in the NON_LINEAR state whose recorded threshold
for the non-reference sensor (entry `O + 1 + 1 = 3`) equals `EIG_THRE_CALIB`,
holding a marginalization prior. -/
def thresholdAtBoundEstimator : Estimator ℚ Unit Unit :=
  { readyEstimator with
    solver_flag_ := SolverFlag.NON_LINEAR
    cir_buf_cnt_ := 2
    ini_fixed_local_map_ := true
    last_marginalization_info_ := some ()
    last_marginalization_parameter_blocks_ := [ParamBlock.para_pose 0, ParamBlock.para_ex_pose 1]
    eig_thre_calib_ := [10, 10, 10, 70] }

/-- The ready two-sensor estimator with one queued frame that carries a
single (empty) feature set. -/
def shortFrameEstimator : Estimator ℚ Unit Unit :=
  { readyEstimator with feature_buf_ := [(1, [[]])] }

/-- A dense matrix `diag(1, 2, 3, 4, 5, 6)`, the Gramian of a one-block problem. -/
def diagonalGramian : MatrixXd ℚ :=
  ⟨[[1, 0, 0, 0, 0, 0], [0, 2, 0, 0, 0, 0], [0, 0, 3, 0, 0, 0],
    [0, 0, 0, 4, 0, 0], [0, 0, 0, 0, 5, 0], [0, 0, 0, 0, 0, 6]]⟩

/-- Two input clouds, one per sensor. -/
def twoClouds : List (PointCloud ℚ) := [[⟨1, 0, 0⟩, ⟨0, 1, 0⟩], [⟨0, 0, 1⟩]]

/-- A pose with the unit quaternion of the half turn about the x axis. -/
def halfTurnPose : Pose ℚ := Pose.ofQuaternion Rat.sqrt ⟨0, 1, 0, 0⟩ ⟨1, 2, 3⟩ 0

/-- A pose with the unit quaternion `(3/5, 0, 4/5, 0)`. -/
def tiltedPose : Pose ℚ := Pose.ofQuaternion Rat.sqrt ⟨3 / 5, 0, 4 / 5, 0⟩ ⟨-1, 0, 2⟩ 0

/-! ## The remaining constructors of `Pose` and `computeMeanPose` (pose.cpp) -/

/-- The four times the outer product of a unit quaternion `(w, x, y, z)` with
itself, written in the entries of its rotation matrix `m`: row and column 0
stand for `w`, 1 for `x`, 2 for `y`, 3 for `z`. -/
def quaternionOuter {K : Type} [Field K] (m : Matrix3d K) : Fin 4 → Fin 4 → K :=
  ![![1 + m 0 0 + m 1 1 + m 2 2, m 2 1 - m 1 2, m 0 2 - m 2 0, m 1 0 - m 0 1],
    ![m 2 1 - m 1 2, 1 + m 0 0 - m 1 1 - m 2 2, m 1 0 + m 0 1, m 0 2 + m 2 0],
    ![m 0 2 - m 2 0, m 1 0 + m 0 1, 1 - m 0 0 + m 1 1 - m 2 2, m 2 1 + m 1 2],
    ![m 1 0 - m 0 1, m 0 2 + m 2 0, m 2 1 + m 1 2, 1 - m 0 0 - m 1 1 + m 2 2]]

/-- Eigen::Matrix<double, 6, 1>. -/
abbrev Vector6d (K : Type) := Fin 6 → K

/-- The member `Pose::se3()` (pose.cpp 106-113): the logarithm `Sophus::SE3(q_, t_).log()`,
with the library's logarithm passed as `log`. -/
def Pose.se3 {K : Type} (log : Quaterniond K → Vector3d K → Vector6d K) (a : Pose K) :
    Vector6d K :=
  log a.q_ a.t_

/-- The body of the first loop of `computeMeanPose` (pose.cpp 135-136), on
the pair (`weight_total`, `xi_total`). -/
def computeMeanPose_accumulate {K : Type} [Field K]
    (log : Quaterniond K → Vector3d K → Vector6d K) (acc : K × Vector6d K) (e : K × Pose K) :
    K × Vector6d K :=
  (acc.1 + e.1, acc.2 + e.1 • e.2.se3 log)

/-- The body of the second loop of `computeMeanPose` (pose.cpp 144-145), on
`pose_cov`. -/
def computeMeanPose_scatter {K : Type} [Field K]
    (log : Quaterniond K → Vector3d K → Vector6d K) (xi_mean : Vector6d K)
    (pose_cov : Matrix6d K) (e : K × Pose K) : Matrix6d K :=
  let xi := e.2.se3 log
  pose_cov + (e.1 ^ 2) • Matrix.vecMulVec (xi - xi_mean) (xi - xi_mean)

/-- The function `computeMeanPose` (pose.cpp 119-151), returning its two
out-parameters `pose_mean` and `pose_cov`. `log` and `exp` are the logarithm
and the exponential (as a 4x4 matrix) of `Sophus::SE3`. The divisor
`pose_array.size() - 1` is computed in `size_t` (64 bits, wrapping). The
statement of line 147 is written without its closing semicolon in the source;
it is taken as the division it spells. -/
def computeMeanPose {K : Type} [LinearOrderedField K] (sqrt : K → K)
    (log : Quaterniond K → Vector3d K → Vector6d K) (exp : Vector6d K → Matrix4d K)
    (pose_array : List (K × Pose K)) : Pose K × Matrix6d K :=
  match pose_array with
  | [e] => (e.2, 0)
  | _ =>
    let acc := pose_array.foldl (computeMeanPose_accumulate log) (0, 0)
    let weight_total := acc.1
    let xi_total := acc.2
    let xi_mean : Vector6d K := fun i => xi_total i / weight_total
    let pose_mean := Pose.ofMatrix sqrt (exp xi_mean) 0
    let pose_cov := pose_array.foldl (computeMeanPose_scatter log xi_mean) 0
    let divisor : Nat := (pose_array.length + (2 ^ 64 - 1)) % 2 ^ 64
    (pose_mean, Matrix.of fun i j => pose_cov i j / (divisor : K))

/-- The weighted mean twist as the specification words it:
`(sum of w_k * log P_k) / (sum of w_k)`. -/
def weightedMeanTwist {K : Type} [Field K] (log : Quaterniond K → Vector3d K → Vector6d K)
    (pose_array : List (K × Pose K)) : Vector6d K :=
  fun i => (pose_array.map fun e => e.1 * e.2.se3 log i).sum / (pose_array.map fun e => e.1).sum

/-- The covariance as the specification words it: the sum of
`w_k^2 (log P_k - mean)(log P_k - mean)^T`, divided by `K - 1`. -/
def weightedCovariance {K : Type} [Field K] (log : Quaterniond K → Vector3d K → Vector6d K)
    (pose_array : List (K × Pose K)) : Matrix6d K :=
  Matrix.of fun i j =>
    (pose_array.map fun e =>
      e.1 ^ 2 * ((e.2.se3 log i - weightedMeanTwist log pose_array i) *
        (e.2.se3 log j - weightedMeanTwist log pose_array j))).sum /
      ((pose_array.length : K) - 1)

/-! ## Runs of the driver and views of the assembled problem -/

section Runs

variable {K IE MI : Type} [LinearOrderedField K]

/-- One driver cycle: `frame` is dequeued as in `processMeasurements` and
`process()` runs on it. -/
def processCycle (cfg : Config K) (ext : Collaborators K IE MI) (s : Estimator K IE MI)
    (frame : Frame K) : Estimator K IE MI :=
  process cfg ext (frameLoaded s frame)

/-- A run of driver cycles, one per frame, in order. -/
def processCycles (cfg : Config K) (ext : Collaborators K IE MI) (frames : List (Frame K))
    (s : Estimator K IE MI) : Estimator K IE MI :=
  frames.foldl (processCycle cfg ext) s

/-- A step on the window: a driver cycle on a frame, or a bare `slideWindow()`. -/
inductive WindowOp (K : Type) where
  | cycle (frame : Frame K)
  | slide

/-- The effect of one window step. -/
def applyWindowOp (cfg : Config K) (ext : Collaborators K IE MI) (s : Estimator K IE MI) :
    WindowOp K → Estimator K IE MI
  | WindowOp.cycle frame => processCycle cfg ext s frame
  | WindowOp.slide => slideWindow cfg ext s

/-- A run of window steps, in order. -/
def applyWindowOps (cfg : Config K) (ext : Collaborators K IE MI) (ops : List (WindowOp K))
    (s : Estimator K IE MI) : Estimator K IE MI :=
  ops.foldl (applyWindowOp cfg ext) s

/-- The lengths of the window sequences that `optimizeMap` writes: the poses
and, per sensor, the surface and edge stacks. -/
def Estimator.stackShape (s : Estimator K IE MI) : Nat × Nat × List Nat × List Nat :=
  (s.Qs_.size, s.Ts_.size, s.surf_points_stack_.map CircularBuffer.size,
    s.corner_points_stack_.map CircularBuffer.size)

/-- The lengths of all window sequences: poses, headers and, per sensor, the
surface, surface-size, edge and edge-size stacks. -/
def Estimator.windowShape (s : Estimator K IE MI) :
    Nat × Nat × Nat × List Nat × List Nat × List Nat × List Nat :=
  (s.Qs_.size, s.Ts_.size, s.Header_.size, s.surf_points_stack_.map CircularBuffer.size,
    s.surf_points_stack_size_.map CircularBuffer.size,
    s.corner_points_stack_.map CircularBuffer.size,
    s.corner_points_stack_size_.map CircularBuffer.size)

/-- The lengths of the window sequences an assembly carries. -/
def Assembly.stackShape (a : Assembly K IE MI) : Nat × Nat × List Nat × List Nat :=
  a.s.stackShape

/-- The initializer update of a bootstrap cycle (estimator.cpp 272-312): the
trackers, `addPose` for every sensor and, with a full window, the calibration
attempt of every sensor; the state in which the convergence flags are read at
line 313. -/
def process_initializerUpdate (cfg : Config K) (ext : Collaborators K IE MI)
    (s : Estimator K IE MI) : Estimator K IE MI :=
  let s1 := (List.range cfg.NUM_OF_LASER).foldl (process_trackSensor ext) s
  let s2 := (List.range cfg.NUM_OF_LASER).foldl (process_addPose ext) s1
  if s2.cir_buf_cnt_ = (cfg.WINDOW_SIZE : Int) then
    (List.range cfg.NUM_OF_LASER).foldl (process_calibSensor cfg ext) s2
  else s2

/-- The initializer reports both the full rotation and the full translation
convergence flag. -/
def InitializerConverged (ext : Collaborators K IE MI) (ie : IE) : Prop :=
  ext.ie_full_cov_rot_state ie = true ∧ ext.ie_full_cov_pos_state ie = true

instance (ext : Collaborators K IE MI) (ie : IE) : Decidable (InitializerConverged ext ie) := by
  unfold InitializerConverged
  infer_instance

/-- Whether a cost function is an extrinsic `PriorFactor`. -/
def CostFunction.isPriorFactor : CostFunction K MI → Bool
  | CostFunction.PriorFactor _ _ _ _ => true
  | _ => false

/-- The extrinsic prior factors of a problem, in the order they were added. -/
def Problem.priorFactors (p : Problem K MI) : List (ResidualBlock K MI) :=
  p.residual_blocks.filter fun r => r.cost_function.isPriorFactor

/-- The extrinsic prior factors of a problem that are attached to `ex_pose[n]`. -/
def Problem.priorFactorsOn (p : Problem K MI) (n : Nat) : List (ResidualBlock K MI) :=
  p.priorFactors.filter fun r => decide (ParamBlock.para_ex_pose n ∈ r.parameter_blocks)

/-- The extrinsic prior factors of the problem an assembly carries. -/
def Assembly.priorFactors (a : Assembly K IE MI) : List (ResidualBlock K MI) :=
  a.problem.priorFactors

/-- The lookup in the `std::unordered_map` `addr_shift`: the value stored
under `key`, if there is one. -/
def mapFind (m : List (ParamBlock × ParamBlock)) (key : ParamBlock) : Option ParamBlock :=
  (m.find? fun e => decide (e.1 = key)).map fun e => e.2

end Runs

/-- A stand-in for the SE(3) logarithm over `ℚ`: the translation followed by
the vector part of the quaternion. -/
def exampleLog (q : Quaterniond ℚ) (t : Vector3d ℚ) : Vector6d ℚ := ![t.x, t.y, t.z, q.x, q.y, q.z]

/-- A stand-in for the SE(3) exponential over `ℚ`: the pure translation by
the first three coordinates. -/
def exampleExp (xi : Vector6d ℚ) : Matrix4d ℚ := homogeneous 1 ⟨xi 0, xi 1, xi 2⟩

/-- Two weighted poses. -/
def twoWeightedPoses : List (ℚ × Pose ℚ) := [(1, halfTurnPose), (3, tiltedPose)]

/-- Collaborators over `ℚ` as `exampleCollaborators`, with an initializer that
keeps two flags (rotation converged, translation converged): both are cleared
by `setParameter`, and a calibration attempt succeeds and sets its flag. -/
def bootstrapCollaborators : Collaborators ℚ (Bool × Bool) Unit where
  sqrt := Rat.sqrt
  extractCloud := exampleCollaborators.extractCloud
  down_size_filter_corner := fun c => c
  down_size_filter_surf := fun c => c
  extractSurfFromMap := fun _ _ _ _ => []
  extractCornerFromMap := fun _ _ _ _ => []
  trackCloud := fun _ _ pose => pose
  ie_clearState := fun ie => ie
  ie_setParameter := fun _ => (false, false)
  ie_addPose := fun ie _ _ => ie
  ie_cov_rot_state := fun ie _ => ie.1
  ie_cov_pos_state := fun ie _ => ie.2
  ie_calibExRotation := fun ie _ _ pose => (true, pose, ie)
  ie_calibExTranslation := fun ie _ _ pose => (true, pose, ie)
  ie_setCovRotation := fun ie _ => (true, ie.2)
  ie_setCovTranslation := fun ie _ => (ie.1, true)
  ie_full_cov_rot_state := fun ie => ie.1
  ie_full_cov_pos_state := fun ie => ie.2
  ie_saveStatistics := fun ie => ie
  transformPointCloud := transformPointCloud_exact
  voxelGrid := fun _ c => c
  Solve := fun _ _ params => params
  Evaluate := fun _ _ _ _ => ⟨0, 0, [0], [], []⟩
  newPoseLocalParameterization := ⟨false, 1⟩
  lp_setParameter := fun _ => ⟨false, 1⟩
  eigensolver := fun H => (fun j => H j j, 1)
  inverse6 := fun M => M.transpose
  mi_new := ()
  mi_addResidualBlockInfo := fun _ _ => ()
  mi_preMarginalize := fun _ _ => ()
  mi_marginalize := fun _ => ()
  mi_getParameterBlocks := fun _ shift => shift.map fun e => e.2

/-- An estimator object with empty containers in bootstrap mode
`ESTIMATE_EXTRINSIC = 2`, for two sensors. -/
def bootstrapEstimator : Estimator ℚ (Bool × Bool) Unit where
  ESTIMATE_EXTRINSIC := 2
  CHECK_JACOBIAN := 0
  QBL := [Quaterniond.Identity, Quaterniond.Identity]
  TBL := [Vector3d.Zero, Vector3d.Zero]
  TDBL := [0, 0]
  init_thread_flag_ := false
  b_system_inited_ := false
  prev_time_ := 0
  cur_time_ := 0
  input_cloud_cnt_ := 0
  td_ := 0
  solver_flag_ := SolverFlag.INITIAL
  pose_laser_cur_ := []
  pose_rlt_ := []
  qbl_ := []
  tbl_ := []
  tdbl_ := []
  initial_extrinsics_ := (false, false)
  ini_fixed_local_map_ := false
  cir_buf_cnt_ := 0
  Qs_ := ⟨[]⟩
  Ts_ := ⟨[]⟩
  Header_ := ⟨[]⟩
  surf_points_stack_ := []
  surf_points_stack_size_ := []
  corner_points_stack_ := []
  corner_points_stack_size_ := []
  surf_points_local_map_ := []
  surf_points_local_map_filtered_ := []
  surf_points_pivot_map_ := []
  corner_points_local_map_ := []
  corner_points_local_map_filtered_ := []
  corner_points_pivot_map_ := []
  surf_map_features_ := []
  corner_map_features_ := []
  cumu_surf_map_features_ := []
  cumu_corner_map_features_ := []
  pose_local_ := []
  last_marginalization_info_ := none
  last_marginalization_parameter_blocks_ := []
  para_pose_ := []
  para_ex_pose_ := []
  para_td_ := []
  eig_thre_calib_ := []
  feature_buf_ := []
  cur_feature_ := (0, [])
  prev_feature_ := (0, [])

/-- Two frames without features for two sensors, stamped 0 and 1. -/
def twoEmptyFrames : List (Frame ℚ) := [(0, [[], []]), (1, [[], []])]

/-- A full window whose edge stacks hold data: one edge point in the oldest
slot of the reference sensor. -/
def edgeLoadedEstimator : Estimator ℚ Unit Unit :=
  { mergedPivotEstimator with
    corner_points_stack_ := [⟨[[⟨1, 1, 1, 0⟩], [], []]⟩, ⟨[[], [], []]⟩]
    corner_points_stack_size_ := [⟨[1, 0, 0]⟩, ⟨[0, 0, 0]⟩] }

/-- A plane correspondence. -/
def examplePlaneFeature : PointPlaneFeature ℚ := ⟨⟨1, 0, 0⟩, ⟨0, 0, 1, 0⟩, 1⟩

/-- The collaborators of `exampleCollaborators` with a surface matcher that
returns one correspondence for every query. -/
def featureCollaborators : Collaborators ℚ Unit Unit :=
  { exampleCollaborators with extractSurfFromMap := fun _ _ _ _ => [examplePlaneFeature] }

/-- The two-sensor configuration with the accumulated features due at every
cycle (`N_CUMU_FEATURE = 1`) and marginalization on. -/
def everyCycleConfig : Config ℚ :=
  { exampleConfig with N_CUMU_FEATURE := 1, EVALUATE_RESIDUAL := false }

/-- The same configuration with the solver switched off
(`OPTIMAL_ODOMETRY = 0`): `optimizeMap` returns before the solver call. -/
def earlyReturnConfig : Config ℚ :=
  { everyCycleConfig with OPTIMAL_ODOMETRY := false }

/-- The two-sensor configuration with the extrinsic prior factor enabled. -/
def priorFactorConfig : Config ℚ :=
  { exampleConfig with PRIOR_FACTOR := true }

/-- A calibrating estimator (`ESTIMATE_EXTRINSIC = 1`) in NON_LINEAR with a
full window and empty accumulation buffers. -/
def calibratingEstimator : Estimator ℚ Unit Unit :=
  { readyEstimator with solver_flag_ := SolverFlag.NON_LINEAR, cir_buf_cnt_ := 2 }

/-! ## Instrumented cycles, views and index lists -/

/-! ## Instrumented driver: counted slides and logged tracker calls -/

section Instrumented

variable {K IE MI : Type} [LinearOrderedField K]

/-- The call `slideWindow()` on a state paired with the number of calls of
`slideWindow()` made so far. -/
def slideWindow_counted (cfg : Config K) (ext : Collaborators K IE MI)
    (c : Estimator K IE MI × Nat) : Estimator K IE MI × Nat :=
  (slideWindow cfg ext c.1, c.2 + 1)

/-- The `switch (solver_flag_)` of `process` (estimator.cpp 361-392) with the
calls of `slideWindow()` counted: lines 367 and 373 in INITIAL, line 388 in
NON_LINEAR. `optimizeMap` and `evalCalib` do not call `slideWindow()`. -/
def process_solver_counted (cfg : Config K) (ext : Collaborators K IE MI)
    (c : Estimator K IE MI × Nat) : Estimator K IE MI × Nat :=
  match c.1.solver_flag_ with
  | SolverFlag.INITIAL =>
    let c1 := slideWindow_counted cfg ext c
    let c2 :=
      if c1.1.cir_buf_cnt_ < (cfg.WINDOW_SIZE : Int) then
        let c1a : Estimator K IE MI × Nat :=
          ({ c1.1 with cir_buf_cnt_ := c1.1.cir_buf_cnt_ + 1 }, c1.2)
        if c1a.1.cir_buf_cnt_ = (cfg.WINDOW_SIZE : Int) then slideWindow_counted cfg ext c1a
        else c1a
      else c1
    if c2.1.cir_buf_cnt_ = (cfg.WINDOW_SIZE : Int) ∧ c2.1.ESTIMATE_EXTRINSIC ≠ 2 then
      ({ c2.1 with solver_flag_ := SolverFlag.NON_LINEAR }, c2.2)
    else c2
  | SolverFlag.NON_LINEAR =>
    let c1 := slideWindow_counted cfg ext (optimizeMap cfg ext c.1, c.2)
    if c1.1.ESTIMATE_EXTRINSIC ≠ 0 then (evalCalib cfg c1.1, c1.2) else c1

/-- The method `Estimator::process` (estimator.cpp 253-410) with the calls of
`slideWindow()` counted. -/
def process_counted (cfg : Config K) (ext : Collaborators K IE MI)
    (c : Estimator K IE MI × Nat) : Estimator K IE MI × Nat :=
  let r := process_solver_counted cfg ext
    (process_store cfg ext (process_tracker cfg ext c.1), c.2)
  (process_swap r.1, r.2)

/-- One driver cycle with the calls of `slideWindow()` counted. -/
def processCycle_counted (cfg : Config K) (ext : Collaborators K IE MI)
    (c : Estimator K IE MI × Nat) (frame : Frame K) : Estimator K IE MI × Nat :=
  process_counted cfg ext (frameLoaded c.1 frame, c.2)

/-- A run of driver cycles with the calls of `slideWindow()` counted. -/
def processCycles_counted (cfg : Config K) (ext : Collaborators K IE MI)
    (frames : List (Frame K)) (c : Estimator K IE MI × Nat) : Estimator K IE MI × Nat :=
  frames.foldl (processCycle_counted cfg ext) c

/-- The state of a driver cycle right after the newest pose, header and
clouds are stored in slot `cir_buf_cnt_` (estimator.cpp 253-357), before the
solver switch. -/
def processCycle_stored (cfg : Config K) (ext : Collaborators K IE MI) (s : Estimator K IE MI)
    (frame : Frame K) : Estimator K IE MI :=
  process_store cfg ext (process_tracker cfg ext (frameLoaded s frame))

end Instrumented

/-! ## Views used by the statements about the parameter arrays, the analyzer and the factors -/

section Views

variable {K IE MI : Type} [LinearOrderedField K]

/-- The parameter arrays have the shape `setParameter` allocates
(estimator.cpp 160-171): `OPT_WINDOW_SIZE + 1` pose blocks and `NUM_OF_LASER`
extrinsic blocks of `SIZE_POSE` numbers each. -/
def ParamShaped (cfg : Config K) (s : Estimator K IE MI) : Prop :=
  (s.para_pose_.length = cfg.OPT_WINDOW_SIZE + 1 ∧ ∀ b ∈ s.para_pose_, b.length = SIZE_POSE) ∧
  (s.para_ex_pose_.length = cfg.NUM_OF_LASER ∧ ∀ b ∈ s.para_ex_pose_, b.length = SIZE_POSE)

instance (cfg : Config K) (s : Estimator K IE MI) : Decidable (ParamShaped cfg s) := by
  unfold ParamShaped
  infer_instance

/-- The seven numbers of a pose block as the claim words them:
`(tx, ty, tz, qx, qy, qz, qw)`. -/
def poseBlockLayout (t : Vector3d K) (q : Quaterniond K) : List K :=
  [t.x, t.y, t.z, q.x, q.y, q.z, q.w]

/-- Whether a cost function is a `LidarPivotPlaneNormFactor`. -/
def CostFunction.isPlaneNormFactor : CostFunction K MI → Bool
  | CostFunction.LidarPivotPlaneNormFactor _ _ _ => true
  | _ => false

/-- The plane-norm factors of a problem, in the order they were added. -/
def Problem.planeNormFactors (p : Problem K MI) : List (ResidualBlock K MI) :=
  p.residual_blocks.filter fun r => r.cost_function.isPlaneNormFactor

/-- The plane-norm factors the odometry mode is specified to add for a table
of surface map features: one per feature of every sensor `n` and every slot
`i` with `P < i ≤ W`, attached to `pose[0]`, `pose[i - P]` and `ex_pose[n]`. -/
def odometryPlaneFactors (cfg : Config K) (table : FeatureTable K) : List (ResidualBlock K MI) :=
  (List.range cfg.NUM_OF_LASER).flatMap fun n =>
    (intRange ((cfg.WINDOW_SIZE : Int) - (cfg.OPT_WINDOW_SIZE : Int) + 1)
        ((cfg.WINDOW_SIZE : Int) + 1)).flatMap fun i =>
      (iget (vget table n) i).map fun feature =>
        { cost_function :=
            CostFunction.LidarPivotPlaneNormFactor feature.point_ feature.coeffs_ feature.score_
          loss_function := loss_function
          parameter_blocks :=
            [ParamBlock.para_pose 0,
              ParamBlock.para_pose (i - ((cfg.WINDOW_SIZE : Int) - (cfg.OPT_WINDOW_SIZE : Int))),
              ParamBlock.para_ex_pose n] }

/-- The row offsets of a compressed-row-storage matrix are in order:
non-negative dimensions, `num_rows + 1` offsets that start at or after 0, do
not decrease and stay within the `cols` and `values` arrays (of equal length). -/
def CRSMatrix.OffsetsOrdered (m : CRSMatrix K) : Prop :=
  0 ≤ m.num_rows ∧ 0 ≤ m.num_cols ∧
  m.rows.length = m.num_rows.toNat + 1 ∧
  0 ≤ m.rows.getD 0 0 ∧
  (∀ r, r < m.num_rows.toNat → m.rows.getD r 0 ≤ m.rows.getD (r + 1) 0) ∧
  m.rows.getD m.num_rows.toNat 0 ≤ (m.cols.length : Int) ∧
  m.values.length = m.cols.length

instance (m : CRSMatrix K) : Decidable m.OffsetsOrdered := by
  unfold CRSMatrix.OffsetsOrdered
  infer_instance

/-- The column indices of a compressed-row-storage matrix are in
`0 .. num_cols - 1` and no column is repeated within a row. -/
def CRSMatrix.ColumnsDistinct (m : CRSMatrix K) : Prop :=
  (∀ k, k < m.cols.length → 0 ≤ m.cols.getD k 0 ∧ m.cols.getD k 0 < m.num_cols) ∧
  (∀ r, r < m.num_rows.toNat → ∀ k, k < m.cols.length → ∀ j, j < m.cols.length →
    (m.rows.getD r 0 ≤ (k : Int) ∧ (k : Int) < m.rows.getD (r + 1) 0 ∧
      m.rows.getD r 0 ≤ (j : Int) ∧ (j : Int) < m.rows.getD (r + 1) 0 ∧
      m.cols.getD k 0 = m.cols.getD j 0) → k = j)

instance (m : CRSMatrix K) : Decidable m.ColumnsDistinct := by
  unfold CRSMatrix.ColumnsDistinct
  refine @instDecidableAnd _ _ ?_ ?_ <;> infer_instance

/-- Entry `k` of the `cols` and `values` arrays belongs to row `r`:
`rows[r] ≤ k < rows[r + 1]`. -/
def CRSMatrix.InRow (m : CRSMatrix K) (r k : Nat) : Prop :=
  m.rows.getD r 0 ≤ (k : Int) ∧ (k : Int) < m.rows.getD (r + 1) 0

instance (m : CRSMatrix K) (r k : Nat) : Decidable (m.InRow r k) := by
  unfold CRSMatrix.InRow
  infer_instance

/-- A well-formed compressed-row-storage matrix. -/
def CRSMatrix.WellFormed (m : CRSMatrix K) : Prop :=
  m.OffsetsOrdered ∧ m.ColumnsDistinct

instance (m : CRSMatrix K) : Decidable m.WellFormed := by
  unfold CRSMatrix.WellFormed
  infer_instance

/-- A dense matrix has `R` rows of `C` entries each. -/
def MatrixXd.HasDims (m : MatrixXd K) (R C : Nat) : Prop :=
  m.data.length = R ∧ ∀ r, r < R → (m.data.getD r []).length = C

/-- The threshold table `eig_thre_calib_` of the state an assembly carries. -/
def Assembly.table (a : Assembly K IE MI) : List K :=
  a.s.eig_thre_calib_

/-- The window slots the body of `process()` touches before the solver
switch: slot `cir_buf_cnt_ - 1` is read in the reference tracker branch
(estimator.cpp 328), slot `cir_buf_cnt_` is written by the store (338-356). -/
def process_windowIndices (s : Estimator K IE MI) : List Int :=
  (if s.b_system_inited_ = true ∧ s.ESTIMATE_EXTRINSIC ≠ 2 then [s.cir_buf_cnt_ - 1] else []) ++
    [s.cir_buf_cnt_]

/-- The window slots `slideWindow()` touches: `pivot_idx` and `pivot_idx + 1`
when the fixed local map is initialised (estimator.cpp 1015-1048), and slot
`cir_buf_cnt_` in the pushes (1054-1062). -/
def slideWindow_windowIndices (cfg : Config K) (s : Estimator K IE MI) : List Int :=
  let pivot_idx : Int := (cfg.WINDOW_SIZE : Int) - (cfg.OPT_WINDOW_SIZE : Int)
  (if s.ini_fixed_local_map_ then [pivot_idx, pivot_idx + 1] else []) ++ [s.cir_buf_cnt_]

/-- The states on which the `switch` of `process()` calls `slideWindow()`
(estimator.cpp 367, 373, 388), in call order. -/
def process_solver_slideStates (cfg : Config K) (ext : Collaborators K IE MI)
    (s : Estimator K IE MI) : List (Estimator K IE MI) :=
  match s.solver_flag_ with
  | SolverFlag.INITIAL =>
    let s1 := slideWindow cfg ext s
    s :: (if s1.cir_buf_cnt_ < (cfg.WINDOW_SIZE : Int) then
        let s1a := { s1 with cir_buf_cnt_ := s1.cir_buf_cnt_ + 1 }
        if s1a.cir_buf_cnt_ = (cfg.WINDOW_SIZE : Int) then [s1a] else []
      else [])
  | SolverFlag.NON_LINEAR => [optimizeMap cfg ext s]

/-- The pairs (window slot, pose block) of the first loop of `vector2Double`
(estimator.cpp 1069-1078): slot `i` and block `i - pivot_idx` for `i` from
`pivot_idx` to `WINDOW_SIZE`. -/
def vector2Double_indices (cfg : Config K) : List (Int × Int) :=
  let pivot_idx : Int := (cfg.WINDOW_SIZE : Int) - (cfg.OPT_WINDOW_SIZE : Int)
  (intRange pivot_idx ((cfg.WINDOW_SIZE : Int) + 1)).map fun i => (i, i - pivot_idx)

/-- The pairs (window slot, pose block) of the first loop of `double2Vector`
(estimator.cpp 1098-1102): slot `i + pivot_idx` and block `i` for `i` from 0
to `OPT_WINDOW_SIZE`. -/
def double2Vector_indices (cfg : Config K) : List (Int × Int) :=
  let pivot_idx : Int := (cfg.WINDOW_SIZE : Int) - (cfg.OPT_WINDOW_SIZE : Int)
  (List.range (cfg.OPT_WINDOW_SIZE + 1)).map fun (i : Nat) => ((i : Int) + pivot_idx, (i : Int))

/-- The entries of `eig_thre_calib_` that `evalDegenracy` reads: entry `i` for
each local parameterization `i` (estimator.cpp 1173-1183). -/
def evalDegenracy_tableIndices (local_param_ids : List (PoseLocalParameterization K)) :
    List Nat :=
  List.range local_param_ids.length

/-- The entries of `eig_thre_calib_` that the loop of `evalCalib` can read:
entry `i + OPT_WINDOW_SIZE + 1` for each sensor `i` (estimator.cpp 1226-1227). -/
def evalCalib_tableIndices (cfg : Config K) : List Nat :=
  (List.range cfg.NUM_OF_LASER).map fun i => i + cfg.OPT_WINDOW_SIZE + 1

end Views

/-! ## Concrete instances for the later statements -/

/-- The Gramian of a four-block problem (two pose blocks, two extrinsic
blocks): block diagonal, every 6x6 block being `diag(1, 2, 3, 4, 5, 6)`. -/
def blockGramian : MatrixXd ℚ :=
  ⟨(List.range 24).map fun r =>
    (List.range 24).map fun c => if r = c then ([1, 2, 3, 4, 5, 6] : List ℚ).getD (r % 6) 0 else 0⟩

/-- Four fresh local parameterizations, one per block of `blockGramian`. -/
def fourParameterizations : List (PoseLocalParameterization ℚ) :=
  [⟨false, 1⟩, ⟨false, 1⟩, ⟨false, 1⟩, ⟨false, 1⟩]

/-- A configuration in odometry use: two sensors, `W = 2`, `O = 1`, plane
factors on, no marginalization. -/
def odometryConfig : Config ℚ :=
  { exampleConfig with MARGINALIZATION_FACTOR := false, EVALUATE_RESIDUAL := false }

/-- The two-sensor estimator in the NON_LINEAR state in odometry mode
(`ESTIMATE_EXTRINSIC = 0`) with a full window. -/
def odometryEstimator : Estimator ℚ Unit Unit :=
  { readyEstimator with
    ESTIMATE_EXTRINSIC := 0
    solver_flag_ := SolverFlag.NON_LINEAR
    cir_buf_cnt_ := 2 }

/-- The 2x3 matrix with rows `(5, 0, 7)` and `(0, 9, 0)` in compressed row
storage. -/
def exampleCRS : CRSMatrix ℚ :=
  { num_rows := 2, num_cols := 3, rows := [0, 2, 3], cols := [0, 2, 1], values := [5, 7, 9] }

/-- Collaborators as `bootstrapCollaborators`, with an initializer whose two
convergence criteria are met as soon as a relative pose is added: `addPose`
marks rotation and translation converged. -/
def eagerCollaborators : Collaborators ℚ (Bool × Bool) Unit :=
  { bootstrapCollaborators with ie_addPose := fun _ _ _ => (true, true) }

/-- The two-sensor configuration with a window of `W = 3`. -/
def threeSlotConfig : Config ℚ :=
  { exampleConfig with WINDOW_SIZE := 3 }

/-- Three frames stamped 1, 2 and 3, each with two empty feature sets. -/
def threeStampedFrames : List (Frame ℚ) := [(1, [[], []]), (2, [[], []]), (3, [[], []])]

/-! ## Frame lemmas: what each step of the driver leaves unchanged -/

section Frames

variable {K IE MI : Type} [LinearOrderedField K]

theorem foldl_keeps {σ α β : Type} (proj : σ → β) (f : σ → α → σ)
    (h : ∀ s a, proj (f s a) = proj s) (l : List α) (s : σ) :
    proj (l.foldl f s) = proj s := by
  induction l generalizing s with
  | nil => rfl
  | cons a l ih => rw [List.foldl_cons, ih, h]

theorem foldl_invariant {σ α : Type} (P : σ → Prop) (f : σ → α → σ)
    (h : ∀ s a, P s → P (f s a)) (l : List α) (s : σ) (hs : P s) : P (l.foldl f s) := by
  induction l generalizing s with
  | nil => exact hs
  | cons a l ih => exact ih _ (h s a hs)

theorem slideWindow_sensor_keeps {β : Type} (proj : Estimator K IE MI → β)
    (h1 : ∀ (s : Estimator K IE MI) v, proj { s with surf_points_stack_ := v } = proj s)
    (h2 : ∀ (s : Estimator K IE MI) v, proj { s with corner_points_stack_ := v } = proj s)
    (cfg : Config K) (ext : Collaborators K IE MI) (pivot_idx i : Int) (pp pi : Pose K)
    (s : Estimator K IE MI) (n : Nat) :
    proj (slideWindow_sensor cfg ext pivot_idx i pp pi s n) = proj s := by
  have hs : ∀ (p : Pose K) (s : Estimator K IE MI),
      proj (slideWindow_surf ext pivot_idx i p s n) = proj s := fun _ s => h1 s _
  have hc : ∀ (p : Pose K) (s : Estimator K IE MI),
      proj (slideWindow_corner ext pivot_idx i p s n) = proj s := fun _ s => h2 s _
  unfold slideWindow_sensor
  split
  · rfl
  · simp only []
    split
    · exact hs _ _
    · rw [hc, hs]

theorem slideWindow_fixedMap_keeps {β : Type} (proj : Estimator K IE MI → β)
    (h1 : ∀ (s : Estimator K IE MI) v, proj { s with surf_points_stack_ := v } = proj s)
    (h2 : ∀ (s : Estimator K IE MI) v, proj { s with corner_points_stack_ := v } = proj s)
    (cfg : Config K) (ext : Collaborators K IE MI) (s : Estimator K IE MI) :
    proj (slideWindow_fixedMap cfg ext s) = proj s := by
  unfold slideWindow_fixedMap
  split
  · exact foldl_keeps proj _ (fun s n => slideWindow_sensor_keeps proj h1 h2 cfg ext _ _ _ _ s n) _ s
  · rfl

theorem slideWindow_solver_flag (cfg : Config K) (ext : Collaborators K IE MI)
    (s : Estimator K IE MI) : (slideWindow cfg ext s).solver_flag_ = s.solver_flag_ :=
  slideWindow_fixedMap_keeps (fun s => s.solver_flag_) (fun _ _ => rfl) (fun _ _ => rfl) cfg ext s

theorem slideWindow_cir_buf_cnt (cfg : Config K) (ext : Collaborators K IE MI)
    (s : Estimator K IE MI) : (slideWindow cfg ext s).cir_buf_cnt_ = s.cir_buf_cnt_ :=
  slideWindow_fixedMap_keeps (fun s => s.cir_buf_cnt_) (fun _ _ => rfl) (fun _ _ => rfl) cfg ext s

theorem slideWindow_ESTIMATE_EXTRINSIC (cfg : Config K) (ext : Collaborators K IE MI)
    (s : Estimator K IE MI) :
    (slideWindow cfg ext s).ESTIMATE_EXTRINSIC = s.ESTIMATE_EXTRINSIC :=
  slideWindow_fixedMap_keeps (fun s => s.ESTIMATE_EXTRINSIC) (fun _ _ => rfl) (fun _ _ => rfl)
    cfg ext s

theorem slideWindow_feature_buf (cfg : Config K) (ext : Collaborators K IE MI)
    (s : Estimator K IE MI) : (slideWindow cfg ext s).feature_buf_ = s.feature_buf_ :=
  slideWindow_fixedMap_keeps (fun s => s.feature_buf_) (fun _ _ => rfl) (fun _ _ => rfl) cfg ext s

theorem process_calibSensor_solver_flag (cfg : Config K) (ext : Collaborators K IE MI)
    (s : Estimator K IE MI) (i : Nat) :
    (process_calibSensor cfg ext s i).solver_flag_ = s.solver_flag_ := by
  unfold process_calibSensor
  simp only []
  split_ifs <;> rfl

theorem process_calibSensor_cir_buf_cnt (cfg : Config K) (ext : Collaborators K IE MI)
    (s : Estimator K IE MI) (i : Nat) :
    (process_calibSensor cfg ext s i).cir_buf_cnt_ = s.cir_buf_cnt_ := by
  unfold process_calibSensor
  simp only []
  split_ifs <;> rfl

theorem process_calibSensor_feature_buf (cfg : Config K) (ext : Collaborators K IE MI)
    (s : Estimator K IE MI) (i : Nat) :
    (process_calibSensor cfg ext s i).feature_buf_ = s.feature_buf_ := by
  unfold process_calibSensor
  simp only []
  split_ifs <;> rfl

theorem process_tracker_keeps {β : Type} (proj : Estimator K IE MI → β)
    (hinit : ∀ (s : Estimator K IE MI), proj { s with b_system_inited_ := true } = proj s)
    (h0 : ∀ (s : Estimator K IE MI) i, proj (process_initSensor s i) = proj s)
    (h1 : ∀ (ext : Collaborators K IE MI) (s : Estimator K IE MI) i,
      proj (process_trackSensor ext s i) = proj s)
    (h2 : ∀ (ext : Collaborators K IE MI) (s : Estimator K IE MI) i,
      proj (process_addPose ext s i) = proj s)
    (h3 : ∀ (cfg : Config K) (ext : Collaborators K IE MI) (s : Estimator K IE MI) i,
      proj (process_calibSensor cfg ext s i) = proj s)
    (h4 : ∀ (s : Estimator K IE MI) e ie,
      proj { s with ESTIMATE_EXTRINSIC := e, initial_extrinsics_ := ie } = proj s)
    (h5 : ∀ (cfg : Config K) (ext : Collaborators K IE MI) (s : Estimator K IE MI),
      proj (process_track cfg ext s) = proj s)
    (cfg : Config K) (ext : Collaborators K IE MI) (s : Estimator K IE MI) :
    proj (process_tracker cfg ext s) = proj s := by
  unfold process_tracker
  split
  · unfold process_init
    rw [foldl_keeps proj process_initSensor h0, hinit]
  · split
    · unfold process_bootstrap
      simp only []
      split
      · split
        · rw [h4, foldl_keeps proj _ (h3 cfg ext), foldl_keeps proj _ (h2 ext),
            foldl_keeps proj _ (h1 ext)]
        · rw [foldl_keeps proj _ (h3 cfg ext), foldl_keeps proj _ (h2 ext),
            foldl_keeps proj _ (h1 ext)]
      · rw [foldl_keeps proj _ (h2 ext), foldl_keeps proj _ (h1 ext)]
    · exact h5 cfg ext s

theorem process_tracker_solver_flag (cfg : Config K) (ext : Collaborators K IE MI)
    (s : Estimator K IE MI) : (process_tracker cfg ext s).solver_flag_ = s.solver_flag_ :=
  process_tracker_keeps (fun s => s.solver_flag_) (fun _ => rfl) (fun _ _ => rfl)
    (fun _ _ _ => rfl) (fun _ _ _ => rfl) process_calibSensor_solver_flag (fun _ _ _ => rfl)
    (fun _ _ _ => rfl) cfg ext s

theorem process_tracker_cir_buf_cnt (cfg : Config K) (ext : Collaborators K IE MI)
    (s : Estimator K IE MI) : (process_tracker cfg ext s).cir_buf_cnt_ = s.cir_buf_cnt_ :=
  process_tracker_keeps (fun s => s.cir_buf_cnt_) (fun _ => rfl) (fun _ _ => rfl)
    (fun _ _ _ => rfl) (fun _ _ _ => rfl) process_calibSensor_cir_buf_cnt (fun _ _ _ => rfl)
    (fun _ _ _ => rfl) cfg ext s

theorem process_tracker_feature_buf (cfg : Config K) (ext : Collaborators K IE MI)
    (s : Estimator K IE MI) : (process_tracker cfg ext s).feature_buf_ = s.feature_buf_ :=
  process_tracker_keeps (fun s => s.feature_buf_) (fun _ => rfl) (fun _ _ => rfl)
    (fun _ _ _ => rfl) (fun _ _ _ => rfl) process_calibSensor_feature_buf (fun _ _ _ => rfl)
    (fun _ _ _ => rfl) cfg ext s

theorem process_store_keeps {β : Type} (proj : Estimator K IE MI → β)
    (h1 : ∀ (s : Estimator K IE MI) q t h, proj { s with Qs_ := q, Ts_ := t, Header_ := h } = proj s)
    (h2 : ∀ (ext : Collaborators K IE MI) (s : Estimator K IE MI) n,
      proj (process_storeSensor ext s n) = proj s)
    (cfg : Config K) (ext : Collaborators K IE MI) (s : Estimator K IE MI) :
    proj (process_store cfg ext s) = proj s := by
  unfold process_store
  simp only []
  rw [foldl_keeps proj _ (h2 ext), h1]

theorem process_store_solver_flag (cfg : Config K) (ext : Collaborators K IE MI)
    (s : Estimator K IE MI) : (process_store cfg ext s).solver_flag_ = s.solver_flag_ :=
  process_store_keeps (fun s => s.solver_flag_) (fun _ _ _ _ => rfl) (fun _ _ _ => rfl) cfg ext s

theorem process_store_cir_buf_cnt (cfg : Config K) (ext : Collaborators K IE MI)
    (s : Estimator K IE MI) : (process_store cfg ext s).cir_buf_cnt_ = s.cir_buf_cnt_ :=
  process_store_keeps (fun s => s.cir_buf_cnt_) (fun _ _ _ _ => rfl) (fun _ _ _ => rfl) cfg ext s

theorem process_store_ESTIMATE_EXTRINSIC (cfg : Config K) (ext : Collaborators K IE MI)
    (s : Estimator K IE MI) :
    (process_store cfg ext s).ESTIMATE_EXTRINSIC = s.ESTIMATE_EXTRINSIC :=
  process_store_keeps (fun s => s.ESTIMATE_EXTRINSIC) (fun _ _ _ _ => rfl) (fun _ _ _ => rfl)
    cfg ext s

theorem process_store_feature_buf (cfg : Config K) (ext : Collaborators K IE MI)
    (s : Estimator K IE MI) : (process_store cfg ext s).feature_buf_ = s.feature_buf_ :=
  process_store_keeps (fun s => s.feature_buf_) (fun _ _ _ _ => rfl) (fun _ _ _ => rfl) cfg ext s

theorem buildCalibMap_slot_driverView (cfg : Config K) (ext : Collaborators K IE MI)
    (pivot_idx : Int) (pp pe : Pose K) (n : Nat) (s : Estimator K IE MI) (i : Int) :
    (buildCalibMap_slot cfg ext pivot_idx pp pe n s i).driverView = s.driverView := by
  unfold buildCalibMap_slot
  simp only []
  split_ifs <;> rfl

theorem buildCalibMap_sensor_driverView (cfg : Config K) (ext : Collaborators K IE MI)
    (pivot_idx : Int) (pp : Pose K) (s : Estimator K IE MI) (n : Nat) :
    (buildCalibMap_sensor cfg ext pivot_idx pp s n).driverView = s.driverView := by
  have h := foldl_keeps Estimator.driverView
    (buildCalibMap_slot cfg ext pivot_idx pp (extrinsicPose ext s n) n)
    (buildCalibMap_slot_driverView cfg ext pivot_idx pp _ n)
    (intRange 0 ((cfg.WINDOW_SIZE : Int) + 1)) s
  unfold buildCalibMap_sensor
  simp only []
  split
  · exact h
  · exact h

theorem buildCalibMap_extract_driverView (cfg : Config K) (ext : Collaborators K IE MI)
    (pivot_idx : Int) (n : Nat) (s : Estimator K IE MI) (i : Int) :
    (buildCalibMap_extract cfg ext pivot_idx n s i).driverView = s.driverView := by
  unfold buildCalibMap_extract
  split_ifs <;> rfl

theorem buildCalibMap_extractSensor_driverView (cfg : Config K) (ext : Collaborators K IE MI)
    (pivot_idx : Int) (s : Estimator K IE MI) (n : Nat) :
    (buildCalibMap_extractSensor cfg ext pivot_idx s n).driverView = s.driverView :=
  foldl_keeps Estimator.driverView _ (buildCalibMap_extract_driverView cfg ext pivot_idx n) _ s

theorem buildCalibMap_fixed_driverView (cfg : Config K) (ext : Collaborators K IE MI)
    (pivot_idx : Int) (pp : Pose K) (s : Estimator K IE MI) :
    (buildCalibMap_fixed cfg ext pivot_idx pp s).driverView = s.driverView := by
  unfold buildCalibMap_fixed
  split <;> rfl

theorem buildCalibMap_driverView (cfg : Config K) (ext : Collaborators K IE MI)
    (s : Estimator K IE MI) : (buildCalibMap cfg ext s).driverView = s.driverView := by
  unfold buildCalibMap
  simp only []
  rw [foldl_keeps Estimator.driverView _ (buildCalibMap_extractSensor_driverView cfg ext _)]
  show Estimator.driverView (List.foldl (buildCalibMap_sensor cfg ext _ _) _ _) = _
  rw [foldl_keeps Estimator.driverView _ (buildCalibMap_sensor_driverView cfg ext _ _),
    foldl_keeps Estimator.driverView buildCalibMap_clear (fun _ _ => rfl),
    buildCalibMap_fixed_driverView]

theorem buildLocalMap_fixedSensor_driverView (ext : Collaborators K IE MI) (pivot_idx : Int)
    (pp : Pose K) (st : Estimator K IE MI × PointICloud K) (n : Nat) :
    (buildLocalMap_fixedSensor ext pivot_idx pp st n).1.driverView = st.1.driverView := rfl

theorem buildLocalMap_fixed_driverView (cfg : Config K) (ext : Collaborators K IE MI)
    (pivot_idx : Int) (pp : Pose K) (s : Estimator K IE MI) :
    (buildLocalMap_fixed cfg ext pivot_idx pp s).driverView = s.driverView := by
  unfold buildLocalMap_fixed
  split
  · rfl
  · exact foldl_keeps (fun st : Estimator K IE MI × PointICloud K => st.1.driverView) _
      (buildLocalMap_fixedSensor_driverView ext pivot_idx pp) _ (s, [])

theorem buildLocalMap_slot_driverView (cfg : Config K) (ext : Collaborators K IE MI)
    (pivot_idx : Int) (pp pe : Pose K) (n : Nat) (s : Estimator K IE MI) (i : Int) :
    (buildLocalMap_slot cfg ext pivot_idx pp pe n s i).driverView = s.driverView := by
  unfold buildLocalMap_slot
  simp only []
  split_ifs <;> rfl

theorem buildLocalMap_sensor_driverView (cfg : Config K) (ext : Collaborators K IE MI)
    (pivot_idx : Int) (pp : Pose K) (s : Estimator K IE MI) (n : Nat) :
    (buildLocalMap_sensor cfg ext pivot_idx pp s n).driverView = s.driverView :=
  foldl_keeps Estimator.driverView
    (buildLocalMap_slot cfg ext pivot_idx pp (extrinsicPose ext s n) n)
    (buildLocalMap_slot_driverView cfg ext pivot_idx pp _ n)
    (intRange 0 ((cfg.WINDOW_SIZE : Int) + 1)) s

theorem buildLocalMap_extractSensor_driverView (cfg : Config K) (ext : Collaborators K IE MI)
    (pivot_idx : Int) (s : Estimator K IE MI) (n : Nat) :
    (buildLocalMap_extractSensor cfg ext pivot_idx s n).driverView = s.driverView :=
  foldl_keeps Estimator.driverView (buildLocalMap_extract ext n) (fun _ _ => rfl) _ s

theorem buildLocalMap_driverView (cfg : Config K) (ext : Collaborators K IE MI)
    (s : Estimator K IE MI) : (buildLocalMap cfg ext s).driverView = s.driverView := by
  unfold buildLocalMap
  simp only []
  rw [foldl_keeps Estimator.driverView _ (buildLocalMap_extractSensor_driverView cfg ext _)]
  show Estimator.driverView (List.foldl (buildLocalMap_sensor cfg ext _ _) _ _) = _
  rw [foldl_keeps Estimator.driverView _ (buildLocalMap_sensor_driverView cfg ext _ _),
    foldl_keeps Estimator.driverView buildLocalMap_clear (fun _ _ => rfl),
    buildLocalMap_fixed_driverView]

theorem optimizeMap_addMarginalization_view (cfg : Config K) (a : Assembly K IE MI) :
    (optimizeMap_addMarginalization cfg a).blocksAndDriver = a.blocksAndDriver := by
  unfold optimizeMap_addMarginalization
  split
  · split <;> rfl
  · rfl

theorem optimizeMap_addMarginalization_s (cfg : Config K) (a : Assembly K IE MI) :
    (optimizeMap_addMarginalization cfg a).s = a.s := by
  unfold optimizeMap_addMarginalization
  split
  · split <;> rfl
  · rfl

theorem optimizeMap_priors_view (cfg : Config K) (a : Assembly K IE MI) :
    (optimizeMap_priors cfg a).blocksAndDriver = a.blocksAndDriver := by
  unfold optimizeMap_priors
  simp only []
  split
  · rw [foldl_keeps Assembly.blocksAndDriver (optimizeMap_addPrior cfg) (fun _ _ => rfl),
      optimizeMap_addMarginalization_view]
  · exact optimizeMap_addMarginalization_view cfg a

theorem optimizeMap_priors_s (cfg : Config K) (a : Assembly K IE MI) :
    (optimizeMap_priors cfg a).s = a.s := by
  unfold optimizeMap_priors
  simp only []
  split
  · rw [foldl_keeps Assembly.s (optimizeMap_addPrior cfg) (fun _ _ => rfl),
      optimizeMap_addMarginalization_s]
  · exact optimizeMap_addMarginalization_s cfg a

theorem addTargetPlaneFrame_view (n : Nat) (a : Assembly K IE MI)
    (features_frame : List (PointPlaneFeature K)) :
    (addTargetPlaneFrame n a features_frame).blocksAndDriver = a.blocksAndDriver :=
  foldl_keeps Assembly.blocksAndDriver (addTargetPlaneFeature n) (fun _ _ => rfl) _ a

theorem addTargetPlaneSensor_view (cfg : Config K) (cumu : FeatureTable K)
    (a : Assembly K IE MI) (n : Nat) :
    (addTargetPlaneSensor cfg cumu a n).blocksAndDriver = a.blocksAndDriver := by
  unfold addTargetPlaneSensor
  split
  · rfl
  · exact foldl_keeps Assembly.blocksAndDriver (addTargetPlaneFrame n)
      (addTargetPlaneFrame_view n) _ a

theorem addTargetPlaneFactors_view (cfg : Config K) (cumu : FeatureTable K)
    (a : Assembly K IE MI) :
    (addTargetPlaneFactors cfg cumu a).blocksAndDriver = a.blocksAndDriver :=
  foldl_keeps Assembly.blocksAndDriver (addTargetPlaneSensor cfg cumu)
    (addTargetPlaneSensor_view cfg cumu) _ a

theorem calibPlaneFeature_view (cfg : Config K) (pivot_idx i : Int) (a : Assembly K IE MI)
    (feature : PointPlaneFeature K) :
    (calibPlaneFeature cfg pivot_idx i a feature).blocksAndDriver = a.blocksAndDriver := by
  unfold calibPlaneFeature
  simp only []
  split <;> rfl

theorem calibPlaneSlot_view (cfg : Config K) (pivot_idx : Int) (a : Assembly K IE MI) (i : Int) :
    (calibPlaneSlot cfg pivot_idx a i).blocksAndDriver = a.blocksAndDriver :=
  foldl_keeps Assembly.blocksAndDriver (calibPlaneFeature cfg pivot_idx i)
    (calibPlaneFeature_view cfg pivot_idx i) _ a

theorem optimizeMap_calibPlane_view (cfg : Config K) (pivot_idx : Int) (a : Assembly K IE MI) :
    (optimizeMap_calibPlane cfg pivot_idx a).blocksAndDriver = a.blocksAndDriver := by
  have h1 := foldl_keeps Assembly.blocksAndDriver (calibPlaneSlot cfg pivot_idx)
    (calibPlaneSlot_view cfg pivot_idx) (intRange (pivot_idx + 1) ((cfg.WINDOW_SIZE : Int) + 1)) a
  unfold optimizeMap_calibPlane
  simp only []
  split
  · split
    · rw [addTargetPlaneFactors_view]; exact h1
    · show (addTargetPlaneFactors cfg _ _).blocksAndDriver = _
      rw [addTargetPlaneFactors_view]; exact h1
  · exact h1

theorem optimizeMap_calibEdge_view (cfg : Config K) (pivot_idx : Int) (a : Assembly K IE MI) :
    (optimizeMap_calibEdge cfg pivot_idx a).blocksAndDriver = a.blocksAndDriver := by
  unfold optimizeMap_calibEdge
  simp only []
  split
  · split
    · rw [addTargetPlaneFactors_view]; rfl
    · show (addTargetPlaneFactors cfg _ _).blocksAndDriver = _
      rw [addTargetPlaneFactors_view]; rfl
  · rfl

theorem odomPlaneSlot_view (pivot_idx : Int) (n : Nat) (a : Assembly K IE MI) (i : Int) :
    (odomPlaneSlot pivot_idx n a i).blocksAndDriver = a.blocksAndDriver :=
  foldl_keeps Assembly.blocksAndDriver (odomPlaneFeature pivot_idx n i) (fun _ _ => rfl) _ a

theorem odomPlaneSensor_view (cfg : Config K) (pivot_idx : Int) (a : Assembly K IE MI) (n : Nat) :
    (odomPlaneSensor cfg pivot_idx a n).blocksAndDriver = a.blocksAndDriver :=
  foldl_keeps Assembly.blocksAndDriver (odomPlaneSlot pivot_idx n) (odomPlaneSlot_view pivot_idx n)
    _ a

theorem optimizeMap_odomPlane_view (cfg : Config K) (pivot_idx : Int) (a : Assembly K IE MI) :
    (optimizeMap_odomPlane cfg pivot_idx a).blocksAndDriver = a.blocksAndDriver :=
  foldl_keeps Assembly.blocksAndDriver (odomPlaneSensor cfg pivot_idx)
    (odomPlaneSensor_view cfg pivot_idx) _ a

theorem withMap_view (a : Assembly K IE MI) (s1 : Estimator K IE MI)
    (h : s1.driverView = a.s.driverView) :
    ({ a with s := s1 } : Assembly K IE MI).blocksAndDriver = a.blocksAndDriver := by
  unfold Assembly.blocksAndDriver
  rw [h]

theorem optimizeMap_calibration_view (cfg : Config K) (ext : Collaborators K IE MI)
    (a : Assembly K IE MI) :
    (optimizeMap_calibration cfg ext a).blocksAndDriver = a.blocksAndDriver := by
  have hm : ({ a with s := buildCalibMap cfg ext a.s } : Assembly K IE MI).blocksAndDriver =
      a.blocksAndDriver := withMap_view _ _ (buildCalibMap_driverView cfg ext _)
  unfold optimizeMap_calibration
  simp only []
  split
  · rw [optimizeMap_calibEdge_view]
    split
    · rw [optimizeMap_calibPlane_view, hm]
    · exact hm
  · split
    · rw [optimizeMap_calibPlane_view, hm]
    · exact hm

theorem optimizeMap_odometry_driverView (cfg : Config K) (ext : Collaborators K IE MI)
    (a : Assembly K IE MI) :
    (optimizeMap_odometry cfg ext a).s.driverView = a.s.driverView := by
  unfold optimizeMap_odometry
  simp only []
  split
  · have hv := optimizeMap_odomPlane_view cfg
      ((cfg.WINDOW_SIZE : Int) - (cfg.OPT_WINDOW_SIZE : Int))
      { s := buildLocalMap cfg ext a.s
        problem := List.foldl setExtrinsicConstant a.problem (List.range cfg.NUM_OF_LASER)
        local_param_ids := a.local_param_ids
        para_ids := a.para_ids
        res_ids_marg := a.res_ids_marg
        res_ids_proj := a.res_ids_proj }
    exact (congrArg (fun v => v.2.2) hv).trans (buildLocalMap_driverView cfg ext a.s)
  · exact buildLocalMap_driverView cfg ext a.s

theorem optimizeMap_blocks_s (cfg : Config K) (ext : Collaborators K IE MI)
    (s : Estimator K IE MI) : (optimizeMap_blocks cfg ext s).s = vector2Double cfg s := by
  unfold optimizeMap_blocks
  simp only []
  show (List.foldl (optimizeMap_addExBlock ext) _ _).s = _
  rw [foldl_keeps Assembly.s (optimizeMap_addExBlock ext) (fun _ _ => rfl)]
  show (List.foldl (optimizeMap_addPoseBlock ext) _ _).s = _
  rw [foldl_keeps Assembly.s (optimizeMap_addPoseBlock ext) (fun _ _ => rfl)]

theorem optimizeMap_assemble_driverView (cfg : Config K) (ext : Collaborators K IE MI)
    (s : Estimator K IE MI) :
    (optimizeMap_assemble cfg ext s).s.driverView = s.driverView := by
  have h0 : (optimizeMap_priors cfg (optimizeMap_blocks cfg ext s)).s.driverView =
      s.driverView := by
    rw [optimizeMap_priors_s, optimizeMap_blocks_s]; rfl
  unfold optimizeMap_assemble
  simp only []
  split
  · exact (congrArg (fun v => v.2.2) (optimizeMap_calibration_view cfg ext _)).trans h0
  · split
    · rw [optimizeMap_odometry_driverView]; exact h0
    · exact h0

theorem evalResidual_driverView (cfg : Config K) (ext : Collaborators K IE MI)
    (problem : Problem K MI) (lps : List (PoseLocalParameterization K)) (para_ids : List ParamBlock)
    (res : List (ResidualBlock K MI)) (b : Bool) (s : Estimator K IE MI) :
    (evalResidual cfg ext problem lps para_ids res b s).1.driverView = s.driverView := by
  unfold evalResidual
  split
  · simp only []
    split <;> rfl
  · rfl

theorem marginalize_calibPlane_driverView (cfg : Config K) (ext : Collaborators K IE MI)
    (pivot_idx : Int) (s : Estimator K IE MI) (mi : MI) :
    (marginalize_calibPlane cfg ext pivot_idx s mi).1.driverView = s.driverView := by
  unfold marginalize_calibPlane
  simp only []
  split <;> rfl

theorem marginalize_calibEdge_driverView (cfg : Config K) (ext : Collaborators K IE MI)
    (r : Estimator K IE MI × MI) :
    (marginalize_calibEdge cfg ext r).1.driverView = r.1.driverView := by
  unfold marginalize_calibEdge
  split <;> rfl

theorem marginalize_window_driverView (cfg : Config K) (ext : Collaborators K IE MI)
    (s : Estimator K IE MI) (mi : MI) :
    (marginalize_window cfg ext s mi).1.driverView = s.driverView := by
  unfold marginalize_window
  simp only []
  split_ifs
  all_goals first
    | rfl
    | exact marginalize_calibPlane_driverView ..
    | (rw [marginalize_calibEdge_driverView]
       try exact marginalize_calibPlane_driverView ..)

theorem optimizeMap_marginalize_driverView (cfg : Config K) (ext : Collaborators K IE MI)
    (s : Estimator K IE MI) :
    (optimizeMap_marginalize cfg ext s).driverView = s.driverView := by
  unfold optimizeMap_marginalize
  simp only []
  exact marginalize_window_driverView cfg ext (vector2Double cfg s) _

theorem optimizeMap_evaluate_driverView (cfg : Config K) (ext : Collaborators K IE MI)
    (a : Assembly K IE MI) (lps : List (PoseLocalParameterization K)) (b : Bool)
    (s : Estimator K IE MI) :
    (optimizeMap_evaluate cfg ext a lps b s).1.driverView = s.driverView := by
  unfold optimizeMap_evaluate
  split
  · exact evalResidual_driverView ..
  · rfl

theorem optimizeMap_solve_driverView (cfg : Config K) (ext : Collaborators K IE MI)
    (a : Assembly K IE MI) (r1 : Estimator K IE MI × List (PoseLocalParameterization K)) :
    (optimizeMap_solve cfg ext a r1).driverView = r1.1.driverView := by
  have h4 : ∀ s2 : Estimator K IE MI,
      (double2Vector cfg (optimizeMap_evaluate cfg ext a r1.2 false s2).1).driverView =
        s2.driverView := fun s2 => optimizeMap_evaluate_driverView cfg ext a r1.2 false s2
  unfold optimizeMap_solve
  simp only []
  split
  · rw [optimizeMap_marginalize_driverView, h4]; rfl
  · rw [h4]; rfl

theorem optimizeMap_driverView (cfg : Config K) (ext : Collaborators K IE MI)
    (s : Estimator K IE MI) : (optimizeMap cfg ext s).driverView = s.driverView := by
  have ha := optimizeMap_assemble_driverView cfg ext s
  unfold optimizeMap
  simp only []
  split
  · rw [optimizeMap_evaluate_driverView]; exact ha
  · rw [optimizeMap_solve_driverView, optimizeMap_evaluate_driverView]; exact ha

theorem evalCalib_feature_buf (cfg : Config K) (s : Estimator K IE MI) :
    (evalCalib cfg s).feature_buf_ = s.feature_buf_ := by
  unfold evalCalib
  simp only []
  split_ifs <;> rfl

theorem process_solver_feature_buf (cfg : Config K) (ext : Collaborators K IE MI)
    (s : Estimator K IE MI) : (process_solver cfg ext s).feature_buf_ = s.feature_buf_ := by
  unfold process_solver
  split
  · simp only []
    split_ifs <;> simp only [slideWindow_feature_buf]
  · simp only []
    have h : (slideWindow cfg ext (optimizeMap cfg ext s)).feature_buf_ = s.feature_buf_ := by
      rw [slideWindow_feature_buf]
      exact congrArg DriverView.feature_buf_ (optimizeMap_driverView cfg ext s)
    split
    · rw [evalCalib_feature_buf]; exact h
    · exact h

theorem process_feature_buf (cfg : Config K) (ext : Collaborators K IE MI)
    (s : Estimator K IE MI) : (process cfg ext s).feature_buf_ = s.feature_buf_ := by
  show (process_solver cfg ext _).feature_buf_ = _
  rw [process_solver_feature_buf, process_store_feature_buf, process_tracker_feature_buf]

end Frames

/-! ## Initialisation: INITIAL to NON_LINEAR -/

theorem process_solver_initial {K IE MI : Type} [LinearOrderedField K] (cfg : Config K)
    (ext : Collaborators K IE MI) (s : Estimator K IE MI)
    (h : s.solver_flag_ = SolverFlag.INITIAL) :
    ((process_solver cfg ext s).solver_flag_ = SolverFlag.NON_LINEAR ↔
      ((process_solver cfg ext s).cir_buf_cnt_ = (cfg.WINDOW_SIZE : Int) ∧
        (process_solver cfg ext s).ESTIMATE_EXTRINSIC ≠ 2)) ∧
    (¬ ((process_solver cfg ext s).cir_buf_cnt_ = (cfg.WINDOW_SIZE : Int) ∧
        (process_solver cfg ext s).ESTIMATE_EXTRINSIC ≠ 2) →
      (process_solver cfg ext s).solver_flag_ = SolverFlag.INITIAL) := by
  unfold process_solver
  rw [h]
  simp only []
  split_ifs with h1 h2 h3 h4 h5
  · exact ⟨⟨fun _ => h3, fun _ => rfl⟩, fun hn => absurd h3 hn⟩
  · refine ⟨⟨fun hf => ?_, fun hc => absurd hc h3⟩, fun _ => ?_⟩
    · rw [slideWindow_solver_flag] at hf
      simp only [slideWindow_solver_flag, h] at hf
      exact absurd hf (by decide)
    · rw [slideWindow_solver_flag]
      simp only [slideWindow_solver_flag, h]
  · exact ⟨⟨fun _ => h4, fun _ => rfl⟩, fun hn => absurd h4 hn⟩
  · refine ⟨⟨fun hf => ?_, fun hc => absurd hc h4⟩, fun _ => ?_⟩
    · simp only [slideWindow_solver_flag, h] at hf
      exact absurd hf (by decide)
    · simp only [slideWindow_solver_flag, h]
  · exact ⟨⟨fun _ => h5, fun _ => rfl⟩, fun hn => absurd h5 hn⟩
  · refine ⟨⟨fun hf => ?_, fun hc => absurd hc h5⟩, fun _ => ?_⟩
    · simp only [slideWindow_solver_flag, h] at hf
      exact absurd hf (by decide)
    · simp only [slideWindow_solver_flag, h]

/-- C1: for every estimator state whose solver flag is INITIAL, after one
`process()` cycle the flag is NON_LINEAR exactly when the fill count after the
cycle equals `WINDOW_SIZE` and `ESTIMATE_EXTRINSIC` is not 2 then; otherwise
the flag is still INITIAL. -/
theorem process_initial_to_non_linear {K IE MI : Type} [LinearOrderedField K] (cfg : Config K)
    (ext : Collaborators K IE MI) (s : Estimator K IE MI)
    (h : s.solver_flag_ = SolverFlag.INITIAL) :
    ((process cfg ext s).solver_flag_ = SolverFlag.NON_LINEAR ↔
      ((process cfg ext s).cir_buf_cnt_ = (cfg.WINDOW_SIZE : Int) ∧
        (process cfg ext s).ESTIMATE_EXTRINSIC ≠ 2)) ∧
    (¬ ((process cfg ext s).cir_buf_cnt_ = (cfg.WINDOW_SIZE : Int) ∧
        (process cfg ext s).ESTIMATE_EXTRINSIC ≠ 2) →
      (process cfg ext s).solver_flag_ = SolverFlag.INITIAL) := by
  have h2 : (process_store cfg ext (process_tracker cfg ext s)).solver_flag_ =
      SolverFlag.INITIAL := by
    rw [process_store_solver_flag, process_tracker_solver_flag, h]
  exact process_solver_initial cfg ext _ h2

/-- Witness for C1: the first frame of the ready two-sensor estimator. -/
theorem process_initial_to_non_linear_witness :
    ((process exampleConfig exampleCollaborators readyEstimator).solver_flag_ =
        SolverFlag.NON_LINEAR ↔
      ((process exampleConfig exampleCollaborators readyEstimator).cir_buf_cnt_ =
          (exampleConfig.WINDOW_SIZE : Int) ∧
        (process exampleConfig exampleCollaborators readyEstimator).ESTIMATE_EXTRINSIC ≠ 2)) ∧
    (¬ ((process exampleConfig exampleCollaborators readyEstimator).cir_buf_cnt_ =
          (exampleConfig.WINDOW_SIZE : Int) ∧
        (process exampleConfig exampleCollaborators readyEstimator).ESTIMATE_EXTRINSIC ≠ 2) →
      (process exampleConfig exampleCollaborators readyEstimator).solver_flag_ =
        SolverFlag.INITIAL) :=
  process_initial_to_non_linear exampleConfig exampleCollaborators readyEstimator rfl

/-! ## Sliding the window -/

section Window

variable {K IE MI : Type} [LinearOrderedField K]

theorem vget_set {α : Type} [Inhabited α] (v : List α) (n m : Nat) (x : α) :
    vget (v.set n x) m = if n = m ∧ n < v.length then x else vget v m := by
  unfold vget
  by_cases h : n = m
  · subst h
    by_cases hl : n < v.length
    · simp [hl, List.getD_eq_getElem?_getD, List.getElem?_set_self]
    · simp [hl, List.getD_eq_getElem?_getD]
      have : v.length ≤ n := Nat.le_of_not_lt hl
      simp [List.getElem?_eq_none, this]
  · simp [h, List.getD_eq_getElem?_getD, List.getElem?_set_ne h]

theorem CircularBuffer.push_idx_newest {α : Type} [Inhabited α] (b : CircularBuffer α)
    (v : α) (W : Nat) (hW : 1 ≤ W) (hb : b.size = W + 1) :
    (b.push v).idx ((W : Int) - 1) = b.idx (W : Int) := by
  unfold CircularBuffer.size at hb
  obtain ⟨W, rfl⟩ : ∃ k, W = k + 1 := ⟨W - 1, by omega⟩
  have h1 : (0 : Int) ≤ ((W + 1 : Nat) : Int) - 1 := by omega
  have h2 : (0 : Int) ≤ ((W + 1 : Nat) : Int) := by omega
  have h3 : (((W + 1 : Nat) : Int) - 1).toNat = W := by omega
  have h4 : (((W + 1 : Nat) : Int)).toNat = W + 1 := by omega
  simp only [CircularBuffer.idx, CircularBuffer.push, h1, h2, h3, h4, if_true]
  have hd : W < (b.data.drop 1).length := by simp; omega
  rw [List.getD_eq_getElem?_getD, List.getD_eq_getElem?_getD,
    List.getElem?_append_left hd, List.getElem?_drop]
  congr 2
  omega

theorem CircularBuffer.size_set {α : Type} (b : CircularBuffer α) (i : Int) (v : α) :
    (b.set i v).size = b.size := by
  unfold CircularBuffer.set CircularBuffer.size
  split <;> simp

theorem CircularBuffer.idx_set_ne {α : Type} [Inhabited α] (b : CircularBuffer α) (i j : Int)
    (v : α) (h : j ≠ i) : (b.set i v).idx j = b.idx j := by
  unfold CircularBuffer.set CircularBuffer.idx
  by_cases hi : 0 ≤ i
  · by_cases hj : 0 ≤ j
    · have hne : i.toNat ≠ j.toNat := by omega
      simp [hi, hj, List.getD_eq_getElem?_getD, List.getElem?_set_ne hne]
    · simp [hi, hj]
  · simp [hi]

theorem foldl_pushSlot {α : Type} [Inhabited α] (c : Int) (v : List (CircularBuffer α))
    (N : Nat) :
    ((List.range N).foldl (pushSlot c) v).length = v.length ∧
    ∀ n, vget ((List.range N).foldl (pushSlot c) v) n =
      if n < N ∧ n < v.length then (vget v n).push ((vget v n).idx c) else vget v n := by
  induction N with
  | zero => simp
  | succ N ih =>
    rw [List.range_succ, List.foldl_append]
    simp only [List.foldl_cons, List.foldl_nil]
    obtain ⟨ihl, ihg⟩ := ih
    generalize (List.range N).foldl (pushSlot c) v = w at ihl ihg
    refine ⟨?_, fun n => ?_⟩
    · simp [pushSlot, ihl]
    · unfold pushSlot
      rw [vget_set, ihl]
      by_cases hn : N = n
      · subst hn
        by_cases hl : N < v.length
        · simp [hl, ihg N]
        · simp [hl, ihg N]
      · have h1 : (n < N + 1 ∧ n < v.length) ↔ (n < N ∧ n < v.length) := by omega
        simp only [hn, false_and, if_false, ihg n, h1]

theorem AgreeOffSlot.refl {α : Type} [Inhabited α] (i : Int) (v : List (CircularBuffer α)) :
    AgreeOffSlot i v v := ⟨rfl, fun _ => ⟨rfl, fun _ _ => rfl⟩⟩

theorem AgreeOffSlot.set {α : Type} [Inhabited α] (i : Int) (v v1 : List (CircularBuffer α))
    (h : AgreeOffSlot i v v1) (n : Nat) (x : α) :
    AgreeOffSlot i v (v1.set n ((vget v1 n).set i x)) := by
  refine ⟨by simp [h.1], fun m => ?_⟩
  rw [vget_set]
  by_cases hm : n = m ∧ n < v1.length
  · obtain ⟨rfl, _⟩ := hm
    simp only [*, and_self, if_true]
    exact ⟨by rw [CircularBuffer.size_set]; exact (h.2 n).1,
      fun j hj => by rw [CircularBuffer.idx_set_ne _ _ _ _ hj]; exact (h.2 n).2 j hj⟩
  · simp only [hm, if_false]
    exact h.2 m

theorem vget_mem {α : Type} [Inhabited α] (v : List α) (n : Nat) (h : n < v.length) :
    vget v n ∈ v := by
  unfold vget
  rw [List.getD_eq_getElem _ _ h]
  exact List.getElem_mem h

theorem slideWindow_sensor_agree (cfg : Config K) (ext : Collaborators K IE MI)
    (pivot_idx i : Int) (pp pi : Pose K) (s0 s : Estimator K IE MI) (n : Nat)
    (h : AgreeOffSlot i s0.surf_points_stack_ s.surf_points_stack_ ∧
      AgreeOffSlot i s0.corner_points_stack_ s.corner_points_stack_) :
    AgreeOffSlot i s0.surf_points_stack_
        (slideWindow_sensor cfg ext pivot_idx i pp pi s n).surf_points_stack_ ∧
      AgreeOffSlot i s0.corner_points_stack_
        (slideWindow_sensor cfg ext pivot_idx i pp pi s n).corner_points_stack_ := by
  unfold slideWindow_sensor
  split
  · exact h
  · simp only []
    split
    · exact ⟨AgreeOffSlot.set i _ _ h.1 n _, h.2⟩
    · exact ⟨AgreeOffSlot.set i _ _ h.1 n _, AgreeOffSlot.set i _ _ h.2 n _⟩

theorem slideWindow_fixedMap_agree (cfg : Config K) (ext : Collaborators K IE MI)
    (s : Estimator K IE MI) :
    AgreeOffSlot ((cfg.WINDOW_SIZE : Int) - (cfg.OPT_WINDOW_SIZE : Int) + 1)
        s.surf_points_stack_ (slideWindow_fixedMap cfg ext s).surf_points_stack_ ∧
      AgreeOffSlot ((cfg.WINDOW_SIZE : Int) - (cfg.OPT_WINDOW_SIZE : Int) + 1)
        s.corner_points_stack_ (slideWindow_fixedMap cfg ext s).corner_points_stack_ := by
  unfold slideWindow_fixedMap
  split
  · exact foldl_invariant
      (fun s1 : Estimator K IE MI =>
        AgreeOffSlot ((cfg.WINDOW_SIZE : Int) - (cfg.OPT_WINDOW_SIZE : Int) + 1)
            s.surf_points_stack_ s1.surf_points_stack_ ∧
          AgreeOffSlot ((cfg.WINDOW_SIZE : Int) - (cfg.OPT_WINDOW_SIZE : Int) + 1)
            s.corner_points_stack_ s1.corner_points_stack_)
      _ (fun s1 n h1 => slideWindow_sensor_agree cfg ext _ _ _ _ s s1 n h1) _ s
      ⟨AgreeOffSlot.refl _ _, AgreeOffSlot.refl _ _⟩
  · exact ⟨AgreeOffSlot.refl _ _, AgreeOffSlot.refl _ _⟩

theorem slideWindow_fixedMap_of_not_fixed (cfg : Config K) (ext : Collaborators K IE MI)
    (s : Estimator K IE MI) (h : s.ini_fixed_local_map_ = false) :
    slideWindow_fixedMap cfg ext s = s := by
  unfold slideWindow_fixedMap
  simp [h]

theorem pushSlot_keeps_newest {α : Type} [Inhabited α] (c : Int) (v v1 : List (CircularBuffer α))
    (W N n : Nat) (hW : 1 ≤ W) (hn : n < N) (hlen : v.length = N)
    (hsize : ∀ b ∈ v, b.size = W + 1) (hl1 : v1.length = v.length)
    (hs1 : (vget v1 n).size = (vget v n).size)
    (hi1 : (vget v1 n).idx (W : Int) = (vget v n).idx (W : Int)) :
    (vget ((List.range N).foldl (pushSlot c) v1) n).idx ((W : Int) - 1) =
      (vget v n).idx (W : Int) := by
  have hnl : n < v.length := by omega
  rw [(foldl_pushSlot c v1 N).2 n]
  have hc : n < N ∧ n < v1.length := ⟨hn, by omega⟩
  simp only [hc, and_self, if_true]
  rw [CircularBuffer.push_idx_newest _ _ W hW (by rw [hs1]; exact hsize _ (vget_mem v n hnl)), hi1]

/-- C2 (amended): for every window state of the shape `setParameter` gives
(`W + 1` slots, `W ≥ 1`), one `slideWindow()` leaves in slot `W - 1` what slot
`W` held before the slide, for the pose, the header and both size channels of
every sensor; and also for the surface and edge clouds of every sensor when
the fixed local map is not initialised or when the slot the pivot map is
merged into, `pivot_idx + 1`, is not the newest slot `W`. -/
theorem slideWindow_keeps_newest (cfg : Config K) (ext : Collaborators K IE MI)
    (s : Estimator K IE MI) (hs : WindowShaped cfg s) (hW : 1 ≤ cfg.WINDOW_SIZE) :
    SlideKeepsNewest cfg s (slideWindow cfg ext s) ∧
    ((s.ini_fixed_local_map_ = false ∨
        (cfg.WINDOW_SIZE : Int) - (cfg.OPT_WINDOW_SIZE : Int) + 1 ≠ (cfg.WINDOW_SIZE : Int)) →
      SlideKeepsNewestClouds cfg s (slideWindow cfg ext s)) := by
  obtain ⟨hQ, hT, hH, ⟨hsl, hss⟩, ⟨hzl, hzs⟩, ⟨hcl, hcs⟩, ⟨hyl, hys⟩⟩ := hs
  have kQ : (slideWindow_fixedMap cfg ext s).Qs_ = s.Qs_ :=
    slideWindow_fixedMap_keeps (fun s => s.Qs_) (fun _ _ => rfl) (fun _ _ => rfl) cfg ext s
  have kT : (slideWindow_fixedMap cfg ext s).Ts_ = s.Ts_ :=
    slideWindow_fixedMap_keeps (fun s => s.Ts_) (fun _ _ => rfl) (fun _ _ => rfl) cfg ext s
  have kH : (slideWindow_fixedMap cfg ext s).Header_ = s.Header_ :=
    slideWindow_fixedMap_keeps (fun s => s.Header_) (fun _ _ => rfl) (fun _ _ => rfl) cfg ext s
  have kz : (slideWindow_fixedMap cfg ext s).surf_points_stack_size_ = s.surf_points_stack_size_ :=
    slideWindow_fixedMap_keeps (fun s => s.surf_points_stack_size_) (fun _ _ => rfl)
      (fun _ _ => rfl) cfg ext s
  have ky : (slideWindow_fixedMap cfg ext s).corner_points_stack_size_ =
      s.corner_points_stack_size_ :=
    slideWindow_fixedMap_keeps (fun s => s.corner_points_stack_size_) (fun _ _ => rfl)
      (fun _ _ => rfl) cfg ext s
  refine ⟨⟨?_, ?_, ?_, fun n hn => ⟨?_, ?_⟩⟩, fun hc n hn => ?_⟩
  · show ((slideWindow_fixedMap cfg ext s).Qs_.push _).idx _ = _
    rw [kQ]
    exact CircularBuffer.push_idx_newest _ _ _ hW hQ
  · show ((slideWindow_fixedMap cfg ext s).Ts_.push _).idx _ = _
    rw [kT]
    exact CircularBuffer.push_idx_newest _ _ _ hW hT
  · show ((slideWindow_fixedMap cfg ext s).Header_.push _).idx _ = _
    rw [kH]
    exact CircularBuffer.push_idx_newest _ _ _ hW hH
  · show (vget ((List.range cfg.NUM_OF_LASER).foldl (pushSlot _)
      (slideWindow_fixedMap cfg ext s).surf_points_stack_size_) n).idx _ = _
    rw [kz]
    exact pushSlot_keeps_newest _ _ _ _ _ n hW hn hzl hzs rfl rfl rfl
  · show (vget ((List.range cfg.NUM_OF_LASER).foldl (pushSlot _)
      (slideWindow_fixedMap cfg ext s).corner_points_stack_size_) n).idx _ = _
    rw [ky]
    exact pushSlot_keeps_newest _ _ _ _ _ n hW hn hyl hys rfl rfl rfl
  · have hagree := slideWindow_fixedMap_agree cfg ext s
    have hne : s.ini_fixed_local_map_ = false ∨
        (cfg.WINDOW_SIZE : Int) ≠ (cfg.WINDOW_SIZE : Int) - (cfg.OPT_WINDOW_SIZE : Int) + 1 :=
      hc.imp id (fun h => fun h2 => h h2.symm)
    have hsurf : (vget (slideWindow_fixedMap cfg ext s).surf_points_stack_ n).idx
        (cfg.WINDOW_SIZE : Int) = (vget s.surf_points_stack_ n).idx (cfg.WINDOW_SIZE : Int) := by
      rcases hne with h | h
      · rw [slideWindow_fixedMap_of_not_fixed cfg ext s h]
      · exact (hagree.1.2 n).2 _ h
    have hcorner : (vget (slideWindow_fixedMap cfg ext s).corner_points_stack_ n).idx
        (cfg.WINDOW_SIZE : Int) = (vget s.corner_points_stack_ n).idx (cfg.WINDOW_SIZE : Int) := by
      rcases hne with h | h
      · rw [slideWindow_fixedMap_of_not_fixed cfg ext s h]
      · exact (hagree.2.2 n).2 _ h
    exact ⟨pushSlot_keeps_newest _ _ _ _ _ n hW hn hsl hss hagree.1.1 (hagree.1.2 n).1 hsurf,
      pushSlot_keeps_newest _ _ _ _ _ n hW hn hcl hcs hagree.2.1 (hagree.2.2 n).1 hcorner⟩

end Window

/-- C2 (as stated) fails: with `W = 2` and `O = 1` the pivot map is merged
into slot `pivot_idx + 1 = W` before the push, so after the slide slot `W - 1`
of the reference sensor's surface stack holds three points where slot `W` held
one. -/
theorem slideWindow_newest_cloud_changed :
    WindowShaped exampleConfig mergedPivotEstimator ∧
    ¬ (SlideKeepsNewest exampleConfig mergedPivotEstimator
          (slideWindow exampleConfig exampleCollaborators mergedPivotEstimator) ∧
        SlideKeepsNewestClouds exampleConfig mergedPivotEstimator
          (slideWindow exampleConfig exampleCollaborators mergedPivotEstimator)) := by
  refine ⟨by decide, fun h => ?_⟩
  have h1 := congrArg List.length (h.2 0 (by decide)).1
  revert h1
  decide

/-- Witness for C2 (amended): a full window holding clouds whose fixed local
map is not initialised. -/
theorem slideWindow_keeps_newest_witness :
    SlideKeepsNewest exampleConfig unmergedEstimator
        (slideWindow exampleConfig exampleCollaborators unmergedEstimator) ∧
    SlideKeepsNewestClouds exampleConfig unmergedEstimator
        (slideWindow exampleConfig exampleCollaborators unmergedEstimator) :=
  ⟨(slideWindow_keeps_newest exampleConfig exampleCollaborators unmergedEstimator (by decide)
      (by decide)).1,
    (slideWindow_keeps_newest exampleConfig exampleCollaborators unmergedEstimator (by decide)
      (by decide)).2 (Or.inl rfl)⟩

/-! ## Convergence of the online calibration -/

section Calib

variable {K IE MI : Type} [LinearOrderedField K]

theorem evalCalib_converged_iff (cfg : Config K) (s : Estimator K IE MI) :
    ((!(List.range cfg.NUM_OF_LASER).any fun i =>
      decide (i ≠ cfg.IDX_REF ∧
        s.eig_thre_calib_.getD (i + cfg.OPT_WINDOW_SIZE + 1) 0 < cfg.EIG_THRE_CALIB)) = true) ↔
    thresholdsReached cfg s := by
  unfold thresholdsReached
  simp only [Bool.not_eq_true', List.any_eq_false, List.mem_range, decide_eq_true_eq, not_and,
    not_lt]
  constructor
  · intro h n hn hne
    have := h n hn hne
    rwa [show n + cfg.OPT_WINDOW_SIZE + 1 = cfg.OPT_WINDOW_SIZE + 1 + n by omega] at this
  · intro h n hn hne
    have := h n hn hne
    rwa [show n + cfg.OPT_WINDOW_SIZE + 1 = cfg.OPT_WINDOW_SIZE + 1 + n by omega]

/-- C3 (amended): `evalCalib`, called in the NON_LINEAR state, declares
convergence exactly when the recorded threshold of every non-reference sensor
(entry `O + 1 + n` of the table) is not below `EIG_THRE_CALIB` (at least
`EIG_THRE_CALIB`); on convergence `ESTIMATE_EXTRINSIC` is 0, the
fixed-local-map flag is false, the marginalization prior is absent and its
block list is empty; without convergence the state is unchanged. -/
theorem evalCalib_converges_when_thresholds_reached (cfg : Config K) (s : Estimator K IE MI)
    (h : s.solver_flag_ = SolverFlag.NON_LINEAR) :
    (thresholdsReached cfg s → CalibFinished (evalCalib cfg s)) ∧
    (¬ thresholdsReached cfg s → evalCalib cfg s = s ∧ CalibUntouched s (evalCalib cfg s)) := by
  have hiff := evalCalib_converged_iff cfg s
  unfold evalCalib
  simp only [h, if_true]
  constructor
  · intro hr
    rw [if_pos (hiff.mpr hr)]
    exact ⟨rfl, rfl, rfl, rfl⟩
  · intro hr
    rw [if_neg (fun hc => hr (hiff.mp hc))]
    exact ⟨rfl, rfl, rfl, rfl, rfl⟩

end Calib

/-- C3 (as stated) fails at the bound: the threshold recorded for the
non-reference sensor equals `EIG_THRE_CALIB`, so it does not exceed it, and
`evalCalib` still declares convergence: `ESTIMATE_EXTRINSIC` goes from 1 to 0
and the prior is dropped, where the claim has all four members unchanged. -/
theorem evalCalib_converges_at_bound :
    thresholdAtBoundEstimator.solver_flag_ = SolverFlag.NON_LINEAR ∧
    ¬ thresholdsExceed exampleConfig thresholdAtBoundEstimator ∧
    ¬ CalibUntouched thresholdAtBoundEstimator
        (evalCalib exampleConfig thresholdAtBoundEstimator) ∧
    thresholdAtBoundEstimator.ESTIMATE_EXTRINSIC = 1 ∧
    (evalCalib exampleConfig thresholdAtBoundEstimator).ESTIMATE_EXTRINSIC = 0 := by
  refine ⟨rfl, ?_, ?_, rfl, by decide⟩
  · intro h
    have := h 1 (by decide) (by decide)
    revert this
    decide
  · intro h
    have := h.1
    revert this
    decide

/-- Witness for C3 (amended): the calibrating estimator at the bound
converges. -/
theorem evalCalib_converges_when_thresholds_reached_witness :
    thresholdAtBoundEstimator.solver_flag_ = SolverFlag.NON_LINEAR ∧
    CalibFinished (evalCalib exampleConfig thresholdAtBoundEstimator) :=
  ⟨rfl, (evalCalib_converges_when_thresholds_reached exampleConfig thresholdAtBoundEstimator
    rfl).1 (by unfold thresholdsReached; decide)⟩

/-! ## Constant parameter blocks -/

section Assemble

variable {K IE MI : Type} [LinearOrderedField K]

theorem vector2Double_ESTIMATE_EXTRINSIC (cfg : Config K) (s : Estimator K IE MI) :
    (vector2Double cfg s).ESTIMATE_EXTRINSIC = s.ESTIMATE_EXTRINSIC := rfl

theorem foldl_addPoseBlock (ext : Collaborators K IE MI) (l : List Nat) (a : Assembly K IE MI) :
    (l.foldl (optimizeMap_addPoseBlock ext) a).s = a.s ∧
    (l.foldl (optimizeMap_addPoseBlock ext) a).problem.constant_blocks =
      a.problem.constant_blocks ∧
    (l.foldl (optimizeMap_addPoseBlock ext) a).problem.parameter_blocks =
      a.problem.parameter_blocks ++ l.map fun (i : Nat) => (ParamBlock.para_pose (i : Int), SIZE_POSE) := by
  induction l generalizing a with
  | nil => simp
  | cons i l ih =>
    rw [List.foldl_cons]
    obtain ⟨h1, h2, h3⟩ := ih (optimizeMap_addPoseBlock ext a i)
    refine ⟨h1, h2, ?_⟩
    rw [h3]
    simp [optimizeMap_addPoseBlock, Problem.AddParameterBlock]

theorem foldl_addExBlock (ext : Collaborators K IE MI) (l : List Nat) (a : Assembly K IE MI) :
    (l.foldl (optimizeMap_addExBlock ext) a).s = a.s ∧
    (l.foldl (optimizeMap_addExBlock ext) a).problem.constant_blocks =
      a.problem.constant_blocks ++
        (if a.s.ESTIMATE_EXTRINSIC = 0 then l.map ParamBlock.para_ex_pose else []) ∧
    (l.foldl (optimizeMap_addExBlock ext) a).problem.parameter_blocks =
      a.problem.parameter_blocks ++ l.map fun n => (ParamBlock.para_ex_pose n, SIZE_POSE) := by
  induction l generalizing a with
  | nil => simp
  | cons i l ih =>
    rw [List.foldl_cons]
    obtain ⟨h1, h2, h3⟩ := ih (optimizeMap_addExBlock ext a i)
    have hs : (optimizeMap_addExBlock ext a i).s = a.s := rfl
    refine ⟨by rw [h1, hs], ?_, ?_⟩
    · rw [h2, hs]
      by_cases he : a.s.ESTIMATE_EXTRINSIC = 0
      · simp [optimizeMap_addExBlock, he, Problem.AddParameterBlock,
          Problem.SetParameterBlockConstant]
      · simp [optimizeMap_addExBlock, he, Problem.AddParameterBlock]
    · rw [h3]
      by_cases he : a.s.ESTIMATE_EXTRINSIC = 0
      · simp [optimizeMap_addExBlock, he, Problem.AddParameterBlock,
          Problem.SetParameterBlockConstant]
      · simp [optimizeMap_addExBlock, he, Problem.AddParameterBlock]

theorem foldl_setExtrinsicConstant (l : List Nat) (p : Problem K MI) :
    (l.foldl setExtrinsicConstant p).constant_blocks =
      p.constant_blocks ++ l.map ParamBlock.para_ex_pose ∧
    (l.foldl setExtrinsicConstant p).parameter_blocks = p.parameter_blocks := by
  induction l generalizing p with
  | nil => simp
  | cons i l ih =>
    rw [List.foldl_cons]
    obtain ⟨h1, h2⟩ := ih (setExtrinsicConstant p i)
    exact ⟨by rw [h1]; simp [setExtrinsicConstant, Problem.SetParameterBlockConstant],
      by rw [h2]; rfl⟩

/-- The part of an assembly that adding residual blocks leaves alone. -/
theorem addProj_blocks (a : Assembly K IE MI) (r : ResidualBlock K MI) :
    (a.addProj r).problem.constant_blocks = a.problem.constant_blocks ∧
    (a.addProj r).problem.parameter_blocks = a.problem.parameter_blocks :=
  ⟨rfl, rfl⟩

theorem optimizeMap_blocks_spec (cfg : Config K) (ext : Collaborators K IE MI)
    (s : Estimator K IE MI) :
    (optimizeMap_blocks cfg ext s).s = vector2Double cfg s ∧
    (optimizeMap_blocks cfg ext s).problem.constant_blocks =
      [ParamBlock.para_pose 0] ++
        (if s.ESTIMATE_EXTRINSIC = 0 then
          (List.range cfg.NUM_OF_LASER).map ParamBlock.para_ex_pose else []) ++
        [ParamBlock.para_ex_pose cfg.IDX_REF] ∧
    (optimizeMap_blocks cfg ext s).problem.parameter_blocks =
      ((List.range (cfg.OPT_WINDOW_SIZE + 1)).map fun (i : Nat) =>
        (ParamBlock.para_pose (i : Int), SIZE_POSE)) ++
      (List.range cfg.NUM_OF_LASER).map fun n => (ParamBlock.para_ex_pose n, SIZE_POSE) := by
  unfold optimizeMap_blocks
  simp only []
  refine ⟨?_, ?_, ?_⟩
  · show (List.foldl (optimizeMap_addExBlock ext) _ _).s = _
    rw [(foldl_addExBlock ext _ _).1]
    show (List.foldl (optimizeMap_addPoseBlock ext) _ _).s = _
    rw [(foldl_addPoseBlock ext _ _).1]
  · show (List.foldl (optimizeMap_addExBlock ext) _ _).problem.constant_blocks ++ _ = _
    rw [(foldl_addExBlock ext _ _).2.1]
    show ((List.foldl (optimizeMap_addPoseBlock ext) _ _).problem.constant_blocks ++ _) ++
      (if (List.foldl (optimizeMap_addPoseBlock ext) _ _).s.ESTIMATE_EXTRINSIC = 0 then _ else _)
        ++ _ = _
    rw [(foldl_addPoseBlock ext _ _).2.1, (foldl_addPoseBlock ext _ _).1]
    rfl
  · show (List.foldl (optimizeMap_addExBlock ext) _ _).problem.parameter_blocks = _
    rw [(foldl_addExBlock ext _ _).2.2]
    show (List.foldl (optimizeMap_addPoseBlock ext) _ _).problem.parameter_blocks ++ _ = _
    rw [(foldl_addPoseBlock ext _ _).2.2]
    rfl

theorem optimizeMap_priors_blocks_spec (cfg : Config K) (ext : Collaborators K IE MI)
    (s : Estimator K IE MI) :
    (optimizeMap_priors cfg (optimizeMap_blocks cfg ext s)).s.ESTIMATE_EXTRINSIC =
      s.ESTIMATE_EXTRINSIC ∧
    (optimizeMap_priors cfg (optimizeMap_blocks cfg ext s)).problem.constant_blocks =
      [ParamBlock.para_pose 0] ++
        (if s.ESTIMATE_EXTRINSIC = 0 then
          (List.range cfg.NUM_OF_LASER).map ParamBlock.para_ex_pose else []) ++
        [ParamBlock.para_ex_pose cfg.IDX_REF] ∧
    (optimizeMap_priors cfg (optimizeMap_blocks cfg ext s)).problem.parameter_blocks =
      ((List.range (cfg.OPT_WINDOW_SIZE + 1)).map fun (i : Nat) =>
        (ParamBlock.para_pose (i : Int), SIZE_POSE)) ++
      (List.range cfg.NUM_OF_LASER).map fun n => (ParamBlock.para_ex_pose n, SIZE_POSE) := by
  have hv := optimizeMap_priors_view cfg (optimizeMap_blocks cfg ext s)
  obtain ⟨h1, h2, h3⟩ := optimizeMap_blocks_spec cfg ext s
  refine ⟨?_, ?_, ?_⟩
  · rw [optimizeMap_priors_s, h1]; rfl
  · rw [← h2]; exact congrArg (fun v => v.1) hv
  · rw [← h3]; exact congrArg (fun v => v.2.1) hv

theorem optimizeMap_assemble_calibration (cfg : Config K) (ext : Collaborators K IE MI)
    (s : Estimator K IE MI) (he : s.ESTIMATE_EXTRINSIC = 1) :
    (optimizeMap_assemble cfg ext s).blocksAndDriver =
      (optimizeMap_priors cfg (optimizeMap_blocks cfg ext s)).blocksAndDriver := by
  have h1 := (optimizeMap_priors_blocks_spec cfg ext s).1
  rw [he] at h1
  unfold optimizeMap_assemble
  simp only []
  rw [if_pos h1]
  exact optimizeMap_calibration_view cfg ext _

theorem optimizeMap_odometry_blocks (cfg : Config K) (ext : Collaborators K IE MI)
    (a : Assembly K IE MI) :
    (optimizeMap_odometry cfg ext a).problem.constant_blocks =
      a.problem.constant_blocks ++ (List.range cfg.NUM_OF_LASER).map ParamBlock.para_ex_pose ∧
    (optimizeMap_odometry cfg ext a).problem.parameter_blocks = a.problem.parameter_blocks := by
  have hf := foldl_setExtrinsicConstant (List.range cfg.NUM_OF_LASER) a.problem
  unfold optimizeMap_odometry
  simp only []
  split
  · have hv := optimizeMap_odomPlane_view cfg
      ((cfg.WINDOW_SIZE : Int) - (cfg.OPT_WINDOW_SIZE : Int))
      { s := buildLocalMap cfg ext a.s
        problem := List.foldl setExtrinsicConstant a.problem (List.range cfg.NUM_OF_LASER)
        local_param_ids := a.local_param_ids
        para_ids := a.para_ids
        res_ids_marg := a.res_ids_marg
        res_ids_proj := a.res_ids_proj }
    exact ⟨(congrArg (fun v => v.1) hv).trans hf.1, (congrArg (fun v => v.2.1) hv).trans hf.2⟩
  · exact hf

theorem optimizeMap_assemble_odometry (cfg : Config K) (ext : Collaborators K IE MI)
    (s : Estimator K IE MI) (he : s.ESTIMATE_EXTRINSIC = 0) :
    (optimizeMap_assemble cfg ext s).problem.constant_blocks =
      (optimizeMap_priors cfg (optimizeMap_blocks cfg ext s)).problem.constant_blocks ++
        (List.range cfg.NUM_OF_LASER).map ParamBlock.para_ex_pose ∧
    (optimizeMap_assemble cfg ext s).problem.parameter_blocks =
      (optimizeMap_priors cfg (optimizeMap_blocks cfg ext s)).problem.parameter_blocks := by
  have h1 := (optimizeMap_priors_blocks_spec cfg ext s).1
  rw [he] at h1
  have h10 : ¬ ((optimizeMap_priors cfg (optimizeMap_blocks cfg ext s)).s.ESTIMATE_EXTRINSIC = 1) := by
    rw [h1]; decide
  unfold optimizeMap_assemble
  simp only []
  rw [if_neg h10, if_pos h1]
  exact optimizeMap_odometry_blocks cfg ext _

/-- C4: in the problem `optimizeMap` assembles, the pivot block `pose[0]` and
the reference extrinsic `ex_pose[IDX_REF]` are parameter blocks of the problem
and are set constant; with `ESTIMATE_EXTRINSIC = 0` every extrinsic block
`ex_pose[n]`, `n < NUM_OF_LASER`, is set constant; with `ESTIMATE_EXTRINSIC = 1`
every non-reference extrinsic block is a parameter block that is not set
constant. -/
theorem optimizeMap_constant_blocks (cfg : Config K) (ext : Collaborators K IE MI)
    (s : Estimator K IE MI) (href : cfg.IDX_REF < cfg.NUM_OF_LASER) :
    ((optimizeMap_assemble cfg ext s).problem.IsConstant (ParamBlock.para_pose 0) ∧
      (ParamBlock.para_pose 0, SIZE_POSE) ∈
        (optimizeMap_assemble cfg ext s).problem.parameter_blocks) ∧
    ((optimizeMap_assemble cfg ext s).problem.IsConstant (ParamBlock.para_ex_pose cfg.IDX_REF) ∧
      (ParamBlock.para_ex_pose cfg.IDX_REF, SIZE_POSE) ∈
        (optimizeMap_assemble cfg ext s).problem.parameter_blocks) ∧
    (s.ESTIMATE_EXTRINSIC = 0 → ∀ n, n < cfg.NUM_OF_LASER →
      (optimizeMap_assemble cfg ext s).problem.IsConstant (ParamBlock.para_ex_pose n)) ∧
    (s.ESTIMATE_EXTRINSIC = 1 → ∀ n, n < cfg.NUM_OF_LASER → n ≠ cfg.IDX_REF →
      ¬ (optimizeMap_assemble cfg ext s).problem.IsConstant (ParamBlock.para_ex_pose n) ∧
      (ParamBlock.para_ex_pose n, SIZE_POSE) ∈
        (optimizeMap_assemble cfg ext s).problem.parameter_blocks) := by
  obtain ⟨h1, h2, h3⟩ := optimizeMap_priors_blocks_spec cfg ext s
  have hcb : ∀ b, b ∈ (optimizeMap_priors cfg (optimizeMap_blocks cfg ext s)).problem.constant_blocks →
      b ∈ (optimizeMap_assemble cfg ext s).problem.constant_blocks := by
    intro b hb
    by_cases he1 : s.ESTIMATE_EXTRINSIC = 1
    · have := congrArg (fun v => v.1) (optimizeMap_assemble_calibration cfg ext s he1)
      simp only [Assembly.blocksAndDriver] at this
      rw [this]; exact hb
    · by_cases he0 : s.ESTIMATE_EXTRINSIC = 0
      · rw [(optimizeMap_assemble_odometry cfg ext s he0).1]
        exact List.mem_append_left _ hb
      · have h10 : ¬ ((optimizeMap_priors cfg (optimizeMap_blocks cfg ext s)).s.ESTIMATE_EXTRINSIC = 1) := by
          rw [h1]; exact he1
        have h00 : ¬ ((optimizeMap_priors cfg (optimizeMap_blocks cfg ext s)).s.ESTIMATE_EXTRINSIC = 0) := by
          rw [h1]; exact he0
        unfold optimizeMap_assemble
        simp only []
        rw [if_neg h10, if_neg h00]
        exact hb
  have hpb : (optimizeMap_assemble cfg ext s).problem.parameter_blocks =
      (optimizeMap_priors cfg (optimizeMap_blocks cfg ext s)).problem.parameter_blocks := by
    by_cases he1 : s.ESTIMATE_EXTRINSIC = 1
    · have := congrArg (fun v => v.2.1) (optimizeMap_assemble_calibration cfg ext s he1)
      simpa only [Assembly.blocksAndDriver] using this
    · by_cases he0 : s.ESTIMATE_EXTRINSIC = 0
      · exact (optimizeMap_assemble_odometry cfg ext s he0).2
      · have h10 : ¬ ((optimizeMap_priors cfg (optimizeMap_blocks cfg ext s)).s.ESTIMATE_EXTRINSIC = 1) := by
          rw [h1]; exact he1
        have h00 : ¬ ((optimizeMap_priors cfg (optimizeMap_blocks cfg ext s)).s.ESTIMATE_EXTRINSIC = 0) := by
          rw [h1]; exact he0
        unfold optimizeMap_assemble
        simp only []
        rw [if_neg h10, if_neg h00]
  have hex : ∀ n, n < cfg.NUM_OF_LASER → (ParamBlock.para_ex_pose n, SIZE_POSE) ∈
      (optimizeMap_assemble cfg ext s).problem.parameter_blocks := by
    intro n hn
    rw [hpb, h3]
    exact List.mem_append_right _ (List.mem_map.mpr ⟨n, List.mem_range.mpr hn, rfl⟩)
  refine ⟨⟨hcb _ (by rw [h2]; simp), ?_⟩, ⟨hcb _ (by rw [h2]; simp), hex _ href⟩, ?_, ?_⟩
  · rw [hpb, h3]
    exact List.mem_append_left _
      (List.mem_map.mpr ⟨(0 : Nat), List.mem_range.mpr (Nat.succ_pos cfg.OPT_WINDOW_SIZE), rfl⟩)
  · intro he0 n hn
    refine hcb _ ?_
    rw [h2, if_pos he0]
    simp only [List.mem_append, List.mem_map, List.mem_range, List.mem_singleton]
    exact Or.inl (Or.inr ⟨n, hn, rfl⟩)
  · intro he1 n hn hne
    refine ⟨?_, hex n hn⟩
    have := congrArg (fun v => v.1) (optimizeMap_assemble_calibration cfg ext s he1)
    simp only [Assembly.blocksAndDriver] at this
    unfold Problem.IsConstant
    rw [this, h2, if_neg (by rw [he1]; decide)]
    simp [hne]

end Assemble

/-- Witness for C4: the two-sensor estimator in calibration mode with a full
window (reference sensor 0 of 2): `pose[0]` and `ex_pose[0]` are constant,
`ex_pose[1]` is a variable block. -/
theorem optimizeMap_constant_blocks_witness :
    (optimizeMap_assemble exampleConfig exampleCollaborators
        thresholdAtBoundEstimator).problem.IsConstant (ParamBlock.para_pose 0) ∧
    (optimizeMap_assemble exampleConfig exampleCollaborators
        thresholdAtBoundEstimator).problem.IsConstant (ParamBlock.para_ex_pose 0) ∧
    ¬ (optimizeMap_assemble exampleConfig exampleCollaborators
        thresholdAtBoundEstimator).problem.IsConstant (ParamBlock.para_ex_pose 1) ∧
    (ParamBlock.para_ex_pose 1, SIZE_POSE) ∈
      (optimizeMap_assemble exampleConfig exampleCollaborators
        thresholdAtBoundEstimator).problem.parameter_blocks :=
  ⟨(optimizeMap_constant_blocks exampleConfig exampleCollaborators thresholdAtBoundEstimator
      (by decide)).1.1,
    (optimizeMap_constant_blocks exampleConfig exampleCollaborators thresholdAtBoundEstimator
      (by decide)).2.1.1,
    (optimizeMap_constant_blocks exampleConfig exampleCollaborators thresholdAtBoundEstimator
      (by decide)).2.2.2 rfl 1 (by decide) (by decide)⟩

/-! ## Degeneracy thresholds -/

section Degeneracy

variable {K IE MI : Type} [LinearOrderedField K]

theorem getD_set {α : Type} (l : List α) (k i : Nat) (x d : α) :
    (l.set k x).getD i d = if k = i ∧ k < l.length then x else l.getD i d := by
  by_cases h : k = i
  · subst h
    by_cases hl : k < l.length
    · simp [hl, List.getD_eq_getElem?_getD, List.getElem?_set_self]
    · have : l.length ≤ k := Nat.le_of_not_lt hl
      simp [hl, List.getD_eq_getElem?_getD, List.getElem?_eq_none, this]
  · simp [h, List.getD_eq_getElem?_getD, List.getElem?_set_ne h]

theorem evalDegenracy_block_threshold (cfg : Config K) (ext : Collaborators K IE MI)
    (mat_JtJ : MatrixXd K) (st : List (PoseLocalParameterization K) × List K) (k i : Nat) :
    st.2.getD i 0 ≤ (evalDegenracy_block cfg ext mat_JtJ st k).2.getD i 0 := by
  unfold evalDegenracy_block
  simp only []
  split
  · rename_i h
    rw [getD_set]
    split
    · rename_i hk
      rw [← hk.1]
      exact le_of_lt h.2
    · exact le_refl _
  · exact le_refl _

theorem evalDegenracy_threshold (cfg : Config K) (ext : Collaborators K IE MI)
    (local_param_ids : List (PoseLocalParameterization K)) (jaco : CRSMatrix K)
    (eig_thre_calib : List K) (i : Nat) :
    eig_thre_calib.getD i 0 ≤
      (evalDegenracy cfg ext local_param_ids jaco eig_thre_calib).2.getD i 0 := by
  unfold evalDegenracy
  exact foldl_invariant
    (fun st : List (PoseLocalParameterization K) × List K =>
      eig_thre_calib.getD i 0 ≤ st.2.getD i 0)
    _ (fun st k h => le_trans h (evalDegenracy_block_threshold cfg ext _ st k i)) _ _ (le_refl _)

theorem analyzerPasses_threshold (cfg : Config K) (ext : Collaborators K IE MI)
    (passes : List (List (PoseLocalParameterization K) × CRSMatrix K)) (eig_thre_calib : List K)
    (i : Nat) :
    eig_thre_calib.getD i 0 ≤ (analyzerPasses cfg ext passes eig_thre_calib).getD i 0 := by
  unfold analyzerPasses
  exact foldl_invariant (fun thr : List K => eig_thre_calib.getD i 0 ≤ thr.getD i 0) _
    (fun thr pass h => le_trans h (evalDegenracy_threshold cfg ext pass.1 pass.2 thr i)) _ _
    (le_refl _)

/-- C5: for every block `i` (in particular every extrinsic block
`i > OPT_WINDOW_SIZE`), one analyzer pass `evalDegenracy` with an arbitrary
Jacobian never lowers the stored threshold `tau[i]`; hence along every run of
passes the threshold after any number of further passes is at least what it
was before them. -/
theorem evalDegenracy_threshold_never_decreases (cfg : Config K) (ext : Collaborators K IE MI)
    (i : Nat) :
    (∀ (local_param_ids : List (PoseLocalParameterization K)) (jaco : CRSMatrix K)
        (eig_thre_calib : List K),
      eig_thre_calib.getD i 0 ≤
        (evalDegenracy cfg ext local_param_ids jaco eig_thre_calib).2.getD i 0) ∧
    (∀ (earlier later : List (List (PoseLocalParameterization K) × CRSMatrix K))
        (eig_thre_calib : List K),
      (analyzerPasses cfg ext earlier eig_thre_calib).getD i 0 ≤
        (analyzerPasses cfg ext (earlier ++ later) eig_thre_calib).getD i 0) := by
  refine ⟨fun lps jaco thr => evalDegenracy_threshold cfg ext lps jaco thr i,
    fun earlier later thr => ?_⟩
  have : analyzerPasses cfg ext (earlier ++ later) thr =
      analyzerPasses cfg ext later (analyzerPasses cfg ext earlier thr) := by
    unfold analyzerPasses
    rw [List.foldl_append]
  rw [this]
  exact analyzerPasses_threshold cfg ext later _ i

end Degeneracy

/-! ## Degenerate directions -/

section Columns

variable {K IE MI : Type} [LinearOrderedField K]

theorem zeroDegenerateColumns_spec (mat_E : Fin 6 → K) (eig_thre : K) (js : List (Fin 6))
    (hjs : js.Pairwise fun a b => mat_E a ≤ mat_E b) (mat_V : Matrix6d K) (flag : Bool) :
    (zeroDegenerateColumns mat_E eig_thre js (mat_V, flag)).1 =
        Matrix.of (fun a b => if b ∈ js ∧ mat_E b < eig_thre then 0 else mat_V a b) ∧
      ((zeroDegenerateColumns mat_E eig_thre js (mat_V, flag)).2 = true ↔
        (flag = true ∨ ∃ j, j ∈ js ∧ mat_E j < eig_thre)) := by
  induction js generalizing mat_V flag with
  | nil =>
    simp only [zeroDegenerateColumns, List.not_mem_nil, false_and, if_false, exists_false,
      or_false, and_true]
    rfl
  | cons j js ih =>
    rw [List.pairwise_cons] at hjs
    unfold zeroDegenerateColumns
    by_cases hj : mat_E j < eig_thre
    · rw [if_pos hj]
      obtain ⟨h1, h2⟩ := ih hjs.2 (Matrix.of fun a b => if b = j then 0 else mat_V a b) true
      refine ⟨?_, ?_⟩
      · rw [h1]
        ext a b
        simp only [Matrix.of_apply, List.mem_cons]
        by_cases hb : b = j
        · subst hb
          simp [hj]
        · simp [hb]
      · rw [h2]
        simp only [true_or, true_iff]
        exact Or.inr ⟨j, List.mem_cons_self _ _, hj⟩
    · rw [if_neg hj]
      have hnone : ∀ b, b ∈ j :: js → ¬ mat_E b < eig_thre := by
        intro b hb
        rcases List.mem_cons.mp hb with rfl | hb
        · exact hj
        · exact fun hlt => hj (lt_of_le_of_lt (hjs.1 b hb) hlt)
      refine ⟨?_, ?_⟩
      · ext a b
        by_cases hb : b ∈ j :: js
        · simp [hb, hnone b hb]
        · have hb2 : ¬ ((b = j ∨ b ∈ js) ∧ mat_E b < eig_thre) :=
            fun h => hb (List.mem_cons.mpr h.1)
          simp [hb2]
      · constructor
        · exact fun h => Or.inl h
        · rintro (h | ⟨b, hb, hlt⟩)
          · exact h
          · exact absurd hlt (hnone b hb)

theorem finRange_pairwise_of_ascending (mat_E : Fin 6 → K)
    (hE : ∀ j k : Fin 6, j ≤ k → mat_E j ≤ mat_E k) :
    (List.finRange 6).Pairwise fun a b => mat_E a ≤ mat_E b :=
  (List.pairwise_lt_finRange 6).imp (fun h => hE _ _ (le_of_lt h))

/-- C6: for every block `i` whose six eigenvalues come in ascending order, the
analyzer flags the block degenerate exactly when at least one eigenvalue is
strictly below `tau[i]`, and the columns it zeroes in `Vp` are exactly the
columns whose eigenvalue is strictly below `tau[i]` (the other columns are
those of `Vf`). -/
theorem evalDegenracy_flags_and_zeroes_below_threshold (cfg : Config K)
    (ext : Collaborators K IE MI) (mat_JtJ : MatrixXd K)
    (st : List (PoseLocalParameterization K) × List K) (i : Nat) (hi : i < st.1.length)
    (hE : ∀ j k : Fin 6, j ≤ k →
      (ext.eigensolver (hessianBlock mat_JtJ i)).1 j ≤
        (ext.eigensolver (hessianBlock mat_JtJ i)).1 k) :
    (((evalDegenracy_block cfg ext mat_JtJ st i).1.getD i
          ext.newPoseLocalParameterization).is_degenerate_ = true ↔
      ∃ j, (ext.eigensolver (hessianBlock mat_JtJ i)).1 j < st.2.getD i 0) ∧
    (zeroDegenerateColumns (ext.eigensolver (hessianBlock mat_JtJ i)).1 (st.2.getD i 0)
        (List.finRange 6) ((ext.eigensolver (hessianBlock mat_JtJ i)).2, false)).1 =
      Matrix.of (fun a b =>
        if (ext.eigensolver (hessianBlock mat_JtJ i)).1 b < st.2.getD i 0 then 0
        else (ext.eigensolver (hessianBlock mat_JtJ i)).2 a b) := by
  obtain ⟨h1, h2⟩ := zeroDegenerateColumns_spec (ext.eigensolver (hessianBlock mat_JtJ i)).1
    (st.2.getD i 0) (List.finRange 6) (finRange_pairwise_of_ascending _ hE)
    (ext.eigensolver (hessianBlock mat_JtJ i)).2 false
  refine ⟨?_, ?_⟩
  · have hflag : ((evalDegenracy_block cfg ext mat_JtJ st i).1.getD i
        ext.newPoseLocalParameterization).is_degenerate_ =
        (zeroDegenerateColumns (ext.eigensolver (hessianBlock mat_JtJ i)).1 (st.2.getD i 0)
          (List.finRange 6) ((ext.eigensolver (hessianBlock mat_JtJ i)).2, false)).2 := by
      unfold evalDegenracy_block
      simp only []
      rw [List.getD_eq_getElem?_getD, List.getElem?_set_self hi]
      simp only [Option.getD_some]
      split <;> rfl
    rw [hflag, h2]
    simp [List.mem_finRange]
  · rw [h1]
    ext a b
    simp [List.mem_finRange]

end Columns

/-- Witness for C6: a block whose Hessian is `diag(1, 2, 3, 4, 5, 6)` and whose
threshold is 10. -/
theorem evalDegenracy_flags_and_zeroes_below_threshold_witness :
    (((evalDegenracy_block exampleConfig exampleCollaborators diagonalGramian
            ([⟨false, 1⟩], [10]) 0).1.getD 0
          exampleCollaborators.newPoseLocalParameterization).is_degenerate_ = true ↔
      ∃ j, (exampleCollaborators.eigensolver (hessianBlock diagonalGramian 0)).1 j <
          ([10] : List ℚ).getD 0 0) ∧
    (zeroDegenerateColumns (exampleCollaborators.eigensolver (hessianBlock diagonalGramian 0)).1
        (([10] : List ℚ).getD 0 0) (List.finRange 6)
        ((exampleCollaborators.eigensolver (hessianBlock diagonalGramian 0)).2, false)).1 =
      Matrix.of (fun a b =>
        if (exampleCollaborators.eigensolver (hessianBlock diagonalGramian 0)).1 b <
            ([10] : List ℚ).getD 0 0 then 0
        else (exampleCollaborators.eigensolver (hessianBlock diagonalGramian 0)).2 a b) :=
  evalDegenracy_flags_and_zeroes_below_threshold exampleConfig exampleCollaborators
    diagonalGramian ([⟨false, 1⟩], [10]) 0 (by decide) (by decide)

/-! ## Measurement queue -/

section Queue

variable {K IE MI : Type} [LinearOrderedField K]

theorem inputCloud_single_thread (cfg : Config K) (ext : Collaborators K IE MI) (fuel : Nat)
    (hmt : cfg.MULTIPLE_THREAD = false) (s : Estimator K IE MI) (t : K)
    (clouds : List (PointCloud K)) (hq : s.feature_buf_ = [])
    (hn : clouds.length = cfg.NUM_OF_LASER) :
    inputCloud cfg ext (fuel + 1) t clouds s = Outcome.done (acceptCall cfg ext s (t, clouds)) ∧
      (acceptCall cfg ext s (t, clouds)).feature_buf_ = [] := by
  have hlen : (inputFrame ext t clouds).2.length = cfg.NUM_OF_LASER := by
    simp [inputFrame, hn]
  refine ⟨?_, ?_⟩
  · unfold inputCloud processMeasurements processMeasurements_turn
    simp only [hmt, hq, List.nil_append, Bool.not_false, if_true, hlen]
    rfl
  · unfold acceptCall
    rw [process_feature_buf]
    rfl

theorem inputClouds_single_thread (cfg : Config K) (ext : Collaborators K IE MI) (fuel : Nat)
    (hmt : cfg.MULTIPLE_THREAD = false) (calls : List (K × List (PointCloud K))) :
    ∀ (s : Estimator K IE MI), s.feature_buf_ = [] →
      (∀ c, c ∈ calls → c.2.length = cfg.NUM_OF_LASER) →
      inputClouds cfg ext (fuel + 1) calls s = Outcome.done (calls.foldl (acceptCall cfg ext) s) ∧
        (calls.foldl (acceptCall cfg ext) s).feature_buf_ = [] := by
  induction calls with
  | nil => intro s hq _; exact ⟨rfl, hq⟩
  | cons c calls ih =>
    intro s hq hall
    obtain ⟨h1, h2⟩ := inputCloud_single_thread cfg ext fuel hmt s c.1 c.2 hq
      (hall c (List.mem_cons_self _ _))
    obtain ⟨h3, h4⟩ := ih (acceptCall cfg ext s (c.1, c.2)) h2
      (fun d hd => hall d (List.mem_cons_of_mem _ hd))
    refine ⟨?_, h4⟩
    unfold inputClouds
    rw [h1]
    exact h3

/-- C7: when the frame at the front of the feature queue does not carry
`NUM_OF_LASER` feature sets, `processMeasurements` stops at its assertion
(estimator.cpp 232) before the frame is popped and before `process()` runs:
only `cur_feature_` and `cur_time_` have been written, so the window, the
extrinsics, the solver flag and the fill count are as they were, and no
sensor slot has been filled in for the missing sets. -/
theorem processMeasurements_rejects_wrong_sensor_count (cfg : Config K)
    (ext : Collaborators K IE MI) (fuel : Nat) (s : Estimator K IE MI) (front : Frame K)
    (rest : List (Frame K)) (hq : s.feature_buf_ = front :: rest)
    (hn : front.2.length ≠ cfg.NUM_OF_LASER) :
    processMeasurements cfg ext (fuel + 1) s =
      Outcome.assertion_failed { s with cur_feature_ := front, cur_time_ := front.1 + s.td_ } ∧
    SameWindowAndMode s { s with cur_feature_ := front, cur_time_ := front.1 + s.td_ } := by
  refine ⟨?_, ⟨rfl, rfl, rfl, rfl, rfl, rfl, rfl, rfl, rfl, rfl, rfl, rfl, rfl, rfl, rfl⟩⟩
  unfold processMeasurements processMeasurements_turn
  rw [hq]
  simp only [hn, if_false]

/-- C8: in single-thread mode (`MULTIPLE_THREAD` false) and with an empty
queue, a call of `inputCloud` with `NUM_OF_LASER` clouds returns normally
after exactly one `process()` cycle, run on the frame the call enqueued, and
leaves the queue empty; hence a run of such calls processes the frames one by
one in call order, none skipped, and ends with an empty queue. -/
theorem inputCloud_processes_each_frame_in_order (cfg : Config K) (ext : Collaborators K IE MI)
    (fuel : Nat) (hmt : cfg.MULTIPLE_THREAD = false) (s : Estimator K IE MI) (t : K)
    (clouds : List (PointCloud K)) (calls : List (K × List (PointCloud K)))
    (hq : s.feature_buf_ = []) (hn : clouds.length = cfg.NUM_OF_LASER)
    (hall : ∀ c, c ∈ calls → c.2.length = cfg.NUM_OF_LASER) :
    (inputCloud cfg ext (fuel + 1) t clouds s =
        Outcome.done (process cfg ext
          (frameLoaded { s with input_cloud_cnt_ := s.input_cloud_cnt_ + 1 }
            (inputFrame ext t clouds))) ∧
      (process cfg ext (frameLoaded { s with input_cloud_cnt_ := s.input_cloud_cnt_ + 1 }
        (inputFrame ext t clouds))).feature_buf_ = []) ∧
    (inputClouds cfg ext (fuel + 1) calls s = Outcome.done (calls.foldl (acceptCall cfg ext) s) ∧
      (calls.foldl (acceptCall cfg ext) s).feature_buf_ = []) :=
  ⟨inputCloud_single_thread cfg ext fuel hmt s t clouds hq hn,
    inputClouds_single_thread cfg ext fuel hmt calls s hq hall⟩

end Queue

/-- Witness for C7: a frame with one feature set queued at a two-sensor
estimator. -/
theorem processMeasurements_rejects_wrong_sensor_count_witness :
    processMeasurements exampleConfig exampleCollaborators (0 + 1) shortFrameEstimator =
      Outcome.assertion_failed
        { shortFrameEstimator with
          cur_feature_ := (1, [[]])
          cur_time_ := ((1, [[]]) : Frame ℚ).1 + shortFrameEstimator.td_ } ∧
    SameWindowAndMode shortFrameEstimator
      { shortFrameEstimator with
        cur_feature_ := (1, [[]])
        cur_time_ := ((1, [[]]) : Frame ℚ).1 + shortFrameEstimator.td_ } :=
  processMeasurements_rejects_wrong_sensor_count exampleConfig exampleCollaborators 0
    shortFrameEstimator (1, [[]]) [] rfl (by decide)

/-- Witness for C8: the single-threaded two-sensor estimator is fed one call,
and a run of three calls, of two clouds each. -/
theorem inputCloud_processes_each_frame_in_order_witness :
    (inputCloud exampleConfig exampleCollaborators (0 + 1) 0 twoClouds readyEstimator =
        Outcome.done (process exampleConfig exampleCollaborators
          (frameLoaded
            { readyEstimator with input_cloud_cnt_ := readyEstimator.input_cloud_cnt_ + 1 }
            (inputFrame exampleCollaborators 0 twoClouds))) ∧
      (process exampleConfig exampleCollaborators
        (frameLoaded
          { readyEstimator with input_cloud_cnt_ := readyEstimator.input_cloud_cnt_ + 1 }
          (inputFrame exampleCollaborators 0 twoClouds))).feature_buf_ = []) ∧
    (inputClouds exampleConfig exampleCollaborators (0 + 1)
        [(0, twoClouds), (1, twoClouds), (2, twoClouds)] readyEstimator =
        Outcome.done (([(0, twoClouds), (1, twoClouds), (2, twoClouds)] :
          List (ℚ × List (PointCloud ℚ))).foldl
            (acceptCall exampleConfig exampleCollaborators) readyEstimator) ∧
      (([(0, twoClouds), (1, twoClouds), (2, twoClouds)] :
        List (ℚ × List (PointCloud ℚ))).foldl
          (acceptCall exampleConfig exampleCollaborators) readyEstimator).feature_buf_ = []) :=
  inputCloud_processes_each_frame_in_order exampleConfig exampleCollaborators 0 rfl
    readyEstimator 0 twoClouds [(0, twoClouds), (1, twoClouds), (2, twoClouds)] rfl (by decide)
    (by decide)

/-! ## Pose algebra -/

section PoseFacts

variable {K : Type} [LinearOrderedField K]

theorem Quaterniond.normalize_unit (sqrt : K → K) (hs : sqrt 1 = 1) (q : Quaterniond K)
    (hq : q.squaredNorm = 1) : q.normalize sqrt = q := by
  simp [Quaterniond.normalize, hq, hs]

theorem Quaterniond.squaredNorm_mul (a b : Quaterniond K) :
    (a.mul b).squaredNorm = a.squaredNorm * b.squaredNorm := by
  simp only [Quaterniond.squaredNorm, Quaterniond.mul]; ring

theorem Quaterniond.squaredNorm_conjugate (q : Quaterniond K) :
    q.conjugate.squaredNorm = q.squaredNorm := by
  simp only [Quaterniond.squaredNorm, Quaterniond.conjugate]; ring

theorem Quaterniond.inverse_unit (q : Quaterniond K) (hq : q.squaredNorm = 1) :
    q.inverse = q.conjugate := by
  simp [Quaterniond.inverse, hq, Quaterniond.conjugate]

theorem Quaterniond.conjugate_mul (a b : Quaterniond K) :
    (a.mul b).conjugate = b.conjugate.mul a.conjugate := by
  simp only [Quaterniond.mul, Quaterniond.conjugate, Quaterniond.mk.injEq]
  refine ⟨?_, ?_, ?_, ?_⟩ <;> ring

theorem Quaterniond.transformVector_eq_sandwich (q : Quaterniond K) (hq : q.squaredNorm = 1)
    (v : Vector3d K) : q.transformVector v = q.sandwich v := by
  simp only [Quaterniond.squaredNorm] at hq
  simp only [Quaterniond.sandwich, Quaterniond.transformVector, Quaterniond.mul,
    Quaterniond.conjugate, Quaterniond.ofVector, Quaterniond.vec, Vector3d.add, Vector3d.smul,
    Vector3d.cross, Vector3d.mk.injEq]
  refine ⟨?_, ?_, ?_⟩
  · linear_combination (-v.x) * hq
  · linear_combination (-v.y) * hq
  · linear_combination (-v.z) * hq

theorem Quaterniond.sandwich_mul (a b : Quaterniond K) (v : Vector3d K) :
    (a.mul b).sandwich v = a.sandwich (b.sandwich v) := by
  simp only [Quaterniond.sandwich, Quaterniond.mul, Quaterniond.conjugate, Quaterniond.ofVector,
    Quaterniond.vec, Vector3d.mk.injEq]
  refine ⟨?_, ?_, ?_⟩ <;> ring

theorem Quaterniond.sandwich_add (q : Quaterniond K) (v w : Vector3d K) :
    q.sandwich (v.add w) = (q.sandwich v).add (q.sandwich w) := by
  simp only [Quaterniond.sandwich, Quaterniond.mul, Quaterniond.conjugate, Quaterniond.ofVector,
    Quaterniond.vec, Vector3d.add, Vector3d.mk.injEq]
  refine ⟨?_, ?_, ?_⟩ <;> ring

theorem Quaterniond.sandwich_neg (q : Quaterniond K) (v : Vector3d K) :
    q.sandwich v.neg = (q.sandwich v).neg := by
  simp only [Quaterniond.sandwich, Quaterniond.mul, Quaterniond.conjugate, Quaterniond.ofVector,
    Quaterniond.vec, Vector3d.neg, Vector3d.mk.injEq]
  refine ⟨?_, ?_, ?_⟩ <;> ring

theorem Quaterniond.sandwich_conjugate_cancel (q : Quaterniond K) (hq : q.squaredNorm = 1)
    (v : Vector3d K) : q.conjugate.sandwich (q.sandwich v) = v := by
  simp only [Quaterniond.squaredNorm] at hq
  have h2 : (q.x * q.x + q.y * q.y + q.z * q.z + q.w * q.w) ^ 2 = 1 := by rw [hq]; ring
  cases v with
  | mk vx vy vz =>
    simp only [Quaterniond.sandwich, Quaterniond.mul, Quaterniond.conjugate, Quaterniond.ofVector,
      Quaterniond.vec, Vector3d.mk.injEq]
    refine ⟨?_, ?_, ?_⟩
    · linear_combination vx * h2
    · linear_combination vy * h2
    · linear_combination vz * h2

theorem Vector3d.neg_add (v w : Vector3d K) : (v.add w).neg = w.neg.add v.neg := by
  simp only [Vector3d.add, Vector3d.neg, Vector3d.mk.injEq]
  refine ⟨?_, ?_, ?_⟩ <;> ring

theorem Pose.act_unit (a : Pose K) (ha : a.q_.squaredNorm = 1) (p : Vector3d K) :
    a.act p = (a.q_.sandwich p).add a.t_ := by
  simp [Pose.act, Quaterniond.inverse_unit a.q_ ha, Quaterniond.sandwich]

theorem Pose.mul_q (sqrt : K → K) (hs : sqrt 1 = 1) (a b : Pose K)
    (ha : a.q_.squaredNorm = 1) (hb : b.q_.squaredNorm = 1) :
    (Pose.mul sqrt a b).q_ = a.q_.mul b.q_ := by
  have h : (a.q_.mul b.q_).squaredNorm = 1 := by
    rw [Quaterniond.squaredNorm_mul, ha, hb]; ring
  simp [Pose.mul, Pose.ofQuaternion, Quaterniond.normalize_unit sqrt hs _ h]

theorem Pose.inverse_q (sqrt : K → K) (hs : sqrt 1 = 1) (a : Pose K)
    (ha : a.q_.squaredNorm = 1) : (Pose.inverse sqrt a).q_ = a.q_.conjugate := by
  have h : a.q_.conjugate.squaredNorm = 1 := by
    rw [Quaterniond.squaredNorm_conjugate, ha]
  simp [Pose.inverse, Pose.ofQuaternion, Quaterniond.inverse_unit a.q_ ha,
    Quaterniond.normalize_unit sqrt hs _ h]

theorem Pose.ofQuaternion_congr (sqrt : K → K) (q q2 : Quaterniond K) (t t2 : Vector3d K)
    (hq : q = q2) (ht : t = t2) :
    Pose.ofQuaternion sqrt q t 0 = Pose.ofQuaternion sqrt q2 t2 0 := by
  rw [hq, ht]

end PoseFacts

/-- C9: for poses with unit quaternions (exact arithmetic, `sqrt 1 = 1`), the
product `a * b` of `Pose::operator*` has rotation `q_a q_b` and translation
`q_a t_b + t_a` (the rotated `t_b`, which is `q_a t_b q_a⁻¹` in the quaternion
algebra), and it acts on every point as "apply `b`, then `a`", where a pose
acts by `p ↦ q p q⁻¹ + t`. -/
theorem pose_mul_is_apply_b_then_a {K : Type} [LinearOrderedField K] (sqrt : K → K)
    (hs : sqrt 1 = 1) (a b : Pose K) (ha : a.q_.squaredNorm = 1) (hb : b.q_.squaredNorm = 1)
    (p : Vector3d K) :
    (Pose.mul sqrt a b).q_ = a.q_.mul b.q_ ∧
    (Pose.mul sqrt a b).t_ = (a.q_.transformVector b.t_).add a.t_ ∧
    (Pose.mul sqrt a b).t_ =
      (((a.q_.mul (Quaterniond.ofVector b.t_)).mul a.q_.inverse).vec).add a.t_ ∧
    (Pose.mul sqrt a b).act p = a.act (b.act p) := by
  have hq := Pose.mul_q sqrt hs a b ha hb
  have hab : (Pose.mul sqrt a b).q_.squaredNorm = 1 := by
    rw [hq, Quaterniond.squaredNorm_mul, ha, hb]; ring
  have ht : (Pose.mul sqrt a b).t_ = (a.q_.transformVector b.t_).add a.t_ := rfl
  refine ⟨hq, ht, ?_, ?_⟩
  · rw [ht, Quaterniond.transformVector_eq_sandwich a.q_ ha, Quaterniond.inverse_unit a.q_ ha]
    rfl
  · rw [Pose.act_unit _ hab, Pose.act_unit a ha, Pose.act_unit b hb, hq, ht,
      Quaterniond.transformVector_eq_sandwich a.q_ ha, Quaterniond.sandwich_mul,
      Quaterniond.sandwich_add]
    simp only [Vector3d.add, Vector3d.mk.injEq]
    refine ⟨?_, ?_, ?_⟩ <;> ring

/-- C10: for poses with unit quaternions (exact arithmetic, `sqrt 1 = 1`),
`(a * b).inverse()` and `b.inverse() * a.inverse()` are the same pose: equal
rotation and equal translation (and so equal cached matrix and time offset). -/
theorem pose_inverse_of_product {K : Type} [LinearOrderedField K] (sqrt : K → K)
    (hs : sqrt 1 = 1) (a b : Pose K) (ha : a.q_.squaredNorm = 1) (hb : b.q_.squaredNorm = 1) :
    (Pose.inverse sqrt (Pose.mul sqrt a b)).q_ =
      (Pose.mul sqrt (Pose.inverse sqrt b) (Pose.inverse sqrt a)).q_ ∧
    (Pose.inverse sqrt (Pose.mul sqrt a b)).t_ =
      (Pose.mul sqrt (Pose.inverse sqrt b) (Pose.inverse sqrt a)).t_ ∧
    Pose.inverse sqrt (Pose.mul sqrt a b) =
      Pose.mul sqrt (Pose.inverse sqrt b) (Pose.inverse sqrt a) := by
  have hq := Pose.mul_q sqrt hs a b ha hb
  have hab : (Pose.mul sqrt a b).q_.squaredNorm = 1 := by
    rw [hq, Quaterniond.squaredNorm_mul, ha, hb]; ring
  have hia := Pose.inverse_q sqrt hs a ha
  have hib := Pose.inverse_q sqrt hs b hb
  have hca : a.q_.conjugate.squaredNorm = 1 := by rw [Quaterniond.squaredNorm_conjugate, ha]
  have hcb : b.q_.conjugate.squaredNorm = 1 := by rw [Quaterniond.squaredNorm_conjugate, hb]
  have hcab : (a.q_.mul b.q_).conjugate.squaredNorm = 1 := by
    rw [Quaterniond.squaredNorm_conjugate, ← hq, hab]
  have hta : (Pose.inverse sqrt a).t_ = (a.q_.conjugate.sandwich a.t_).neg := by
    show (a.q_.inverse.transformVector a.t_).neg = _
    rw [Quaterniond.inverse_unit a.q_ ha, Quaterniond.transformVector_eq_sandwich _ hca]
  have htb : (Pose.inverse sqrt b).t_ = (b.q_.conjugate.sandwich b.t_).neg := by
    show (b.q_.inverse.transformVector b.t_).neg = _
    rw [Quaterniond.inverse_unit b.q_ hb, Quaterniond.transformVector_eq_sandwich _ hcb]
  have hqq : (Pose.mul sqrt a b).q_.inverse = (Pose.inverse sqrt b).q_.mul (Pose.inverse sqrt a).q_ := by
    rw [Quaterniond.inverse_unit _ hab, hq, hia, hib, Quaterniond.conjugate_mul]
  have htt : ((Pose.mul sqrt a b).q_.inverse.transformVector (Pose.mul sqrt a b).t_).neg =
      ((Pose.inverse sqrt b).q_.transformVector (Pose.inverse sqrt a).t_).add
        (Pose.inverse sqrt b).t_ := by
    have ht : (Pose.mul sqrt a b).t_ = (a.q_.transformVector b.t_).add a.t_ := rfl
    rw [Quaterniond.inverse_unit _ hab, hq, ht, hib, hta, htb,
      Quaterniond.transformVector_eq_sandwich _ hcab,
      Quaterniond.transformVector_eq_sandwich _ ha,
      Quaterniond.transformVector_eq_sandwich _ hcb,
      Quaterniond.conjugate_mul, Quaterniond.sandwich_mul, Quaterniond.sandwich_add,
      Quaterniond.sandwich_add, Quaterniond.sandwich_conjugate_cancel _ ha,
      Quaterniond.sandwich_neg, Vector3d.neg_add]
  have hfull : Pose.inverse sqrt (Pose.mul sqrt a b) =
      Pose.mul sqrt (Pose.inverse sqrt b) (Pose.inverse sqrt a) := by
    show Pose.ofQuaternion sqrt _ _ 0 = Pose.ofQuaternion sqrt _ _ 0
    exact Pose.ofQuaternion_congr sqrt _ _ _ _ hqq htt
  exact ⟨congrArg Pose.q_ hfull, congrArg Pose.t_ hfull, hfull⟩

/-! ## Pose algebra on concrete poses -/

theorem rat_sqrt_one : Rat.sqrt 1 = 1 := by decide

theorem halfTurnPose_unit : halfTurnPose.q_.squaredNorm = 1 := by
  have hq : (⟨0, 1, 0, 0⟩ : Quaterniond ℚ).squaredNorm = 1 := by
    norm_num [Quaterniond.squaredNorm]
  show ((⟨0, 1, 0, 0⟩ : Quaterniond ℚ).normalize Rat.sqrt).squaredNorm = 1
  rw [Quaterniond.normalize_unit Rat.sqrt rat_sqrt_one _ hq]
  exact hq

theorem tiltedPose_unit : tiltedPose.q_.squaredNorm = 1 := by
  have hq : (⟨3 / 5, 0, 4 / 5, 0⟩ : Quaterniond ℚ).squaredNorm = 1 := by
    norm_num [Quaterniond.squaredNorm]
  show ((⟨3 / 5, 0, 4 / 5, 0⟩ : Quaterniond ℚ).normalize Rat.sqrt).squaredNorm = 1
  rw [Quaterniond.normalize_unit Rat.sqrt rat_sqrt_one _ hq]
  exact hq

/-- Witness for C9: a half turn about the x axis composed with a tilt about
the y axis, over the rationals. -/
theorem pose_mul_is_apply_b_then_a_witness :
    (Pose.mul Rat.sqrt halfTurnPose tiltedPose).q_ = halfTurnPose.q_.mul tiltedPose.q_ ∧
    (Pose.mul Rat.sqrt halfTurnPose tiltedPose).t_ =
      (halfTurnPose.q_.transformVector tiltedPose.t_).add halfTurnPose.t_ ∧
    (Pose.mul Rat.sqrt halfTurnPose tiltedPose).t_ =
      (((halfTurnPose.q_.mul (Quaterniond.ofVector tiltedPose.t_)).mul
        halfTurnPose.q_.inverse).vec).add halfTurnPose.t_ ∧
    (Pose.mul Rat.sqrt halfTurnPose tiltedPose).act ⟨1, 1, 1⟩ =
      halfTurnPose.act (tiltedPose.act ⟨1, 1, 1⟩) :=
  pose_mul_is_apply_b_then_a Rat.sqrt rat_sqrt_one halfTurnPose tiltedPose halfTurnPose_unit
    tiltedPose_unit ⟨1, 1, 1⟩

/-- Witness for C10: the same two poses. -/
theorem pose_inverse_of_product_witness :
    (Pose.inverse Rat.sqrt (Pose.mul Rat.sqrt halfTurnPose tiltedPose)).q_ =
      (Pose.mul Rat.sqrt (Pose.inverse Rat.sqrt tiltedPose)
        (Pose.inverse Rat.sqrt halfTurnPose)).q_ ∧
    (Pose.inverse Rat.sqrt (Pose.mul Rat.sqrt halfTurnPose tiltedPose)).t_ =
      (Pose.mul Rat.sqrt (Pose.inverse Rat.sqrt tiltedPose)
        (Pose.inverse Rat.sqrt halfTurnPose)).t_ ∧
    Pose.inverse Rat.sqrt (Pose.mul Rat.sqrt halfTurnPose tiltedPose) =
      Pose.mul Rat.sqrt (Pose.inverse Rat.sqrt tiltedPose) (Pose.inverse Rat.sqrt halfTurnPose) :=
  pose_inverse_of_product Rat.sqrt rat_sqrt_one halfTurnPose tiltedPose halfTurnPose_unit
    tiltedPose_unit


/-! ## Rotation matrices and the quaternion outer product -/

section Rotation

variable {K : Type} [LinearOrderedField K]

end Rotation

section Rotation2

variable {K : Type} [LinearOrderedField K]

theorem quaternionOuter_trace (R : Matrix3d K) :
    quaternionOuter R 0 0 + quaternionOuter R 1 1 + quaternionOuter R 2 2 +
      quaternionOuter R 3 3 = 4 := by
  simp [quaternionOuter]
  ring

end Rotation2

section Rotation3

variable {K : Type} [LinearOrderedField K]

end Rotation3

/-! ## Coherence of the pose constructors -/

section Coherence

variable {K : Type} [LinearOrderedField K]

end Coherence

section MeanPose

variable {K : Type} [LinearOrderedField K]

theorem computeMeanPose_accumulate_foldl (log : Quaterniond K → Vector3d K → Vector6d K)
    (l : List (K × Pose K)) (acc : K × Vector6d K) :
    l.foldl (computeMeanPose_accumulate log) acc =
      (acc.1 + (l.map fun e => e.1).sum,
        fun i => acc.2 i + (l.map fun e => e.1 * e.2.se3 log i).sum) := by
  induction l generalizing acc with
  | nil => simp
  | cons e l ih =>
    rw [List.foldl_cons, ih]
    refine Prod.ext ?_ ?_
    · simp [computeMeanPose_accumulate, add_assoc]
    · funext i
      simp [computeMeanPose_accumulate, add_assoc]

theorem computeMeanPose_scatter_foldl (log : Quaterniond K → Vector3d K → Vector6d K)
    (xi_mean : Vector6d K) (l : List (K × Pose K)) (c : Matrix6d K) :
    l.foldl (computeMeanPose_scatter log xi_mean) c =
      Matrix.of fun i j => c i j +
        (l.map fun e => e.1 ^ 2 * ((e.2.se3 log i - xi_mean i) * (e.2.se3 log j - xi_mean j))).sum := by
  induction l generalizing c with
  | nil => ext i j; simp
  | cons e l ih =>
    rw [List.foldl_cons, ih]
    ext i j
    simp [computeMeanPose_scatter, Matrix.vecMulVec_apply, add_assoc]

theorem size_minus_one (n : Nat) (h1 : 1 ≤ n) (h2 : n < 2 ^ 64) :
    (n + (2 ^ 64 - 1)) % 2 ^ 64 = n - 1 := by
  omega

/-- C12: for every single-element input `{(w, P)}`, whatever the weight,
`computeMeanPose` returns `P` itself (rotation, translation, cached matrix and
time offset) as the mean and the 6x6 zero matrix as the covariance. -/
theorem computeMeanPose_singleton (sqrt : K → K) (log : Quaterniond K → Vector3d K → Vector6d K)
    (exp : Vector6d K → Matrix4d K) (w : K) (P : Pose K) :
    computeMeanPose sqrt log exp [(w, P)] = (P, 0) ∧
    (computeMeanPose sqrt log exp [(w, P)]).1.q_ = P.q_ ∧
    (computeMeanPose sqrt log exp [(w, P)]).1.t_ = P.t_ ∧
    (computeMeanPose sqrt log exp [(w, P)]).1.td_ = P.td_ ∧
    ∀ i j, (computeMeanPose sqrt log exp [(w, P)]).2 i j = 0 :=
  ⟨rfl, rfl, rfl, rfl, fun _ _ => rfl⟩

/-- C13: for every list of `K ≥ 2` weighted poses with non-zero total weight
(and fewer than `2^64` entries), `computeMeanPose` returns the pose built from
the matrix `exp(xi_mean)`, `xi_mean` the weighted mean of the logarithms, and
as covariance the sum of `w_k^2 (log P_k - xi_mean)(log P_k - xi_mean)^T`
divided by `K - 1`. -/
theorem computeMeanPose_weighted_mean (sqrt : K → K)
    (log : Quaterniond K → Vector3d K → Vector6d K) (exp : Vector6d K → Matrix4d K)
    (pose_array : List (K × Pose K)) (hK : 2 ≤ pose_array.length)
    (hsize : pose_array.length < 2 ^ 64) (hw : (pose_array.map fun e => e.1).sum ≠ 0) :
    computeMeanPose sqrt log exp pose_array =
      (Pose.ofMatrix sqrt (exp (weightedMeanTwist log pose_array)) 0,
        weightedCovariance log pose_array) ∧
    (computeMeanPose sqrt log exp pose_array).1.T_ = exp (weightedMeanTwist log pose_array) := by
  have hmean : (fun i => (pose_array.foldl (computeMeanPose_accumulate log) (0, 0)).2 i /
      (pose_array.foldl (computeMeanPose_accumulate log) (0, 0)).1) =
      weightedMeanTwist log pose_array := by
    funext i
    rw [computeMeanPose_accumulate_foldl]
    simp [weightedMeanTwist]
  have hdiv : (((pose_array.length + (2 ^ 64 - 1)) % 2 ^ 64 : Nat) : K) =
      (pose_array.length : K) - 1 := by
    rw [size_minus_one _ (by omega) hsize, Nat.cast_sub (by omega), Nat.cast_one]
  have hmain : computeMeanPose sqrt log exp pose_array =
      (Pose.ofMatrix sqrt (exp (weightedMeanTwist log pose_array)) 0,
        weightedCovariance log pose_array) := by
    match pose_array, hK, hmean, hdiv with
    | a :: b :: rest, _, hmean, hdiv =>
      unfold computeMeanPose
      simp only []
      rw [hmean, hdiv, computeMeanPose_scatter_foldl]
      refine Prod.ext rfl ?_
      ext i j
      simp [weightedCovariance]
  exact ⟨hmain, by rw [hmain]; rfl⟩

end MeanPose

/-- Witness for C13: two poses with weights 1 and 3. -/
theorem computeMeanPose_weighted_mean_witness :
    computeMeanPose Rat.sqrt exampleLog exampleExp twoWeightedPoses =
      (Pose.ofMatrix Rat.sqrt (exampleExp (weightedMeanTwist exampleLog twoWeightedPoses)) 0,
        weightedCovariance exampleLog twoWeightedPoses) ∧
    (computeMeanPose Rat.sqrt exampleLog exampleExp twoWeightedPoses).1.T_ =
      exampleExp (weightedMeanTwist exampleLog twoWeightedPoses) :=
  computeMeanPose_weighted_mean Rat.sqrt exampleLog exampleExp twoWeightedPoses (by decide)
    (by decide) (by norm_num [twoWeightedPoses])

/-! ## Frame lemmas: the shape of the window -/

section Shape

variable {K IE MI : Type} [LinearOrderedField K]

theorem map_size_set_of_size {α : Type} [Inhabited α] (v : List (CircularBuffer α)) (n : Nat)
    (y : CircularBuffer α) (h : n < v.length → y.size = (vget v n).size) :
    (v.set n y).map CircularBuffer.size = v.map CircularBuffer.size := by
  induction v generalizing n with
  | nil => rfl
  | cons b v ih =>
    cases n with
    | zero =>
      have h0 := h (Nat.succ_pos _)
      simp only [List.set_cons_zero, List.map_cons]
      rw [h0]
      rfl
    | succ n =>
      simp only [List.set_cons_succ, List.map_cons]
      rw [ih n (fun hn => h (Nat.succ_lt_succ hn))]

theorem map_size_set_slot {α : Type} [Inhabited α] (v : List (CircularBuffer α)) (n : Nat)
    (c : Int) (x : α) :
    (v.set n ((vget v n).set c x)).map CircularBuffer.size = v.map CircularBuffer.size :=
  map_size_set_of_size v n _ (fun _ => CircularBuffer.size_set _ _ _)

theorem double2Vector_stackShape (cfg : Config K) (s : Estimator K IE MI) :
    (double2Vector cfg s).stackShape = s.stackShape := by
  unfold double2Vector Estimator.stackShape
  simp only []
  rw [foldl_keeps CircularBuffer.size (double2Vector_Q _ _)
      (fun b i => CircularBuffer.size_set _ _ _),
    foldl_keeps CircularBuffer.size (double2Vector_T _ _)
      (fun b i => CircularBuffer.size_set _ _ _)]

theorem buildCalibMap_slot_stackShape (cfg : Config K) (ext : Collaborators K IE MI)
    (pivot_idx : Int) (pp pe : Pose K) (n : Nat) (s : Estimator K IE MI) (i : Int) :
    (buildCalibMap_slot cfg ext pivot_idx pp pe n s i).stackShape = s.stackShape := by
  unfold buildCalibMap_slot
  simp only []
  split_ifs <;> rfl

theorem buildCalibMap_sensor_stackShape (cfg : Config K) (ext : Collaborators K IE MI)
    (pivot_idx : Int) (pp : Pose K) (s : Estimator K IE MI) (n : Nat) :
    (buildCalibMap_sensor cfg ext pivot_idx pp s n).stackShape = s.stackShape := by
  have h := foldl_keeps Estimator.stackShape
    (buildCalibMap_slot cfg ext pivot_idx pp (extrinsicPose ext s n) n)
    (buildCalibMap_slot_stackShape cfg ext pivot_idx pp _ n)
    (intRange 0 ((cfg.WINDOW_SIZE : Int) + 1)) s
  unfold buildCalibMap_sensor
  simp only []
  split
  · exact h
  · exact h

theorem buildCalibMap_extract_stackShape (cfg : Config K) (ext : Collaborators K IE MI)
    (pivot_idx : Int) (n : Nat) (s : Estimator K IE MI) (i : Int) :
    (buildCalibMap_extract cfg ext pivot_idx n s i).stackShape = s.stackShape := by
  unfold buildCalibMap_extract
  split_ifs <;> rfl

theorem buildCalibMap_extractSensor_stackShape (cfg : Config K) (ext : Collaborators K IE MI)
    (pivot_idx : Int) (s : Estimator K IE MI) (n : Nat) :
    (buildCalibMap_extractSensor cfg ext pivot_idx s n).stackShape = s.stackShape :=
  foldl_keeps Estimator.stackShape _ (buildCalibMap_extract_stackShape cfg ext pivot_idx n) _ s

theorem buildCalibMap_fixed_stackShape (cfg : Config K) (ext : Collaborators K IE MI)
    (pivot_idx : Int) (pp : Pose K) (s : Estimator K IE MI) :
    (buildCalibMap_fixed cfg ext pivot_idx pp s).stackShape = s.stackShape := by
  unfold buildCalibMap_fixed
  split
  · rfl
  · simp only [Estimator.stackShape, map_size_set_slot]

theorem buildCalibMap_stackShape (cfg : Config K) (ext : Collaborators K IE MI)
    (s : Estimator K IE MI) : (buildCalibMap cfg ext s).stackShape = s.stackShape := by
  unfold buildCalibMap
  simp only []
  rw [foldl_keeps Estimator.stackShape _ (buildCalibMap_extractSensor_stackShape cfg ext _)]
  show Estimator.stackShape (List.foldl (buildCalibMap_sensor cfg ext _ _) _ _) = _
  rw [foldl_keeps Estimator.stackShape _ (buildCalibMap_sensor_stackShape cfg ext _ _),
    foldl_keeps Estimator.stackShape buildCalibMap_clear (fun _ _ => rfl),
    buildCalibMap_fixed_stackShape]

theorem buildLocalMap_fixedSensor_stackShape (ext : Collaborators K IE MI) (pivot_idx : Int)
    (pp : Pose K) (st : Estimator K IE MI × PointICloud K) (n : Nat) :
    (buildLocalMap_fixedSensor ext pivot_idx pp st n).1.stackShape = st.1.stackShape := by
  simp only [buildLocalMap_fixedSensor, Estimator.stackShape, map_size_set_slot]

theorem buildLocalMap_fixed_stackShape (cfg : Config K) (ext : Collaborators K IE MI)
    (pivot_idx : Int) (pp : Pose K) (s : Estimator K IE MI) :
    (buildLocalMap_fixed cfg ext pivot_idx pp s).stackShape = s.stackShape := by
  unfold buildLocalMap_fixed
  split
  · rfl
  · exact foldl_keeps (fun st : Estimator K IE MI × PointICloud K => st.1.stackShape) _
      (buildLocalMap_fixedSensor_stackShape ext pivot_idx pp) _ (s, [])

theorem buildLocalMap_slot_stackShape (cfg : Config K) (ext : Collaborators K IE MI)
    (pivot_idx : Int) (pp pe : Pose K) (n : Nat) (s : Estimator K IE MI) (i : Int) :
    (buildLocalMap_slot cfg ext pivot_idx pp pe n s i).stackShape = s.stackShape := by
  unfold buildLocalMap_slot
  simp only []
  split_ifs <;> rfl

theorem buildLocalMap_sensor_stackShape (cfg : Config K) (ext : Collaborators K IE MI)
    (pivot_idx : Int) (pp : Pose K) (s : Estimator K IE MI) (n : Nat) :
    (buildLocalMap_sensor cfg ext pivot_idx pp s n).stackShape = s.stackShape :=
  foldl_keeps Estimator.stackShape
    (buildLocalMap_slot cfg ext pivot_idx pp (extrinsicPose ext s n) n)
    (buildLocalMap_slot_stackShape cfg ext pivot_idx pp _ n)
    (intRange 0 ((cfg.WINDOW_SIZE : Int) + 1)) s

theorem buildLocalMap_extractSensor_stackShape (cfg : Config K) (ext : Collaborators K IE MI)
    (pivot_idx : Int) (s : Estimator K IE MI) (n : Nat) :
    (buildLocalMap_extractSensor cfg ext pivot_idx s n).stackShape = s.stackShape :=
  foldl_keeps Estimator.stackShape (buildLocalMap_extract ext n) (fun _ _ => rfl) _ s

theorem buildLocalMap_stackShape (cfg : Config K) (ext : Collaborators K IE MI)
    (s : Estimator K IE MI) : (buildLocalMap cfg ext s).stackShape = s.stackShape := by
  unfold buildLocalMap
  simp only []
  rw [foldl_keeps Estimator.stackShape _ (buildLocalMap_extractSensor_stackShape cfg ext _)]
  show Estimator.stackShape (List.foldl (buildLocalMap_sensor cfg ext _ _) _ _) = _
  rw [foldl_keeps Estimator.stackShape _ (buildLocalMap_sensor_stackShape cfg ext _ _),
    foldl_keeps Estimator.stackShape buildLocalMap_clear (fun _ _ => rfl),
    buildLocalMap_fixed_stackShape]

theorem optimizeMap_addMarginalization_shape (cfg : Config K) (a : Assembly K IE MI) :
    (optimizeMap_addMarginalization cfg a).stackShape = a.stackShape := by
  unfold optimizeMap_addMarginalization
  split
  · split <;> rfl
  · rfl

theorem optimizeMap_priors_shape (cfg : Config K) (a : Assembly K IE MI) :
    (optimizeMap_priors cfg a).stackShape = a.stackShape := by
  unfold optimizeMap_priors
  simp only []
  split
  · rw [foldl_keeps Assembly.stackShape (optimizeMap_addPrior cfg) (fun _ _ => rfl),
      optimizeMap_addMarginalization_shape]
  · exact optimizeMap_addMarginalization_shape cfg a

theorem addTargetPlaneFrame_shape (n : Nat) (a : Assembly K IE MI)
    (features_frame : List (PointPlaneFeature K)) :
    (addTargetPlaneFrame n a features_frame).stackShape = a.stackShape :=
  foldl_keeps Assembly.stackShape (addTargetPlaneFeature n) (fun _ _ => rfl) _ a

theorem addTargetPlaneSensor_shape (cfg : Config K) (cumu : FeatureTable K)
    (a : Assembly K IE MI) (n : Nat) :
    (addTargetPlaneSensor cfg cumu a n).stackShape = a.stackShape := by
  unfold addTargetPlaneSensor
  split
  · rfl
  · exact foldl_keeps Assembly.stackShape (addTargetPlaneFrame n)
      (addTargetPlaneFrame_shape n) _ a

theorem addTargetPlaneFactors_shape (cfg : Config K) (cumu : FeatureTable K)
    (a : Assembly K IE MI) :
    (addTargetPlaneFactors cfg cumu a).stackShape = a.stackShape :=
  foldl_keeps Assembly.stackShape (addTargetPlaneSensor cfg cumu)
    (addTargetPlaneSensor_shape cfg cumu) _ a

theorem calibPlaneFeature_shape (cfg : Config K) (pivot_idx i : Int) (a : Assembly K IE MI)
    (feature : PointPlaneFeature K) :
    (calibPlaneFeature cfg pivot_idx i a feature).stackShape = a.stackShape := by
  unfold calibPlaneFeature
  simp only []
  split <;> rfl

theorem calibPlaneSlot_shape (cfg : Config K) (pivot_idx : Int) (a : Assembly K IE MI) (i : Int) :
    (calibPlaneSlot cfg pivot_idx a i).stackShape = a.stackShape :=
  foldl_keeps Assembly.stackShape (calibPlaneFeature cfg pivot_idx i)
    (calibPlaneFeature_shape cfg pivot_idx i) _ a

theorem optimizeMap_calibPlane_shape (cfg : Config K) (pivot_idx : Int) (a : Assembly K IE MI) :
    (optimizeMap_calibPlane cfg pivot_idx a).stackShape = a.stackShape := by
  have h1 := foldl_keeps Assembly.stackShape (calibPlaneSlot cfg pivot_idx)
    (calibPlaneSlot_shape cfg pivot_idx) (intRange (pivot_idx + 1) ((cfg.WINDOW_SIZE : Int) + 1)) a
  unfold optimizeMap_calibPlane
  simp only []
  split
  · split
    · rw [addTargetPlaneFactors_shape]; exact h1
    · show (addTargetPlaneFactors cfg _ _).stackShape = _
      rw [addTargetPlaneFactors_shape]; exact h1
  · exact h1

theorem optimizeMap_calibEdge_shape (cfg : Config K) (pivot_idx : Int) (a : Assembly K IE MI) :
    (optimizeMap_calibEdge cfg pivot_idx a).stackShape = a.stackShape := by
  unfold optimizeMap_calibEdge
  simp only []
  split
  · split
    · rw [addTargetPlaneFactors_shape]; rfl
    · show (addTargetPlaneFactors cfg _ _).stackShape = _
      rw [addTargetPlaneFactors_shape]; rfl
  · rfl

theorem odomPlaneSlot_shape (pivot_idx : Int) (n : Nat) (a : Assembly K IE MI) (i : Int) :
    (odomPlaneSlot pivot_idx n a i).stackShape = a.stackShape :=
  foldl_keeps Assembly.stackShape (odomPlaneFeature pivot_idx n i) (fun _ _ => rfl) _ a

theorem odomPlaneSensor_shape (cfg : Config K) (pivot_idx : Int) (a : Assembly K IE MI) (n : Nat) :
    (odomPlaneSensor cfg pivot_idx a n).stackShape = a.stackShape :=
  foldl_keeps Assembly.stackShape (odomPlaneSlot pivot_idx n) (odomPlaneSlot_shape pivot_idx n)
    _ a

theorem optimizeMap_odomPlane_shape (cfg : Config K) (pivot_idx : Int) (a : Assembly K IE MI) :
    (optimizeMap_odomPlane cfg pivot_idx a).stackShape = a.stackShape :=
  foldl_keeps Assembly.stackShape (odomPlaneSensor cfg pivot_idx)
    (odomPlaneSensor_shape cfg pivot_idx) _ a

theorem withMap_shape (a : Assembly K IE MI) (s1 : Estimator K IE MI)
    (h : s1.stackShape = a.s.stackShape) :
    ({ a with s := s1 } : Assembly K IE MI).stackShape = a.stackShape := h

theorem optimizeMap_calibration_shape (cfg : Config K) (ext : Collaborators K IE MI)
    (a : Assembly K IE MI) :
    (optimizeMap_calibration cfg ext a).stackShape = a.stackShape := by
  have hm : ({ a with s := buildCalibMap cfg ext a.s } : Assembly K IE MI).stackShape =
      a.stackShape := withMap_shape _ _ (buildCalibMap_stackShape cfg ext _)
  unfold optimizeMap_calibration
  simp only []
  split
  · rw [optimizeMap_calibEdge_shape]
    split
    · rw [optimizeMap_calibPlane_shape, hm]
    · exact hm
  · split
    · rw [optimizeMap_calibPlane_shape, hm]
    · exact hm

theorem optimizeMap_odometry_stackShape (cfg : Config K) (ext : Collaborators K IE MI)
    (a : Assembly K IE MI) :
    (optimizeMap_odometry cfg ext a).s.stackShape = a.s.stackShape := by
  unfold optimizeMap_odometry
  simp only []
  split
  · have hv := optimizeMap_odomPlane_shape cfg
      ((cfg.WINDOW_SIZE : Int) - (cfg.OPT_WINDOW_SIZE : Int))
      { s := buildLocalMap cfg ext a.s
        problem := List.foldl setExtrinsicConstant a.problem (List.range cfg.NUM_OF_LASER)
        local_param_ids := a.local_param_ids
        para_ids := a.para_ids
        res_ids_marg := a.res_ids_marg
        res_ids_proj := a.res_ids_proj }
    exact hv.trans (buildLocalMap_stackShape cfg ext a.s)
  · exact buildLocalMap_stackShape cfg ext a.s

theorem optimizeMap_assemble_stackShape (cfg : Config K) (ext : Collaborators K IE MI)
    (s : Estimator K IE MI) :
    (optimizeMap_assemble cfg ext s).s.stackShape = s.stackShape := by
  have h0 : (optimizeMap_priors cfg (optimizeMap_blocks cfg ext s)).s.stackShape =
      s.stackShape := by
    rw [optimizeMap_priors_s, optimizeMap_blocks_s]; rfl
  unfold optimizeMap_assemble
  simp only []
  split
  · exact (optimizeMap_calibration_shape cfg ext _).trans h0
  · split
    · rw [optimizeMap_odometry_stackShape]; exact h0
    · exact h0

theorem evalResidual_stackShape (cfg : Config K) (ext : Collaborators K IE MI)
    (problem : Problem K MI) (lps : List (PoseLocalParameterization K)) (para_ids : List ParamBlock)
    (res : List (ResidualBlock K MI)) (b : Bool) (s : Estimator K IE MI) :
    (evalResidual cfg ext problem lps para_ids res b s).1.stackShape = s.stackShape := by
  unfold evalResidual
  split
  · simp only []
    split <;> rfl
  · rfl

theorem marginalize_calibPlane_stackShape (cfg : Config K) (ext : Collaborators K IE MI)
    (pivot_idx : Int) (s : Estimator K IE MI) (mi : MI) :
    (marginalize_calibPlane cfg ext pivot_idx s mi).1.stackShape = s.stackShape := by
  unfold marginalize_calibPlane
  simp only []
  split <;> rfl

theorem marginalize_calibEdge_stackShape (cfg : Config K) (ext : Collaborators K IE MI)
    (r : Estimator K IE MI × MI) :
    (marginalize_calibEdge cfg ext r).1.stackShape = r.1.stackShape := by
  unfold marginalize_calibEdge
  split <;> rfl

theorem marginalize_window_stackShape (cfg : Config K) (ext : Collaborators K IE MI)
    (s : Estimator K IE MI) (mi : MI) :
    (marginalize_window cfg ext s mi).1.stackShape = s.stackShape := by
  unfold marginalize_window
  simp only []
  split_ifs
  all_goals first
    | rfl
    | exact marginalize_calibPlane_stackShape ..
    | (rw [marginalize_calibEdge_stackShape]
       try exact marginalize_calibPlane_stackShape ..)

theorem optimizeMap_marginalize_stackShape (cfg : Config K) (ext : Collaborators K IE MI)
    (s : Estimator K IE MI) :
    (optimizeMap_marginalize cfg ext s).stackShape = s.stackShape := by
  unfold optimizeMap_marginalize
  simp only []
  exact marginalize_window_stackShape cfg ext (vector2Double cfg s) _

theorem optimizeMap_evaluate_stackShape (cfg : Config K) (ext : Collaborators K IE MI)
    (a : Assembly K IE MI) (lps : List (PoseLocalParameterization K)) (b : Bool)
    (s : Estimator K IE MI) :
    (optimizeMap_evaluate cfg ext a lps b s).1.stackShape = s.stackShape := by
  unfold optimizeMap_evaluate
  split
  · exact evalResidual_stackShape ..
  · rfl

theorem optimizeMap_solve_stackShape (cfg : Config K) (ext : Collaborators K IE MI)
    (a : Assembly K IE MI) (r1 : Estimator K IE MI × List (PoseLocalParameterization K)) :
    (optimizeMap_solve cfg ext a r1).stackShape = r1.1.stackShape := by
  have h4 : ∀ s2 : Estimator K IE MI,
      (double2Vector cfg (optimizeMap_evaluate cfg ext a r1.2 false s2).1).stackShape =
        s2.stackShape := fun s2 =>
    (double2Vector_stackShape cfg _).trans (optimizeMap_evaluate_stackShape cfg ext a r1.2 false s2)
  unfold optimizeMap_solve
  simp only []
  split
  · rw [optimizeMap_marginalize_stackShape, h4]; rfl
  · rw [h4]; rfl

theorem optimizeMap_stackShape (cfg : Config K) (ext : Collaborators K IE MI)
    (s : Estimator K IE MI) : (optimizeMap cfg ext s).stackShape = s.stackShape := by
  have ha := optimizeMap_assemble_stackShape cfg ext s
  unfold optimizeMap
  simp only []
  split
  · rw [optimizeMap_evaluate_stackShape]; exact ha
  · rw [optimizeMap_solve_stackShape, optimizeMap_evaluate_stackShape]; exact ha


end Shape

/-! ## Window lengths -/

section WindowLengths

variable {K IE MI : Type} [LinearOrderedField K]

theorem bank_shaped_iff {α : Type} (l : List (CircularBuffer α)) (N c : Nat) :
    (l.length = N ∧ ∀ b ∈ l, b.size = c) ↔ l.map CircularBuffer.size = List.replicate N c := by
  rw [List.eq_replicate_iff]
  simp

theorem windowShaped_iff_shape (cfg : Config K) (s : Estimator K IE MI) :
    WindowShaped cfg s ↔
      s.windowShape = (cfg.WINDOW_SIZE + 1, cfg.WINDOW_SIZE + 1, cfg.WINDOW_SIZE + 1,
        List.replicate cfg.NUM_OF_LASER (cfg.WINDOW_SIZE + 1),
        List.replicate cfg.NUM_OF_LASER (cfg.WINDOW_SIZE + 1),
        List.replicate cfg.NUM_OF_LASER (cfg.WINDOW_SIZE + 1),
        List.replicate cfg.NUM_OF_LASER (cfg.WINDOW_SIZE + 1)) := by
  unfold WindowShaped Estimator.windowShape
  simp only [Prod.mk.injEq, bank_shaped_iff]

theorem windowShaped_of_shape (cfg : Config K) (s s1 : Estimator K IE MI)
    (h : s1.windowShape = s.windowShape) (hs : WindowShaped cfg s) : WindowShaped cfg s1 := by
  rw [windowShaped_iff_shape] at hs ⊢
  rw [h, hs]

theorem optimizeMap_windowShape (cfg : Config K) (ext : Collaborators K IE MI)
    (s : Estimator K IE MI) : (optimizeMap cfg ext s).windowShape = s.windowShape := by
  have h1 := optimizeMap_stackShape cfg ext s
  have h2 := optimizeMap_driverView cfg ext s
  unfold Estimator.stackShape at h1
  simp only [Prod.mk.injEq] at h1
  obtain ⟨hq, ht, hsf, hcn⟩ := h1
  have hh := congrArg DriverView.Header_ h2
  have hss := congrArg DriverView.surf_points_stack_size_ h2
  have hcs := congrArg DriverView.corner_points_stack_size_ h2
  simp only [Estimator.driverView] at hh hss hcs
  unfold Estimator.windowShape
  rw [hq, ht, hsf, hcn, hh, hss, hcs]

theorem process_calibSensor_windowShape (cfg : Config K) (ext : Collaborators K IE MI)
    (s : Estimator K IE MI) (i : Nat) :
    (process_calibSensor cfg ext s i).windowShape = s.windowShape := by
  unfold process_calibSensor
  simp only []
  split_ifs <;> rfl

theorem process_tracker_windowShape (cfg : Config K) (ext : Collaborators K IE MI)
    (s : Estimator K IE MI) : (process_tracker cfg ext s).windowShape = s.windowShape :=
  process_tracker_keeps Estimator.windowShape (fun _ => rfl) (fun _ _ => rfl)
    (fun _ _ _ => rfl) (fun _ _ _ => rfl) process_calibSensor_windowShape (fun _ _ _ => rfl)
    (fun _ _ _ => rfl) cfg ext s

theorem process_storeSensor_windowShape (ext : Collaborators K IE MI) (s : Estimator K IE MI)
    (n : Nat) : (process_storeSensor ext s n).windowShape = s.windowShape := by
  simp only [process_storeSensor, Estimator.windowShape, map_size_set_slot]

theorem process_store_windowShape (cfg : Config K) (ext : Collaborators K IE MI)
    (s : Estimator K IE MI) : (process_store cfg ext s).windowShape = s.windowShape := by
  unfold process_store
  simp only []
  rw [foldl_keeps Estimator.windowShape _ (process_storeSensor_windowShape ext)]
  simp only [Estimator.windowShape, CircularBuffer.size_set]

theorem slideWindow_sensor_windowShape (cfg : Config K) (ext : Collaborators K IE MI)
    (pivot_idx i : Int) (pp pi : Pose K) (s : Estimator K IE MI) (n : Nat) :
    (slideWindow_sensor cfg ext pivot_idx i pp pi s n).windowShape = s.windowShape := by
  unfold slideWindow_sensor
  split
  · rfl
  · simp only []
    split
    · simp only [slideWindow_surf, Estimator.windowShape, map_size_set_slot]
    · simp only [slideWindow_corner, slideWindow_surf, Estimator.windowShape, map_size_set_slot]

theorem slideWindow_fixedMap_windowShape (cfg : Config K) (ext : Collaborators K IE MI)
    (s : Estimator K IE MI) : (slideWindow_fixedMap cfg ext s).windowShape = s.windowShape := by
  unfold slideWindow_fixedMap
  split
  · exact foldl_keeps Estimator.windowShape _
      (fun s n => slideWindow_sensor_windowShape cfg ext _ _ _ _ s n) _ s
  · rfl

theorem CircularBuffer.size_push {α : Type} (b : CircularBuffer α) (v : α) (h : 1 ≤ b.size) :
    (b.push v).size = b.size := by
  unfold CircularBuffer.size at h ⊢
  simp only [CircularBuffer.push, List.length_append, List.length_drop, List.length_singleton]
  omega

theorem foldl_pushSlot_shape {α : Type} [Inhabited α] (c : Int) (N W : Nat) (l : List Nat)
    (v : List (CircularBuffer α))
    (h : v.map CircularBuffer.size = List.replicate N (W + 1)) :
    (l.foldl (pushSlot c) v).map CircularBuffer.size = List.replicate N (W + 1) := by
  refine foldl_invariant
    (fun w : List (CircularBuffer α) => w.map CircularBuffer.size = List.replicate N (W + 1))
    (pushSlot c) (fun w n hw => ?_) l v h
  show (pushSlot c w n).map CircularBuffer.size = _
  unfold pushSlot
  rw [map_size_set_of_size w n _ (fun hn => ?_), hw]
  have hmem := ((bank_shaped_iff w N (W + 1)).mpr hw).2 _ (vget_mem w n hn)
  exact CircularBuffer.size_push _ _ (by omega)

theorem slideWindow_push_windowShaped (cfg : Config K) (s : Estimator K IE MI)
    (hs : WindowShaped cfg s) : WindowShaped cfg (slideWindow_push cfg s) := by
  rw [windowShaped_iff_shape] at hs ⊢
  unfold Estimator.windowShape at hs
  simp only [Prod.mk.injEq] at hs
  obtain ⟨hq, ht, hh, h1, h2, h3, h4⟩ := hs
  unfold slideWindow_push Estimator.windowShape
  simp only [Prod.mk.injEq]
  exact ⟨by rw [CircularBuffer.size_push _ _ (by omega), hq],
    by rw [CircularBuffer.size_push _ _ (by omega), ht],
    by rw [CircularBuffer.size_push _ _ (by omega), hh],
    foldl_pushSlot_shape _ _ _ _ _ h1, foldl_pushSlot_shape _ _ _ _ _ h2,
    foldl_pushSlot_shape _ _ _ _ _ h3, foldl_pushSlot_shape _ _ _ _ _ h4⟩

theorem slideWindow_windowShaped (cfg : Config K) (ext : Collaborators K IE MI)
    (s : Estimator K IE MI) (hs : WindowShaped cfg s) : WindowShaped cfg (slideWindow cfg ext s) :=
  slideWindow_push_windowShaped cfg _
    (windowShaped_of_shape cfg s _ (slideWindow_fixedMap_windowShape cfg ext s) hs)

theorem evalCalib_windowShape (cfg : Config K) (s : Estimator K IE MI) :
    (evalCalib cfg s).windowShape = s.windowShape := by
  unfold evalCalib
  simp only []
  split_ifs <;> rfl

theorem process_solver_windowShaped (cfg : Config K) (ext : Collaborators K IE MI)
    (s : Estimator K IE MI) (hs : WindowShaped cfg s) :
    WindowShaped cfg (process_solver cfg ext s) := by
  have hslide := slideWindow_windowShaped cfg ext s hs
  unfold process_solver
  split
  · simp only []
    have hinc : WindowShaped cfg
        { slideWindow cfg ext s with cir_buf_cnt_ := (slideWindow cfg ext s).cir_buf_cnt_ + 1 } :=
      hslide
    have h2 := slideWindow_windowShaped cfg ext _ hinc
    split_ifs <;> first | exact hslide | exact hinc | exact h2
  · simp only []
    have h1 : WindowShaped cfg (slideWindow cfg ext (optimizeMap cfg ext s)) :=
      slideWindow_windowShaped cfg ext _
        (windowShaped_of_shape cfg s _ (optimizeMap_windowShape cfg ext s) hs)
    split
    · exact windowShaped_of_shape cfg _ _ (evalCalib_windowShape cfg _) h1
    · exact h1

theorem process_windowShaped (cfg : Config K) (ext : Collaborators K IE MI)
    (s : Estimator K IE MI) (hs : WindowShaped cfg s) : WindowShaped cfg (process cfg ext s) := by
  have h1 : WindowShaped cfg (process_store cfg ext (process_tracker cfg ext s)) :=
    windowShaped_of_shape cfg s _
      ((process_store_windowShape cfg ext _).trans (process_tracker_windowShape cfg ext s)) hs
  exact process_solver_windowShaped cfg ext _ h1

theorem setParameter_windowShaped (cfg : Config K) (ext : Collaborators K IE MI)
    (s : Estimator K IE MI) : WindowShaped cfg (setParameter cfg ext s) := by
  have hv : ∀ {α : Type} [Inhabited α] (v : List α) (n : Nat), (vresize v n).length = n := by
    intro α _ v n
    unfold vresize
    simp only [List.length_append, List.length_take, List.length_replicate]
    omega
  have hb : ∀ {α : Type} [Inhabited α] (b : CircularBuffer α) (n : Nat), (b.resize n).size = n :=
    fun b n => hv b.data n
  unfold WindowShaped setParameter
  simp only [List.length_map, List.mem_map, forall_exists_index, and_imp]
  refine ⟨hb _ _, hb _ _, hb _ _, ⟨hv _ _, ?_⟩, ⟨hv _ _, ?_⟩, ⟨hv _ _, ?_⟩, ⟨hv _ _, ?_⟩⟩ <;>
    (intro b x _ hx; rw [← hx]; exact hb _ _)

/-- C14: after `setParameter`, whatever the state before it, and after every
run of `process()` cycles and slides, every window sequence (`Qs_`, `Ts_`,
`Header_` and, for every sensor, the surface stack, the edge stack and both
size stacks) has exactly `WINDOW_SIZE + 1` slots, and every per-sensor bank
holds `NUM_OF_LASER` sequences. -/
theorem window_lengths_stay_W_plus_one (cfg : Config K) (ext : Collaborators K IE MI)
    (s0 : Estimator K IE MI) (ops : List (WindowOp K)) :
    WindowShaped cfg (applyWindowOps cfg ext ops (setParameter cfg ext s0)) := by
  refine foldl_invariant (WindowShaped cfg) (applyWindowOp cfg ext) (fun s op hs => ?_) ops _
    (setParameter_windowShaped cfg ext s0)
  cases op with
  | cycle frame => exact process_windowShaped cfg ext _ hs
  | slide => exact slideWindow_windowShaped cfg ext s hs

end WindowLengths

/-! ## Fill count -/

section FillCount

variable {K IE MI : Type} [LinearOrderedField K]

theorem slideWindow_initial_extrinsics (cfg : Config K) (ext : Collaborators K IE MI)
    (s : Estimator K IE MI) :
    (slideWindow cfg ext s).initial_extrinsics_ = s.initial_extrinsics_ :=
  slideWindow_fixedMap_keeps (fun s => s.initial_extrinsics_) (fun _ _ => rfl) (fun _ _ => rfl)
    cfg ext s

theorem process_solver_initial_count (cfg : Config K) (ext : Collaborators K IE MI)
    (s : Estimator K IE MI) (h : s.solver_flag_ = SolverFlag.INITIAL) :
    (process_solver cfg ext s).cir_buf_cnt_ =
        (if s.cir_buf_cnt_ < (cfg.WINDOW_SIZE : Int) then s.cir_buf_cnt_ + 1 else s.cir_buf_cnt_) ∧
      (process_solver cfg ext s).ESTIMATE_EXTRINSIC = s.ESTIMATE_EXTRINSIC := by
  unfold process_solver
  rw [h]
  simp only [slideWindow_cir_buf_cnt]
  split_ifs <;>
    simp only [slideWindow_cir_buf_cnt, slideWindow_ESTIMATE_EXTRINSIC, and_self]

theorem evalCalib_cir_buf_cnt (cfg : Config K) (s : Estimator K IE MI) :
    (evalCalib cfg s).cir_buf_cnt_ = s.cir_buf_cnt_ := by
  unfold evalCalib
  simp only []
  split_ifs <;> rfl

theorem evalCalib_solver_flag (cfg : Config K) (s : Estimator K IE MI) :
    (evalCalib cfg s).solver_flag_ = s.solver_flag_ := by
  unfold evalCalib
  simp only []
  split_ifs <;> rfl

theorem evalCalib_ESTIMATE_EXTRINSIC (cfg : Config K) (s : Estimator K IE MI) :
    (evalCalib cfg s).ESTIMATE_EXTRINSIC = s.ESTIMATE_EXTRINSIC ∨
      (evalCalib cfg s).ESTIMATE_EXTRINSIC = 0 := by
  unfold evalCalib
  simp only []
  split_ifs
  · exact Or.inr rfl
  · exact Or.inl rfl
  · exact Or.inl rfl

theorem process_solver_non_linear (cfg : Config K) (ext : Collaborators K IE MI)
    (s : Estimator K IE MI) (h : s.solver_flag_ = SolverFlag.NON_LINEAR) :
    (process_solver cfg ext s).cir_buf_cnt_ = s.cir_buf_cnt_ ∧
      (process_solver cfg ext s).solver_flag_ = SolverFlag.NON_LINEAR ∧
      ((process_solver cfg ext s).ESTIMATE_EXTRINSIC = s.ESTIMATE_EXTRINSIC ∨
        (process_solver cfg ext s).ESTIMATE_EXTRINSIC = 0) := by
  have hv := optimizeMap_driverView cfg ext s
  have hc : (slideWindow cfg ext (optimizeMap cfg ext s)).cir_buf_cnt_ = s.cir_buf_cnt_ := by
    rw [slideWindow_cir_buf_cnt]
    exact congrArg DriverView.cir_buf_cnt_ hv
  have hf : (slideWindow cfg ext (optimizeMap cfg ext s)).solver_flag_ =
      SolverFlag.NON_LINEAR := by
    rw [slideWindow_solver_flag, ← h]
    exact congrArg DriverView.solver_flag_ hv
  have he : (slideWindow cfg ext (optimizeMap cfg ext s)).ESTIMATE_EXTRINSIC =
      s.ESTIMATE_EXTRINSIC := by
    rw [slideWindow_ESTIMATE_EXTRINSIC]
    exact congrArg DriverView.ESTIMATE_EXTRINSIC hv
  unfold process_solver
  rw [h]
  simp only []
  split
  · refine ⟨by rw [evalCalib_cir_buf_cnt, hc], by rw [evalCalib_solver_flag, hf], ?_⟩
    rcases evalCalib_ESTIMATE_EXTRINSIC cfg (slideWindow cfg ext (optimizeMap cfg ext s)) with
      h1 | h1
    · exact Or.inl (h1.trans he)
    · exact Or.inr h1
  · exact ⟨hc, hf, Or.inl he⟩

theorem process_count_initial (cfg : Config K) (ext : Collaborators K IE MI)
    (s : Estimator K IE MI) (h : s.solver_flag_ = SolverFlag.INITIAL) :
    (process cfg ext s).cir_buf_cnt_ =
        (if s.cir_buf_cnt_ < (cfg.WINDOW_SIZE : Int) then s.cir_buf_cnt_ + 1 else s.cir_buf_cnt_) ∧
      ((process cfg ext s).cir_buf_cnt_ ≠ (cfg.WINDOW_SIZE : Int) →
        (process cfg ext s).solver_flag_ = SolverFlag.INITIAL) := by
  have h2 : (process_store cfg ext (process_tracker cfg ext s)).solver_flag_ =
      SolverFlag.INITIAL := by
    rw [process_store_solver_flag, process_tracker_solver_flag, h]
  have hc : (process_store cfg ext (process_tracker cfg ext s)).cir_buf_cnt_ = s.cir_buf_cnt_ := by
    rw [process_store_cir_buf_cnt, process_tracker_cir_buf_cnt]
  have h3 := process_solver_initial_count cfg ext _ h2
  have h4 := (process_solver_initial cfg ext _ h2).2
  rw [hc] at h3
  exact ⟨h3.1, fun hne => h4 (fun hw => hne hw.1)⟩

theorem process_count_non_linear (cfg : Config K) (ext : Collaborators K IE MI)
    (s : Estimator K IE MI) (h : s.solver_flag_ = SolverFlag.NON_LINEAR) :
    (process cfg ext s).cir_buf_cnt_ = s.cir_buf_cnt_ := by
  have h2 : (process_store cfg ext (process_tracker cfg ext s)).solver_flag_ =
      SolverFlag.NON_LINEAR := by
    rw [process_store_solver_flag, process_tracker_solver_flag, h]
  have hc : (process_store cfg ext (process_tracker cfg ext s)).cir_buf_cnt_ = s.cir_buf_cnt_ := by
    rw [process_store_cir_buf_cnt, process_tracker_cir_buf_cnt]
  exact (process_solver_non_linear cfg ext _ h2).1.trans hc

theorem fill_count_invariant (cfg : Config K) (ext : Collaborators K IE MI)
    (s0 : Estimator K IE MI) (frames : List (Frame K)) :
    0 ≤ (processCycles cfg ext frames (setParameter cfg ext (clearState ext s0))).cir_buf_cnt_ ∧
    (processCycles cfg ext frames (setParameter cfg ext (clearState ext s0))).cir_buf_cnt_ ≤
      (cfg.WINDOW_SIZE : Int) ∧
    ((processCycles cfg ext frames (setParameter cfg ext (clearState ext s0))).cir_buf_cnt_ <
        (cfg.WINDOW_SIZE : Int) →
      (processCycles cfg ext frames (setParameter cfg ext (clearState ext s0))).solver_flag_ =
        SolverFlag.INITIAL) := by
  refine foldl_invariant
    (fun s : Estimator K IE MI => 0 ≤ s.cir_buf_cnt_ ∧ s.cir_buf_cnt_ ≤ (cfg.WINDOW_SIZE : Int) ∧
      (s.cir_buf_cnt_ < (cfg.WINDOW_SIZE : Int) → s.solver_flag_ = SolverFlag.INITIAL))
    (processCycle cfg ext) (fun s frame hs => ?_) frames _ ?_
  · obtain ⟨h0, h1, h2⟩ := hs
    simp only [processCycle]
    cases hf : s.solver_flag_ with
    | INITIAL =>
      have hp := process_count_initial cfg ext (frameLoaded s frame) hf
      have hcnt : (frameLoaded s frame).cir_buf_cnt_ = s.cir_buf_cnt_ := rfl
      rw [hcnt] at hp
      obtain ⟨hp1, hp2⟩ := hp
      refine ⟨?_, ?_, fun hlt => hp2 (ne_of_lt hlt)⟩
      · rw [hp1]; split_ifs <;> omega
      · rw [hp1]; split_ifs <;> omega
    | NON_LINEAR =>
      have hp := process_count_non_linear cfg ext (frameLoaded s frame) hf
      have hcnt : (frameLoaded s frame).cir_buf_cnt_ = s.cir_buf_cnt_ := rfl
      rw [hcnt] at hp
      have hW : s.cir_buf_cnt_ = (cfg.WINDOW_SIZE : Int) := by
        by_contra hne
        have := h2 (lt_of_le_of_ne h1 hne)
        rw [hf] at this
        exact absurd this (by decide)
      refine ⟨by rw [hp]; exact h0, by rw [hp]; exact h1, fun hlt => ?_⟩
      rw [hp, hW] at hlt
      exact absurd hlt (lt_irrefl _)
  · exact ⟨le_refl _, Int.ofNat_nonneg _, fun _ => rfl⟩

/-- C15: starting from `clearState` followed by `setParameter`, after any
number of `process()` cycles the fill count satisfies `0 ≤ cnt ≤ WINDOW_SIZE`;
a cycle entered with `cnt < WINDOW_SIZE` is an INITIAL cycle and raises `cnt`
by exactly one, and a cycle entered with `cnt = WINDOW_SIZE` leaves it there. -/
theorem fill_count_bounded_and_monotone (cfg : Config K) (ext : Collaborators K IE MI)
    (s0 : Estimator K IE MI) (frames : List (Frame K)) (frame : Frame K) :
    0 ≤ (processCycles cfg ext frames (setParameter cfg ext (clearState ext s0))).cir_buf_cnt_ ∧
    (processCycles cfg ext frames (setParameter cfg ext (clearState ext s0))).cir_buf_cnt_ ≤
      (cfg.WINDOW_SIZE : Int) ∧
    ((processCycles cfg ext frames (setParameter cfg ext (clearState ext s0))).cir_buf_cnt_ <
        (cfg.WINDOW_SIZE : Int) →
      (processCycles cfg ext frames (setParameter cfg ext (clearState ext s0))).solver_flag_ =
          SolverFlag.INITIAL ∧
        (processCycle cfg ext
            (processCycles cfg ext frames (setParameter cfg ext (clearState ext s0)))
            frame).cir_buf_cnt_ =
          (processCycles cfg ext frames
            (setParameter cfg ext (clearState ext s0))).cir_buf_cnt_ + 1) ∧
    ((processCycles cfg ext frames (setParameter cfg ext (clearState ext s0))).cir_buf_cnt_ =
        (cfg.WINDOW_SIZE : Int) →
      (processCycle cfg ext
          (processCycles cfg ext frames (setParameter cfg ext (clearState ext s0)))
          frame).cir_buf_cnt_ = (cfg.WINDOW_SIZE : Int)) := by
  obtain ⟨h0, h1, h2⟩ := fill_count_invariant cfg ext s0 frames
  generalize processCycles cfg ext frames (setParameter cfg ext (clearState ext s0)) = s
    at h0 h1 h2 ⊢
  have hcnt : (frameLoaded s frame).cir_buf_cnt_ = s.cir_buf_cnt_ := rfl
  simp only [processCycle]
  refine ⟨h0, h1, fun hlt => ⟨h2 hlt, ?_⟩, fun hW => ?_⟩
  · have hp := (process_count_initial cfg ext (frameLoaded s frame) (h2 hlt)).1
    rw [hcnt, if_pos hlt] at hp
    exact hp
  · cases hf : s.solver_flag_ with
    | INITIAL =>
      have hp := (process_count_initial cfg ext (frameLoaded s frame) hf).1
      rw [hcnt, if_neg (by rw [hW]; exact lt_irrefl _)] at hp
      exact hp.trans hW
    | NON_LINEAR =>
      exact (process_count_non_linear cfg ext (frameLoaded s frame) hf).trans (hcnt.trans hW)

end FillCount

/-- Witness for C15: the two-sensor estimator (`W = 2`) after one cycle holds
`cnt = 1 < W`, and the next cycle raises it to `2 = W`. -/
theorem fill_count_bounded_and_monotone_witness :
    (processCycles exampleConfig exampleCollaborators [(0, [[], []])]
        (setParameter exampleConfig exampleCollaborators
          (clearState exampleCollaborators blankEstimator))).cir_buf_cnt_ = 1 ∧
    (processCycle exampleConfig exampleCollaborators
        (processCycles exampleConfig exampleCollaborators [(0, [[], []])]
          (setParameter exampleConfig exampleCollaborators
            (clearState exampleCollaborators blankEstimator)))
        (1, [[], []])).cir_buf_cnt_ =
      (processCycles exampleConfig exampleCollaborators [(0, [[], []])]
        (setParameter exampleConfig exampleCollaborators
          (clearState exampleCollaborators blankEstimator))).cir_buf_cnt_ + 1 :=
  ⟨by decide,
    ((fill_count_bounded_and_monotone exampleConfig exampleCollaborators blankEstimator
      [(0, [[], []])] (1, [[], []])).2.2.1 (by decide)).2⟩

/-! ## Bootstrap convergence -/

section Bootstrap

variable {K IE MI : Type} [LinearOrderedField K]

theorem process_calibSensor_ESTIMATE_EXTRINSIC (cfg : Config K) (ext : Collaborators K IE MI)
    (s : Estimator K IE MI) (i : Nat) :
    (process_calibSensor cfg ext s i).ESTIMATE_EXTRINSIC = s.ESTIMATE_EXTRINSIC := by
  unfold process_calibSensor
  simp only []
  split_ifs <;> rfl

theorem process_initializerUpdate_keeps (cfg : Config K) (ext : Collaborators K IE MI)
    (s : Estimator K IE MI) :
    (process_initializerUpdate cfg ext s).cir_buf_cnt_ = s.cir_buf_cnt_ ∧
      (process_initializerUpdate cfg ext s).ESTIMATE_EXTRINSIC = s.ESTIMATE_EXTRINSIC := by
  have h2 : ∀ (proj : Estimator K IE MI → Int),
      (∀ s i, proj (process_trackSensor ext s i) = proj s) →
      (∀ s i, proj (process_addPose ext s i) = proj s) →
      (∀ s i, proj (process_calibSensor cfg ext s i) = proj s) →
      proj (process_initializerUpdate cfg ext s) = proj s := by
    intro proj ht ha hc
    unfold process_initializerUpdate
    simp only []
    split
    · rw [foldl_keeps proj (process_calibSensor cfg ext) hc,
        foldl_keeps proj (process_addPose ext) ha, foldl_keeps proj (process_trackSensor ext) ht]
    · rw [foldl_keeps proj (process_addPose ext) ha, foldl_keeps proj (process_trackSensor ext) ht]
  exact ⟨h2 (fun s => s.cir_buf_cnt_) (fun _ _ => rfl) (fun _ _ => rfl)
      (process_calibSensor_cir_buf_cnt cfg ext),
    h2 (fun s => s.ESTIMATE_EXTRINSIC) (fun _ _ => rfl) (fun _ _ => rfl)
      (process_calibSensor_ESTIMATE_EXTRINSIC cfg ext)⟩

theorem process_bootstrap_eq (cfg : Config K) (ext : Collaborators K IE MI)
    (s : Estimator K IE MI) :
    process_bootstrap cfg ext s =
      if s.cir_buf_cnt_ = (cfg.WINDOW_SIZE : Int) ∧
          InitializerConverged ext (process_initializerUpdate cfg ext s).initial_extrinsics_ then
        { process_initializerUpdate cfg ext s with
          ESTIMATE_EXTRINSIC := 1
          initial_extrinsics_ :=
            ext.ie_saveStatistics (process_initializerUpdate cfg ext s).initial_extrinsics_ }
      else process_initializerUpdate cfg ext s := by
  have hc : ((List.range cfg.NUM_OF_LASER).foldl (process_addPose ext)
      ((List.range cfg.NUM_OF_LASER).foldl (process_trackSensor ext) s)).cir_buf_cnt_ =
      s.cir_buf_cnt_ := by
    rw [foldl_keeps (fun s : Estimator K IE MI => s.cir_buf_cnt_) (process_addPose ext)
        (fun _ _ => rfl),
      foldl_keeps (fun s : Estimator K IE MI => s.cir_buf_cnt_) (process_trackSensor ext)
        (fun _ _ => rfl)]
  unfold process_bootstrap process_initializerUpdate InitializerConverged
  simp only [hc]
  by_cases hw : s.cir_buf_cnt_ = (cfg.WINDOW_SIZE : Int)
  · simp only [hw, if_true, true_and]
  · simp only [hw, if_false, false_and]

theorem process_tracker_bootstrap (cfg : Config K) (ext : Collaborators K IE MI)
    (s : Estimator K IE MI) (hi : s.b_system_inited_ = true) (he : s.ESTIMATE_EXTRINSIC = 2) :
    process_tracker cfg ext s = process_bootstrap cfg ext s := by
  unfold process_tracker
  simp [hi, he]

theorem process_store_initial_extrinsics (cfg : Config K) (ext : Collaborators K IE MI)
    (s : Estimator K IE MI) :
    (process_store cfg ext s).initial_extrinsics_ = s.initial_extrinsics_ :=
  process_store_keeps (fun s => s.initial_extrinsics_) (fun _ _ _ _ => rfl) (fun _ _ _ => rfl)
    cfg ext s

theorem process_solver_initial_extrinsics (cfg : Config K) (ext : Collaborators K IE MI)
    (s : Estimator K IE MI) (h : s.solver_flag_ = SolverFlag.INITIAL) :
    (process_solver cfg ext s).initial_extrinsics_ = s.initial_extrinsics_ := by
  unfold process_solver
  rw [h]
  simp only []
  split_ifs <;> simp only [slideWindow_initial_extrinsics]

/-- What one cycle does to the calibration mode, the solver flag and the
initializer, given the state after the tracker part. -/
theorem process_after_tracker (cfg : Config K) (ext : Collaborators K IE MI)
    (s : Estimator K IE MI) :
    (s.solver_flag_ = SolverFlag.INITIAL →
      (process cfg ext s).ESTIMATE_EXTRINSIC = (process_tracker cfg ext s).ESTIMATE_EXTRINSIC ∧
      (process cfg ext s).initial_extrinsics_ = (process_tracker cfg ext s).initial_extrinsics_ ∧
      ((process cfg ext s).ESTIMATE_EXTRINSIC = 2 →
        (process cfg ext s).solver_flag_ = SolverFlag.INITIAL)) ∧
    (s.solver_flag_ = SolverFlag.NON_LINEAR →
      (process cfg ext s).ESTIMATE_EXTRINSIC = (process_tracker cfg ext s).ESTIMATE_EXTRINSIC ∨
      (process cfg ext s).ESTIMATE_EXTRINSIC = 0) := by
  constructor
  · intro h
    have h2 : (process_store cfg ext (process_tracker cfg ext s)).solver_flag_ =
        SolverFlag.INITIAL := by
      rw [process_store_solver_flag, process_tracker_solver_flag, h]
    have he : (process cfg ext s).ESTIMATE_EXTRINSIC =
        (process_tracker cfg ext s).ESTIMATE_EXTRINSIC :=
      ((process_solver_initial_count cfg ext _ h2).2).trans
        (process_store_ESTIMATE_EXTRINSIC cfg ext _)
    refine ⟨he, ?_, fun h22 => ?_⟩
    · exact (process_solver_initial_extrinsics cfg ext _ h2).trans
        (process_store_initial_extrinsics cfg ext _)
    · exact (process_solver_initial cfg ext _ h2).2 (fun hw => hw.2 h22)
  · intro h
    have h2 : (process_store cfg ext (process_tracker cfg ext s)).solver_flag_ =
        SolverFlag.NON_LINEAR := by
      rw [process_store_solver_flag, process_tracker_solver_flag, h]
    rcases (process_solver_non_linear cfg ext _ h2).2.2 with h3 | h3
    · exact Or.inl (h3.trans (process_store_ESTIMATE_EXTRINSIC cfg ext _))
    · exact Or.inr h3

theorem process_tracker_mode_of_not_bootstrap (cfg : Config K) (ext : Collaborators K IE MI)
    (s : Estimator K IE MI) (h : ¬ (s.b_system_inited_ = true ∧ s.ESTIMATE_EXTRINSIC = 2)) :
    (process_tracker cfg ext s).ESTIMATE_EXTRINSIC = s.ESTIMATE_EXTRINSIC ∧
      (process_tracker cfg ext s).initial_extrinsics_ = s.initial_extrinsics_ := by
  unfold process_tracker
  split
  · unfold process_init
    exact ⟨foldl_keeps (fun s : Estimator K IE MI => s.ESTIMATE_EXTRINSIC) process_initSensor
        (fun _ _ => rfl) _ _,
      foldl_keeps (fun s : Estimator K IE MI => s.initial_extrinsics_) process_initSensor
        (fun _ _ => rfl) _ _⟩
  · rename_i hi
    split
    · rename_i he
      exact absurd ⟨by simpa using hi, he⟩ h
    · exact ⟨rfl, rfl⟩

theorem processCycle_bootstrap_converged (cfg : Config K) (ext : Collaborators K IE MI)
    (s : Estimator K IE MI) (frame : Frame K) (hf : s.solver_flag_ = SolverFlag.INITIAL)
    (hi : s.b_system_inited_ = true) (he : s.ESTIMATE_EXTRINSIC = 2)
    (hw : s.cir_buf_cnt_ = (cfg.WINDOW_SIZE : Int))
    (hc : InitializerConverged ext
      (process_initializerUpdate cfg ext (frameLoaded s frame)).initial_extrinsics_) :
    (processCycle cfg ext s frame).ESTIMATE_EXTRINSIC = 1 := by
  unfold processCycle
  rw [((process_after_tracker cfg ext (frameLoaded s frame)).1 hf).1,
    process_tracker_bootstrap cfg ext (frameLoaded s frame) hi he, process_bootstrap_eq,
    if_pos ⟨hw, hc⟩]

theorem processCycle_bootstrap_pending (cfg : Config K) (ext : Collaborators K IE MI)
    (s : Estimator K IE MI) (frame : Frame K) (hf : s.solver_flag_ = SolverFlag.INITIAL)
    (hi : s.b_system_inited_ = true) (he : s.ESTIMATE_EXTRINSIC = 2)
    (hc : ¬ (s.cir_buf_cnt_ = (cfg.WINDOW_SIZE : Int) ∧ InitializerConverged ext
      (process_initializerUpdate cfg ext (frameLoaded s frame)).initial_extrinsics_)) :
    (processCycle cfg ext s frame).ESTIMATE_EXTRINSIC = 2 := by
  have hc2 : ¬ ((frameLoaded s frame).cir_buf_cnt_ = (cfg.WINDOW_SIZE : Int) ∧
      InitializerConverged ext
        (process_initializerUpdate cfg ext (frameLoaded s frame)).initial_extrinsics_) := hc
  unfold processCycle
  rw [((process_after_tracker cfg ext (frameLoaded s frame)).1 hf).1,
    process_tracker_bootstrap cfg ext (frameLoaded s frame) hi he, process_bootstrap_eq,
    if_neg hc2, (process_initializerUpdate_keeps cfg ext _).2]
  exact he

theorem processCycles_bootstrap_initial (cfg : Config K) (ext : Collaborators K IE MI)
    (s0 : Estimator K IE MI) (frames : List (Frame K)) :
    (processCycles cfg ext frames (setParameter cfg ext (clearState ext s0))).ESTIMATE_EXTRINSIC =
        2 →
      (processCycles cfg ext frames (setParameter cfg ext (clearState ext s0))).solver_flag_ =
        SolverFlag.INITIAL :=
  foldl_invariant
    (fun s : Estimator K IE MI => s.ESTIMATE_EXTRINSIC = 2 → s.solver_flag_ = SolverFlag.INITIAL)
    (processCycle cfg ext)
    (fun s frame hs h2 => by
      unfold processCycle at h2 ⊢
      have hpt := process_after_tracker cfg ext (frameLoaded s frame)
      cases hf : s.solver_flag_ with
      | INITIAL => exact (hpt.1 hf).2.2 h2
      | NON_LINEAR =>
        have hs2 : s.ESTIMATE_EXTRINSIC = 2 := by
          rcases hpt.2 hf with h3 | h3
          · rw [h3] at h2
            by_cases hb : (frameLoaded s frame).b_system_inited_ = true ∧
                (frameLoaded s frame).ESTIMATE_EXTRINSIC = 2
            · exact hb.2
            · rw [(process_tracker_mode_of_not_bootstrap cfg ext _ hb).1] at h2
              exact h2
          · rw [h3] at h2
            exact absurd h2 (by decide)
        have := hs hs2
        rw [hf] at this
        exact absurd this (by decide))
    frames _ (fun _ => rfl)

/-- C16 (amended): along every run started by `clearState` and
`setParameter`, a cycle other than the first frame that is entered with
`ESTIMATE_EXTRINSIC = 2` is entered in INITIAL; with a full window
(`cir_buf_cnt_ = WINDOW_SIZE`) it ends with `ESTIMATE_EXTRINSIC = 1` when its
initializer update ends with both full-convergence flags reported and with 2
when it does not; with a window that is not full the flags are not read and
the cycle ends with `ESTIMATE_EXTRINSIC = 2`. -/
theorem bootstrap_convergence_read_at_full_window (cfg : Config K)
    (ext : Collaborators K IE MI) (s0 : Estimator K IE MI) (frames : List (Frame K))
    (frame : Frame K)
    (hi : (processCycles cfg ext frames
      (setParameter cfg ext (clearState ext s0))).b_system_inited_ = true)
    (he : (processCycles cfg ext frames
      (setParameter cfg ext (clearState ext s0))).ESTIMATE_EXTRINSIC = 2) :
    (processCycles cfg ext frames (setParameter cfg ext (clearState ext s0))).solver_flag_ =
      SolverFlag.INITIAL ∧
    ((processCycles cfg ext frames (setParameter cfg ext (clearState ext s0))).cir_buf_cnt_ =
        (cfg.WINDOW_SIZE : Int) →
      InitializerConverged ext
        (process_initializerUpdate cfg ext
          (frameLoaded (processCycles cfg ext frames (setParameter cfg ext (clearState ext s0)))
            frame)).initial_extrinsics_ →
      (processCycle cfg ext
        (processCycles cfg ext frames (setParameter cfg ext (clearState ext s0)))
        frame).ESTIMATE_EXTRINSIC = 1) ∧
    ((processCycles cfg ext frames (setParameter cfg ext (clearState ext s0))).cir_buf_cnt_ =
        (cfg.WINDOW_SIZE : Int) →
      ¬ InitializerConverged ext
        (process_initializerUpdate cfg ext
          (frameLoaded (processCycles cfg ext frames (setParameter cfg ext (clearState ext s0)))
            frame)).initial_extrinsics_ →
      (processCycle cfg ext
        (processCycles cfg ext frames (setParameter cfg ext (clearState ext s0)))
        frame).ESTIMATE_EXTRINSIC = 2) ∧
    ((processCycles cfg ext frames (setParameter cfg ext (clearState ext s0))).cir_buf_cnt_ ≠
        (cfg.WINDOW_SIZE : Int) →
      (processCycle cfg ext
        (processCycles cfg ext frames (setParameter cfg ext (clearState ext s0)))
        frame).ESTIMATE_EXTRINSIC = 2) := by
  have hf := processCycles_bootstrap_initial cfg ext s0 frames he
  generalize processCycles cfg ext frames (setParameter cfg ext (clearState ext s0)) = s
    at hi he hf ⊢
  exact ⟨hf, fun hw hc => processCycle_bootstrap_converged cfg ext s frame hf hi he hw hc,
    fun _ hc => processCycle_bootstrap_pending cfg ext s frame hf hi he (fun h => hc h.2),
    fun hw => processCycle_bootstrap_pending cfg ext s frame hf hi he (fun h => hw h.1)⟩

end Bootstrap

/-- C16 counterexample: two sensors, `W = 2`, bootstrap mode, an initializer
that marks both criteria met when a pose is added. The second cycle is
entered with `ESTIMATE_EXTRINSIC = 2` and `cir_buf_cnt_ = 1`; after its
initializer update both full-convergence flags are reported, and the cycle
still ends with `ESTIMATE_EXTRINSIC = 2`. -/
theorem bootstrap_convergence_not_read_before_full_window :
    (processCycles exampleConfig eagerCollaborators [(0, [[], []])]
      (setParameter exampleConfig eagerCollaborators
        (clearState eagerCollaborators bootstrapEstimator))).b_system_inited_ = true ∧
    (processCycles exampleConfig eagerCollaborators [(0, [[], []])]
      (setParameter exampleConfig eagerCollaborators
        (clearState eagerCollaborators bootstrapEstimator))).ESTIMATE_EXTRINSIC = 2 ∧
    (processCycles exampleConfig eagerCollaborators [(0, [[], []])]
      (setParameter exampleConfig eagerCollaborators
        (clearState eagerCollaborators bootstrapEstimator))).cir_buf_cnt_ = 1 ∧
    InitializerConverged eagerCollaborators
      (process_initializerUpdate exampleConfig eagerCollaborators
        (frameLoaded (processCycles exampleConfig eagerCollaborators [(0, [[], []])]
          (setParameter exampleConfig eagerCollaborators
            (clearState eagerCollaborators bootstrapEstimator)))
          (1, [[], []]))).initial_extrinsics_ ∧
    (processCycle exampleConfig eagerCollaborators
      (processCycles exampleConfig eagerCollaborators [(0, [[], []])]
        (setParameter exampleConfig eagerCollaborators
          (clearState eagerCollaborators bootstrapEstimator)))
      (1, [[], []])).ESTIMATE_EXTRINSIC = 2 := by
  refine ⟨by decide, by decide, by decide, ?_, by decide⟩
  unfold InitializerConverged
  decide

/-- Witness for C16: two sensors, `W = 2`, bootstrap mode. After two frames
the window is full and `ESTIMATE_EXTRINSIC` is still 2; in the third cycle
both calibrations succeed and the mode drops to 1. -/
theorem bootstrap_convergence_read_at_full_window_witness :
    (processCycles exampleConfig bootstrapCollaborators twoEmptyFrames
      (setParameter exampleConfig bootstrapCollaborators
        (clearState bootstrapCollaborators bootstrapEstimator))).cir_buf_cnt_ =
      (exampleConfig.WINDOW_SIZE : Int) ∧
    (processCycle exampleConfig bootstrapCollaborators
        (processCycles exampleConfig bootstrapCollaborators twoEmptyFrames
          (setParameter exampleConfig bootstrapCollaborators
            (clearState bootstrapCollaborators bootstrapEstimator)))
        (2, [[], []])).ESTIMATE_EXTRINSIC = 1 :=
  ⟨by decide,
    (bootstrap_convergence_read_at_full_window exampleConfig bootstrapCollaborators
      bootstrapEstimator twoEmptyFrames (2, [[], []]) (by decide) (by decide)).2.1 (by decide)
      (by unfold InitializerConverged; decide)⟩

/-! ## Accumulated feature buffer -/

/-- C17 (code defect): with marginalization on and the solver switched off
(`OPTIMAL_ODOMETRY = 0`), `optimizeMap` adds the target-plane factor of the
accumulated feature of the non-reference sensor, on `ex_pose[1]` alone, and
then returns at estimator.cpp 628 with the accumulation buffer still filled;
with the solver on, the same call returns with every buffer empty. -/
theorem optimizeMap_early_return_keeps_accumulated :
    (vget calibratingEstimator.cumu_surf_map_features_ 0).length + 1 =
      earlyReturnConfig.N_CUMU_FEATURE ∧
    (optimizeMap_assemble earlyReturnConfig featureCollaborators
        calibratingEstimator).problem.residual_blocks =
      [planeNormBlock 1 0 2 examplePlaneFeature, targetPlaneBlock 1 examplePlaneFeature] ∧
    (targetPlaneBlock 1 examplePlaneFeature :
      ResidualBlock ℚ Unit).parameter_blocks = [ParamBlock.para_ex_pose 1] ∧
    (optimizeMap earlyReturnConfig featureCollaborators
        calibratingEstimator).cumu_surf_map_features_ = [[[]], [[examplePlaneFeature]]] ∧
    (optimizeMap everyCycleConfig featureCollaborators
        calibratingEstimator).cumu_surf_map_features_ = [[], []] := by
  refine ⟨by decide, rfl, rfl, by decide, by decide⟩

/-! ## Extrinsic prior factors -/

section PriorFactors

variable {K IE MI : Type} [LinearOrderedField K]

theorem addProj_priorFactors (a : Assembly K IE MI) (r : ResidualBlock K MI)
    (h : r.cost_function.isPriorFactor = false) :
    (a.addProj r).priorFactors = a.priorFactors := by
  simp [Assembly.addProj, Assembly.priorFactors, Problem.priorFactors,
    Problem.AddResidualBlock, List.filter_append, h]

theorem addTargetPlaneFeature_priorFactors (n : Nat) (a : Assembly K IE MI)
    (feature : PointPlaneFeature K) :
    (addTargetPlaneFeature n a feature).priorFactors = a.priorFactors :=
  addProj_priorFactors a _ rfl

theorem addTargetPlaneFrame_priorFactors (n : Nat) (a : Assembly K IE MI)
    (features_frame : List (PointPlaneFeature K)) :
    (addTargetPlaneFrame n a features_frame).priorFactors = a.priorFactors :=
  foldl_keeps Assembly.priorFactors (addTargetPlaneFeature n)
    (addTargetPlaneFeature_priorFactors n) _ a

theorem addTargetPlaneSensor_priorFactors (cfg : Config K) (cumu : FeatureTable K)
    (a : Assembly K IE MI) (n : Nat) :
    (addTargetPlaneSensor cfg cumu a n).priorFactors = a.priorFactors := by
  unfold addTargetPlaneSensor
  split
  · rfl
  · exact foldl_keeps Assembly.priorFactors (addTargetPlaneFrame n)
      (addTargetPlaneFrame_priorFactors n) _ a

theorem addTargetPlaneFactors_priorFactors (cfg : Config K) (cumu : FeatureTable K)
    (a : Assembly K IE MI) :
    (addTargetPlaneFactors cfg cumu a).priorFactors = a.priorFactors :=
  foldl_keeps Assembly.priorFactors (addTargetPlaneSensor cfg cumu)
    (addTargetPlaneSensor_priorFactors cfg cumu) _ a

theorem calibPlaneFeature_priorFactors (cfg : Config K) (pivot_idx i : Int)
    (a : Assembly K IE MI) (feature : PointPlaneFeature K) :
    (calibPlaneFeature cfg pivot_idx i a feature).priorFactors = a.priorFactors := by
  have h := addProj_priorFactors a (planeNormBlock pivot_idx cfg.IDX_REF i feature) rfl
  unfold calibPlaneFeature
  simp only []
  split
  · exact h
  · exact h

theorem calibPlaneSlot_priorFactors (cfg : Config K) (pivot_idx : Int) (a : Assembly K IE MI)
    (i : Int) : (calibPlaneSlot cfg pivot_idx a i).priorFactors = a.priorFactors :=
  foldl_keeps Assembly.priorFactors (calibPlaneFeature cfg pivot_idx i)
    (calibPlaneFeature_priorFactors cfg pivot_idx i) _ a

theorem optimizeMap_calibPlane_priorFactors (cfg : Config K) (pivot_idx : Int)
    (a : Assembly K IE MI) :
    (optimizeMap_calibPlane cfg pivot_idx a).priorFactors = a.priorFactors := by
  have h1 := foldl_keeps Assembly.priorFactors (calibPlaneSlot cfg pivot_idx)
    (calibPlaneSlot_priorFactors cfg pivot_idx)
    (intRange (pivot_idx + 1) ((cfg.WINDOW_SIZE : Int) + 1)) a
  unfold optimizeMap_calibPlane
  simp only []
  split
  · split
    · rw [addTargetPlaneFactors_priorFactors]; exact h1
    · show (addTargetPlaneFactors cfg _ _).priorFactors = _
      rw [addTargetPlaneFactors_priorFactors]; exact h1
  · exact h1

theorem optimizeMap_calibEdge_priorFactors (cfg : Config K) (pivot_idx : Int)
    (a : Assembly K IE MI) :
    (optimizeMap_calibEdge cfg pivot_idx a).priorFactors = a.priorFactors := by
  unfold optimizeMap_calibEdge
  simp only []
  split
  · split
    · rw [addTargetPlaneFactors_priorFactors]; rfl
    · show (addTargetPlaneFactors cfg _ _).priorFactors = _
      rw [addTargetPlaneFactors_priorFactors]; rfl
  · rfl

theorem odomPlaneSlot_priorFactors (pivot_idx : Int) (n : Nat) (a : Assembly K IE MI) (i : Int) :
    (odomPlaneSlot pivot_idx n a i).priorFactors = a.priorFactors :=
  foldl_keeps Assembly.priorFactors (odomPlaneFeature pivot_idx n i)
    (fun a feature => addProj_priorFactors a _ rfl) _ a

theorem odomPlaneSensor_priorFactors (cfg : Config K) (pivot_idx : Int) (a : Assembly K IE MI)
    (n : Nat) : (odomPlaneSensor cfg pivot_idx a n).priorFactors = a.priorFactors :=
  foldl_keeps Assembly.priorFactors (odomPlaneSlot pivot_idx n)
    (odomPlaneSlot_priorFactors pivot_idx n) _ a

theorem optimizeMap_odomPlane_priorFactors (cfg : Config K) (pivot_idx : Int)
    (a : Assembly K IE MI) :
    (optimizeMap_odomPlane cfg pivot_idx a).priorFactors = a.priorFactors :=
  foldl_keeps Assembly.priorFactors (odomPlaneSensor cfg pivot_idx)
    (odomPlaneSensor_priorFactors cfg pivot_idx) _ a

theorem optimizeMap_calibration_priorFactors (cfg : Config K) (ext : Collaborators K IE MI)
    (a : Assembly K IE MI) :
    (optimizeMap_calibration cfg ext a).priorFactors = a.priorFactors := by
  unfold optimizeMap_calibration
  simp only []
  split
  · rw [optimizeMap_calibEdge_priorFactors]
    split
    · rw [optimizeMap_calibPlane_priorFactors]; rfl
    · rfl
  · split
    · rw [optimizeMap_calibPlane_priorFactors]; rfl
    · rfl

theorem foldl_setExtrinsicConstant_residual_blocks (l : List Nat) (p : Problem K MI) :
    (l.foldl setExtrinsicConstant p).residual_blocks = p.residual_blocks :=
  foldl_keeps Problem.residual_blocks setExtrinsicConstant (fun _ _ => rfl) l p

theorem optimizeMap_odometry_priorFactors (cfg : Config K) (ext : Collaborators K IE MI)
    (a : Assembly K IE MI) :
    (optimizeMap_odometry cfg ext a).priorFactors = a.priorFactors := by
  have h0 : ∀ s1 : Estimator K IE MI,
      ({ s := s1
         problem := List.foldl setExtrinsicConstant a.problem (List.range cfg.NUM_OF_LASER)
         local_param_ids := a.local_param_ids
         para_ids := a.para_ids
         res_ids_marg := a.res_ids_marg
         res_ids_proj := a.res_ids_proj } : Assembly K IE MI).priorFactors = a.priorFactors := by
    intro s1
    show List.filter _ (List.foldl setExtrinsicConstant a.problem _).residual_blocks = _
    rw [foldl_setExtrinsicConstant_residual_blocks]
    rfl
  unfold optimizeMap_odometry
  simp only []
  split
  · rw [optimizeMap_odomPlane_priorFactors]; exact h0 _
  · exact h0 _

theorem optimizeMap_blocks_residual_blocks (cfg : Config K) (ext : Collaborators K IE MI)
    (s : Estimator K IE MI) : (optimizeMap_blocks cfg ext s).problem.residual_blocks = [] := by
  unfold optimizeMap_blocks
  simp only []
  show (List.foldl (optimizeMap_addExBlock ext) _ _).problem.residual_blocks = _
  rw [foldl_keeps (fun a : Assembly K IE MI => a.problem.residual_blocks)
    (optimizeMap_addExBlock ext) (fun a i => by
      unfold optimizeMap_addExBlock
      simp only []
      split <;> rfl)]
  show (List.foldl (optimizeMap_addPoseBlock ext) _ _).problem.residual_blocks = _
  rw [foldl_keeps (fun a : Assembly K IE MI => a.problem.residual_blocks)
    (optimizeMap_addPoseBlock ext) (fun _ _ => rfl)]
  rfl

theorem optimizeMap_addMarginalization_priorFactors (cfg : Config K) (a : Assembly K IE MI) :
    (optimizeMap_addMarginalization cfg a).priorFactors = a.priorFactors := by
  unfold optimizeMap_addMarginalization
  split
  · split
    · simp [Assembly.priorFactors, Problem.priorFactors, Problem.AddResidualBlock,
        List.filter_append, CostFunction.isPriorFactor]
    · rfl
  · rfl

theorem foldl_addPrior (cfg : Config K) (l : List Nat) (a : Assembly K IE MI) :
    (l.foldl (optimizeMap_addPrior cfg) a).s = a.s ∧
    (l.foldl (optimizeMap_addPrior cfg) a).priorFactors =
      a.priorFactors ++ l.map (priorBlock cfg a.s) := by
  induction l generalizing a with
  | nil => simp
  | cons n l ih =>
    rw [List.foldl_cons]
    obtain ⟨h1, h2⟩ := ih (optimizeMap_addPrior cfg a n)
    have hs : (optimizeMap_addPrior cfg a n).s = a.s := rfl
    rw [hs] at h1 h2
    refine ⟨h1, ?_⟩
    rw [h2, List.map_cons]
    simp [optimizeMap_addPrior, Assembly.addProj, Assembly.priorFactors, Problem.priorFactors,
      Problem.AddResidualBlock, List.filter_append, priorBlock, CostFunction.isPriorFactor]

/-- The extrinsic prior factors of the assembled problem: none without
`PRIOR_FACTOR`, and with it one per sensor, in sensor order. -/
theorem optimizeMap_assemble_priorFactors (cfg : Config K) (ext : Collaborators K IE MI)
    (s : Estimator K IE MI) :
    (optimizeMap_assemble cfg ext s).problem.priorFactors =
      if cfg.PRIOR_FACTOR then (List.range cfg.NUM_OF_LASER).map (priorBlock cfg (vector2Double cfg s))
      else [] := by
  have hb : (optimizeMap_addMarginalization cfg (optimizeMap_blocks cfg ext s)).priorFactors =
      [] := by
    rw [optimizeMap_addMarginalization_priorFactors]
    show List.filter _ (optimizeMap_blocks cfg ext s).problem.residual_blocks = _
    rw [optimizeMap_blocks_residual_blocks]
    rfl
  have hp : (optimizeMap_priors cfg (optimizeMap_blocks cfg ext s)).priorFactors =
      if cfg.PRIOR_FACTOR then
        (List.range cfg.NUM_OF_LASER).map (priorBlock cfg (vector2Double cfg s))
      else [] := by
    unfold optimizeMap_priors
    simp only []
    split
    · rw [(foldl_addPrior cfg _ _).2, hb, optimizeMap_addMarginalization_s, optimizeMap_blocks_s]
      rfl
    · exact hb
  show (optimizeMap_assemble cfg ext s).priorFactors = _
  unfold optimizeMap_assemble
  simp only []
  split
  · rw [optimizeMap_calibration_priorFactors]; exact hp
  · split
    · rw [optimizeMap_odometry_priorFactors]; exact hp
    · exact hp

theorem priorBlocks_on (cfg : Config K) (s : Estimator K IE MI) (N n : Nat) :
    ((List.range N).map (priorBlock cfg s : Nat → ResidualBlock K MI)).filter
        (fun r => decide (ParamBlock.para_ex_pose n ∈ r.parameter_blocks)) =
      if n < N then [priorBlock cfg s n] else [] := by
  induction N with
  | zero => simp
  | succ N ih =>
    rw [List.range_succ, List.map_append, List.filter_append, ih]
    by_cases h1 : n < N
    · have h2 : n ≠ N := by omega
      have h3 : n < N + 1 := by omega
      simp [h1, h3, priorBlock, h2]
    · by_cases h2 : n = N
      · subst h2
        simp [priorBlock]
      · have h3 : ¬ n < N + 1 := by omega
        simp [h1, h3, priorBlock, h2]

/-- C18 (amended): when `PRIOR_FACTOR` is enabled, the problem assembled by
`optimizeMap` contains exactly one extrinsic prior factor for each sensor
`n < NUM_OF_LASER`, the reference sensor `IDX_REF` included, attached to that
sensor's `ex_pose` block alone, and no other extrinsic prior factor. -/
theorem optimizeMap_prior_factor_per_sensor (cfg : Config K) (ext : Collaborators K IE MI)
    (s : Estimator K IE MI) (hp : cfg.PRIOR_FACTOR = true) :
    (∀ n, n < cfg.NUM_OF_LASER →
      (optimizeMap_assemble cfg ext s).problem.priorFactorsOn n =
          [priorBlock cfg (vector2Double cfg s) n] ∧
        (priorBlock cfg (vector2Double cfg s) n : ResidualBlock K MI).parameter_blocks =
          [ParamBlock.para_ex_pose n]) ∧
    (∀ n, cfg.NUM_OF_LASER ≤ n → (optimizeMap_assemble cfg ext s).problem.priorFactorsOn n = []) ∧
    (optimizeMap_assemble cfg ext s).problem.priorFactors.length = cfg.NUM_OF_LASER := by
  have h := optimizeMap_assemble_priorFactors cfg ext s
  rw [if_pos hp] at h
  refine ⟨fun n hn => ⟨?_, rfl⟩, fun n hn => ?_, ?_⟩
  · unfold Problem.priorFactorsOn
    rw [h, priorBlocks_on, if_pos hn]
  · unfold Problem.priorFactorsOn
    rw [h, priorBlocks_on, if_neg (by omega)]
  · rw [h]
    simp

end PriorFactors

/-- C18 (as stated) fails: with `PRIOR_FACTOR` enabled and reference sensor
0 of two, the assembled problem holds a prior factor on `ex_pose[0]`, the
block of the reference sensor. -/
theorem optimizeMap_prior_factor_on_reference :
    priorFactorConfig.PRIOR_FACTOR = true ∧ priorFactorConfig.IDX_REF = 0 ∧
    ((optimizeMap_assemble priorFactorConfig exampleCollaborators
        calibratingEstimator).problem.priorFactorsOn priorFactorConfig.IDX_REF).length = 1 ∧
    ((optimizeMap_assemble priorFactorConfig exampleCollaborators
        calibratingEstimator).problem.priorFactorsOn priorFactorConfig.IDX_REF).map
          (fun r => r.parameter_blocks) = [[ParamBlock.para_ex_pose 0]] := by
  refine ⟨rfl, rfl, by decide, by decide⟩

/-- Witness for C18 (amended): two sensors, reference sensor 0. -/
theorem optimizeMap_prior_factor_per_sensor_witness :
    (optimizeMap_assemble priorFactorConfig exampleCollaborators
        calibratingEstimator).problem.priorFactorsOn 0 =
      [priorBlock priorFactorConfig (vector2Double priorFactorConfig calibratingEstimator) 0] ∧
    (optimizeMap_assemble priorFactorConfig exampleCollaborators
        calibratingEstimator).problem.priorFactorsOn 1 =
      [priorBlock priorFactorConfig (vector2Double priorFactorConfig calibratingEstimator) 1] ∧
    (optimizeMap_assemble priorFactorConfig exampleCollaborators
        calibratingEstimator).problem.priorFactors.length = priorFactorConfig.NUM_OF_LASER :=
  ⟨((optimizeMap_prior_factor_per_sensor priorFactorConfig exampleCollaborators
      calibratingEstimator rfl).1 0 (by decide)).1,
    ((optimizeMap_prior_factor_per_sensor priorFactorConfig exampleCollaborators
      calibratingEstimator rfl).1 1 (by decide)).1,
    (optimizeMap_prior_factor_per_sensor priorFactorConfig exampleCollaborators
      calibratingEstimator rfl).2.2⟩

/-! ## Address shift of the marginalization -/

section AddressMap

variable {K : Type} [LinearOrderedField K]

theorem mapAssign_fresh (m : List (ParamBlock × ParamBlock)) (key value : ParamBlock)
    (h : ∀ e ∈ m, e.1 ≠ key) : mapAssign m key value = m ++ [(key, value)] := by
  unfold mapAssign
  have : m.any (fun e => decide (e.1 = key)) = false := by
    rw [List.any_eq_false]
    intro e he
    simpa using h e he
  simp [this]

theorem foldl_mapAssign (kvs m : List (ParamBlock × ParamBlock))
    (hnodup : (kvs.map Prod.fst).Nodup) (hdisj : ∀ e ∈ m, ∀ e1 ∈ kvs, e.1 ≠ e1.1) :
    kvs.foldl (fun m e => mapAssign m e.1 e.2) m = m ++ kvs := by
  induction kvs generalizing m with
  | nil => simp
  | cons kv kvs ih =>
    rw [List.foldl_cons, mapAssign_fresh m kv.1 kv.2 (fun e he => hdisj e he kv (by simp))]
    rw [List.map_cons, List.nodup_cons] at hnodup
    rw [ih _ hnodup.2, List.append_assoc]
    · rfl
    · intro e he e1 he1
      rcases List.mem_append.mp he with h | h
      · exact hdisj e h e1 (List.mem_cons_of_mem _ he1)
      · rw [List.mem_singleton] at h
        subst h
        intro heq
        exact hnodup.1 (by rw [heq]; exact List.mem_map_of_mem Prod.fst he1)

theorem mapFind_of_mem (m : List (ParamBlock × ParamBlock)) (key value : ParamBlock)
    (hnodup : (m.map Prod.fst).Nodup) (h : (key, value) ∈ m) : mapFind m key = some value := by
  induction m with
  | nil => exact absurd h (List.not_mem_nil _)
  | cons e m ih =>
    rw [List.map_cons, List.nodup_cons] at hnodup
    unfold mapFind
    rcases List.mem_cons.mp h with h1 | h1
    · subst h1
      simp
    · have hne : e.1 ≠ key := by
        intro heq
        exact hnodup.1 (by rw [heq]; exact List.mem_map_of_mem Prod.fst h1)
      rw [List.find?_cons_of_neg _ (by simpa using hne)]
      exact ih hnodup.2 h1

theorem mapFind_none (m : List (ParamBlock × ParamBlock)) (key : ParamBlock)
    (h : ∀ e ∈ m, e.1 ≠ key) : mapFind m key = none := by
  unfold mapFind
  rw [Option.map_eq_none', List.find?_eq_none]
  intro e he
  simpa using h e he

/-- The address map as a list of entries: the pose blocks `1..O` shifted down
by one, then the extrinsic blocks sent to themselves. -/
theorem addr_shift_eq (cfg : Config K) :
    addr_shift cfg =
      (List.range cfg.OPT_WINDOW_SIZE).map
          (fun (k : Nat) => (ParamBlock.para_pose ((k : Int) + 1), ParamBlock.para_pose (k : Int))) ++
        (List.range cfg.NUM_OF_LASER).map
          (fun (n : Nat) => (ParamBlock.para_ex_pose n, ParamBlock.para_ex_pose n)) := by
  have hrange : intRange ((cfg.WINDOW_SIZE : Int) - (cfg.OPT_WINDOW_SIZE : Int) + 1)
      ((cfg.WINDOW_SIZE : Int) + 1) =
      (List.range cfg.OPT_WINDOW_SIZE).map
        (fun (k : Nat) => (cfg.WINDOW_SIZE : Int) - (cfg.OPT_WINDOW_SIZE : Int) + 1 + (k : Int)) := by
    unfold intRange
    congr 2
    omega
  have h1 : (intRange ((cfg.WINDOW_SIZE : Int) - (cfg.OPT_WINDOW_SIZE : Int) + 1)
      ((cfg.WINDOW_SIZE : Int) + 1)).foldl
      (fun m i => mapAssign m
        (ParamBlock.para_pose (i - ((cfg.WINDOW_SIZE : Int) - (cfg.OPT_WINDOW_SIZE : Int))))
        (ParamBlock.para_pose (i - ((cfg.WINDOW_SIZE : Int) - (cfg.OPT_WINDOW_SIZE : Int)) - 1)))
      [] =
      ((List.range cfg.OPT_WINDOW_SIZE).map
        (fun (k : Nat) => (ParamBlock.para_pose ((k : Int) + 1), ParamBlock.para_pose (k : Int)))).foldl
        (fun m e => mapAssign m e.1 e.2) [] := by
    rw [hrange, List.foldl_map, List.foldl_map]
    congr 1
    funext m k
    congr 2 <;> omega
  have h2 : ∀ m : List (ParamBlock × ParamBlock),
      (List.range cfg.NUM_OF_LASER).foldl
        (fun m n => mapAssign m (ParamBlock.para_ex_pose n) (ParamBlock.para_ex_pose n)) m =
      ((List.range cfg.NUM_OF_LASER).map
        (fun (n : Nat) => (ParamBlock.para_ex_pose n, ParamBlock.para_ex_pose n))).foldl
        (fun m e => mapAssign m e.1 e.2) m := by
    intro m
    rw [List.foldl_map]
  unfold addr_shift
  simp only []
  rw [h1, h2, foldl_mapAssign _ [] ?_ (fun e he => absurd he (List.not_mem_nil _)),
    foldl_mapAssign _ _ ?_ ?_]
  · rfl
  · rw [List.map_map]
    exact (List.nodup_range _).map (fun a b h => by simpa using h)
  · intro e he e1 he1
    simp only [List.nil_append, List.mem_map, List.mem_range] at he he1
    obtain ⟨k, _, rfl⟩ := he
    obtain ⟨n, _, rfl⟩ := he1
    simp
  · rw [List.map_map]
    exact (List.nodup_range _).map (fun a b h => by simpa using h)

theorem addr_shift_nodup (cfg : Config K) : ((addr_shift cfg).map Prod.fst).Nodup := by
  rw [addr_shift_eq, List.map_append, List.map_map, List.map_map]
  refine List.Nodup.append ?_ ?_ ?_
  · exact (List.nodup_range _).map (fun a b h => by simpa using h)
  · exact (List.nodup_range _).map (fun a b h => by simpa using h)
  · intro x hx hy
    simp only [List.mem_map, List.mem_range, Function.comp] at hx hy
    obtain ⟨k, _, rfl⟩ := hx
    obtain ⟨n, _, h⟩ := hy
    exact absurd h (by simp)

/-- C19: the address map built after marginalization sends `pose[k]` to
`pose[k - 1]` for every `1 ≤ k ≤ OPT_WINDOW_SIZE`, sends every extrinsic block
`ex_pose[n]`, `n < NUM_OF_LASER`, to itself, and has no entry for the dropped
block `pose[0]` (block addresses being pairwise distinct). -/
theorem addr_shift_moves_poses_down (cfg : Config K) :
    (∀ k : Nat, 1 ≤ k → k ≤ cfg.OPT_WINDOW_SIZE →
      mapFind (addr_shift cfg) (ParamBlock.para_pose (k : Int)) =
        some (ParamBlock.para_pose ((k : Int) - 1))) ∧
    (∀ n : Nat, n < cfg.NUM_OF_LASER →
      mapFind (addr_shift cfg) (ParamBlock.para_ex_pose n) = some (ParamBlock.para_ex_pose n)) ∧
    mapFind (addr_shift cfg) (ParamBlock.para_pose 0) = none := by
  refine ⟨fun k h1 h2 => ?_, fun n hn => ?_, ?_⟩
  · refine mapFind_of_mem _ _ _ (addr_shift_nodup cfg) ?_
    rw [addr_shift_eq]
    refine List.mem_append_left _ (List.mem_map.mpr ⟨k - 1, List.mem_range.mpr (by omega), ?_⟩)
    have h3 : ((k - 1 : Nat) : Int) = (k : Int) - 1 := by omega
    rw [h3]
    simp
  · refine mapFind_of_mem _ _ _ (addr_shift_nodup cfg) ?_
    rw [addr_shift_eq]
    exact List.mem_append_right _ (List.mem_map.mpr ⟨n, List.mem_range.mpr hn, rfl⟩)
  · refine mapFind_none _ _ (fun e he => ?_)
    rw [addr_shift_eq] at he
    rcases List.mem_append.mp he with h | h
    · obtain ⟨k, _, rfl⟩ := List.mem_map.mp h
      intro heq
      injection heq with h0
      omega
    · obtain ⟨n, _, rfl⟩ := List.mem_map.mp h
      simp

end AddressMap

/-- Witness for C19: two sensors and `OPT_WINDOW_SIZE = 1`. -/
theorem addr_shift_moves_poses_down_witness :
    mapFind (addr_shift exampleConfig) (ParamBlock.para_pose ((1 : Nat) : Int)) =
      some (ParamBlock.para_pose (((1 : Nat) : Int) - 1)) ∧
    mapFind (addr_shift exampleConfig) (ParamBlock.para_ex_pose 0) =
      some (ParamBlock.para_ex_pose 0) ∧
    mapFind (addr_shift exampleConfig) (ParamBlock.para_ex_pose 1) =
      some (ParamBlock.para_ex_pose 1) ∧
    mapFind (addr_shift exampleConfig) (ParamBlock.para_pose 0) = none :=
  ⟨(addr_shift_moves_poses_down exampleConfig).1 1 (by decide) (by decide),
    (addr_shift_moves_poses_down exampleConfig).2.1 0 (by decide),
    (addr_shift_moves_poses_down exampleConfig).2.1 1 (by decide),
    (addr_shift_moves_poses_down exampleConfig).2.2⟩

/-! ## clearState -/

/-- C20 (code defect): after `clearState` the solver flag is INITIAL, `cnt`
is 0, the system-initialised flag and the fixed-local-map flag are false, the
marginalization prior is absent, and the poses, the headers, the surface
stacks (with their sizes) and the extrinsic lists are empty; the edge stacks
and their sizes, whose `clear()` calls are commented out (estimator.cpp
82-83), still hold what they held before: for the full window with one edge
point they are not empty. -/
theorem clearState_keeps_edge_stacks {K IE MI : Type} [LinearOrderedField K]
    (ext : Collaborators K IE MI) (s : Estimator K IE MI) :
    ((clearState ext s).solver_flag_ = SolverFlag.INITIAL ∧
      (clearState ext s).cir_buf_cnt_ = 0 ∧
      (clearState ext s).b_system_inited_ = false ∧
      (clearState ext s).ini_fixed_local_map_ = false ∧
      (clearState ext s).last_marginalization_info_.isNone = true ∧
      (clearState ext s).Qs_.data = [] ∧ (clearState ext s).Ts_.data = [] ∧
      (clearState ext s).Header_.data = [] ∧
      (clearState ext s).surf_points_stack_ = [] ∧
      (clearState ext s).surf_points_stack_size_ = [] ∧
      (clearState ext s).qbl_ = [] ∧ (clearState ext s).tbl_ = [] ∧
      (clearState ext s).tdbl_ = []) ∧
    ((clearState ext s).corner_points_stack_ = s.corner_points_stack_ ∧
      (clearState ext s).corner_points_stack_size_ = s.corner_points_stack_size_) ∧
    ((clearState exampleCollaborators edgeLoadedEstimator).corner_points_stack_ =
        [⟨[[⟨1, 1, 1, 0⟩], [], []]⟩, ⟨[[], [], []]⟩] ∧
      (clearState exampleCollaborators edgeLoadedEstimator).corner_points_stack_size_ =
        [⟨[1, 0, 0]⟩, ⟨[0, 0, 0]⟩] ∧
      (clearState exampleCollaborators edgeLoadedEstimator).surf_points_stack_ = []) :=
  ⟨⟨rfl, rfl, rfl, rfl, rfl, rfl, rfl, rfl, rfl, rfl, rfl, rfl, rfl⟩, ⟨rfl, rfl⟩,
    ⟨rfl, rfl, rfl⟩⟩


/-! ## Calls of slideWindow per cycle -/

section SlideCount

variable {K IE MI : Type} [LinearOrderedField K]

theorem processCycles_append (cfg : Config K) (ext : Collaborators K IE MI)
    (frames : List (Frame K)) (frame : Frame K) (s : Estimator K IE MI) :
    processCycles cfg ext (frames ++ [frame]) s =
      processCycle cfg ext (processCycles cfg ext frames s) frame := by
  simp [processCycles, List.foldl_append]

theorem processCycles_counted_append (cfg : Config K) (ext : Collaborators K IE MI)
    (frames : List (Frame K)) (frame : Frame K) (c : Estimator K IE MI × Nat) :
    processCycles_counted cfg ext (frames ++ [frame]) c =
      processCycle_counted cfg ext (processCycles_counted cfg ext frames c) frame := by
  simp [processCycles_counted, List.foldl_append]

theorem process_solver_counted_spec (cfg : Config K) (ext : Collaborators K IE MI)
    (c : Estimator K IE MI × Nat) :
    (process_solver_counted cfg ext c).1 = process_solver cfg ext c.1 ∧
    (process_solver_counted cfg ext c).2 =
      c.2 + (if c.1.solver_flag_ = SolverFlag.INITIAL ∧
        c.1.cir_buf_cnt_ + 1 = (cfg.WINDOW_SIZE : Int) then 2 else 1) := by
  have hc := slideWindow_cir_buf_cnt cfg ext c.1
  unfold process_solver_counted process_solver
  cases hf : c.1.solver_flag_ with
  | INITIAL =>
    simp only [slideWindow_counted, hc, true_and]
    by_cases h1 : c.1.cir_buf_cnt_ < (cfg.WINDOW_SIZE : Int)
    · by_cases h2 : c.1.cir_buf_cnt_ + 1 = (cfg.WINDOW_SIZE : Int)
      · simp only [h1, h2, if_true]
        constructor
        · split_ifs <;> rfl
        · split_ifs <;> rfl
      · simp only [h1, h2, if_true, if_false]
        constructor
        · split_ifs <;> rfl
        · split_ifs <;> rfl
    · have h2 : ¬ c.1.cir_buf_cnt_ + 1 = (cfg.WINDOW_SIZE : Int) := by omega
      simp only [h1, h2, if_false]
      constructor
      · split_ifs <;> rfl
      · split_ifs <;> rfl
  | NON_LINEAR =>
    have hne : ¬ (SolverFlag.NON_LINEAR = SolverFlag.INITIAL ∧
        c.1.cir_buf_cnt_ + 1 = (cfg.WINDOW_SIZE : Int)) := fun h => absurd h.1 (by decide)
    simp only [slideWindow_counted, if_neg hne]
    constructor
    · split_ifs <;> rfl
    · split_ifs <;> rfl

theorem processCycle_counted_spec (cfg : Config K) (ext : Collaborators K IE MI)
    (c : Estimator K IE MI × Nat) (frame : Frame K) :
    (processCycle_counted cfg ext c frame).1 = processCycle cfg ext c.1 frame ∧
    (processCycle_counted cfg ext c frame).2 =
      c.2 + (if c.1.solver_flag_ = SolverFlag.INITIAL ∧
        c.1.cir_buf_cnt_ + 1 = (cfg.WINDOW_SIZE : Int) then 2 else 1) := by
  have h := process_solver_counted_spec cfg ext
    (process_store cfg ext (process_tracker cfg ext (frameLoaded c.1 frame)), c.2)
  simp only [process_store_solver_flag, process_tracker_solver_flag, process_store_cir_buf_cnt,
    process_tracker_cir_buf_cnt] at h
  unfold processCycle_counted process_counted processCycle process
  simp only []
  exact ⟨by rw [h.1], h.2⟩

theorem processCycles_counted_fst (cfg : Config K) (ext : Collaborators K IE MI)
    (frames : List (Frame K)) (c : Estimator K IE MI × Nat) :
    (processCycles_counted cfg ext frames c).1 = processCycles cfg ext frames c.1 := by
  induction frames using List.reverseRecOn with
  | nil => rfl
  | append_singleton frames frame ih =>
    rw [processCycles_counted_append, processCycles_append,
      (processCycle_counted_spec cfg ext _ frame).1, ih]

theorem fill_count_eq_min (cfg : Config K) (ext : Collaborators K IE MI)
    (s0 : Estimator K IE MI) (frames : List (Frame K)) :
    (processCycles cfg ext frames (setParameter cfg ext (clearState ext s0))).cir_buf_cnt_ =
      ((min frames.length cfg.WINDOW_SIZE : Nat) : Int) := by
  induction frames using List.reverseRecOn with
  | nil => simp [processCycles, setParameter, clearState]
  | append_singleton frames frame ih =>
    obtain ⟨_, h1, h2⟩ := fill_count_invariant cfg ext s0 frames
    rw [processCycles_append]
    generalize processCycles cfg ext frames (setParameter cfg ext (clearState ext s0)) = s
      at h1 h2 ih ⊢
    have hcnt : (frameLoaded s frame).cir_buf_cnt_ = s.cir_buf_cnt_ := rfl
    rw [List.length_append, List.length_singleton]
    by_cases hlt : s.cir_buf_cnt_ < (cfg.WINDOW_SIZE : Int)
    · have hp := (process_count_initial cfg ext (frameLoaded s frame) (h2 hlt)).1
      rw [hcnt, if_pos hlt] at hp
      unfold processCycle
      rw [hp, ih]
      rw [ih] at hlt
      omega
    · have hW : s.cir_buf_cnt_ = (cfg.WINDOW_SIZE : Int) := by omega
      have hp : (processCycle cfg ext s frame).cir_buf_cnt_ = (cfg.WINDOW_SIZE : Int) := by
        unfold processCycle
        cases hf : s.solver_flag_ with
        | INITIAL =>
          have hp := (process_count_initial cfg ext (frameLoaded s frame) hf).1
          rw [hcnt, if_neg hlt] at hp
          exact hp.trans hW
        | NON_LINEAR =>
          exact (process_count_non_linear cfg ext (frameLoaded s frame) hf).trans (hcnt.trans hW)
      rw [hp]
      rw [ih] at hW
      omega

theorem slide_total (cfg : Config K) (ext : Collaborators K IE MI) (s0 : Estimator K IE MI)
    (frames : List (Frame K)) (hW : 1 ≤ cfg.WINDOW_SIZE) :
    (processCycles_counted cfg ext frames (setParameter cfg ext (clearState ext s0), 0)).2 =
      if frames.length < cfg.WINDOW_SIZE then frames.length else frames.length + 1 := by
  induction frames using List.reverseRecOn with
  | nil =>
    show 0 = if 0 < cfg.WINDOW_SIZE then 0 else 0 + 1
    rw [if_pos (by omega)]
  | append_singleton frames frame ih =>
    rw [processCycles_counted_append, (processCycle_counted_spec cfg ext _ frame).2, ih,
      processCycles_counted_fst]
    have hmin := fill_count_eq_min cfg ext s0 frames
    obtain ⟨_, _, h2⟩ := fill_count_invariant cfg ext s0 frames
    dsimp only
    generalize processCycles cfg ext frames (setParameter cfg ext (clearState ext s0)) = s
      at hmin h2 ⊢
    rw [List.length_append, List.length_singleton]
    by_cases hk : frames.length + 1 = cfg.WINDOW_SIZE
    · have hc : s.cir_buf_cnt_ + 1 = (cfg.WINDOW_SIZE : Int) := by rw [hmin]; omega
      have hf := h2 (by omega)
      have e : (if s.solver_flag_ = SolverFlag.INITIAL ∧
          s.cir_buf_cnt_ + 1 = (cfg.WINDOW_SIZE : Int) then 2 else 1) = 2 := if_pos ⟨hf, hc⟩
      rw [e]
      split_ifs <;> omega
    · have hc : ¬ s.cir_buf_cnt_ + 1 = (cfg.WINDOW_SIZE : Int) := by rw [hmin]; omega
      have e : (if s.solver_flag_ = SolverFlag.INITIAL ∧
          s.cir_buf_cnt_ + 1 = (cfg.WINDOW_SIZE : Int) then 2 else 1) = 1 :=
        if_neg (fun h => hc h.2)
      rw [e]
      split_ifs <;> omega

/-- C21: every `process()` cycle calls `slideWindow()` exactly once, except
the cycle in which `cnt` goes from `WINDOW_SIZE - 1` to `WINDOW_SIZE`, which
calls it exactly twice; after `k` cycles from a reset with `WINDOW_SIZE ≥ 1`
the number of calls is `k` when `k < WINDOW_SIZE` and `k + 1` otherwise. The
counted run computes the same states as the plain run. -/
theorem slideWindow_once_per_cycle_twice_at_fill (cfg : Config K) (ext : Collaborators K IE MI)
    (s0 : Estimator K IE MI) (frames : List (Frame K)) (frame : Frame K)
    (hW : 1 ≤ cfg.WINDOW_SIZE) :
    (processCycles_counted cfg ext frames (setParameter cfg ext (clearState ext s0), 0)).1 =
      processCycles cfg ext frames (setParameter cfg ext (clearState ext s0)) ∧
    (processCycles_counted cfg ext frames (setParameter cfg ext (clearState ext s0), 0)).2 =
      (if frames.length < cfg.WINDOW_SIZE then frames.length else frames.length + 1) ∧
    (processCycle_counted cfg ext
        (processCycles_counted cfg ext frames (setParameter cfg ext (clearState ext s0), 0))
        frame).2 =
      (processCycles_counted cfg ext frames (setParameter cfg ext (clearState ext s0), 0)).2 +
        (if (processCycles cfg ext frames
              (setParameter cfg ext (clearState ext s0))).cir_buf_cnt_ + 1 =
            (cfg.WINDOW_SIZE : Int) then 2 else 1) ∧
    ((processCycles cfg ext frames (setParameter cfg ext (clearState ext s0))).cir_buf_cnt_ + 1 =
        (cfg.WINDOW_SIZE : Int) ↔
      (processCycles cfg ext frames (setParameter cfg ext (clearState ext s0))).cir_buf_cnt_ <
          (cfg.WINDOW_SIZE : Int) ∧
        (processCycle cfg ext
          (processCycles cfg ext frames (setParameter cfg ext (clearState ext s0)))
          frame).cir_buf_cnt_ = (cfg.WINDOW_SIZE : Int)) := by
  have hfst := processCycles_counted_fst cfg ext frames
    (setParameter cfg ext (clearState ext s0), 0)
  have hstep := (processCycle_counted_spec cfg ext
    (processCycles_counted cfg ext frames (setParameter cfg ext (clearState ext s0), 0)) frame).2
  rw [hfst] at hstep
  obtain ⟨_, _, h2⟩ := fill_count_invariant cfg ext s0 frames
  refine ⟨hfst, slide_total cfg ext s0 frames hW, ?_, ?_⟩
  · rw [hstep]
    congr 1
    by_cases hc : (processCycles cfg ext frames
        (setParameter cfg ext (clearState ext s0))).cir_buf_cnt_ + 1 = (cfg.WINDOW_SIZE : Int)
    · rw [if_pos ⟨h2 (by omega), hc⟩, if_pos hc]
    · rw [if_neg (fun h => hc h.2), if_neg hc]
  · generalize processCycles cfg ext frames (setParameter cfg ext (clearState ext s0)) = s
      at h2 ⊢
    have hcnt : (frameLoaded s frame).cir_buf_cnt_ = s.cir_buf_cnt_ := rfl
    constructor
    · intro hc
      have hlt : s.cir_buf_cnt_ < (cfg.WINDOW_SIZE : Int) := by omega
      have hp := (process_count_initial cfg ext (frameLoaded s frame) (h2 hlt)).1
      rw [hcnt, if_pos hlt] at hp
      exact ⟨hlt, by unfold processCycle; rw [hp]; exact hc⟩
    · rintro ⟨hlt, hn⟩
      have hp := (process_count_initial cfg ext (frameLoaded s frame) (h2 hlt)).1
      rw [hcnt, if_pos hlt] at hp
      unfold processCycle at hn
      rw [hp] at hn
      exact hn

end SlideCount

/-- Witness for C21: two sensors, `W = 2`. One cycle makes one call, the
second cycle (in which `cnt` reaches 2) makes two, three calls in all. -/
theorem slideWindow_once_per_cycle_twice_at_fill_witness :
    (processCycles_counted exampleConfig exampleCollaborators [(0, [[], []])]
        (setParameter exampleConfig exampleCollaborators
          (clearState exampleCollaborators blankEstimator), 0)).2 = 1 ∧
    (processCycle_counted exampleConfig exampleCollaborators
        (processCycles_counted exampleConfig exampleCollaborators [(0, [[], []])]
          (setParameter exampleConfig exampleCollaborators
            (clearState exampleCollaborators blankEstimator), 0))
        (1, [[], []])).2 = 3 := by
  have h := slideWindow_once_per_cycle_twice_at_fill exampleConfig exampleCollaborators
    blankEstimator [(0, [[], []])] (1, [[], []]) (by decide)
  have h1 : (processCycles_counted exampleConfig exampleCollaborators [(0, [[], []])]
        (setParameter exampleConfig exampleCollaborators
          (clearState exampleCollaborators blankEstimator), 0)).2 = 1 := h.2.1
  refine ⟨h1, ?_⟩
  rw [h.2.2.1, h1]
  have h2 : (processCycles exampleConfig exampleCollaborators [(0, [[], []])]
      (setParameter exampleConfig exampleCollaborators
        (clearState exampleCollaborators blankEstimator))).cir_buf_cnt_ = 1 := by decide
  rw [h2]
  rfl

/-! ## Tracker calls -/

section TrackerCalls

variable {K IE MI : Type} [LinearOrderedField K]

theorem process_solver_keeps {β : Type} (proj : Estimator K IE MI → β) (cfg : Config K)
    (ext : Collaborators K IE MI)
    (hslide : ∀ s : Estimator K IE MI, proj (slideWindow cfg ext s) = proj s)
    (hopt : ∀ s : Estimator K IE MI, proj (optimizeMap cfg ext s) = proj s)
    (hcal : ∀ s : Estimator K IE MI, proj (evalCalib cfg s) = proj s)
    (hcnt : ∀ (s : Estimator K IE MI) c, proj { s with cir_buf_cnt_ := c } = proj s)
    (hflag : ∀ (s : Estimator K IE MI) f, proj { s with solver_flag_ := f } = proj s)
    (s : Estimator K IE MI) : proj (process_solver cfg ext s) = proj s := by
  have hflag2 : ∀ (s2 : Estimator K IE MI) (p : Prop) [Decidable p],
      proj (if p then { s2 with solver_flag_ := SolverFlag.NON_LINEAR } else s2) = proj s2 := by
    intro s2 p _
    split
    · exact hflag _ _
    · rfl
  have hfill : ∀ s1 : Estimator K IE MI,
      proj (if s1.cir_buf_cnt_ < (cfg.WINDOW_SIZE : Int) then
          (if s1.cir_buf_cnt_ + 1 = (cfg.WINDOW_SIZE : Int) then
            slideWindow cfg ext { s1 with cir_buf_cnt_ := s1.cir_buf_cnt_ + 1 }
          else { s1 with cir_buf_cnt_ := s1.cir_buf_cnt_ + 1 })
        else s1) = proj s1 := by
    intro s1
    split
    · split
      · rw [hslide, hcnt]
      · rw [hcnt]
    · rfl
  unfold process_solver
  cases hf : s.solver_flag_ with
  | INITIAL => exact (hflag2 _ _).trans ((hfill _).trans (hslide s))
  | NON_LINEAR =>
    simp only []
    split
    · rw [hcal, hslide, hopt]
    · rw [hslide, hopt]

theorem slideWindow_keeps {β : Type} (proj : Estimator K IE MI → β)
    (h1 : ∀ (s : Estimator K IE MI) v, proj { s with surf_points_stack_ := v } = proj s)
    (h2 : ∀ (s : Estimator K IE MI) v, proj { s with corner_points_stack_ := v } = proj s)
    (h3 : ∀ (cfg : Config K) (s : Estimator K IE MI), proj (slideWindow_push cfg s) = proj s)
    (cfg : Config K) (ext : Collaborators K IE MI) (s : Estimator K IE MI) :
    proj (slideWindow cfg ext s) = proj s := by
  unfold slideWindow
  rw [h3, slideWindow_fixedMap_keeps proj h1 h2]

theorem evalCalib_keeps {β : Type} (proj : Estimator K IE MI → β)
    (h : ∀ (s : Estimator K IE MI) e f m b, proj { s with
      ESTIMATE_EXTRINSIC := e, ini_fixed_local_map_ := f, last_marginalization_info_ := m,
      last_marginalization_parameter_blocks_ := b } = proj s)
    (cfg : Config K) (s : Estimator K IE MI) : proj (evalCalib cfg s) = proj s := by
  unfold evalCalib
  split
  · simp only []
    split
    · exact h s _ _ _ _
    · rfl
  · rfl

end TrackerCalls

section Mode

variable {K IE MI : Type} [LinearOrderedField K]

theorem process_tracker_mode (cfg : Config K) (ext : Collaborators K IE MI)
    (s : Estimator K IE MI) :
    (process_tracker cfg ext s).ESTIMATE_EXTRINSIC = s.ESTIMATE_EXTRINSIC ∨
      (s.ESTIMATE_EXTRINSIC = 2 ∧ (process_tracker cfg ext s).ESTIMATE_EXTRINSIC = 1) := by
  by_cases h : s.b_system_inited_ = true ∧ s.ESTIMATE_EXTRINSIC = 2
  · rw [process_tracker_bootstrap cfg ext s h.1 h.2, process_bootstrap_eq]
    split
    · exact Or.inr ⟨h.2, rfl⟩
    · exact Or.inl (process_initializerUpdate_keeps cfg ext s).2
  · exact Or.inl (process_tracker_mode_of_not_bootstrap cfg ext s h).1

/-- One `process()` call on the calibration mode: it stays, or drops from 2
to 1 (only in INITIAL), or drops to 0 (only in NON_LINEAR). -/
theorem process_mode_step (cfg : Config K) (ext : Collaborators K IE MI)
    (s : Estimator K IE MI) :
    (process cfg ext s).ESTIMATE_EXTRINSIC = s.ESTIMATE_EXTRINSIC ∨
      (s.ESTIMATE_EXTRINSIC = 2 ∧ (process cfg ext s).ESTIMATE_EXTRINSIC = 1) ∨
      (s.solver_flag_ = SolverFlag.NON_LINEAR ∧ (process cfg ext s).ESTIMATE_EXTRINSIC = 0) := by
  have ht := process_tracker_mode cfg ext s
  cases hf : s.solver_flag_ with
  | INITIAL =>
    have h := ((process_after_tracker cfg ext s).1 hf).1
    rw [h]
    rcases ht with ht | ht
    · exact Or.inl ht
    · exact Or.inr (Or.inl ht)
  | NON_LINEAR =>
    rcases (process_after_tracker cfg ext s).2 hf with h | h
    · rw [h]
      rcases ht with ht | ht
      · exact Or.inl ht
      · exact Or.inr (Or.inl ht)
    · exact Or.inr (Or.inr ⟨rfl, h⟩)

theorem process_mode_invariant (cfg : Config K) (ext : Collaborators K IE MI)
    (s : Estimator K IE MI)
    (h : (s.ESTIMATE_EXTRINSIC = 0 ∨ s.ESTIMATE_EXTRINSIC = 1 ∨ s.ESTIMATE_EXTRINSIC = 2) ∧
      (s.ESTIMATE_EXTRINSIC = 2 → s.solver_flag_ = SolverFlag.INITIAL)) :
    ((process cfg ext s).ESTIMATE_EXTRINSIC = 0 ∨ (process cfg ext s).ESTIMATE_EXTRINSIC = 1 ∨
        (process cfg ext s).ESTIMATE_EXTRINSIC = 2) ∧
      ((process cfg ext s).ESTIMATE_EXTRINSIC = 2 →
        (process cfg ext s).solver_flag_ = SolverFlag.INITIAL) := by
  obtain ⟨h1, h2⟩ := h
  have hstep := process_mode_step cfg ext s
  constructor
  · rcases hstep with e | ⟨_, e⟩ | ⟨_, e⟩
    · rw [e]; exact h1
    · exact Or.inr (Or.inl e)
    · exact Or.inl e
  · intro he
    cases hf : s.solver_flag_ with
    | INITIAL => exact ((process_after_tracker cfg ext s).1 hf).2.2 he
    | NON_LINEAR =>
      have hne : s.ESTIMATE_EXTRINSIC ≠ 2 := fun h => by
        have := h2 h
        rw [hf] at this
        exact absurd this (by decide)
      rcases hstep with e | ⟨e, _⟩ | ⟨_, e⟩
      · exact absurd (e.symm.trans he) hne
      · exact absurd e hne
      · rw [e] at he
        exact absurd he (by decide)

theorem processCycles_mode_invariant (cfg : Config K) (ext : Collaborators K IE MI)
    (s0 : Estimator K IE MI) (frames : List (Frame K))
    (he : s0.ESTIMATE_EXTRINSIC = 0 ∨ s0.ESTIMATE_EXTRINSIC = 1 ∨ s0.ESTIMATE_EXTRINSIC = 2) :
    ((processCycles cfg ext frames
          (setParameter cfg ext (clearState ext s0))).ESTIMATE_EXTRINSIC = 0 ∨
        (processCycles cfg ext frames
          (setParameter cfg ext (clearState ext s0))).ESTIMATE_EXTRINSIC = 1 ∨
        (processCycles cfg ext frames
          (setParameter cfg ext (clearState ext s0))).ESTIMATE_EXTRINSIC = 2) ∧
      ((processCycles cfg ext frames
          (setParameter cfg ext (clearState ext s0))).ESTIMATE_EXTRINSIC = 2 →
        (processCycles cfg ext frames
          (setParameter cfg ext (clearState ext s0))).solver_flag_ = SolverFlag.INITIAL) :=
  foldl_invariant
    (fun s : Estimator K IE MI =>
      (s.ESTIMATE_EXTRINSIC = 0 ∨ s.ESTIMATE_EXTRINSIC = 1 ∨ s.ESTIMATE_EXTRINSIC = 2) ∧
        (s.ESTIMATE_EXTRINSIC = 2 → s.solver_flag_ = SolverFlag.INITIAL))
    (processCycle cfg ext)
    (fun s frame hs => process_mode_invariant cfg ext (frameLoaded s frame) hs) frames _
    ⟨he, fun _ => rfl⟩

theorem processCycles_mode_zero (cfg : Config K) (ext : Collaborators K IE MI)
    (s : Estimator K IE MI) (frames : List (Frame K)) (h : s.ESTIMATE_EXTRINSIC = 0) :
    (processCycles cfg ext frames s).ESTIMATE_EXTRINSIC = 0 :=
  foldl_invariant (fun s : Estimator K IE MI => s.ESTIMATE_EXTRINSIC = 0) (processCycle cfg ext)
    (fun s frame hs => by
      have hs2 : (frameLoaded s frame).ESTIMATE_EXTRINSIC = 0 := hs
      rcases process_mode_step cfg ext (frameLoaded s frame) with e | ⟨e, _⟩ | ⟨_, e⟩
      · exact e.trans hs2
      · rw [hs2] at e
        exact absurd e (by decide)
      · exact e) frames s h

/-- C29: along every run of `process()` cycles started by `clearState` and
`setParameter` with `ESTIMATE_EXTRINSIC` in `{0, 1, 2}`, the mode never
increases: a cycle leaves it alone, or takes it from 2 to 1 (in an INITIAL
cycle, where the bootstrap branch runs), or from 1 to 0 (in a NON_LINEAR
cycle, where `evalCalib` runs); once it is 0 it stays 0. -/
theorem estimate_extrinsic_never_increases (cfg : Config K) (ext : Collaborators K IE MI)
    (s0 : Estimator K IE MI) (frames later : List (Frame K)) (frame : Frame K)
    (he : s0.ESTIMATE_EXTRINSIC = 0 ∨ s0.ESTIMATE_EXTRINSIC = 1 ∨ s0.ESTIMATE_EXTRINSIC = 2) :
    ((processCycle cfg ext
          (processCycles cfg ext frames (setParameter cfg ext (clearState ext s0)))
          frame).ESTIMATE_EXTRINSIC =
        (processCycles cfg ext frames
          (setParameter cfg ext (clearState ext s0))).ESTIMATE_EXTRINSIC ∨
      ((processCycles cfg ext frames
            (setParameter cfg ext (clearState ext s0))).ESTIMATE_EXTRINSIC = 2 ∧
        (processCycle cfg ext
          (processCycles cfg ext frames (setParameter cfg ext (clearState ext s0)))
          frame).ESTIMATE_EXTRINSIC = 1 ∧
        (processCycles cfg ext frames
          (setParameter cfg ext (clearState ext s0))).solver_flag_ = SolverFlag.INITIAL) ∨
      ((processCycles cfg ext frames
            (setParameter cfg ext (clearState ext s0))).ESTIMATE_EXTRINSIC = 1 ∧
        (processCycle cfg ext
          (processCycles cfg ext frames (setParameter cfg ext (clearState ext s0)))
          frame).ESTIMATE_EXTRINSIC = 0 ∧
        (processCycles cfg ext frames
          (setParameter cfg ext (clearState ext s0))).solver_flag_ = SolverFlag.NON_LINEAR)) ∧
    (processCycle cfg ext
        (processCycles cfg ext frames (setParameter cfg ext (clearState ext s0)))
        frame).ESTIMATE_EXTRINSIC ≤
      (processCycles cfg ext frames
        (setParameter cfg ext (clearState ext s0))).ESTIMATE_EXTRINSIC ∧
    ((processCycles cfg ext frames
          (setParameter cfg ext (clearState ext s0))).ESTIMATE_EXTRINSIC = 0 →
      (processCycles cfg ext later
        (processCycles cfg ext frames
          (setParameter cfg ext (clearState ext s0)))).ESTIMATE_EXTRINSIC = 0) := by
  obtain ⟨h1, h2⟩ := processCycles_mode_invariant cfg ext s0 frames he
  generalize processCycles cfg ext frames (setParameter cfg ext (clearState ext s0)) = s
    at h1 h2 ⊢
  have hstep := process_mode_step cfg ext (frameLoaded s frame)
  have hE : (frameLoaded s frame).ESTIMATE_EXTRINSIC = s.ESTIMATE_EXTRINSIC := rfl
  have hF : (frameLoaded s frame).solver_flag_ = s.solver_flag_ := rfl
  rw [hE, hF] at hstep
  have hmain : (processCycle cfg ext s frame).ESTIMATE_EXTRINSIC = s.ESTIMATE_EXTRINSIC ∨
      (s.ESTIMATE_EXTRINSIC = 2 ∧ (processCycle cfg ext s frame).ESTIMATE_EXTRINSIC = 1 ∧
        s.solver_flag_ = SolverFlag.INITIAL) ∨
      (s.ESTIMATE_EXTRINSIC = 1 ∧ (processCycle cfg ext s frame).ESTIMATE_EXTRINSIC = 0 ∧
        s.solver_flag_ = SolverFlag.NON_LINEAR) := by
    unfold processCycle
    rcases hstep with e | ⟨e1, e2⟩ | ⟨e1, e2⟩
    · exact Or.inl e
    · exact Or.inr (Or.inl ⟨e1, e2, h2 e1⟩)
    · rcases h1 with h | h | h
      · exact Or.inl (e2.trans h.symm)
      · exact Or.inr (Or.inr ⟨h, e2, e1⟩)
      · have := h2 h
        rw [e1] at this
        exact absurd this (by decide)
  refine ⟨hmain, ?_, fun h0 => processCycles_mode_zero cfg ext s later h0⟩
  rcases hmain with e | ⟨e1, e2, _⟩ | ⟨e1, e2, _⟩
  · exact le_of_eq e
  · rw [e1, e2]; decide
  · rw [e1, e2]; decide

end Mode

/-- Witness for C29: two sensors, `W = 2`, bootstrap mode 2. The third cycle
(full window) takes the mode from 2 to 1. -/
theorem estimate_extrinsic_never_increases_witness :
    (processCycles exampleConfig bootstrapCollaborators twoEmptyFrames
        (setParameter exampleConfig bootstrapCollaborators
          (clearState bootstrapCollaborators bootstrapEstimator))).ESTIMATE_EXTRINSIC = 2 ∧
    (processCycle exampleConfig bootstrapCollaborators
        (processCycles exampleConfig bootstrapCollaborators twoEmptyFrames
          (setParameter exampleConfig bootstrapCollaborators
            (clearState bootstrapCollaborators bootstrapEstimator)))
        (2, [[], []])).ESTIMATE_EXTRINSIC = 1 ∧
    (processCycle exampleConfig bootstrapCollaborators
        (processCycles exampleConfig bootstrapCollaborators twoEmptyFrames
          (setParameter exampleConfig bootstrapCollaborators
            (clearState bootstrapCollaborators bootstrapEstimator)))
        (2, [[], []])).ESTIMATE_EXTRINSIC ≤
      (processCycles exampleConfig bootstrapCollaborators twoEmptyFrames
        (setParameter exampleConfig bootstrapCollaborators
          (clearState bootstrapCollaborators bootstrapEstimator))).ESTIMATE_EXTRINSIC :=
  ⟨by decide, by decide,
    (estimate_extrinsic_never_increases exampleConfig bootstrapCollaborators bootstrapEstimator
      twoEmptyFrames [] (2, [[], []]) (by decide)).2.1⟩

/-! ## Round trip between the window and the parameter arrays -/

section RoundTrip

variable {K IE MI : Type} [LinearOrderedField K]

theorem writePoseBlock_layout (para : List K) (t : Vector3d K) (q : Quaterniond K)
    (h : para.length = SIZE_POSE) : writePoseBlock para t q = poseBlockLayout t q := by
  match para, h with
  | [a, b, c, d, e, f, g], _ => rfl

theorem blockTranslation_layout (t : Vector3d K) (q : Quaterniond K) :
    blockTranslation (poseBlockLayout t q) = t := rfl

theorem blockRotation_layout (t : Vector3d K) (q : Quaterniond K) :
    blockRotation (poseBlockLayout t q) = q := rfl

theorem foldl_set_fresh {α : Type} (step : List α → Nat → List α) (g : Nat → α) (l : List α)
    (hstep : ∀ (p : List α) (k : Nat), k < l.length → p.length = l.length →
      p[k]? = l[k]? → step p k = p.set k (g k)) (n : Nat) (hn : n ≤ l.length) :
    (List.range n).foldl step l = (List.range n).map g ++ l.drop n := by
  induction n with
  | zero => simp
  | succ n ih =>
    have hlt : n < l.length := by omega
    rw [List.range_succ, List.foldl_append, ih (by omega)]
    simp only [List.foldl_cons, List.foldl_nil]
    have hlen : ((List.range n).map g ++ l.drop n).length = l.length := by
      simp
      omega
    rw [hstep _ n hlt hlen (by
      rw [List.getElem?_append_right (by simp)]
      simp)]
    rw [List.map_append, List.map_singleton, List.append_assoc]
    have h2 : ((List.range n).map g ++ l.drop n).set n (g n) =
        (List.range n).map g ++ (l.drop n).set 0 (g n) := by
      rw [List.set_append_right _ _ (by simp)]
      simp
    rw [h2]
    congr 1
    rw [List.drop_eq_getElem_cons hlt, List.set_cons_zero]
    rfl

theorem intRange_eq_map (lo : Int) (n : Nat) :
    intRange lo (lo + (n : Int)) = (List.range n).map fun (k : Nat) => lo + (k : Int) := by
  unfold intRange
  have h : (lo + (n : Int) - lo).toNat = n := by omega
  rw [h]

theorem vector2Double_para_pose (cfg : Config K) (s : Estimator K IE MI)
    (hlen : s.para_pose_.length = cfg.OPT_WINDOW_SIZE + 1)
    (hblk : ∀ b ∈ s.para_pose_, b.length = SIZE_POSE) :
    (vector2Double cfg s).para_pose_ =
      (List.range (cfg.OPT_WINDOW_SIZE + 1)).map fun (k : Nat) =>
        poseBlockLayout
          (s.Ts_.idx ((cfg.WINDOW_SIZE : Int) - (cfg.OPT_WINDOW_SIZE : Int) + (k : Int)))
          (s.Qs_.idx ((cfg.WINDOW_SIZE : Int) - (cfg.OPT_WINDOW_SIZE : Int) + (k : Int))) := by
  have hr : (cfg.WINDOW_SIZE : Int) + 1 =
      (cfg.WINDOW_SIZE : Int) - (cfg.OPT_WINDOW_SIZE : Int) +
        ((cfg.OPT_WINDOW_SIZE + 1 : Nat) : Int) := by
    push_cast
    ring
  show List.foldl _ _ (intRange _ ((cfg.WINDOW_SIZE : Int) + 1)) = _
  rw [hr, intRange_eq_map, List.foldl_map]
  have h := foldl_set_fresh
    (fun (p : List (List K)) (k : Nat) =>
      vector2Double_pose ((cfg.WINDOW_SIZE : Int) - (cfg.OPT_WINDOW_SIZE : Int)) s p
        ((cfg.WINDOW_SIZE : Int) - (cfg.OPT_WINDOW_SIZE : Int) + (k : Int)))
    (fun (k : Nat) => poseBlockLayout
      (s.Ts_.idx ((cfg.WINDOW_SIZE : Int) - (cfg.OPT_WINDOW_SIZE : Int) + (k : Int)))
      (s.Qs_.idx ((cfg.WINDOW_SIZE : Int) - (cfg.OPT_WINDOW_SIZE : Int) + (k : Int))))
    s.para_pose_ ?_ (cfg.OPT_WINDOW_SIZE + 1) (by omega)
  · rw [h, hlen.symm, List.drop_length, List.append_nil]
  · intro p k hk hp he
    have hidx : (cfg.WINDOW_SIZE : Int) - (cfg.OPT_WINDOW_SIZE : Int) + (k : Int) -
        ((cfg.WINDOW_SIZE : Int) - (cfg.OPT_WINDOW_SIZE : Int)) = (k : Int) := by ring
    have hmem : s.para_pose_[k] ∈ s.para_pose_ := List.getElem_mem hk
    have hget : iget p (k : Int) = s.para_pose_[k] := by
      unfold iget
      rw [if_pos (by omega)]
      simp only [Int.toNat_ofNat, List.getD_eq_getElem?_getD, he]
      simp [hk]
    simp only [vector2Double_pose, hidx]
    rw [hget, writePoseBlock_layout _ _ _ (hblk _ hmem)]
    unfold iset
    rw [if_pos (by omega)]
    rfl

theorem vector2Double_para_ex_pose (cfg : Config K) (s : Estimator K IE MI)
    (hlen : s.para_ex_pose_.length = cfg.NUM_OF_LASER)
    (hblk : ∀ b ∈ s.para_ex_pose_, b.length = SIZE_POSE) :
    (vector2Double cfg s).para_ex_pose_ =
      (List.range cfg.NUM_OF_LASER).map fun n => poseBlockLayout (vget s.tbl_ n) (vget s.qbl_ n) := by
  show List.foldl _ _ _ = _
  have h := foldl_set_fresh (vector2Double_ex s)
    (fun n => poseBlockLayout (vget s.tbl_ n) (vget s.qbl_ n))
    s.para_ex_pose_ ?_ cfg.NUM_OF_LASER (by omega)
  · rw [h, hlen.symm, List.drop_length, List.append_nil]
  · intro p k hk hp he
    have hmem : s.para_ex_pose_[k] ∈ s.para_ex_pose_ := List.getElem_mem hk
    have hget : vget p k = s.para_ex_pose_[k] := by
      unfold vget
      simp only [List.getD_eq_getElem?_getD, he]
      simp [hk]
    simp only [vector2Double_ex]
    rw [hget, writePoseBlock_layout _ _ _ (hblk _ hmem)]

theorem list_set_getElem_self {α : Type} (l : List α) (i : Nat) (h : i < l.length) :
    l.set i (l.get ⟨i, h⟩) = l := by
  induction l generalizing i with
  | nil => exact absurd h (by simp)
  | cons a l ih =>
    cases i with
    | zero => rfl
    | succ i =>
      simp only [List.set_cons_succ, List.get_cons_succ]
      rw [ih]

theorem CircularBuffer.set_idx_self {α : Type} [Inhabited α] (b : CircularBuffer α) (i : Int) :
    b.set i (b.idx i) = b := by
  unfold CircularBuffer.set CircularBuffer.idx
  split
  · congr 1
    by_cases h : i.toNat < b.data.length
    · simp only [List.getD_eq_getElem?_getD, List.getElem?_eq_getElem h, Option.getD_some]
      exact list_set_getElem_self _ _ h
    · rw [List.set_eq_of_length_le (by omega)]
  · rfl

theorem list_set_vget_self {α : Type} [Inhabited α] (v : List α) (i : Nat) :
    v.set i (vget v i) = v := by
  unfold vget
  by_cases h : i < v.length
  · simp only [List.getD_eq_getElem?_getD, List.getElem?_eq_getElem h, Option.getD_some]
    exact list_set_getElem_self _ _ h
  · rw [List.set_eq_of_length_le (by omega)]

theorem foldl_fixed {σ α : Type} (f : σ → α → σ) (l : List α) (s : σ)
    (h : ∀ a ∈ l, f s a = s) : l.foldl f s = s := by
  induction l with
  | nil => rfl
  | cons a l ih =>
    rw [List.foldl_cons, h a (List.mem_cons_self a l)]
    exact ih (fun b hb => h b (List.mem_cons_of_mem a hb))

theorem vget_range_map {α : Type} [Inhabited α] (g : Nat → α) (n k : Nat) (h : k < n) :
    vget ((List.range n).map g) k = g k := by
  unfold vget
  simp [List.getD_eq_getElem?_getD, h]

/-- C28: for every estimator state whose parameter arrays have the shape
`setParameter` allocates, with `OPT_WINDOW_SIZE ≤ WINDOW_SIZE`, running
`vector2Double` and then `double2Vector` leaves all window poses `Qs_`, `Ts_`
and all extrinsics `qbl_`, `tbl_` unchanged; after `vector2Double` pose block
`k` holds `(tx, ty, tz, qx, qy, qz, qw)` of window slot `P + k` and extrinsic
block `n` holds the same seven numbers of sensor `n`. -/
theorem vector2Double_double2Vector_round_trip (cfg : Config K) (s : Estimator K IE MI)
    (hOW : cfg.OPT_WINDOW_SIZE ≤ cfg.WINDOW_SIZE) (hs : ParamShaped cfg s) :
    ((double2Vector cfg (vector2Double cfg s)).Qs_ = s.Qs_ ∧
      (double2Vector cfg (vector2Double cfg s)).Ts_ = s.Ts_ ∧
      (double2Vector cfg (vector2Double cfg s)).qbl_ = s.qbl_ ∧
      (double2Vector cfg (vector2Double cfg s)).tbl_ = s.tbl_) ∧
    (∀ k, k ≤ cfg.OPT_WINDOW_SIZE →
      (0 ≤ (cfg.WINDOW_SIZE : Int) - (cfg.OPT_WINDOW_SIZE : Int) + (k : Int) ∧
        (cfg.WINDOW_SIZE : Int) - (cfg.OPT_WINDOW_SIZE : Int) + (k : Int) ≤
          (cfg.WINDOW_SIZE : Int)) ∧
      vget (vector2Double cfg s).para_pose_ k =
        poseBlockLayout
          (s.Ts_.idx ((cfg.WINDOW_SIZE : Int) - (cfg.OPT_WINDOW_SIZE : Int) + (k : Int)))
          (s.Qs_.idx ((cfg.WINDOW_SIZE : Int) - (cfg.OPT_WINDOW_SIZE : Int) + (k : Int)))) ∧
    (∀ n, n < cfg.NUM_OF_LASER →
      vget (vector2Double cfg s).para_ex_pose_ n =
        poseBlockLayout (vget s.tbl_ n) (vget s.qbl_ n)) := by
  obtain ⟨⟨hp1, hp2⟩, he1, he2⟩ := hs
  have hpose := vector2Double_para_pose cfg s hp1 hp2
  have hex := vector2Double_para_ex_pose cfg s he1 he2
  have hk : ∀ k, k ≤ cfg.OPT_WINDOW_SIZE →
      vget (vector2Double cfg s).para_pose_ k =
        poseBlockLayout
          (s.Ts_.idx ((cfg.WINDOW_SIZE : Int) - (cfg.OPT_WINDOW_SIZE : Int) + (k : Int)))
          (s.Qs_.idx ((cfg.WINDOW_SIZE : Int) - (cfg.OPT_WINDOW_SIZE : Int) + (k : Int))) := by
    intro k hk
    rw [hpose, vget_range_map _ _ _ (by omega)]
  have hn : ∀ n, n < cfg.NUM_OF_LASER →
      vget (vector2Double cfg s).para_ex_pose_ n =
        poseBlockLayout (vget s.tbl_ n) (vget s.qbl_ n) := by
    intro n hn
    rw [hex, vget_range_map _ _ _ hn]
  refine ⟨⟨?_, ?_, ?_, ?_⟩, fun k hk1 => ⟨⟨by omega, by omega⟩, hk k hk1⟩, hn⟩
  · show List.foldl _ s.Qs_ _ = _
    refine foldl_fixed _ _ _ (fun k hk1 => ?_)
    have hk2 := hk k (by have := List.mem_range.mp hk1; omega)
    simp only [double2Vector_Q]
    rw [hk2, blockRotation_layout, add_comm]
    exact CircularBuffer.set_idx_self _ _
  · show List.foldl _ s.Ts_ _ = _
    refine foldl_fixed _ _ _ (fun k hk1 => ?_)
    have hk2 := hk k (by have := List.mem_range.mp hk1; omega)
    simp only [double2Vector_T]
    rw [hk2, blockTranslation_layout, add_comm]
    exact CircularBuffer.set_idx_self _ _
  · show List.foldl _ s.qbl_ _ = _
    refine foldl_fixed _ _ _ (fun n hn1 => ?_)
    simp only [double2Vector_qbl]
    rw [hn n (List.mem_range.mp hn1), blockRotation_layout]
    exact list_set_vget_self _ _
  · show List.foldl _ s.tbl_ _ = _
    refine foldl_fixed _ _ _ (fun n hn1 => ?_)
    simp only [double2Vector_tbl]
    rw [hn n (List.mem_range.mp hn1), blockTranslation_layout]
    exact list_set_vget_self _ _

theorem setParameter_paramShaped (cfg : Config K) (ext : Collaborators K IE MI)
    (s : Estimator K IE MI) : ParamShaped cfg (setParameter cfg ext s) := by
  refine ⟨⟨?_, fun b hb => ?_⟩, ?_, fun b hb => ?_⟩
  · simp [setParameter]
  · have h : b ∈ List.replicate (cfg.OPT_WINDOW_SIZE + 1) (List.replicate SIZE_POSE (0 : K)) := hb
    rw [(List.mem_replicate.mp h).2]
    simp
  · simp [setParameter]
  · have h : b ∈ List.replicate cfg.NUM_OF_LASER (List.replicate SIZE_POSE (0 : K)) := hb
    rw [(List.mem_replicate.mp h).2]
    simp

end RoundTrip

/-- Witness for C28: the two-sensor estimator after `setParameter`
(`W = 2`, `O = 1`). -/
theorem vector2Double_double2Vector_round_trip_witness :
    (double2Vector exampleConfig (vector2Double exampleConfig readyEstimator)).Qs_ =
      readyEstimator.Qs_ ∧
    (double2Vector exampleConfig (vector2Double exampleConfig readyEstimator)).tbl_ =
      readyEstimator.tbl_ ∧
    vget (vector2Double exampleConfig readyEstimator).para_pose_ 1 =
      poseBlockLayout (readyEstimator.Ts_.idx 2) (readyEstimator.Qs_.idx 2) :=
  ⟨(vector2Double_double2Vector_round_trip exampleConfig readyEstimator (by decide)
      (setParameter_paramShaped exampleConfig exampleCollaborators _)).1.1,
    (vector2Double_double2Vector_round_trip exampleConfig readyEstimator (by decide)
      (setParameter_paramShaped exampleConfig exampleCollaborators _)).1.2.2.2,
    ((vector2Double_double2Vector_round_trip exampleConfig readyEstimator (by decide)
      (setParameter_paramShaped exampleConfig exampleCollaborators _)).2.1 1 (by decide)).2⟩

/-! ## Degeneracy analysis of the extrinsic blocks -/

section Analyzer

variable {K IE MI : Type} [LinearOrderedField K]

theorem zeroDegenerateColumns_flagged (mat_E : Fin 6 → K) (eig_thre : K) (js : List (Fin 6))
    (mat_V : Matrix6d K) : (zeroDegenerateColumns mat_E eig_thre js (mat_V, true)).2 = true := by
  induction js generalizing mat_V with
  | nil => rfl
  | cons j js ih =>
    unfold zeroDegenerateColumns
    split
    · exact ih _
    · rfl

theorem zeroDegenerateColumns_flag_iff (mat_E : Fin 6 → K) (eig_thre : K) (mat_V : Matrix6d K) :
    (zeroDegenerateColumns mat_E eig_thre (List.finRange 6) (mat_V, false)).2 = true ↔
      mat_E 0 < eig_thre := by
  have h : List.finRange 6 = (0 : Fin 6) :: [1, 2, 3, 4, 5] := by decide
  rw [h]
  unfold zeroDegenerateColumns
  split
  · rename_i hlt
    exact ⟨fun _ => hlt, fun _ => zeroDegenerateColumns_flagged _ _ _ _⟩
  · rename_i hlt
    exact ⟨fun hf => absurd hf (by simp), fun hc => absurd hc hlt⟩

/-- The loop body of `evalDegenracy` on block `i`, entry by entry: the
threshold table, the degeneracy flag and the installed projector. -/
theorem evalDegenracy_block_entry (cfg : Config K) (ext : Collaborators K IE MI)
    (mat_JtJ : MatrixXd K) (st : List (PoseLocalParameterization K) × List K) (i : Nat)
    (hi : i < st.1.length) :
    (evalDegenracy_block cfg ext mat_JtJ st i).2 =
      (if cfg.OPT_WINDOW_SIZE < i ∧ st.2.getD i 0 < (ext.eigensolver (hessianBlock mat_JtJ i)).1 0
        then st.2.set i ((ext.eigensolver (hessianBlock mat_JtJ i)).1 0) else st.2) ∧
    (((evalDegenracy_block cfg ext mat_JtJ st i).1.getD i
        ext.newPoseLocalParameterization).is_degenerate_ = true ↔
      (ext.eigensolver (hessianBlock mat_JtJ i)).1 0 < st.2.getD i 0) ∧
    ((ext.eigensolver (hessianBlock mat_JtJ i)).1 0 < st.2.getD i 0 →
      ((evalDegenracy_block cfg ext mat_JtJ st i).1.getD i
          ext.newPoseLocalParameterization).V_update_ =
        if cfg.OPT_WINDOW_SIZE < i then 0
        else ext.inverse6 (ext.eigensolver (hessianBlock mat_JtJ i)).2.transpose *
          (zeroDegenerateColumns (ext.eigensolver (hessianBlock mat_JtJ i)).1 (st.2.getD i 0)
            (List.finRange 6) ((ext.eigensolver (hessianBlock mat_JtJ i)).2, false)).1.transpose) ∧
    (¬ (ext.eigensolver (hessianBlock mat_JtJ i)).1 0 < st.2.getD i 0 →
      ((evalDegenracy_block cfg ext mat_JtJ st i).1.getD i
          ext.newPoseLocalParameterization).V_update_ =
        (ext.lp_setParameter (st.1.getD i ext.newPoseLocalParameterization)).V_update_) := by
  have hflag := zeroDegenerateColumns_flag_iff (ext.eigensolver (hessianBlock mat_JtJ i)).1
    (st.2.getD i 0) (ext.eigensolver (hessianBlock mat_JtJ i)).2
  have hget : ∀ x : PoseLocalParameterization K,
      (st.1.set i x).getD i ext.newPoseLocalParameterization = x :=
    fun x => by rw [getD_set, if_pos ⟨rfl, hi⟩]
  unfold evalDegenracy_block
  simp only [hget]
  generalize hz : (zeroDegenerateColumns (ext.eigensolver (hessianBlock mat_JtJ i)).1
    (st.2.getD i 0) (List.finRange 6) ((ext.eigensolver (hessianBlock mat_JtJ i)).2, false)).2 = z
    at hflag ⊢
  cases z with
  | false =>
    have hn : ¬ (ext.eigensolver (hessianBlock mat_JtJ i)).1 0 < st.2.getD i 0 :=
      fun h => Bool.noConfusion (hflag.mpr h)
    simp only [Bool.false_eq_true, if_false]
    exact ⟨trivial, ⟨fun h => h.elim, fun h => absurd h hn⟩, fun h => absurd h hn,
      fun _ => trivial⟩
  | true =>
    have hlt := hflag.mp rfl
    simp only [if_true]
    refine ⟨trivial, ⟨fun _ => hlt, fun _ => trivial⟩, fun _ => ?_, fun h => absurd hlt h⟩
    by_cases hO : cfg.OPT_WINDOW_SIZE < i
    · rw [if_pos hO, if_pos ⟨hO, not_lt.mpr (le_of_lt hlt)⟩]
    · rw [if_neg hO, if_neg (fun h => hO h.1)]

theorem evalDegenracy_block_other (cfg : Config K) (ext : Collaborators K IE MI)
    (mat_JtJ : MatrixXd K) (st : List (PoseLocalParameterization K) × List K) (k i : Nat)
    (h : k ≠ i) :
    (evalDegenracy_block cfg ext mat_JtJ st k).2.getD i 0 = st.2.getD i 0 := by
  unfold evalDegenracy_block
  simp only []
  split
  · rw [getD_set, if_neg (fun hh => h hh.1)]
  · rfl

theorem evalDegenracy_block_pose (cfg : Config K) (ext : Collaborators K IE MI)
    (mat_JtJ : MatrixXd K) (st : List (PoseLocalParameterization K) × List K) (k i : Nat)
    (h : i ≤ cfg.OPT_WINDOW_SIZE) :
    (evalDegenracy_block cfg ext mat_JtJ st k).2.getD i 0 = st.2.getD i 0 := by
  by_cases hk : k = i
  · subst hk
    unfold evalDegenracy_block
    simp only []
    rw [if_neg (fun hh => absurd hh.1 (by omega))]
  · exact evalDegenracy_block_other cfg ext mat_JtJ st k i hk

/-- C23 (amended): for an extrinsic block `i > OPT_WINDOW_SIZE` with smallest
eigenvalue `lambda` in one analyzer pass: if `lambda` is above the current
`tau[i]`, `tau[i]` becomes `lambda`; if `lambda` is strictly below `tau[i]`,
`tau[i]` is unchanged, the block is flagged degenerate and the projector
installed on it is the zero matrix; if `lambda` equals `tau[i]`, `tau[i]` is
unchanged, the block is not flagged and no projector is installed (the
projector stays as `setParameter()` left it). For every pose block
`i ≤ OPT_WINDOW_SIZE`, `tau[i]` is never changed by the pass. -/
theorem evalDegenracy_extrinsic_threshold_and_projector (cfg : Config K)
    (ext : Collaborators K IE MI) (mat_JtJ : MatrixXd K)
    (st : List (PoseLocalParameterization K) × List K) (i : Nat) :
    (cfg.OPT_WINDOW_SIZE < i → i < st.1.length → i < st.2.length →
      (st.2.getD i 0 < (ext.eigensolver (hessianBlock mat_JtJ i)).1 0 →
        (evalDegenracy_block cfg ext mat_JtJ st i).2.getD i 0 =
          (ext.eigensolver (hessianBlock mat_JtJ i)).1 0) ∧
      ((ext.eigensolver (hessianBlock mat_JtJ i)).1 0 < st.2.getD i 0 →
        (evalDegenracy_block cfg ext mat_JtJ st i).2 = st.2 ∧
        ((evalDegenracy_block cfg ext mat_JtJ st i).1.getD i
          ext.newPoseLocalParameterization).is_degenerate_ = true ∧
        ((evalDegenracy_block cfg ext mat_JtJ st i).1.getD i
          ext.newPoseLocalParameterization).V_update_ = 0) ∧
      ((ext.eigensolver (hessianBlock mat_JtJ i)).1 0 = st.2.getD i 0 →
        (evalDegenracy_block cfg ext mat_JtJ st i).2 = st.2 ∧
        ((evalDegenracy_block cfg ext mat_JtJ st i).1.getD i
          ext.newPoseLocalParameterization).is_degenerate_ = false ∧
        ((evalDegenracy_block cfg ext mat_JtJ st i).1.getD i
            ext.newPoseLocalParameterization).V_update_ =
          (ext.lp_setParameter (st.1.getD i ext.newPoseLocalParameterization)).V_update_)) ∧
    (i ≤ cfg.OPT_WINDOW_SIZE →
      (evalDegenracy_block cfg ext mat_JtJ st i).2 = st.2 ∧
      ∀ (local_param_ids : List (PoseLocalParameterization K)) (jaco : CRSMatrix K)
        (eig_thre_calib : List K),
        (evalDegenracy cfg ext local_param_ids jaco eig_thre_calib).2.getD i 0 =
          eig_thre_calib.getD i 0) := by
  constructor
  · intro hO hi hi2
    obtain ⟨h2, hdeg, hP, hN⟩ := evalDegenracy_block_entry cfg ext mat_JtJ st i hi
    refine ⟨fun hlt => ?_, fun hlt => ⟨?_, hdeg.mpr hlt, ?_⟩, fun heq => ⟨?_, ?_, ?_⟩⟩
    · rw [h2, if_pos ⟨hO, hlt⟩, getD_set, if_pos ⟨rfl, hi2⟩]
    · rw [h2, if_neg (fun h => absurd h.2 (not_lt.mpr (le_of_lt hlt)))]
    · rw [hP hlt, if_pos hO]
    · rw [h2, if_neg (fun h => absurd h.2 (by rw [heq]; exact lt_irrefl _))]
    · cases hb : ((evalDegenracy_block cfg ext mat_JtJ st i).1.getD i
          ext.newPoseLocalParameterization).is_degenerate_ with
      | false => rfl
      | true => exact absurd (hdeg.mp hb) (by rw [heq]; exact lt_irrefl _)
    · exact hN (by rw [heq]; exact lt_irrefl _)
  · intro hO
    constructor
    · unfold evalDegenracy_block
      simp only []
      rw [if_neg (fun hh => absurd hh.1 (by omega))]
    · intro local_param_ids jaco eig_thre_calib
      unfold evalDegenracy
      exact foldl_keeps (fun st : List (PoseLocalParameterization K) × List K => st.2.getD i 0)
        (evalDegenracy_block cfg ext _)
        (fun st k => evalDegenracy_block_pose cfg ext _ st k i hO) _ _

end Analyzer

theorem blockGramian_eigenvalues (i : Fin 4) (j : Fin 6) :
    (exampleCollaborators.eigensolver (hessianBlock blockGramian i.val)).1 j =
      ([1, 2, 3, 4, 5, 6] : List ℚ).getD j.val 0 := by
  fin_cases i <;> fin_cases j <;> rfl

/-- C23 (as stated) fails on the boundary: for the extrinsic block 2 with
smallest eigenvalue 1 and `tau[2] = 1`, the threshold is unchanged, the block
is not flagged degenerate, and its projector is the identity that
`setParameter()` left, not the zero matrix. -/
theorem evalDegenracy_projector_kept_at_threshold :
    exampleConfig.OPT_WINDOW_SIZE < 2 ∧
    (exampleCollaborators.eigensolver (hessianBlock blockGramian 2)).1 0 = 1 ∧
    ¬ (([10, 10, 1, 10] : List ℚ).getD 2 0 <
      (exampleCollaborators.eigensolver (hessianBlock blockGramian 2)).1 0) ∧
    (evalDegenracy_block exampleConfig exampleCollaborators blockGramian
      (fourParameterizations, [10, 10, 1, 10]) 2).2 = [10, 10, 1, 10] ∧
    ((evalDegenracy_block exampleConfig exampleCollaborators blockGramian
      (fourParameterizations, [10, 10, 1, 10]) 2).1.getD 2
        exampleCollaborators.newPoseLocalParameterization).is_degenerate_ = false ∧
    ((evalDegenracy_block exampleConfig exampleCollaborators blockGramian
      (fourParameterizations, [10, 10, 1, 10]) 2).1.getD 2
        exampleCollaborators.newPoseLocalParameterization).V_update_ = 1 ∧
    (1 : Matrix6d ℚ) ≠ 0 := by
  have hE1 : (exampleCollaborators.eigensolver (hessianBlock blockGramian 2)).1 0 = 1 :=
    blockGramian_eigenvalues 2 0
  have hT : ([10, 10, 1, 10] : List ℚ).getD 2 0 = 1 := rfl
  obtain ⟨h2, hdeg, _, hN⟩ := evalDegenracy_block_entry exampleConfig exampleCollaborators
    blockGramian (fourParameterizations, [10, 10, 1, 10]) 2 (by decide)
  have hirr : ¬ (exampleCollaborators.eigensolver (hessianBlock blockGramian 2)).1 0 <
      ([10, 10, 1, 10] : List ℚ).getD 2 0 := by
    rw [hE1, hT]
    exact lt_irrefl _
  refine ⟨by decide, hE1, ?_, ?_, ?_, hN hirr, ?_⟩
  · rw [hE1, hT]
    exact lt_irrefl _
  · rw [h2, if_neg (fun h => absurd h.2 (by rw [hE1, hT]; exact lt_irrefl _))]
  · cases hb : ((evalDegenracy_block exampleConfig exampleCollaborators blockGramian
        (fourParameterizations, [10, 10, 1, 10]) 2).1.getD 2
          exampleCollaborators.newPoseLocalParameterization).is_degenerate_ with
    | false => rfl
    | true => exact absurd (hdeg.mp hb) hirr
  · intro h0
    have := congrFun (congrFun h0 0) 0
    simp at this

/-- Witness for C23 (amended): the extrinsic block 2 with smallest
eigenvalue 1: with `tau[2] = 10` the block is flagged and gets the zero
projector; with `tau[2] = 0` the threshold becomes 1. -/
theorem evalDegenracy_extrinsic_threshold_and_projector_witness :
    ((evalDegenracy_block exampleConfig exampleCollaborators blockGramian
      (fourParameterizations, [10, 10, 10, 10]) 2).1.getD 2
        exampleCollaborators.newPoseLocalParameterization).V_update_ = 0 ∧
    (evalDegenracy_block exampleConfig exampleCollaborators blockGramian
      (fourParameterizations, [10, 10, 0, 10]) 2).2.getD 2 0 = 1 := by
  have hE1 : (exampleCollaborators.eigensolver (hessianBlock blockGramian 2)).1 0 = 1 :=
    blockGramian_eigenvalues 2 0
  refine ⟨(((evalDegenracy_extrinsic_threshold_and_projector exampleConfig exampleCollaborators
      blockGramian (fourParameterizations, [10, 10, 10, 10]) 2).1 (by decide) (by decide)
      (by decide)).2.1 (by rw [hE1]; norm_num)).2.2, ?_⟩
  have h := ((evalDegenracy_extrinsic_threshold_and_projector exampleConfig exampleCollaborators
      blockGramian (fourParameterizations, [10, 10, 0, 10]) 2).1 (by decide) (by decide)
      (by decide)).1 (by rw [hE1]; norm_num)
  rw [h, hE1]

/-! ## Rank of the update projector -/

section Nullity

variable {K IE MI : Type} [LinearOrderedField K]

theorem rank_of_zeroed_columns (Vf Vinv : Matrix6d K) (d : Fin 6 → Prop) [DecidablePred d]
    (hV : Vf.transpose * Vf = 1) (hinv : Vinv * Vf.transpose = 1) :
    (Vinv * (Matrix.of fun a b => if d b then 0 else Vf a b : Matrix6d K).transpose).rank +
      (Finset.univ.filter fun j : Fin 6 => d j).card = 6 := by
  classical
  have hVinv : Vinv = Vf := by
    calc Vinv = Vinv * (Vf.transpose * Vf) := by rw [hV, mul_one]
      _ = (Vinv * Vf.transpose) * Vf := by rw [mul_assoc]
      _ = Vf := by rw [hinv, one_mul]
  have hD : (Matrix.of fun a b => if d b then 0 else Vf a b : Matrix6d K) =
      Vf * Matrix.diagonal (fun j => if d j then (0 : K) else 1) := by
    ext a b
    rw [Matrix.mul_diagonal]
    simp only [Matrix.of_apply]
    split <;> simp
  have hu1 : IsUnit Vf.det := Matrix.isUnit_det_of_left_inverse hV
  have hu2 : IsUnit Vf.transpose.det := Matrix.isUnit_det_of_right_inverse hV
  rw [hVinv, hD, Matrix.transpose_mul, Matrix.diagonal_transpose,
    Matrix.rank_mul_eq_right_of_isUnit_det _ _ hu1,
    Matrix.rank_mul_eq_left_of_isUnit_det _ _ hu2, Matrix.rank_diagonal, Fintype.card_subtype]
  have hf : (Finset.univ.filter fun j : Fin 6 => (if d j then (0 : K) else 1) ≠ 0) =
      Finset.univ.filter fun j : Fin 6 => ¬ d j := by
    ext j
    simp only [Finset.mem_filter, Finset.mem_univ, true_and]
    split <;> simp [*]
  rw [hf, add_comm, Finset.filter_card_add_filter_neg_card_eq_card]
  simp

/-- C24 (amended): for a pose block `i ≤ OPT_WINDOW_SIZE` that the analyzer
flags degenerate, with eigenvalues in increasing order, an orthonormal
eigenvector matrix `Vf` and an exact inverse of its transpose, the installed
projector has nullity (6 minus its rank) equal to the number of eigenvalues
strictly below `tau[i]`. For a flagged extrinsic block `i > OPT_WINDOW_SIZE`
the installed projector is the zero matrix, of nullity 6. -/
theorem evalDegenracy_projector_nullity (cfg : Config K) (ext : Collaborators K IE MI)
    (mat_JtJ : MatrixXd K) (st : List (PoseLocalParameterization K) × List K) (i : Nat)
    (hi : i < st.1.length)
    (hflag : ((evalDegenracy_block cfg ext mat_JtJ st i).1.getD i
      ext.newPoseLocalParameterization).is_degenerate_ = true) :
    (i ≤ cfg.OPT_WINDOW_SIZE →
      (∀ j k : Fin 6, j ≤ k → (ext.eigensolver (hessianBlock mat_JtJ i)).1 j ≤
        (ext.eigensolver (hessianBlock mat_JtJ i)).1 k) →
      (ext.eigensolver (hessianBlock mat_JtJ i)).2.transpose *
        (ext.eigensolver (hessianBlock mat_JtJ i)).2 = 1 →
      ext.inverse6 (ext.eigensolver (hessianBlock mat_JtJ i)).2.transpose *
        (ext.eigensolver (hessianBlock mat_JtJ i)).2.transpose = 1 →
      ((evalDegenracy_block cfg ext mat_JtJ st i).1.getD i
          ext.newPoseLocalParameterization).V_update_.rank +
        (Finset.univ.filter fun j : Fin 6 =>
          (ext.eigensolver (hessianBlock mat_JtJ i)).1 j < st.2.getD i 0).card = 6) ∧
    (cfg.OPT_WINDOW_SIZE < i →
      ((evalDegenracy_block cfg ext mat_JtJ st i).1.getD i
          ext.newPoseLocalParameterization).V_update_ = 0 ∧
      ((evalDegenracy_block cfg ext mat_JtJ st i).1.getD i
          ext.newPoseLocalParameterization).V_update_.rank = 0) := by
  obtain ⟨_, hdeg, hP, _⟩ := evalDegenracy_block_entry cfg ext mat_JtJ st i hi
  have hlt := hdeg.mp hflag
  constructor
  · intro hO hE hV hinv
    rw [hP hlt, if_neg (by omega),
      (zeroDegenerateColumns_spec _ _ _ (finRange_pairwise_of_ascending _ hE) _ _).1]
    have h := rank_of_zeroed_columns (ext.eigensolver (hessianBlock mat_JtJ i)).2
      (ext.inverse6 (ext.eigensolver (hessianBlock mat_JtJ i)).2.transpose)
      (fun j => (ext.eigensolver (hessianBlock mat_JtJ i)).1 j < st.2.getD i 0) hV hinv
    simp only [List.mem_finRange, true_and]
    exact h
  · intro hO
    have h0 := hP hlt
    rw [if_pos hO] at h0
    exact ⟨h0, by rw [h0]; exact Matrix.rank_zero⟩

end Nullity

/-- C24 (as stated) fails for extrinsic blocks: block 2 (an extrinsic block,
`OPT_WINDOW_SIZE = 1`) with eigenvalues `1, ..., 6`, the identity as
eigenvector matrix and `tau[2] = 2` is flagged degenerate with one eigenvalue
below the threshold, yet the installed projector is the zero matrix, of rank 0
and nullity 6. -/
theorem evalDegenracy_extrinsic_projector_zeroed :
    exampleConfig.OPT_WINDOW_SIZE < 2 ∧
    (exampleCollaborators.eigensolver (hessianBlock blockGramian 2)).2.transpose *
      (exampleCollaborators.eigensolver (hessianBlock blockGramian 2)).2 = 1 ∧
    ((evalDegenracy_block exampleConfig exampleCollaborators blockGramian
      (fourParameterizations, [10, 10, 2, 10]) 2).1.getD 2
        exampleCollaborators.newPoseLocalParameterization).is_degenerate_ = true ∧
    (Finset.univ.filter fun j : Fin 6 =>
      (exampleCollaborators.eigensolver (hessianBlock blockGramian 2)).1 j <
        ([10, 10, 2, 10] : List ℚ).getD 2 0).card = 1 ∧
    ((evalDegenracy_block exampleConfig exampleCollaborators blockGramian
      (fourParameterizations, [10, 10, 2, 10]) 2).1.getD 2
        exampleCollaborators.newPoseLocalParameterization).V_update_ = 0 ∧
    ¬ (((evalDegenracy_block exampleConfig exampleCollaborators blockGramian
        (fourParameterizations, [10, 10, 2, 10]) 2).1.getD 2
          exampleCollaborators.newPoseLocalParameterization).V_update_.rank +
      (Finset.univ.filter fun j : Fin 6 =>
        (exampleCollaborators.eigensolver (hessianBlock blockGramian 2)).1 j <
          ([10, 10, 2, 10] : List ℚ).getD 2 0).card = 6) := by
  have hE1 : (exampleCollaborators.eigensolver (hessianBlock blockGramian 2)).1 0 = 1 :=
    blockGramian_eigenvalues 2 0
  have hT : ([10, 10, 2, 10] : List ℚ).getD 2 0 = 2 := rfl
  obtain ⟨_, hdeg, hP, _⟩ := evalDegenracy_block_entry exampleConfig exampleCollaborators
    blockGramian (fourParameterizations, [10, 10, 2, 10]) 2 (by decide)
  have hlt : (exampleCollaborators.eigensolver (hessianBlock blockGramian 2)).1 0 <
      ([10, 10, 2, 10] : List ℚ).getD 2 0 := by
    rw [hE1, hT]
    norm_num
  have hcard : (Finset.univ.filter fun j : Fin 6 =>
      (exampleCollaborators.eigensolver (hessianBlock blockGramian 2)).1 j <
        ([10, 10, 2, 10] : List ℚ).getD 2 0).card = 1 := by
    have hset : (Finset.univ.filter fun j : Fin 6 =>
        (exampleCollaborators.eigensolver (hessianBlock blockGramian 2)).1 j <
          ([10, 10, 2, 10] : List ℚ).getD 2 0) = {0} := by
      have hE : ∀ j : Fin 6,
          (exampleCollaborators.eigensolver (hessianBlock blockGramian 2)).1 j =
            ([1, 2, 3, 4, 5, 6] : List ℚ).getD j.val 0 := blockGramian_eigenvalues 2
      ext j
      simp only [Finset.mem_filter, Finset.mem_univ, true_and, Finset.mem_singleton]
      rw [hT, hE j]
      fin_cases j <;> simp <;> norm_num
    rw [hset]
    rfl
  have hzero := hP hlt
  rw [if_pos (by decide)] at hzero
  refine ⟨by decide, ?_, hdeg.mpr hlt, hcard, hzero, ?_⟩
  · show (1 : Matrix6d ℚ).transpose * 1 = 1
    simp
  · rw [hzero, Matrix.rank_zero, hcard]
    decide

/-- Witness for C24 (amended): the pose block 1 with eigenvalues `1, ..., 6`,
the identity as eigenvector matrix and `tau[1] = 3`: two eigenvalues are
below the threshold and the installed projector has rank 4. -/
theorem evalDegenracy_projector_nullity_witness :
    ((evalDegenracy_block exampleConfig exampleCollaborators blockGramian
          (fourParameterizations, [10, 3, 10, 10]) 1).1.getD 1
        exampleCollaborators.newPoseLocalParameterization).V_update_.rank +
      (Finset.univ.filter fun j : Fin 6 =>
        (exampleCollaborators.eigensolver (hessianBlock blockGramian 1)).1 j <
          ([10, 3, 10, 10] : List ℚ).getD 1 0).card = 6 := by
  have hE : ∀ j : Fin 6, (exampleCollaborators.eigensolver (hessianBlock blockGramian 1)).1 j =
      ([1, 2, 3, 4, 5, 6] : List ℚ).getD j.val 0 := blockGramian_eigenvalues 1
  have hT : ([10, 3, 10, 10] : List ℚ).getD 1 0 = 3 := rfl
  have hflag : ((evalDegenracy_block exampleConfig exampleCollaborators blockGramian
      (fourParameterizations, [10, 3, 10, 10]) 1).1.getD 1
        exampleCollaborators.newPoseLocalParameterization).is_degenerate_ = true := by
    refine (evalDegenracy_block_entry exampleConfig exampleCollaborators blockGramian
      (fourParameterizations, [10, 3, 10, 10]) 1 (by decide)).2.1.mpr ?_
    rw [hE 0, hT]
    norm_num
  refine (evalDegenracy_projector_nullity exampleConfig exampleCollaborators blockGramian
    (fourParameterizations, [10, 3, 10, 10]) 1 (by decide) hflag).1 (by decide) ?_ ?_ ?_
  · intro j k hjk
    rw [hE j, hE k]
    fin_cases j <;> fin_cases k <;> first | (exact absurd hjk (by decide)) | norm_num
  · show (1 : Matrix6d ℚ).transpose * 1 = 1
    simp
  · show ((1 : Matrix6d ℚ).transpose).transpose * (1 : Matrix6d ℚ).transpose = 1
    simp

/-! ## Plane factors of the odometry branch -/

section OdometryFactors

variable {K IE MI : Type} [LinearOrderedField K]

theorem foldl_appends {α : Type} (step : Assembly K IE MI → α → Assembly K IE MI)
    (g : Estimator K IE MI → α → List (ResidualBlock K MI))
    (h : ∀ a x, (step a x).s = a.s ∧
      (step a x).problem.residual_blocks = a.problem.residual_blocks ++ g a.s x)
    (l : List α) (a : Assembly K IE MI) :
    (l.foldl step a).s = a.s ∧
    (l.foldl step a).problem.residual_blocks = a.problem.residual_blocks ++ l.flatMap (g a.s) := by
  induction l generalizing a with
  | nil => simp
  | cons x l ih =>
    rw [List.foldl_cons, (ih _).1, (ih _).2, (h a x).1, (h a x).2, List.flatMap_cons,
      List.append_assoc]
    exact ⟨rfl, rfl⟩

theorem odomPlaneSlot_appends (pivot_idx : Int) (n : Nat) (a : Assembly K IE MI) (i : Int) :
    (odomPlaneSlot pivot_idx n a i).s = a.s ∧
    (odomPlaneSlot pivot_idx n a i).problem.residual_blocks =
      a.problem.residual_blocks ++
        (iget (vget a.s.surf_map_features_ n) i).map (planeNormBlock pivot_idx n i) := by
  have h := foldl_appends (odomPlaneFeature pivot_idx n i)
    (fun _ feature => [planeNormBlock pivot_idx n i feature])
    (fun a x => ⟨rfl, rfl⟩) (iget (vget a.s.surf_map_features_ n) i) a
  refine ⟨h.1, ?_⟩
  unfold odomPlaneSlot
  rw [h.2]
  congr 1
  induction (iget (vget a.s.surf_map_features_ n) i) with
  | nil => rfl
  | cons x l ih => rw [List.flatMap_cons, ih]; rfl

theorem optimizeMap_odomPlane_appends (cfg : Config K) (pivot_idx : Int) (a : Assembly K IE MI) :
    (optimizeMap_odomPlane cfg pivot_idx a).s = a.s ∧
    (optimizeMap_odomPlane cfg pivot_idx a).problem.residual_blocks =
      a.problem.residual_blocks ++
        (List.range cfg.NUM_OF_LASER).flatMap fun n =>
          (intRange (pivot_idx + 1) ((cfg.WINDOW_SIZE : Int) + 1)).flatMap fun i =>
            (iget (vget a.s.surf_map_features_ n) i).map (planeNormBlock pivot_idx n i) :=
  foldl_appends (odomPlaneSensor cfg pivot_idx)
    (fun s n => (intRange (pivot_idx + 1) ((cfg.WINDOW_SIZE : Int) + 1)).flatMap fun i =>
      (iget (vget s.surf_map_features_ n) i).map (planeNormBlock pivot_idx n i))
    (fun a n => foldl_appends (odomPlaneSlot pivot_idx n)
      (fun s i => (iget (vget s.surf_map_features_ n) i).map (planeNormBlock pivot_idx n i))
      (fun a i => odomPlaneSlot_appends pivot_idx n a i) _ a) _ a

theorem planeNormFactors_of_prior_part (cfg : Config K) (ext : Collaborators K IE MI)
    (s : Estimator K IE MI) :
    (optimizeMap_priors cfg (optimizeMap_blocks cfg ext s)).problem.planeNormFactors = [] := by
  have hadd : ∀ (a : Assembly K IE MI) (n : Nat),
      (optimizeMap_addPrior cfg a n).problem.planeNormFactors = a.problem.planeNormFactors := by
    intro a n
    simp [optimizeMap_addPrior, Assembly.addProj, Problem.planeNormFactors,
      Problem.AddResidualBlock, List.filter_append, priorBlock, CostFunction.isPlaneNormFactor]
  have hm : (optimizeMap_addMarginalization cfg
      (optimizeMap_blocks cfg ext s)).problem.planeNormFactors = [] := by
    have hb : (optimizeMap_blocks cfg ext s).problem.planeNormFactors = [] := by
      unfold Problem.planeNormFactors
      rw [optimizeMap_blocks_residual_blocks]
      rfl
    unfold optimizeMap_addMarginalization
    split
    · split
      · simp only [Problem.planeNormFactors, Problem.AddResidualBlock, List.filter_append]
        rw [show List.filter _ (optimizeMap_blocks cfg ext s).problem.residual_blocks = [] from hb]
        rfl
      · exact hb
    · exact hb
  unfold optimizeMap_priors
  simp only []
  split
  · rw [foldl_keeps (fun a : Assembly K IE MI => a.problem.planeNormFactors)
      (optimizeMap_addPrior cfg) hadd]
    exact hm
  · exact hm

/-- C25: in odometry mode (`ESTIMATE_EXTRINSIC = 0`) with
`POINT_PLANE_FACTOR` enabled, the plane-norm factors of the problem assembled
by `optimizeMap` are, in order, one per surface map feature of every sensor
`n` and every slot `i` with `P < i ≤ W` (the table being the one the call has
just built), the factor of a feature of `(n, i)` being attached to exactly
`pose[0]`, `pose[i - P]` and `ex_pose[n]`; so every plane-norm factor refers
to a slot `i` with `P < i ≤ W`. -/
theorem optimizeMap_odometry_plane_factors (cfg : Config K) (ext : Collaborators K IE MI)
    (s : Estimator K IE MI) (he : s.ESTIMATE_EXTRINSIC = 0)
    (hp : cfg.POINT_PLANE_FACTOR = true) :
    (optimizeMap_assemble cfg ext s).s = buildLocalMap cfg ext (vector2Double cfg s) ∧
    (optimizeMap_assemble cfg ext s).problem.planeNormFactors =
      odometryPlaneFactors cfg (optimizeMap_assemble cfg ext s).s.surf_map_features_ ∧
    ∀ r ∈ (optimizeMap_assemble cfg ext s).problem.planeNormFactors,
      ∃ (n : Nat) (i : Int) (feature : PointPlaneFeature K),
        n < cfg.NUM_OF_LASER ∧
        (cfg.WINDOW_SIZE : Int) - (cfg.OPT_WINDOW_SIZE : Int) < i ∧ i ≤ (cfg.WINDOW_SIZE : Int) ∧
        feature ∈ iget (vget (optimizeMap_assemble cfg ext s).s.surf_map_features_ n) i ∧
        r.cost_function =
          CostFunction.LidarPivotPlaneNormFactor feature.point_ feature.coeffs_ feature.score_ ∧
        r.parameter_blocks =
          [ParamBlock.para_pose 0,
            ParamBlock.para_pose (i - ((cfg.WINDOW_SIZE : Int) - (cfg.OPT_WINDOW_SIZE : Int))),
            ParamBlock.para_ex_pose n] := by
  have hprior := planeNormFactors_of_prior_part cfg ext s
  have hs0 : (optimizeMap_priors cfg (optimizeMap_blocks cfg ext s)).s = vector2Double cfg s := by
    rw [optimizeMap_priors_s, optimizeMap_blocks_s]
  have hE : (optimizeMap_priors cfg (optimizeMap_blocks cfg ext s)).s.ESTIMATE_EXTRINSIC = 0 := by
    rw [hs0]
    exact he
  have hasm : optimizeMap_assemble cfg ext s =
      optimizeMap_odometry cfg ext (optimizeMap_priors cfg (optimizeMap_blocks cfg ext s)) := by
    unfold optimizeMap_assemble
    simp only []
    rw [if_neg (by rw [hE]; decide), if_pos hE]
  have hodo := optimizeMap_odomPlane_appends cfg
    ((cfg.WINDOW_SIZE : Int) - (cfg.OPT_WINDOW_SIZE : Int))
    ({ ({ optimizeMap_priors cfg (optimizeMap_blocks cfg ext s) with
          problem := (List.range cfg.NUM_OF_LASER).foldl setExtrinsicConstant
            (optimizeMap_priors cfg (optimizeMap_blocks cfg ext s)).problem } :
          Assembly K IE MI) with
        s := buildLocalMap cfg ext (optimizeMap_priors cfg (optimizeMap_blocks cfg ext s)).s } :
      Assembly K IE MI)
  have hstate : (optimizeMap_assemble cfg ext s).s = buildLocalMap cfg ext (vector2Double cfg s) := by
    rw [hasm]
    unfold optimizeMap_odometry
    simp only [hp, if_true]
    rw [hodo.1, hs0]
  have hres : (optimizeMap_assemble cfg ext s).problem.planeNormFactors =
      odometryPlaneFactors cfg (optimizeMap_assemble cfg ext s).s.surf_map_features_ := by
    rw [hstate]
    rw [hasm]
    unfold optimizeMap_odometry
    simp only [hp, if_true]
    unfold Problem.planeNormFactors
    rw [hodo.2, List.filter_append]
    simp only [foldl_setExtrinsicConstant_residual_blocks]
    rw [show List.filter _ (optimizeMap_priors cfg
      (optimizeMap_blocks cfg ext s)).problem.residual_blocks = [] from hprior, List.nil_append,
      hs0]
    rw [List.filter_eq_self.mpr]
    · rfl
    · intro r hr
      obtain ⟨n, _, hr⟩ := List.mem_flatMap.mp hr
      obtain ⟨i, _, hr⟩ := List.mem_flatMap.mp hr
      obtain ⟨f, _, hr⟩ := List.mem_map.mp hr
      rw [← hr]
      rfl
  refine ⟨hstate, hres, fun r hr => ?_⟩
  rw [hres] at hr
  obtain ⟨n, hn, hr⟩ := List.mem_flatMap.mp hr
  obtain ⟨i, hi, hr⟩ := List.mem_flatMap.mp hr
  obtain ⟨f, hf, hr⟩ := List.mem_map.mp hr
  obtain ⟨k, hk, hik⟩ := List.mem_map.mp hi
  have hk2 := List.mem_range.mp hk
  refine ⟨n, i, f, List.mem_range.mp hn, by omega, by omega, hf, ?_, ?_⟩
  · rw [← hr]
  · rw [← hr]

end OdometryFactors

/-- Witness for C25: two sensors, `W = 2`, `O = 1` (so `P = 1`), a matcher
that returns one feature per query: the assembled problem holds two plane-norm
factors, for slot 2 of sensor 0 and of sensor 1. -/
theorem optimizeMap_odometry_plane_factors_witness :
    (optimizeMap_assemble odometryConfig featureCollaborators
        odometryEstimator).problem.planeNormFactors =
      odometryPlaneFactors odometryConfig
        (optimizeMap_assemble odometryConfig featureCollaborators
          odometryEstimator).s.surf_map_features_ ∧
    ((optimizeMap_assemble odometryConfig featureCollaborators
        odometryEstimator).problem.planeNormFactors.map fun r => r.parameter_blocks) =
      [[ParamBlock.para_pose 0, ParamBlock.para_pose 1, ParamBlock.para_ex_pose 0],
        [ParamBlock.para_pose 0, ParamBlock.para_pose 1, ParamBlock.para_ex_pose 1]] :=
  ⟨(optimizeMap_odometry_plane_factors odometryConfig featureCollaborators odometryEstimator
      rfl rfl).2.1, by decide⟩

/-! ## Dense form of a CRS matrix -/

section CRS

variable {K : Type} [LinearOrderedField K]

theorem MatrixXd.setCoeff_nat (m : MatrixXd K) (r c : Nat) (v : K) :
    m.setCoeff (r : Int) (c : Int) v = ⟨m.data.set r ((m.data.getD r []).set c v)⟩ := by
  unfold MatrixXd.setCoeff
  rw [if_pos ⟨by omega, by omega⟩]
  rfl

theorem MatrixXd.coeff_nat (m : MatrixXd K) (r c : Nat) :
    m.coeff (r : Int) (c : Int) = (m.data.getD r []).getD c 0 := by
  unfold MatrixXd.coeff
  rw [if_pos ⟨by omega, by omega⟩]
  rfl

theorem MatrixXd.coeff_setCoeff (m : MatrixXd K) (R C r c r1 c1 : Nat) (v : K)
    (hd : m.HasDims R C) (hr : r < R) (hc : c < C) :
    (m.setCoeff (r : Int) (c : Int) v).HasDims R C ∧
    (m.setCoeff (r : Int) (c : Int) v).coeff (r1 : Int) (c1 : Int) =
      if r1 = r ∧ c1 = c then v else m.coeff (r1 : Int) (c1 : Int) := by
  obtain ⟨hl, hrow⟩ := hd
  rw [MatrixXd.setCoeff_nat, MatrixXd.coeff_nat, MatrixXd.coeff_nat]
  refine ⟨⟨by simp [hl], fun k hk => ?_⟩, ?_⟩
  · show (List.getD (List.set _ _ _) k []).length = C
    rw [getD_set]
    split
    · rw [List.length_set]
      exact hrow r hr
    · exact hrow k hk
  · show (List.getD (List.set _ _ _) r1 []).getD c1 0 = _
    rw [getD_set]
    by_cases h1 : r = r1
    · subst h1
      rw [if_pos ⟨rfl, by omega⟩, getD_set]
      by_cases h2 : c = c1
      · subst h2
        rw [if_pos ⟨rfl, by rw [hrow r hr]; exact hc⟩, if_pos ⟨rfl, rfl⟩]
      · rw [if_neg (fun h => h2 h.1), if_neg (fun h => h2 h.2.symm)]
    · rw [if_neg (fun h => h1 h.1), if_neg (fun h => h1 h.1.symm)]

/-- The inner loop of `CRSMatrix2EigenMatrix` for row `r` over the entries
`ks`: the entries of the other rows are kept, an entry of row `r` whose
column none of `ks` names is kept, and, when no column is repeated in `ks`,
the entry at the column of `k ∈ ks` is `values[k]`. -/
theorem crs_row_fold (cols : List Int) (values : List K) (R C r : Nat) (hr : r < R)
    (ks : List Nat)
    (hcols : ∀ k ∈ ks, 0 ≤ cols.getD k 0 ∧ cols.getD k 0 < (C : Int)) (m : MatrixXd K)
    (hd : m.HasDims R C) :
    (ks.foldl (fun M k => M.setCoeff (r : Int) (cols.getD k 0) (values.getD k 0)) m).HasDims R C ∧
    (∀ r1 c1 : Nat, r1 ≠ r →
      (ks.foldl (fun M k => M.setCoeff (r : Int) (cols.getD k 0) (values.getD k 0)) m).coeff
        (r1 : Int) (c1 : Int) = m.coeff (r1 : Int) (c1 : Int)) ∧
    (∀ c1 : Nat, (∀ k ∈ ks, cols.getD k 0 ≠ (c1 : Int)) →
      (ks.foldl (fun M k => M.setCoeff (r : Int) (cols.getD k 0) (values.getD k 0)) m).coeff
        (r : Int) (c1 : Int) = m.coeff (r : Int) (c1 : Int)) ∧
    ((∀ k ∈ ks, ∀ j ∈ ks, cols.getD k 0 = cols.getD j 0 → k = j) →
      ∀ k ∈ ks, ∀ c1 : Nat, cols.getD k 0 = (c1 : Int) →
        (ks.foldl (fun M k => M.setCoeff (r : Int) (cols.getD k 0) (values.getD k 0)) m).coeff
          (r : Int) (c1 : Int) = values.getD k 0) := by
  induction ks using List.reverseRecOn with
  | nil =>
    exact ⟨hd, fun _ _ _ => rfl, fun _ _ => rfl, fun _ k hk => absurd hk (List.not_mem_nil k)⟩
  | append_singleton ks j ih =>
    obtain ⟨ihd, ih1, ih2, ih3⟩ := ih (fun k hk => hcols k (List.mem_append_left _ hk))
    obtain ⟨hj0, hjC⟩ := hcols j (List.mem_append_right _ (List.mem_singleton.mpr rfl))
    have hcast : cols.getD j 0 = (((cols.getD j 0).toNat : Nat) : Int) :=
      (Int.toNat_of_nonneg hj0).symm
    have hlt : (cols.getD j 0).toNat < C := by omega
    rw [List.foldl_append]
    simp only [List.foldl_cons, List.foldl_nil]
    have hstep := fun r1 c1 => MatrixXd.coeff_setCoeff
      (ks.foldl (fun M k => M.setCoeff (r : Int) (cols.getD k 0) (values.getD k 0)) m)
      R C r (cols.getD j 0).toNat r1 c1 (values.getD j 0) ihd hr hlt
    rw [← hcast] at hstep
    refine ⟨(hstep 0 0).1, fun r1 c1 hne => ?_, fun c1 hno => ?_, fun hdist k hk c1 hkc => ?_⟩
    · rw [(hstep r1 c1).2, if_neg (fun h => hne h.1)]
      exact ih1 r1 c1 hne
    · have hj := hno j (List.mem_append_right _ (List.mem_singleton.mpr rfl))
      rw [(hstep r c1).2, if_neg (fun h => hj (by rw [hcast, h.2]))]
      exact ih2 c1 (fun k hk => hno k (List.mem_append_left _ hk))
    · rw [(hstep r c1).2]
      by_cases hkj : k = j
      · subst hkj
        rw [if_pos ⟨rfl, by omega⟩]
      · have hk1 : k ∈ ks := by
          rcases List.mem_append.mp hk with h | h
          · exact h
          · exact absurd (List.mem_singleton.mp h) hkj
        have hne : ¬ (r = r ∧ c1 = (cols.getD j 0).toNat) := by
          rintro ⟨_, h⟩
          have : cols.getD k 0 = cols.getD j 0 := by rw [hkc, hcast, h]
          exact hkj (hdist k hk j (List.mem_append_right _ (List.mem_singleton.mpr rfl)) this)
        rw [if_neg hne]
        exact ih3 (fun a ha b hb => hdist a (List.mem_append_left _ ha) b
          (List.mem_append_left _ hb)) k hk1 c1 hkc

theorem crs_rows_mono (m : CRSMatrix K) (hw : m.OffsetsOrdered) (r : Nat)
    (hr : r ≤ m.num_rows.toNat) :
    0 ≤ m.rows.getD r 0 ∧ m.rows.getD r 0 ≤ m.rows.getD m.num_rows.toNat 0 := by
  obtain ⟨_, _, _, h0, hmono, _, _⟩ := hw
  have hup : ∀ n, n ≤ m.num_rows.toNat → m.rows.getD 0 0 ≤ m.rows.getD n 0 := by
    intro n
    induction n with
    | zero => intro _; exact le_refl _
    | succ n ih =>
      intro hn
      exact le_trans (ih (by omega)) (hmono n (by omega))
  have hdown : ∀ d, r + d ≤ m.num_rows.toNat → m.rows.getD r 0 ≤ m.rows.getD (r + d) 0 := by
    intro d
    induction d with
    | zero => intro _; exact le_refl _
    | succ d ih =>
      intro hd
      exact le_trans (ih (by omega)) (hmono (r + d) (by omega))
  refine ⟨le_trans h0 (hup r hr), ?_⟩
  have := hdown (m.num_rows.toNat - r) (by omega)
  rwa [Nat.add_sub_cancel' hr] at this

/-- The entries of row `r` as the inner loop visits them. -/
theorem crs_mem_row (m : CRSMatrix K) (r k : Nat) (h0 : 0 ≤ m.rows.getD r 0) :
    k ∈ (List.range (m.rows.getD (r + 1) 0 - m.rows.getD r 0).toNat).map
        (fun j => (m.rows.getD r 0).toNat + j) ↔ m.InRow r k := by
  unfold CRSMatrix.InRow
  simp only [List.mem_map, List.mem_range]
  constructor
  · rintro ⟨j, hj, rfl⟩
    constructor <;> omega
  · rintro ⟨h1, h2⟩
    exact ⟨k - (m.rows.getD r 0).toNat, by omega, by omega⟩

theorem CRSMatrix2EigenMatrix_eq (m : CRSMatrix K) (hw : m.OffsetsOrdered) :
    CRSMatrix2EigenMatrix m =
      (List.range m.num_rows.toNat).foldl
        (fun M r =>
          ((List.range (m.rows.getD (r + 1) 0 - m.rows.getD r 0).toNat).map
            (fun j => (m.rows.getD r 0).toNat + j)).foldl
            (fun M k => M.setCoeff (r : Int) (m.cols.getD k 0) (m.values.getD k 0)) M)
        (MatrixXd.Zero m.num_rows m.num_cols) := by
  have hR : m.num_rows = 0 + ((m.num_rows.toNat : Nat) : Int) := by
    have := hw.1
    omega
  unfold CRSMatrix2EigenMatrix
  simp only []
  conv_lhs => rw [hR, intRange_eq_map, List.foldl_map]
  rw [← hR]
  refine List.foldl_ext _ _ _ (fun M r hr => ?_)
  have hr1 := List.mem_range.mp hr
  have ha := (crs_rows_mono m hw r (by omega)).1
  have hi1 : iget m.rows (0 + (r : Int)) = m.rows.getD r 0 := by
    unfold iget
    rw [if_pos (by omega)]
    congr 1
    omega
  have hi2 : iget m.rows (0 + (r : Int) + 1) - 1 + 1 = m.rows.getD (r + 1) 0 := by
    unfold iget
    rw [if_pos (by omega)]
    have : (0 + (r : Int) + 1).toNat = r + 1 := by omega
    rw [this]
    show m.rows.getD (r + 1) 0 - 1 + 1 = _
    omega
  rw [hi1, hi2]
  unfold intRange
  rw [List.foldl_map, List.foldl_map]
  congr 1
  funext M j
  have hj : (m.rows.getD r 0 + (j : Int)).toNat = (m.rows.getD r 0).toNat + j := by omega
  have hc : iget m.cols (m.rows.getD r 0 + (j : Int)) =
      m.cols.getD ((m.rows.getD r 0).toNat + j) 0 := by
    unfold iget
    rw [if_pos (by omega), hj]
    rfl
  have hv : igetK m.values (m.rows.getD r 0 + (j : Int)) =
      m.values.getD ((m.rows.getD r 0).toNat + j) 0 := by
    unfold igetK
    rw [if_pos (by omega), hj]
  rw [hc, hv, zero_add]

theorem MatrixXd.zero_spec (R C : Nat) :
    (MatrixXd.Zero (R : Int) (C : Int) : MatrixXd K).HasDims R C ∧
    ∀ r c : Nat, (MatrixXd.Zero (R : Int) (C : Int) : MatrixXd K).coeff (r : Int) (c : Int) = 0 := by
  refine ⟨⟨by simp [MatrixXd.Zero], fun r hr => ?_⟩, fun r c => ?_⟩
  · simp [MatrixXd.Zero, List.getD_eq_getElem?_getD, List.getElem?_replicate, hr]
  · rw [MatrixXd.coeff_nat]
    simp only [MatrixXd.Zero, Int.toNat_ofNat, List.getD_eq_getElem?_getD,
      List.getElem?_replicate]
    split
    · simp only [Option.getD_some, List.getElem?_replicate]
      split <;> rfl
    · rfl

/-- C27: for every well-formed CRS matrix, `CRSMatrix2EigenMatrix` returns a
dense matrix with `num_rows` rows of `num_cols` entries whose entry `(r, c)`
is `values[k]` when some `k` with `rows[r] ≤ k < rows[r + 1]` has
`cols[k] = c`, and 0 otherwise. -/
theorem CRSMatrix2EigenMatrix_dense (m : CRSMatrix K) (hw : m.WellFormed) :
    (CRSMatrix2EigenMatrix m).HasDims m.num_rows.toNat m.num_cols.toNat ∧
    ∀ r c : Nat, r < m.num_rows.toNat → c < m.num_cols.toNat →
      (∀ k, m.InRow r k → m.cols.getD k 0 = (c : Int) →
        (CRSMatrix2EigenMatrix m).coeff (r : Int) (c : Int) = m.values.getD k 0) ∧
      ((∀ k, m.InRow r k → m.cols.getD k 0 ≠ (c : Int)) →
        (CRSMatrix2EigenMatrix m).coeff (r : Int) (c : Int) = 0) := by
  obtain ⟨ho, hcol, hdist⟩ := hw
  have hR0 := ho.1
  have hC0 := ho.2.1
  have hlast := ho.2.2.2.2.2.1
  rw [CRSMatrix2EigenMatrix_eq m ho]
  have hzero := @MatrixXd.zero_spec K _ m.num_rows.toNat m.num_cols.toNat
  rw [Int.toNat_of_nonneg hR0, Int.toNat_of_nonneg hC0] at hzero
  have key : ∀ n, n ≤ m.num_rows.toNat →
      ((List.range n).foldl
        (fun M r =>
          ((List.range (m.rows.getD (r + 1) 0 - m.rows.getD r 0).toNat).map
            (fun j => (m.rows.getD r 0).toNat + j)).foldl
            (fun M k => M.setCoeff (r : Int) (m.cols.getD k 0) (m.values.getD k 0)) M)
        (MatrixXd.Zero m.num_rows m.num_cols)).HasDims m.num_rows.toNat m.num_cols.toNat ∧
      ∀ r c : Nat, r < m.num_rows.toNat → c < m.num_cols.toNat →
        (n ≤ r → ((List.range n).foldl
          (fun M r =>
            ((List.range (m.rows.getD (r + 1) 0 - m.rows.getD r 0).toNat).map
              (fun j => (m.rows.getD r 0).toNat + j)).foldl
              (fun M k => M.setCoeff (r : Int) (m.cols.getD k 0) (m.values.getD k 0)) M)
          (MatrixXd.Zero m.num_rows m.num_cols)).coeff (r : Int) (c : Int) = 0) ∧
        (r < n →
          (∀ k, m.InRow r k → m.cols.getD k 0 = (c : Int) →
            ((List.range n).foldl
              (fun M r =>
                ((List.range (m.rows.getD (r + 1) 0 - m.rows.getD r 0).toNat).map
                  (fun j => (m.rows.getD r 0).toNat + j)).foldl
                  (fun M k => M.setCoeff (r : Int) (m.cols.getD k 0) (m.values.getD k 0)) M)
              (MatrixXd.Zero m.num_rows m.num_cols)).coeff (r : Int) (c : Int) =
                m.values.getD k 0) ∧
          ((∀ k, m.InRow r k → m.cols.getD k 0 ≠ (c : Int)) →
            ((List.range n).foldl
              (fun M r =>
                ((List.range (m.rows.getD (r + 1) 0 - m.rows.getD r 0).toNat).map
                  (fun j => (m.rows.getD r 0).toNat + j)).foldl
                  (fun M k => M.setCoeff (r : Int) (m.cols.getD k 0) (m.values.getD k 0)) M)
              (MatrixXd.Zero m.num_rows m.num_cols)).coeff (r : Int) (c : Int) = 0)) := by
    intro n
    induction n with
    | zero =>
      intro _
      exact ⟨hzero.1, fun r c _ _ => ⟨fun _ => hzero.2 r c, fun h => absurd h (Nat.not_lt_zero r)⟩⟩
    | succ n ih =>
      intro hn
      obtain ⟨ihd, ihc⟩ := ih (by omega)
      rw [List.range_succ, List.foldl_append]
      simp only [List.foldl_cons, List.foldl_nil]
      have ha := (crs_rows_mono m ho n (by omega)).1
      have hb := (crs_rows_mono m ho (n + 1) hn).2
      have hmem := crs_mem_row m n
      have hks : ∀ k ∈ (List.range (m.rows.getD (n + 1) 0 - m.rows.getD n 0).toNat).map
          (fun j => (m.rows.getD n 0).toNat + j), k < m.cols.length := by
        intro k hk
        have := (hmem k ha).mp hk
        unfold CRSMatrix.InRow at this
        omega
      obtain ⟨hd1, h1, h2, h3⟩ := crs_row_fold m.cols m.values m.num_rows.toNat
        m.num_cols.toNat n (by omega) _
        (fun k hk => by
          have := hcol k (hks k hk)
          constructor
          · exact this.1
          · rw [Int.toNat_of_nonneg hC0]; exact this.2) _ ihd
      refine ⟨hd1, fun r c hr hc => ⟨fun hle => ?_, fun hlt => ?_⟩⟩
      · rw [h1 r c (by omega)]
        exact (ihc r c hr hc).1 (by omega)
      · by_cases hrn : r = n
        · subst hrn
          constructor
          · intro k hk hkc
            exact h3 (fun a ha1 b hb1 hab => hdist r hr a (hks a ha1) b (hks b hb1)
              ⟨((hmem a ha).mp ha1).1, ((hmem a ha).mp ha1).2, ((hmem b ha).mp hb1).1,
                ((hmem b ha).mp hb1).2, hab⟩) k ((hmem k ha).mpr hk) c hkc
          · intro hno
            rw [h2 c (fun k hk => hno k ((hmem k ha).mp hk))]
            exact (ihc r c hr hc).1 (le_refl _)
        · rw [h1 r c hrn]
          exact (ihc r c hr hc).2 (by omega)
  obtain ⟨hd, hc⟩ := key m.num_rows.toNat (le_refl _)
  exact ⟨hd, fun r c hr hcc => (hc r c hr hcc).2 hr⟩

end CRS

/-- Witness for C27: the 2x3 matrix with rows `(5, 0, 7)` and `(0, 9, 0)`. -/
theorem CRSMatrix2EigenMatrix_dense_witness :
    (CRSMatrix2EigenMatrix exampleCRS).coeff 0 2 = 7 ∧
    (CRSMatrix2EigenMatrix exampleCRS).coeff 1 0 = 0 ∧
    (CRSMatrix2EigenMatrix exampleCRS).data.length = 2 :=
  ⟨((CRSMatrix2EigenMatrix_dense exampleCRS (by decide)).2 0 2 (by decide) (by decide)).1 1
      (by decide) (by decide),
    ((CRSMatrix2EigenMatrix_dense exampleCRS (by decide)).2 1 0 (by decide) (by decide)).2
      (fun k hk hc => by
        have h1 : (2 : Int) ≤ (k : Int) := hk.1
        have h2 : (k : Int) < 3 := hk.2
        have hk2 : k = 2 := by omega
        subst hk2
        exact absurd hc (by decide)),
    (CRSMatrix2EigenMatrix_dense exampleCRS (by decide)).1.1⟩

/-! ## Order of the window when the fill ends -/

section FillOrder

variable {K IE MI : Type} [LinearOrderedField K]

theorem bank_size {α : Type} [Inhabited α] (v : List (CircularBuffer α)) (N c n : Nat)
    (h : v.length = N ∧ ∀ b ∈ v, b.size = c) (hn : n < N) : (vget v n).size = c :=
  h.2 _ (vget_mem v n (by omega))

theorem process_calibSensor_fixed (cfg : Config K) (ext : Collaborators K IE MI)
    (s : Estimator K IE MI) (i : Nat) :
    (process_calibSensor cfg ext s i).ini_fixed_local_map_ = s.ini_fixed_local_map_ := by
  unfold process_calibSensor
  simp only []
  split_ifs <;> rfl

theorem processCycle_stored_facts (cfg : Config K) (ext : Collaborators K IE MI)
    (s : Estimator K IE MI) (frame : Frame K) :
    (processCycle_stored cfg ext s frame).solver_flag_ = s.solver_flag_ ∧
    (processCycle_stored cfg ext s frame).cir_buf_cnt_ = s.cir_buf_cnt_ ∧
    (processCycle_stored cfg ext s frame).ini_fixed_local_map_ = s.ini_fixed_local_map_ ∧
    (s.ESTIMATE_EXTRINSIC ≠ 2 → (processCycle_stored cfg ext s frame).ESTIMATE_EXTRINSIC ≠ 2) ∧
    (WindowShaped cfg s → WindowShaped cfg (processCycle_stored cfg ext s frame)) := by
  unfold processCycle_stored
  refine ⟨?_, ?_, ?_, ?_, ?_⟩
  · rw [process_store_solver_flag, process_tracker_solver_flag]
    rfl
  · rw [process_store_cir_buf_cnt, process_tracker_cir_buf_cnt]
    rfl
  · rw [process_store_keeps (fun t : Estimator K IE MI => t.ini_fixed_local_map_)
      (fun _ _ _ _ => rfl) (fun _ _ _ => rfl),
      process_tracker_keeps (fun t : Estimator K IE MI => t.ini_fixed_local_map_) (fun _ => rfl)
        (fun _ _ => rfl) (fun _ _ _ => rfl) (fun _ _ _ => rfl) process_calibSensor_fixed
        (fun _ _ _ => rfl) (fun _ _ _ => rfl)]
    rfl
  · intro he
    rw [process_store_ESTIMATE_EXTRINSIC]
    rcases process_tracker_mode cfg ext (frameLoaded s frame) with h | h
    · rw [h]
      exact he
    · rw [h.2]
      decide
  · intro hs
    exact windowShaped_of_shape cfg (frameLoaded s frame) _
      ((process_store_windowShape cfg ext _).trans (process_tracker_windowShape cfg ext _)) hs

theorem processCycle_eq (cfg : Config K) (ext : Collaborators K IE MI)
    (s : Estimator K IE MI) (frame : Frame K) :
    processCycle cfg ext s frame =
      process_swap (process_solver cfg ext (processCycle_stored cfg ext s frame)) := rfl

end FillOrder

/-- With a push that shifts in every slide, also during the fill (section 4.1
of the spec read without section 3), the same three cycles with `W = 3` end
in NON_LINEAR with the header stamps 3, 2, 3, 3 in slots 0 to 3: the slides of
the fill rotate the entries stored before. -/
theorem shifting_push_rotates_the_fill :
    (processCycles threeSlotConfig exampleCollaborators threeStampedFrames
      (setParameter threeSlotConfig exampleCollaborators
        (clearState exampleCollaborators blankEstimator))).solver_flag_ =
      SolverFlag.NON_LINEAR ∧
    (List.range 4).map (fun j : Nat =>
      ((processCycles threeSlotConfig exampleCollaborators threeStampedFrames
        (setParameter threeSlotConfig exampleCollaborators
          (clearState exampleCollaborators blankEstimator))).Header_.idx (j : Int)).stamp) =
      [3, 2, 3, 3] := by
  refine ⟨by decide, by decide⟩

section IndexBounds

variable {K IE MI : Type} [LinearOrderedField K]

theorem addTargetPlaneSensor_localParams (cfg : Config K) (cumu : FeatureTable K)
    (a : Assembly K IE MI) (n : Nat) :
    (addTargetPlaneSensor cfg cumu a n).local_param_ids = a.local_param_ids := by
  unfold addTargetPlaneSensor
  split
  · rfl
  · exact foldl_keeps Assembly.local_param_ids (addTargetPlaneFrame n)
      (fun a1 frame => foldl_keeps Assembly.local_param_ids (addTargetPlaneFeature n)
        (fun _ _ => rfl) _ a1) _ a

theorem addTargetPlaneFactors_localParams (cfg : Config K) (cumu : FeatureTable K)
    (a : Assembly K IE MI) :
    (addTargetPlaneFactors cfg cumu a).local_param_ids = a.local_param_ids :=
  foldl_keeps Assembly.local_param_ids (addTargetPlaneSensor cfg cumu)
    (addTargetPlaneSensor_localParams cfg cumu) _ a

theorem calibPlaneFeature_localParams (cfg : Config K) (pivot_idx i : Int)
    (a : Assembly K IE MI) (feature : PointPlaneFeature K) :
    (calibPlaneFeature cfg pivot_idx i a feature).local_param_ids = a.local_param_ids := by
  unfold calibPlaneFeature
  simp only []
  split <;> rfl

theorem optimizeMap_calibPlane_localParams (cfg : Config K) (pivot_idx : Int)
    (a : Assembly K IE MI) :
    (optimizeMap_calibPlane cfg pivot_idx a).local_param_ids = a.local_param_ids := by
  have h1 := foldl_keeps Assembly.local_param_ids (calibPlaneSlot cfg pivot_idx)
    (fun a1 i => foldl_keeps Assembly.local_param_ids (calibPlaneFeature cfg pivot_idx i)
      (calibPlaneFeature_localParams cfg pivot_idx i) _ a1)
    (intRange (pivot_idx + 1) ((cfg.WINDOW_SIZE : Int) + 1)) a
  unfold optimizeMap_calibPlane
  simp only []
  split
  · split
    · rw [addTargetPlaneFactors_localParams]; exact h1
    · show (addTargetPlaneFactors cfg _ _).local_param_ids = _
      rw [addTargetPlaneFactors_localParams]; exact h1
  · exact h1

theorem optimizeMap_calibEdge_localParams (cfg : Config K) (pivot_idx : Int)
    (a : Assembly K IE MI) :
    (optimizeMap_calibEdge cfg pivot_idx a).local_param_ids = a.local_param_ids := by
  unfold optimizeMap_calibEdge
  simp only []
  split
  · split
    · rw [addTargetPlaneFactors_localParams]
    · show (addTargetPlaneFactors cfg _ _).local_param_ids = _
      rw [addTargetPlaneFactors_localParams]
  · rfl

theorem optimizeMap_odomPlane_localParams (cfg : Config K) (pivot_idx : Int)
    (a : Assembly K IE MI) :
    (optimizeMap_odomPlane cfg pivot_idx a).local_param_ids = a.local_param_ids :=
  foldl_keeps Assembly.local_param_ids (odomPlaneSensor cfg pivot_idx)
    (fun a1 n => foldl_keeps Assembly.local_param_ids (odomPlaneSlot pivot_idx n)
      (fun a2 i => foldl_keeps Assembly.local_param_ids (odomPlaneFeature pivot_idx n i)
        (fun _ _ => rfl) _ a2) _ a1) _ a

theorem optimizeMap_priors_localParams (cfg : Config K) (a : Assembly K IE MI) :
    (optimizeMap_priors cfg a).local_param_ids = a.local_param_ids := by
  have hm : (optimizeMap_addMarginalization cfg a).local_param_ids = a.local_param_ids := by
    unfold optimizeMap_addMarginalization
    split
    · split <;> rfl
    · rfl
  unfold optimizeMap_priors
  simp only []
  split
  · rw [foldl_keeps Assembly.local_param_ids (optimizeMap_addPrior cfg) (fun _ _ => rfl)]
    exact hm
  · exact hm

theorem optimizeMap_blocks_localParams (cfg : Config K) (ext : Collaborators K IE MI)
    (s : Estimator K IE MI) :
    (optimizeMap_blocks cfg ext s).local_param_ids.length =
      cfg.OPT_WINDOW_SIZE + 1 + cfg.NUM_OF_LASER := by
  have h : ∀ (f : Assembly K IE MI → Nat → Assembly K IE MI),
      (∀ a i, (f a i).local_param_ids.length = a.local_param_ids.length + 1) →
      ∀ (l : List Nat) (a : Assembly K IE MI),
        (l.foldl f a).local_param_ids.length = a.local_param_ids.length + l.length := by
    intro f hf l
    induction l with
    | nil => intro a; rfl
    | cons x l ih =>
      intro a
      rw [List.foldl_cons, ih, hf, List.length_cons]
      omega
  unfold optimizeMap_blocks
  simp only []
  show (List.foldl (optimizeMap_addExBlock ext) _ _).local_param_ids.length = _
  rw [h (optimizeMap_addExBlock ext) (fun a i => by
    unfold optimizeMap_addExBlock
    simp only [List.length_append, List.length_singleton])]
  show (List.foldl (optimizeMap_addPoseBlock ext) _ _).local_param_ids.length + _ = _
  rw [h (optimizeMap_addPoseBlock ext) (fun a i => by
    unfold optimizeMap_addPoseBlock
    simp only [List.length_append, List.length_singleton])]
  simp only [List.length_range, List.length_nil]
  omega

theorem optimizeMap_assemble_localParams (cfg : Config K) (ext : Collaborators K IE MI)
    (s : Estimator K IE MI) :
    (optimizeMap_assemble cfg ext s).local_param_ids.length =
      cfg.OPT_WINDOW_SIZE + 1 + cfg.NUM_OF_LASER := by
  have h0 : (optimizeMap_priors cfg (optimizeMap_blocks cfg ext s)).local_param_ids.length =
      cfg.OPT_WINDOW_SIZE + 1 + cfg.NUM_OF_LASER := by
    rw [optimizeMap_priors_localParams, optimizeMap_blocks_localParams]
  unfold optimizeMap_assemble
  simp only []
  split
  · unfold optimizeMap_calibration
    simp only []
    split
    · rw [optimizeMap_calibEdge_localParams]
      split
      · rw [optimizeMap_calibPlane_localParams]; exact h0
      · exact h0
    · split
      · rw [optimizeMap_calibPlane_localParams]; exact h0
      · exact h0
  · split
    · unfold optimizeMap_odometry
      simp only []
      split
      · rw [optimizeMap_odomPlane_localParams]; exact h0
      · exact h0
    · exact h0

theorem evalDegenracy_table_length (cfg : Config K) (ext : Collaborators K IE MI)
    (local_param_ids : List (PoseLocalParameterization K)) (jaco : CRSMatrix K)
    (table : List K) :
    (evalDegenracy cfg ext local_param_ids jaco table).2.length = table.length := by
  unfold evalDegenracy
  simp only []
  exact foldl_invariant
    (fun st : List (PoseLocalParameterization K) × List K => st.2.length = table.length)
    (evalDegenracy_block cfg ext _) (fun st i hst => by
      show (evalDegenracy_block cfg ext _ st i).2.length = table.length
      unfold evalDegenracy_block
      simp only []
      split
      · rw [List.length_set]; exact hst
      · exact hst) _ _ rfl

theorem buildCalibMap_slot_table (cfg : Config K) (ext : Collaborators K IE MI)
    (pivot_idx : Int) (pp pe : Pose K) (n : Nat) (s : Estimator K IE MI) (i : Int) :
    (buildCalibMap_slot cfg ext pivot_idx pp pe n s i).eig_thre_calib_ = s.eig_thre_calib_ := by
  unfold buildCalibMap_slot
  simp only []
  split_ifs <;> rfl

theorem buildCalibMap_sensor_table (cfg : Config K) (ext : Collaborators K IE MI)
    (pivot_idx : Int) (pp : Pose K) (s : Estimator K IE MI) (n : Nat) :
    (buildCalibMap_sensor cfg ext pivot_idx pp s n).eig_thre_calib_ = s.eig_thre_calib_ := by
  have h := foldl_keeps Estimator.eig_thre_calib_
    (buildCalibMap_slot cfg ext pivot_idx pp (extrinsicPose ext s n) n)
    (buildCalibMap_slot_table cfg ext pivot_idx pp _ n)
    (intRange 0 ((cfg.WINDOW_SIZE : Int) + 1)) s
  unfold buildCalibMap_sensor
  simp only []
  split
  · exact h
  · exact h

theorem buildCalibMap_extract_table (cfg : Config K) (ext : Collaborators K IE MI)
    (pivot_idx : Int) (n : Nat) (s : Estimator K IE MI) (i : Int) :
    (buildCalibMap_extract cfg ext pivot_idx n s i).eig_thre_calib_ = s.eig_thre_calib_ := by
  unfold buildCalibMap_extract
  split_ifs <;> rfl

theorem buildCalibMap_extractSensor_table (cfg : Config K) (ext : Collaborators K IE MI)
    (pivot_idx : Int) (s : Estimator K IE MI) (n : Nat) :
    (buildCalibMap_extractSensor cfg ext pivot_idx s n).eig_thre_calib_ = s.eig_thre_calib_ :=
  foldl_keeps Estimator.eig_thre_calib_ _ (buildCalibMap_extract_table cfg ext pivot_idx n) _ s

theorem buildCalibMap_fixed_table (cfg : Config K) (ext : Collaborators K IE MI)
    (pivot_idx : Int) (pp : Pose K) (s : Estimator K IE MI) :
    (buildCalibMap_fixed cfg ext pivot_idx pp s).eig_thre_calib_ = s.eig_thre_calib_ := by
  unfold buildCalibMap_fixed
  split <;> rfl

theorem buildCalibMap_table (cfg : Config K) (ext : Collaborators K IE MI)
    (s : Estimator K IE MI) : (buildCalibMap cfg ext s).eig_thre_calib_ = s.eig_thre_calib_ := by
  unfold buildCalibMap
  simp only []
  rw [foldl_keeps Estimator.eig_thre_calib_ _ (buildCalibMap_extractSensor_table cfg ext _)]
  show Estimator.eig_thre_calib_ (List.foldl (buildCalibMap_sensor cfg ext _ _) _ _) = _
  rw [foldl_keeps Estimator.eig_thre_calib_ _ (buildCalibMap_sensor_table cfg ext _ _),
    foldl_keeps Estimator.eig_thre_calib_ buildCalibMap_clear (fun _ _ => rfl),
    buildCalibMap_fixed_table]

theorem buildLocalMap_fixedSensor_table (ext : Collaborators K IE MI) (pivot_idx : Int)
    (pp : Pose K) (st : Estimator K IE MI × PointICloud K) (n : Nat) :
    (buildLocalMap_fixedSensor ext pivot_idx pp st n).1.eig_thre_calib_ = st.1.eig_thre_calib_ := rfl

theorem buildLocalMap_fixed_table (cfg : Config K) (ext : Collaborators K IE MI)
    (pivot_idx : Int) (pp : Pose K) (s : Estimator K IE MI) :
    (buildLocalMap_fixed cfg ext pivot_idx pp s).eig_thre_calib_ = s.eig_thre_calib_ := by
  unfold buildLocalMap_fixed
  split
  · rfl
  · exact foldl_keeps (fun st : Estimator K IE MI × PointICloud K => st.1.eig_thre_calib_) _
      (buildLocalMap_fixedSensor_table ext pivot_idx pp) _ (s, [])

theorem buildLocalMap_slot_table (cfg : Config K) (ext : Collaborators K IE MI)
    (pivot_idx : Int) (pp pe : Pose K) (n : Nat) (s : Estimator K IE MI) (i : Int) :
    (buildLocalMap_slot cfg ext pivot_idx pp pe n s i).eig_thre_calib_ = s.eig_thre_calib_ := by
  unfold buildLocalMap_slot
  simp only []
  split_ifs <;> rfl

theorem buildLocalMap_sensor_table (cfg : Config K) (ext : Collaborators K IE MI)
    (pivot_idx : Int) (pp : Pose K) (s : Estimator K IE MI) (n : Nat) :
    (buildLocalMap_sensor cfg ext pivot_idx pp s n).eig_thre_calib_ = s.eig_thre_calib_ :=
  foldl_keeps Estimator.eig_thre_calib_
    (buildLocalMap_slot cfg ext pivot_idx pp (extrinsicPose ext s n) n)
    (buildLocalMap_slot_table cfg ext pivot_idx pp _ n)
    (intRange 0 ((cfg.WINDOW_SIZE : Int) + 1)) s

theorem buildLocalMap_extractSensor_table (cfg : Config K) (ext : Collaborators K IE MI)
    (pivot_idx : Int) (s : Estimator K IE MI) (n : Nat) :
    (buildLocalMap_extractSensor cfg ext pivot_idx s n).eig_thre_calib_ = s.eig_thre_calib_ :=
  foldl_keeps Estimator.eig_thre_calib_ (buildLocalMap_extract ext n) (fun _ _ => rfl) _ s

theorem buildLocalMap_table (cfg : Config K) (ext : Collaborators K IE MI)
    (s : Estimator K IE MI) : (buildLocalMap cfg ext s).eig_thre_calib_ = s.eig_thre_calib_ := by
  unfold buildLocalMap
  simp only []
  rw [foldl_keeps Estimator.eig_thre_calib_ _ (buildLocalMap_extractSensor_table cfg ext _)]
  show Estimator.eig_thre_calib_ (List.foldl (buildLocalMap_sensor cfg ext _ _) _ _) = _
  rw [foldl_keeps Estimator.eig_thre_calib_ _ (buildLocalMap_sensor_table cfg ext _ _),
    foldl_keeps Estimator.eig_thre_calib_ buildLocalMap_clear (fun _ _ => rfl),
    buildLocalMap_fixed_table]

theorem optimizeMap_addMarginalization_table (cfg : Config K) (a : Assembly K IE MI) :
    (optimizeMap_addMarginalization cfg a).table = a.table := by
  unfold optimizeMap_addMarginalization
  split
  · split <;> rfl
  · rfl

theorem optimizeMap_priors_table (cfg : Config K) (a : Assembly K IE MI) :
    (optimizeMap_priors cfg a).table = a.table := by
  unfold optimizeMap_priors
  simp only []
  split
  · rw [foldl_keeps Assembly.table (optimizeMap_addPrior cfg) (fun _ _ => rfl),
      optimizeMap_addMarginalization_table]
  · exact optimizeMap_addMarginalization_table cfg a

theorem addTargetPlaneFrame_table (n : Nat) (a : Assembly K IE MI)
    (features_frame : List (PointPlaneFeature K)) :
    (addTargetPlaneFrame n a features_frame).table = a.table :=
  foldl_keeps Assembly.table (addTargetPlaneFeature n) (fun _ _ => rfl) _ a

theorem addTargetPlaneSensor_table (cfg : Config K) (cumu : FeatureTable K)
    (a : Assembly K IE MI) (n : Nat) :
    (addTargetPlaneSensor cfg cumu a n).table = a.table := by
  unfold addTargetPlaneSensor
  split
  · rfl
  · exact foldl_keeps Assembly.table (addTargetPlaneFrame n)
      (addTargetPlaneFrame_table n) _ a

theorem addTargetPlaneFactors_table (cfg : Config K) (cumu : FeatureTable K)
    (a : Assembly K IE MI) :
    (addTargetPlaneFactors cfg cumu a).table = a.table :=
  foldl_keeps Assembly.table (addTargetPlaneSensor cfg cumu)
    (addTargetPlaneSensor_table cfg cumu) _ a

theorem calibPlaneFeature_table (cfg : Config K) (pivot_idx i : Int) (a : Assembly K IE MI)
    (feature : PointPlaneFeature K) :
    (calibPlaneFeature cfg pivot_idx i a feature).table = a.table := by
  unfold calibPlaneFeature
  simp only []
  split <;> rfl

theorem calibPlaneSlot_table (cfg : Config K) (pivot_idx : Int) (a : Assembly K IE MI) (i : Int) :
    (calibPlaneSlot cfg pivot_idx a i).table = a.table :=
  foldl_keeps Assembly.table (calibPlaneFeature cfg pivot_idx i)
    (calibPlaneFeature_table cfg pivot_idx i) _ a

theorem optimizeMap_calibPlane_table (cfg : Config K) (pivot_idx : Int) (a : Assembly K IE MI) :
    (optimizeMap_calibPlane cfg pivot_idx a).table = a.table := by
  have h1 := foldl_keeps Assembly.table (calibPlaneSlot cfg pivot_idx)
    (calibPlaneSlot_table cfg pivot_idx) (intRange (pivot_idx + 1) ((cfg.WINDOW_SIZE : Int) + 1)) a
  unfold optimizeMap_calibPlane
  simp only []
  split
  · split
    · rw [addTargetPlaneFactors_table]; exact h1
    · show (addTargetPlaneFactors cfg _ _).table = _
      rw [addTargetPlaneFactors_table]; exact h1
  · exact h1

theorem optimizeMap_calibEdge_table (cfg : Config K) (pivot_idx : Int) (a : Assembly K IE MI) :
    (optimizeMap_calibEdge cfg pivot_idx a).table = a.table := by
  unfold optimizeMap_calibEdge
  simp only []
  split
  · split
    · rw [addTargetPlaneFactors_table]; rfl
    · show (addTargetPlaneFactors cfg _ _).table = _
      rw [addTargetPlaneFactors_table]; rfl
  · rfl

theorem odomPlaneSlot_table (pivot_idx : Int) (n : Nat) (a : Assembly K IE MI) (i : Int) :
    (odomPlaneSlot pivot_idx n a i).table = a.table :=
  foldl_keeps Assembly.table (odomPlaneFeature pivot_idx n i) (fun _ _ => rfl) _ a

theorem odomPlaneSensor_table (cfg : Config K) (pivot_idx : Int) (a : Assembly K IE MI) (n : Nat) :
    (odomPlaneSensor cfg pivot_idx a n).table = a.table :=
  foldl_keeps Assembly.table (odomPlaneSlot pivot_idx n) (odomPlaneSlot_table pivot_idx n)
    _ a

theorem optimizeMap_odomPlane_table (cfg : Config K) (pivot_idx : Int) (a : Assembly K IE MI) :
    (optimizeMap_odomPlane cfg pivot_idx a).table = a.table :=
  foldl_keeps Assembly.table (odomPlaneSensor cfg pivot_idx)
    (odomPlaneSensor_table cfg pivot_idx) _ a

theorem marginalize_calibPlane_table (cfg : Config K) (ext : Collaborators K IE MI)
    (pivot_idx : Int) (s : Estimator K IE MI) (mi : MI) :
    (marginalize_calibPlane cfg ext pivot_idx s mi).1.eig_thre_calib_ = s.eig_thre_calib_ := by
  unfold marginalize_calibPlane
  simp only []
  split <;> rfl

theorem marginalize_calibEdge_table (cfg : Config K) (ext : Collaborators K IE MI)
    (r : Estimator K IE MI × MI) :
    (marginalize_calibEdge cfg ext r).1.eig_thre_calib_ = r.1.eig_thre_calib_ := by
  unfold marginalize_calibEdge
  split <;> rfl

theorem marginalize_window_table (cfg : Config K) (ext : Collaborators K IE MI)
    (s : Estimator K IE MI) (mi : MI) :
    (marginalize_window cfg ext s mi).1.eig_thre_calib_ = s.eig_thre_calib_ := by
  unfold marginalize_window
  simp only []
  split_ifs
  all_goals first
    | rfl
    | exact marginalize_calibPlane_table ..
    | (rw [marginalize_calibEdge_table]
       try exact marginalize_calibPlane_table ..)

theorem optimizeMap_marginalize_table (cfg : Config K) (ext : Collaborators K IE MI)
    (s : Estimator K IE MI) :
    (optimizeMap_marginalize cfg ext s).eig_thre_calib_ = s.eig_thre_calib_ := by
  unfold optimizeMap_marginalize
  simp only []
  exact marginalize_window_table cfg ext (vector2Double cfg s) _

theorem optimizeMap_assemble_table (cfg : Config K) (ext : Collaborators K IE MI)
    (s : Estimator K IE MI) :
    (optimizeMap_assemble cfg ext s).table = s.eig_thre_calib_ := by
  have h0 : (optimizeMap_priors cfg (optimizeMap_blocks cfg ext s)).table =
      s.eig_thre_calib_ := by
    show (optimizeMap_priors cfg (optimizeMap_blocks cfg ext s)).s.eig_thre_calib_ = _
    rw [optimizeMap_priors_s, optimizeMap_blocks_s]
    rfl
  have hc : ∀ a : Assembly K IE MI,
      ({ a with s := buildCalibMap cfg ext a.s } : Assembly K IE MI).table = a.table :=
    fun a => buildCalibMap_table cfg ext a.s
  have hl : ∀ (a : Assembly K IE MI) p,
      ({ a with problem := p, s := buildLocalMap cfg ext a.s } : Assembly K IE MI).table =
        a.table :=
    fun a _ => buildLocalMap_table cfg ext a.s
  unfold optimizeMap_assemble
  simp only []
  split
  · unfold optimizeMap_calibration
    simp only []
    split
    · rw [optimizeMap_calibEdge_table]
      split
      · rw [optimizeMap_calibPlane_table, hc]; exact h0
      · rw [hc]; exact h0
    · split
      · rw [optimizeMap_calibPlane_table, hc]; exact h0
      · rw [hc]; exact h0
  · split
    · unfold optimizeMap_odometry
      simp only []
      split
      · rw [optimizeMap_odomPlane_table]
        exact (hl _ _).trans h0
      · exact (hl _ _).trans h0
    · exact h0

theorem evalResidual_table (cfg : Config K) (ext : Collaborators K IE MI)
    (problem : Problem K MI) (lps : List (PoseLocalParameterization K)) (para_ids : List ParamBlock)
    (res : List (ResidualBlock K MI)) (b : Bool) (s : Estimator K IE MI) :
    (evalResidual cfg ext problem lps para_ids res b s).1.eig_thre_calib_.length =
      s.eig_thre_calib_.length := by
  unfold evalResidual
  split
  · simp only []
    split
    · exact evalDegenracy_table_length cfg ext _ _ _
    · rfl
  · rfl

theorem optimizeMap_evaluate_table (cfg : Config K) (ext : Collaborators K IE MI)
    (a : Assembly K IE MI) (lps : List (PoseLocalParameterization K)) (b : Bool)
    (s : Estimator K IE MI) :
    (optimizeMap_evaluate cfg ext a lps b s).1.eig_thre_calib_.length =
      s.eig_thre_calib_.length := by
  unfold optimizeMap_evaluate
  split
  · exact evalResidual_table ..
  · rfl

theorem optimizeMap_solve_table (cfg : Config K) (ext : Collaborators K IE MI)
    (a : Assembly K IE MI) (r1 : Estimator K IE MI × List (PoseLocalParameterization K)) :
    (optimizeMap_solve cfg ext a r1).eig_thre_calib_.length = r1.1.eig_thre_calib_.length := by
  have h4 : ∀ s2 : Estimator K IE MI,
      (double2Vector cfg (optimizeMap_evaluate cfg ext a r1.2 false s2).1).eig_thre_calib_.length =
        s2.eig_thre_calib_.length := fun s2 => optimizeMap_evaluate_table cfg ext a r1.2 false s2
  unfold optimizeMap_solve
  simp only []
  split
  · rw [optimizeMap_marginalize_table, h4]
  · rw [h4]

theorem optimizeMap_table (cfg : Config K) (ext : Collaborators K IE MI)
    (s : Estimator K IE MI) :
    (optimizeMap cfg ext s).eig_thre_calib_.length = s.eig_thre_calib_.length := by
  have ha : (optimizeMap_assemble cfg ext s).s.eig_thre_calib_ = s.eig_thre_calib_ :=
    optimizeMap_assemble_table cfg ext s
  unfold optimizeMap
  simp only []
  split
  · rw [optimizeMap_evaluate_table, ha]
  · rw [optimizeMap_solve_table, optimizeMap_evaluate_table, ha]

theorem process_table (cfg : Config K) (ext : Collaborators K IE MI)
    (s : Estimator K IE MI) :
    (process cfg ext s).eig_thre_calib_.length = s.eig_thre_calib_.length := by
  show (process_solver cfg ext _).eig_thre_calib_.length = _
  rw [process_solver_keeps (fun t : Estimator K IE MI => t.eig_thre_calib_.length) cfg ext
    (slideWindow_keeps (fun t : Estimator K IE MI => t.eig_thre_calib_.length)
      (fun _ _ => rfl) (fun _ _ => rfl) (fun _ _ => rfl) cfg ext)
    (optimizeMap_table cfg ext)
    (evalCalib_keeps (fun t : Estimator K IE MI => t.eig_thre_calib_.length)
      (fun _ _ _ _ _ => rfl) cfg)
    (fun _ _ => rfl) (fun _ _ => rfl),
    process_store_keeps (fun t : Estimator K IE MI => t.eig_thre_calib_.length)
      (fun _ _ _ _ => rfl) (fun _ _ _ => rfl),
    process_tracker_keeps (fun t : Estimator K IE MI => t.eig_thre_calib_.length) (fun _ => rfl)
      (fun _ _ => rfl) (fun _ _ _ => rfl) (fun _ _ _ => rfl)
      (fun cfg1 ext1 t i => by
        unfold process_calibSensor
        simp only []
        split_ifs <;> rfl)
      (fun _ _ _ => rfl) (fun _ _ _ => rfl)]

theorem run_table_length (cfg : Config K) (ext : Collaborators K IE MI)
    (s0 : Estimator K IE MI) (frames : List (Frame K)) :
    (processCycles cfg ext frames
      (setParameter cfg ext (clearState ext s0))).eig_thre_calib_.length =
      cfg.OPT_WINDOW_SIZE + cfg.NUM_OF_LASER + 1 :=
  foldl_invariant
    (fun s : Estimator K IE MI =>
      s.eig_thre_calib_.length = cfg.OPT_WINDOW_SIZE + cfg.NUM_OF_LASER + 1)
    (processCycle cfg ext)
    (fun s frame hs => (process_table cfg ext (frameLoaded s frame)).trans hs) frames _
    (by simp [setParameter])

theorem run_windowShaped (cfg : Config K) (ext : Collaborators K IE MI)
    (s0 : Estimator K IE MI) (frames : List (Frame K)) :
    WindowShaped cfg (processCycles cfg ext frames (setParameter cfg ext (clearState ext s0))) :=
  foldl_invariant (fun s : Estimator K IE MI => WindowShaped cfg s) (processCycle cfg ext)
    (fun s frame hs => process_windowShaped cfg ext (frameLoaded s frame) hs) frames _
    (setParameter_windowShaped cfg ext _)

theorem run_inited_count_pos (cfg : Config K) (ext : Collaborators K IE MI)
    (s0 : Estimator K IE MI) (frames : List (Frame K)) (hW : 1 ≤ cfg.WINDOW_SIZE)
    (h : (processCycles cfg ext frames
      (setParameter cfg ext (clearState ext s0))).b_system_inited_ = true) :
    1 ≤ (processCycles cfg ext frames
      (setParameter cfg ext (clearState ext s0))).cir_buf_cnt_ := by
  rw [fill_count_eq_min]
  cases frames with
  | nil => exact absurd h (by simp [processCycles, setParameter, clearState])
  | cons f l =>
    rw [List.length_cons]
    have : 1 ≤ min (l.length + 1) cfg.WINDOW_SIZE := by omega
    exact_mod_cast this

theorem slideWindow_windowIndices_bounds (cfg : Config K) (t : Estimator K IE MI)
    (hO : 1 ≤ cfg.OPT_WINDOW_SIZE) (hOW : cfg.OPT_WINDOW_SIZE ≤ cfg.WINDOW_SIZE)
    (h0 : 0 ≤ t.cir_buf_cnt_) (hW : t.cir_buf_cnt_ ≤ (cfg.WINDOW_SIZE : Int)) :
    ∀ i ∈ slideWindow_windowIndices cfg t, 0 ≤ i ∧ i ≤ (cfg.WINDOW_SIZE : Int) := by
  intro i hi
  unfold slideWindow_windowIndices at hi
  simp only [List.mem_append, List.mem_singleton] at hi
  rcases hi with hi | hi
  · split at hi
    · simp only [List.mem_cons, List.mem_singleton, List.not_mem_nil, or_false] at hi
      rcases hi with hi | hi <;> omega
    · exact absurd hi (List.not_mem_nil _)
  · omega

theorem process_solver_slideStates_bounds (cfg : Config K) (ext : Collaborators K IE MI)
    (st : Estimator K IE MI) (hs : WindowShaped cfg st)
    (h0 : 0 ≤ st.cir_buf_cnt_) (hW : st.cir_buf_cnt_ ≤ (cfg.WINDOW_SIZE : Int)) :
    ∀ t ∈ process_solver_slideStates cfg ext st,
      WindowShaped cfg t ∧ 0 ≤ t.cir_buf_cnt_ ∧ t.cir_buf_cnt_ ≤ (cfg.WINDOW_SIZE : Int) := by
  intro t ht
  unfold process_solver_slideStates at ht
  split at ht
  · simp only [List.mem_cons] at ht
    rcases ht with ht | ht
    · rw [ht]
      exact ⟨hs, h0, hW⟩
    · split at ht
      · split at ht
        · rw [List.mem_singleton] at ht
          rw [ht]
          have hsl : WindowShaped cfg (slideWindow cfg ext st) :=
            slideWindow_windowShaped cfg ext st hs
          have hc : (slideWindow cfg ext st).cir_buf_cnt_ = st.cir_buf_cnt_ :=
            slideWindow_cir_buf_cnt cfg ext st
          refine ⟨hsl, ?_, ?_⟩
          · show 0 ≤ (slideWindow cfg ext st).cir_buf_cnt_ + 1
            omega
          · show (slideWindow cfg ext st).cir_buf_cnt_ + 1 ≤ _
            omega
        · exact absurd ht (List.not_mem_nil _)
      · exact absurd ht (List.not_mem_nil _)
  · rw [List.mem_singleton] at ht
    rw [ht]
    have hc : (optimizeMap cfg ext st).cir_buf_cnt_ = st.cir_buf_cnt_ :=
      congrArg DriverView.cir_buf_cnt_ (optimizeMap_driverView cfg ext st)
    exact ⟨windowShaped_of_shape cfg st _ (optimizeMap_windowShape cfg ext st) hs,
      by rw [hc]; exact h0, by rw [hc]; exact hW⟩

end IndexBounds

/-- C30: with `1 <= OPT_WINDOW_SIZE <= WINDOW_SIZE`, in every cycle of every
run started by `clearState` and `setParameter` the window sequences have
`W + 1` slots and the threshold table `O + N + 1` entries, the window slots
`cir_buf_cnt_ - 1` and `cir_buf_cnt_` of `process()`, the slots `pivot_idx`,
`pivot_idx + 1` and `cir_buf_cnt_` of every `slideWindow()` call and the slots
of `vector2Double` and `double2Vector` lie in `0..W`, the pose blocks of the
last two lie in `0..O`, and the table entries read by `evalDegenracy` and
`evalCalib` lie in `0..O+N`. -/
theorem indices_in_bounds_along_runs {K IE MI : Type} [LinearOrderedField K]
    (cfg : Config K) (ext : Collaborators K IE MI)
    (s0 : Estimator K IE MI) (frames : List (Frame K)) (frame : Frame K)
    (hO : 1 ≤ cfg.OPT_WINDOW_SIZE) (hOW : cfg.OPT_WINDOW_SIZE ≤ cfg.WINDOW_SIZE) :
    (WindowShaped cfg
        (processCycles cfg ext frames (setParameter cfg ext (clearState ext s0))) ∧
      (processCycles cfg ext frames
        (setParameter cfg ext (clearState ext s0))).eig_thre_calib_.length =
        cfg.OPT_WINDOW_SIZE + cfg.NUM_OF_LASER + 1) ∧
    (∀ i ∈ process_windowIndices (frameLoaded
        (processCycles cfg ext frames (setParameter cfg ext (clearState ext s0))) frame),
      0 ≤ i ∧ i ≤ (cfg.WINDOW_SIZE : Int)) ∧
    (∀ t ∈ process_solver_slideStates cfg ext (processCycle_stored cfg ext
        (processCycles cfg ext frames (setParameter cfg ext (clearState ext s0))) frame),
      WindowShaped cfg t ∧
        ∀ i ∈ slideWindow_windowIndices cfg t, 0 ≤ i ∧ i ≤ (cfg.WINDOW_SIZE : Int)) ∧
    (∀ p ∈ vector2Double_indices cfg,
      (0 ≤ p.1 ∧ p.1 ≤ (cfg.WINDOW_SIZE : Int)) ∧
        (0 ≤ p.2 ∧ p.2 ≤ (cfg.OPT_WINDOW_SIZE : Int))) ∧
    (∀ p ∈ double2Vector_indices cfg,
      (0 ≤ p.1 ∧ p.1 ≤ (cfg.WINDOW_SIZE : Int)) ∧
        (0 ≤ p.2 ∧ p.2 ≤ (cfg.OPT_WINDOW_SIZE : Int))) ∧
    (∀ i ∈ evalDegenracy_tableIndices (optimizeMap_assemble cfg ext (processCycle_stored cfg ext
        (processCycles cfg ext frames (setParameter cfg ext (clearState ext s0)))
        frame)).local_param_ids,
      i ≤ cfg.OPT_WINDOW_SIZE + cfg.NUM_OF_LASER ∧
        i < (optimizeMap_assemble cfg ext (processCycle_stored cfg ext
          (processCycles cfg ext frames (setParameter cfg ext (clearState ext s0)))
          frame)).table.length) ∧
    (∀ i ∈ evalCalib_tableIndices cfg,
      i ≤ cfg.OPT_WINDOW_SIZE + cfg.NUM_OF_LASER ∧
        i < (processCycle cfg ext
          (processCycles cfg ext frames (setParameter cfg ext (clearState ext s0)))
          frame).eig_thre_calib_.length) := by
  have hshape := run_windowShaped cfg ext s0 frames
  have htab := run_table_length cfg ext s0 frames
  have hpos := run_inited_count_pos cfg ext s0 frames (by omega)
  obtain ⟨hc0, hcW, _⟩ := fill_count_invariant cfg ext s0 frames
  have htab2 := run_table_length cfg ext s0 (frames ++ [frame])
  rw [processCycles_append] at htab2
  generalize processCycles cfg ext frames (setParameter cfg ext (clearState ext s0)) = s
    at hshape htab hpos hc0 hcW htab2 ⊢
  obtain ⟨_, h2, _, _, h5⟩ := processCycle_stored_facts cfg ext s frame
  have htab3 : (processCycle_stored cfg ext s frame).eig_thre_calib_.length =
      cfg.OPT_WINDOW_SIZE + cfg.NUM_OF_LASER + 1 := by
    unfold processCycle_stored
    rw [process_store_keeps (fun t : Estimator K IE MI => t.eig_thre_calib_.length)
        (fun _ _ _ _ => rfl) (fun _ _ _ => rfl),
      process_tracker_keeps (fun t : Estimator K IE MI => t.eig_thre_calib_.length)
        (fun _ => rfl) (fun _ _ => rfl) (fun _ _ _ => rfl) (fun _ _ _ => rfl)
        (fun cfg1 ext1 t i => by
          unfold process_calibSensor
          simp only []
          split_ifs <;> rfl)
        (fun _ _ _ => rfl) (fun _ _ _ => rfl)]
    exact htab
  refine ⟨⟨hshape, htab⟩, ?_, ?_, ?_, ?_, ?_, ?_⟩
  · intro i hi
    unfold process_windowIndices at hi
    simp only [List.mem_append, List.mem_singleton] at hi
    have hcnt : (frameLoaded s frame).cir_buf_cnt_ = s.cir_buf_cnt_ := rfl
    rcases hi with hi | hi
    · split at hi
      · rename_i hb
        have hb1 : s.b_system_inited_ = true := hb.1
        have := hpos hb1
        rw [List.mem_singleton] at hi
        rw [hi, hcnt]
        omega
      · exact absurd hi (List.not_mem_nil _)
    · rw [hi, hcnt]
      exact ⟨hc0, hcW⟩
  · intro t ht
    obtain ⟨hts, ht0, htW⟩ := process_solver_slideStates_bounds cfg ext _ (h5 hshape)
      (by rw [h2]; exact hc0) (by rw [h2]; exact hcW) t ht
    exact ⟨hts, slideWindow_windowIndices_bounds cfg t hO hOW ht0 htW⟩
  · intro p hp
    unfold vector2Double_indices intRange at hp
    simp only [List.mem_map, List.mem_range] at hp
    obtain ⟨i, ⟨k, hk, hki⟩, hip⟩ := hp
    rw [← hip, ← hki]
    dsimp only
    omega
  · intro p hp
    unfold double2Vector_indices at hp
    simp only [List.mem_map, List.mem_range] at hp
    obtain ⟨k, hk, hkp⟩ := hp
    rw [← hkp]
    dsimp only
    omega
  · intro i hi
    unfold evalDegenracy_tableIndices at hi
    rw [List.mem_range, optimizeMap_assemble_localParams] at hi
    rw [optimizeMap_assemble_table, htab3]
    omega
  · intro i hi
    unfold evalCalib_tableIndices at hi
    simp only [List.mem_map, List.mem_range] at hi
    obtain ⟨n, hn, hni⟩ := hi
    rw [htab2]
    omega

theorem indices_in_bounds_along_runs_witness :
    (1 ≤ exampleConfig.OPT_WINDOW_SIZE ∧
      exampleConfig.OPT_WINDOW_SIZE ≤ exampleConfig.WINDOW_SIZE) ∧
    (∀ i ∈ process_windowIndices (frameLoaded
        (processCycles exampleConfig exampleCollaborators twoEmptyFrames
          (setParameter exampleConfig exampleCollaborators
            (clearState exampleCollaborators blankEstimator))) (2, [[], []])),
      0 ≤ i ∧ i ≤ (exampleConfig.WINDOW_SIZE : Int)) ∧
    process_windowIndices (frameLoaded
        (processCycles exampleConfig exampleCollaborators twoEmptyFrames
          (setParameter exampleConfig exampleCollaborators
            (clearState exampleCollaborators blankEstimator))) (2, [[], []])) = [1, 2] ∧
    vector2Double_indices exampleConfig = [(1, 0), (2, 1)] ∧
    evalCalib_tableIndices exampleConfig = [2, 3] :=
  ⟨⟨by decide, by decide⟩,
    (indices_in_bounds_along_runs exampleConfig exampleCollaborators blankEstimator
      twoEmptyFrames (2, [[], []]) (by decide) (by decide)).2.1,
    by decide, by decide, by decide⟩

end MLOAM
